import Mathlib

/-!
# KAP140 autopilot panel: scheduler and bus codec

A shallow embedding of `event.c` (the tick-driven event scheduler) and of the
FSBUS codec (`fsbus_snd.c`, `fsbus_rcv.c`, `fsbus_display.c`, `fsbus_dio.c`,
`fsbus_main.c`), followed by theorems about them.

Conventions.
* `uint8_t` / `uint16_t` values are natural numbers; every store that can wrap
  is written with an explicit `% 256` or `% 65536`.
* A function pointer is a natural number, `0` being `NULL`.
* C arrays are lists; a read outside the list yields the zero element and a
  write outside the list is dropped.
* Calling a registered callback is modelled by a caller-supplied effect on the
  program state, and is also recorded in a trace.
-/

namespace KAP140

/-! ## event.h / event.c -/

/-- EVENT_MAX of event.h: the number of entries of the timer table. -/
def EVENT_MAX : Nat := 10

/-- The struct event_s of event.h. -/
structure event_t where
  /-- time when this needs to happen (uint16_t) -/
  e_when : Nat
  /-- periodicity in ticks (uint8_t) -/
  e_period : Nat
  /-- number of times, zero means forever (uint8_t) -/
  e_occurrences : Nat
  /-- function to call, 0 (NULL) indicates a free slot -/
  e_func : Nat
deriving DecidableEq, Repr

instance : Inhabited event_t := ⟨⟨0, 0, 0, 0⟩⟩

/-- The file-scope variables of event.c (`event_list`, `tick`, `event_service`)
together with `ext`, the rest of the program state that callbacks may touch. -/
structure EventState (α : Type) where
  event_list : List event_t
  tick : Nat
  event_service : Nat
  ext : α
deriving DecidableEq, Repr

/-- The effect of calling the function behind a function pointer with the
current tick as argument: `cb f t s` is the state after `(*f)(t)` from `s`. -/
abbrev Callbacks (α : Type) := Nat → Nat → EventState α → EventState α

/-- One record of the invocation trace: the slot that fired and the function
that was called for it. -/
structure Fired where
  slot : Nat
  func : Nat
deriving DecidableEq, Repr

/-- Read `event_list[i]`. -/
def slotAt {α : Type} (s : EventState α) (i : Nat) : event_t :=
  s.event_list.getD i default

/-- The scan of event_register, `for (i = EVENT_MAX - 1; i > 0; i--)`, entered
with loop variable `i`: the first free slot met is filled and the loop is left
by `break`; the result is the state and the final value of `i`. -/
def event_register_scan {α : Type} (func period occurrences : Nat) :
    Nat → EventState α → EventState α × Nat
  | 0, s => (s, 0)
  | i + 1, s =>
    if (slotAt s (i + 1)).e_func = 0 then
      let e : event_t :=
        { e_func := func, e_when := (s.tick + period) % 65536,
          e_period := period, e_occurrences := occurrences }
      ({ s with event_list := s.event_list.set (i + 1) e }, i + 1)
    else event_register_scan func period occurrences i s

/-- The function event_register: returns the new state and the handle
`(event_handle) i + 1`. -/
def event_register {α : Type} (s : EventState α) (func period occurrences : Nat) :
    EventState α × Nat :=
  let r := event_register_scan func period occurrences (EVENT_MAX - 1) s
  (r.1, (r.2 + 1) % 256)

/-- The function event_reset: `h--` on a uint8_t, then
`event_list[h].e_when = tick + event_list[h].e_period`. -/
def event_reset {α : Type} (s : EventState α) (h : Nat) : EventState α :=
  let i := (h + 255) % 256
  let e : event_t := { slotAt s i with e_when := (s.tick + (slotAt s i).e_period) % 65536 }
  { s with event_list := s.event_list.set i e }

/-- The function event_cancel on a handle variable holding `h`: returns the new
state and the new content of the handle variable. -/
def event_cancel {α : Type} (s : EventState α) (h : Nat) : EventState α × Nat :=
  if h ≠ 0 then
    ({ s with event_list := s.event_list.set (h - 1) { slotAt s (h - 1) with e_func := 0 } }, 0)
  else (s, h)

/-- The loop of event_init, `for (i = EVENT_MAX; i > 0; i--)`, clearing
`event_list[i - 1].e_func`. -/
def event_init_loop {α : Type} : Nat → EventState α → EventState α
  | 0, s => s
  | i + 1, s =>
    event_init_loop i
      { s with event_list := s.event_list.set i { slotAt s i with e_func := 0 } }

/-- The function event_init. -/
def event_init {α : Type} (s : EventState α) : EventState α :=
  event_init_loop EVENT_MAX s

/-- The update event_tick makes to a due entry before calling its function. -/
def event_fire (tick : Nat) (e : event_t) : event_t :=
  if e.e_occurrences ≠ 0 then
    let e1 := { e with e_occurrences := e.e_occurrences - 1 }
    if e1.e_occurrences = 0 then { e1 with e_func := 0 }
    else { e1 with e_when := (tick + e1.e_period) % 65536 }
  else { e with e_when := (tick + e.e_period) % 65536 }

/-- The body of event_tick for a due slot `i`: the entry is updated, then its
function is called with the tick counter as argument. -/
def event_call {α : Type} (cb : Callbacks α) (i : Nat) (s : EventState α) : EventState α :=
  let e := slotAt s i
  let s1 := { s with event_list := s.event_list.set i (event_fire s.tick e) }
  cb e.e_func s1.tick s1

/-- The dispatch loop of event_tick, `for (i = EVENT_MAX - 1; i > 0; i--)`,
entered with loop variable `i`; the trace lists the calls in the order made. -/
def event_dispatch {α : Type} (cb : Callbacks α) :
    Nat → EventState α → EventState α × List Fired
  | 0, s => (s, [])
  | i + 1, s =>
    if (slotAt s (i + 1)).e_func ≠ 0 ∧ (slotAt s (i + 1)).e_when = s.tick then
      let r := event_dispatch cb i (event_call cb (i + 1) s)
      (r.1, ⟨i + 1, (slotAt s (i + 1)).e_func⟩ :: r.2)
    else event_dispatch cb i s

/-- The function event_tick: returns the new state and the trace of the
callbacks it invoked. -/
def event_tick {α : Type} (cb : Callbacks α) (s : EventState α) :
    EventState α × List Fired :=
  if s.event_service ≠ 0 then (s, [])
  else
    let s1 := { s with event_service := 1, tick := (s.tick + 1) % 65536 }
    let r := event_dispatch cb (EVENT_MAX - 1) s1
    ({ r.1 with event_service := 0 }, r.2)

/-- Run `n` successive calls of event_tick, each started after the previous one
has returned, and concatenate their traces. -/
def event_ticks {α : Type} (cb : Callbacks α) : Nat → EventState α → EventState α × List Fired
  | 0, s => (s, [])
  | n + 1, s =>
    let r := event_tick cb s
    let r2 := event_ticks cb n r.1
    (r2.1, r.2 ++ r2.2)

/-- The calls made on behalf of slot `i` in a trace, in order. -/
def callsFor (i : Nat) (tr : List Fired) : List Fired :=
  tr.filter (fun x => decide (x.slot = i))

/-- No callback touches slot `i` of the timer table (it neither cancels, resets
nor re-registers it); callbacks cannot write the private tick counter and keep
the table at its size. -/
def KeepsSlot {α : Type} (cb : Callbacks α) (i : Nat) : Prop :=
  ∀ f t s, (cb f t s).tick = s.tick ∧
    (cb f t s).event_list.length = s.event_list.length ∧
    slotAt (cb f t s) i = slotAt s i

/-- No callback registers a timer into slot `i` while that slot is free. -/
def KeepsFree {α : Type} (cb : Callbacks α) (i : Nat) : Prop :=
  ∀ f t s, (slotAt s i).e_func = 0 → (slotAt (cb f t s) i).e_func = 0

/-! ## fsbus.h -/

/-- Controller type: digital I/O. -/
abbrev FS_CTRL_DIO : Nat := 0
/-- Controller type: seven-segment display. -/
abbrev FS_CTRL_DISPLAY : Nat := 1

abbrev FS_RCMD_A_OUT_0 : Nat := 80
abbrev FS_RCMD_A_OUT_7 : Nat := 87
abbrev FS_RCMD_D_OUTBIT0_0 : Nat := 88
abbrev FS_RCMD_D_OUTBIT3_7 : Nat := 119
abbrev FS_RCMD_D_OUTBYTE0 : Nat := 120
abbrev FS_RCMD_D_OUTBYTE3 : Nat := 123
abbrev FS_RCMD_RESET : Nat := 128
abbrev FS_RCMD_SETCID : Nat := 129
abbrev FS_RCMD_SETBRIGHT : Nat := 130
abbrev FS_RCMD_SETPOWER : Nat := 131
abbrev FS_RCMD_SETDECIMALPOINT : Nat := 132
abbrev FS_RCMD_SETBASEBRIGHT : Nat := 133
/-- The pseudo command code given to a raw display dataframe. -/
abbrev FS_RCMD_DISPLAY : Nat := 200

/-- Top bit set indicates the start of a dataframe. -/
abbrev FS_DF_START : Nat := 0x80
/-- Mask for the controller ID in byte one. -/
abbrev FS_DF_CID_MASK : Nat := 0x7C
/-- Byte one command mask. -/
abbrev FS_DF_B1_CMD_MASK : Nat := 0x02
/-- Byte two command mask. -/
abbrev FS_DF_B2_CMD_MASK : Nat := 0x7F
/-- Byte one: bit 0 of the value. -/
abbrev FS_DF_B1_V0 : Nat := 0x01
/-- Byte three: bits 1 to 7 of the value. -/
abbrev FS_DF_B3_V1_7 : Nat := 0x7F
/-- FS_DISPLAY_START of fsbus_rcv.c. -/
abbrev FS_DISPLAY_START : Nat := FS_DF_B1_CMD_MASK
/-- FS_DISPLAY_END of fsbus_rcv.c. -/
abbrev FS_DISPLAY_END : Nat := 0x40
/-- MAX_RCV_CONTROLLERS of fsbus_main.c. -/
abbrev MAX_RCV_CONTROLLERS : Nat := 10

/-- The struct fsbus_display of fsbus.h; `fs_digits` has 7 bytes. -/
structure fsbus_display_t where
  fs_bright : Nat
  fs_power : Nat
  fs_decimal_point : Nat
  fs_base_bright : Nat
  fs_digits : List Nat
deriving DecidableEq, Repr

/-- The struct fsbus_dio of fsbus.h; `fs_dout` has 4 bytes, `fs_aout` 8. -/
structure fsbus_dio_t where
  fs_dout : List Nat
  fs_aout : List Nat
deriving DecidableEq, Repr

/-- The struct fsbus_block_s of fsbus.h; `fs_rcv_buf` has 6 bytes. The C union
of `fs_display` and `fs_dio` is kept as two fields: a block has one controller
type for life and only the decoder of that type touches its member. -/
structure fsbus_block_t where
  fs_cid : Nat
  fs_ctrl_type : Nat
  fs_rcv_buf : List Nat
  fs_rcv_len : Nat
  fs_rcmd : Nat
  fs_rcmd_len : Nat
  fs_rcmd_v : Nat
  fs_callback : Nat
  fs_display : fsbus_display_t
  fs_dio : fsbus_dio_t
deriving DecidableEq, Repr

instance : Inhabited fsbus_block_t :=
  ⟨⟨0, 0, [], 0, 0, 0, 0, 0, ⟨0, 0, 0, 0, []⟩, ⟨[], []⟩⟩⟩

/-- What a receive routine did besides updating the block: it ran the decoder
of the block, or it called the block's callback `f`. -/
inductive RcvEvent where
  | decode : RcvEvent
  | callback (f : Nat) : RcvEvent
deriving DecidableEq, Repr

/-! ## fsbus_snd.c -/

/-- The function fsbus_snd: the bytes handed to uart_putc, in order.
`rcmd_v` is the int8_t argument; on the two's complement representation
`rcmd_v & 1` is `rcmd_v % 2` and `(rcmd_v >> 1) & 0x7F` is
`(rcmd_v / 2) % 128` (floor division). `snd_buf[3]` is never written by the
source and stands as 0 here. -/
def fsbus_snd (cid rcmd : Nat) (rcmd_v : Int) (rcmd_len : Nat) : List Nat :=
  let snd_buf : List Nat :=
    [ (FS_DF_START ||| (cid <<< 2) ||| (rcmd >>> 7) ||| (rcmd_v % 2).toNat) % 256,
      rcmd &&& FS_DF_B2_CMD_MASK,
      ((rcmd_v / 2) % 128).toNat,
      0 ]
  (List.range rcmd_len).map (fun i => snd_buf.getD i 0)

/-! ## fsbus_display.c -/

/-- The symbol table fs_display_conv: the characters `0123456789-StdE` and
blank, as character codes. -/
def fs_display_conv : List Nat :=
  [48, 49, 50, 51, 52, 53, 54, 55, 56, 57, 45, 83, 116, 100, 69, 32]

abbrev DIG_A : Nat := 5
abbrev DIG_B : Nat := 4
abbrev DIG_C : Nat := 3
abbrev DIG_D : Nat := 2
abbrev DIG_E : Nat := 1
abbrev DIG_F : Nat := 0
abbrev DIG_NULL : Nat := 6

/-- The switch of fsbus_display_decode: every store goes through the pointer
`dp = &fs_blk->fs_display`; `rcmd`, `rcmd_v` and `buf` are the block's
`fs_rcmd`, `fs_rcmd_v` and `fs_rcv_buf`. -/
def fsbus_display_decode_regs (rcmd rcmd_v : Nat) (rcv_buf : List Nat) (dp : fsbus_display_t) :
    fsbus_display_t :=
  let buf := fun (i : Nat) => rcv_buf.getD i 0
  let conv := fun (i : Nat) => fs_display_conv.getD i 0
  if rcmd = FS_RCMD_RESET then
    { dp with
      fs_power := 100, fs_decimal_point := 0,
      fs_digits := (((((dp.fs_digits.set DIG_A 48).set DIG_B 48).set DIG_C 48).set
        DIG_D 48).set DIG_E 48).set DIG_F 48 }
  else if rcmd = FS_RCMD_SETCID then dp
  else if rcmd = FS_RCMD_SETBRIGHT then { dp with fs_bright := rcmd_v }
  else if rcmd = FS_RCMD_SETPOWER then { dp with fs_power := rcmd_v }
  else if rcmd = FS_RCMD_SETDECIMALPOINT then { dp with fs_decimal_point := rcmd_v }
  else if rcmd = FS_RCMD_SETBASEBRIGHT then { dp with fs_base_bright := rcmd_v }
  else if rcmd = FS_RCMD_DISPLAY then
    let d1 := dp.fs_digits.set DIG_A
      (conv (((buf 1 &&& 0x30) >>> 2) ||| ((buf 2 &&& 0x30) >>> 4)))
    let d2 := d1.set DIG_B (conv (buf 1 &&& 0x0F))
    let d3 := d2.set DIG_C (conv (buf 2 &&& 0x0F))
    let d4 := d3.set DIG_D
      (conv (((buf 3 &&& 0x30) >>> 2) ||| ((buf 4 &&& 0x30) >>> 4)))
    let d5 := d4.set DIG_E (conv (buf 3 &&& 0x0F))
    let d6 := d5.set DIG_F (conv (buf 4 &&& 0x0F))
    let d7 := d6.set DIG_NULL 0
    { dp with fs_digits := d7 }
  else dp

/-- The function fsbus_display_decode. -/
def fsbus_display_decode (fs_blk : fsbus_block_t) : fsbus_block_t :=
  { fs_blk with
    fs_display :=
      fsbus_display_decode_regs fs_blk.fs_rcmd fs_blk.fs_rcmd_v fs_blk.fs_rcv_buf
        fs_blk.fs_display }

/-! ## fsbus_dio.c -/

/-- The loop `for (i = 0; i < n; i++) a[i] = 0`. -/
def zeroFill : Nat → List Nat → List Nat
  | 0, a => a
  | n + 1, a => (zeroFill n a).set n 0

/-- The switch of fsbus_dio_decode: every store goes through the pointer
`iop = &fs_blk->fs_dio`; `rcmd` and `rcmd_v` are the block's `fs_rcmd` and
`fs_rcmd_v`. -/
def fsbus_dio_decode_regs (rcmd rcmd_v : Nat) (iop : fsbus_dio_t) : fsbus_dio_t :=
  if rcmd = FS_RCMD_RESET then
    { fs_dout := zeroFill 4 iop.fs_dout, fs_aout := zeroFill 8 iop.fs_aout }
  else if rcmd = FS_RCMD_SETCID then iop
  else if rcmd = FS_RCMD_SETBRIGHT then iop
  else if rcmd = FS_RCMD_SETPOWER then iop
  else if rcmd = FS_RCMD_SETDECIMALPOINT then iop
  else if rcmd = FS_RCMD_SETBASEBRIGHT then iop
  else if FS_RCMD_A_OUT_0 ≤ rcmd ∧ rcmd ≤ FS_RCMD_A_OUT_7 then
    let i := rcmd - FS_RCMD_A_OUT_0
    { iop with fs_aout := iop.fs_aout.set i rcmd_v }
  else if FS_RCMD_D_OUTBIT0_0 ≤ rcmd ∧ rcmd ≤ FS_RCMD_D_OUTBIT3_7 then
    let i := rcmd - FS_RCMD_D_OUTBIT0_0
    let old := iop.fs_dout.getD (i / 8) 0
    if rcmd_v = 0 then
      { iop with fs_dout := iop.fs_dout.set (i / 8) (old &&& (0xFF ^^^ (1 <<< (i % 8)))) }
    else
      { iop with fs_dout := iop.fs_dout.set (i / 8) ((old ||| (1 <<< (i % 8))) % 256) }
  else if FS_RCMD_D_OUTBYTE0 ≤ rcmd ∧ rcmd ≤ FS_RCMD_D_OUTBYTE3 then
    let i := rcmd - FS_RCMD_D_OUTBYTE0
    { iop with fs_dout := iop.fs_dout.set i rcmd_v }
  else iop

/-- The function fsbus_dio_decode (its printf calls left out). -/
def fsbus_dio_decode (fs_blk : fsbus_block_t) : fsbus_block_t :=
  { fs_blk with
    fs_dio := fsbus_dio_decode_regs fs_blk.fs_rcmd fs_blk.fs_rcmd_v fs_blk.fs_dio }

/-! ## fsbus_rcv.c -/

/-- Lookup table for the length of a dataframe for a command. -/
def fs_rcmd_dflen : List Nat := [2, 3, 3, 3, 3, 3]

/-- The statements `blk->fs_rcv_buf[blk->fs_rcv_len] = c; blk->fs_rcv_len++;`.
The buffer has six bytes and the code has no bound check. A store at an index
of 6 or more falls outside the buffer, in the struct on `fs_rcv_len` and on the
fields and blocks behind it; the model does not follow such a store: it leaves
the buffer alone and counts the cursor on. What is said about the blocks holds
of the code for frames that fit the buffer. -/
def fs_rcv_store (c : Nat) (blk : fsbus_block_t) : fsbus_block_t :=
  { blk with
    fs_rcv_buf := blk.fs_rcv_buf.set blk.fs_rcv_len c,
    fs_rcv_len := (blk.fs_rcv_len + 1) % 256 }

/-- The trailing `if (blk->fs_callback) (*blk->fs_callback)(blk);`. -/
def fs_callback_call (blk : fsbus_block_t) : List RcvEvent :=
  if blk.fs_callback ≠ 0 then [RcvEvent.callback blk.fs_callback] else []

/-- The completion test shared by both receive routines, `if (blk->fs_rcmd_len
&& blk->fs_rcmd_len == blk->fs_rcv_len)`: a 3-byte frame gets bits 1 to 7 of
its value, then the decoder of the class and the callback run. -/
def fs_rcv_complete (decoder : fsbus_block_t → fsbus_block_t) (c : Nat) (blk : fsbus_block_t) :
    fsbus_block_t × List RcvEvent :=
  if blk.fs_rcmd_len ≠ 0 ∧ blk.fs_rcmd_len = blk.fs_rcv_len then
    let blk4 :=
      if blk.fs_rcmd_len = 3 then
        { blk with fs_rcmd_v := (blk.fs_rcmd_v ||| ((c &&& FS_DF_B3_V1_7) <<< 1)) % 256 }
      else blk
    let blk5 := decoder blk4
    (blk5, RcvEvent.decode :: fs_callback_call blk5)
  else (blk, [])

/-- The first statement of fs_rcv_dio: a start byte resets the frame state and
takes the command high bit and bit 0 of the value. -/
def fs_rcv_dio_begin (c : Nat) (blk : fsbus_block_t) : fsbus_block_t :=
  if c &&& FS_DF_START ≠ 0 then
    { blk with
      fs_rcv_len := 0,
      fs_rcmd := ((c &&& FS_DF_B1_CMD_MASK) <<< 7) % 256,
      fs_rcmd_len := 0,
      fs_rcmd_v := c &&& FS_DF_B1_V0 }
  else blk

/-- The `Get the expected length` chain of fs_rcv_dio: the dataframe length of
command `rcmd`, or `old` when the command is not known. -/
def fs_rcv_dio_dflen (rcmd old : Nat) : Nat :=
  if FS_RCMD_RESET ≤ rcmd ∧ rcmd ≤ FS_RCMD_SETBASEBRIGHT then
    fs_rcmd_dflen.getD (rcmd - FS_RCMD_RESET) 0
  else if FS_RCMD_A_OUT_0 ≤ rcmd ∧ rcmd ≤ FS_RCMD_A_OUT_7 then 3
  else if FS_RCMD_D_OUTBIT0_0 ≤ rcmd ∧ rcmd ≤ FS_RCMD_D_OUTBIT3_7 then 2
  else if FS_RCMD_D_OUTBYTE0 ≤ rcmd ∧ rcmd ≤ FS_RCMD_D_OUTBYTE3 then 3
  else old

/-- The `See if we know the command` statement of fs_rcv_dio. -/
def fs_rcv_dio_command (c : Nat) (blk : fsbus_block_t) : fsbus_block_t :=
  if blk.fs_rcv_len = 2 then
    { blk with
      fs_rcmd := blk.fs_rcmd ||| (c &&& FS_DF_B2_CMD_MASK),
      fs_rcmd_len :=
        fs_rcv_dio_dflen (blk.fs_rcmd ||| (c &&& FS_DF_B2_CMD_MASK)) blk.fs_rcmd_len }
  else blk

/-- The function fs_rcv_dio, the Digital I/O controller receive routine: the new
block and what was run. -/
def fs_rcv_dio (c : Nat) (blk : fsbus_block_t) : fsbus_block_t × List RcvEvent :=
  fs_rcv_complete fsbus_dio_decode c
    (fs_rcv_dio_command c (fs_rcv_store c (fs_rcv_dio_begin c blk)))

/-- The first statement of fs_rcv_display: a start byte resets the frame state;
with the FS_DISPLAY_START bit clear it opens a raw display dataframe, otherwise
it carries bit 0 of the value. -/
def fs_rcv_display_begin (c : Nat) (blk : fsbus_block_t) : fsbus_block_t :=
  if c &&& FS_DF_START ≠ 0 then
    if c &&& FS_DISPLAY_START = 0 then
      { blk with fs_rcv_len := 0, fs_rcmd := FS_RCMD_DISPLAY, fs_rcmd_len := 0, fs_rcmd_v := 0 }
    else
      { blk with fs_rcv_len := 0, fs_rcmd := 0, fs_rcmd_len := 0,
                 fs_rcmd_v := c &&& FS_DF_B1_V0 }
  else blk

/-- The `See if we know the command` statement of fs_rcv_display. -/
def fs_rcv_display_command (c : Nat) (blk : fsbus_block_t) : fsbus_block_t :=
  if blk.fs_rcv_len = 2 ∧ blk.fs_rcmd = 0 then
    let rcmd := (c &&& FS_DF_B2_CMD_MASK) ||| 0x80
    { blk with
      fs_rcmd := rcmd,
      fs_rcmd_len :=
        if FS_RCMD_RESET ≤ rcmd ∧ rcmd ≤ FS_RCMD_SETBASEBRIGHT then
          fs_rcmd_dflen.getD (rcmd - FS_RCMD_RESET) 0
        else blk.fs_rcmd_len }
  else blk

/-- The last statement of fs_rcv_display: a byte with the FS_DISPLAY_END bit,
met while a raw display dataframe is being received, runs the decoder and the
callback. -/
def fs_rcv_display_end (c : Nat) (r : fsbus_block_t × List RcvEvent) :
    fsbus_block_t × List RcvEvent :=
  if r.1.fs_rcmd = FS_RCMD_DISPLAY ∧ c &&& FS_DISPLAY_END ≠ 0 then
    let blk6 := fsbus_display_decode r.1
    (blk6, r.2 ++ RcvEvent.decode :: fs_callback_call blk6)
  else r

/-- The function fs_rcv_display, the display controller receive routine: the new
block and what was run. -/
def fs_rcv_display (c : Nat) (blk : fsbus_block_t) : fsbus_block_t × List RcvEvent :=
  fs_rcv_display_end c
    (fs_rcv_complete fsbus_display_decode c
      (fs_rcv_display_command c (fs_rcv_store c (fs_rcv_display_begin c blk))))

/-- The table fs_rcv_func indexed by the controller type. Its third entry is
NULL and there is none beyond; for such a type the model leaves the block alone. -/
def fs_rcv_func (ctrl_type : Nat) (c : Nat) (blk : fsbus_block_t) :
    fsbus_block_t × List RcvEvent :=
  if ctrl_type = FS_CTRL_DIO then fs_rcv_dio c blk
  else if ctrl_type = FS_CTRL_DISPLAY then fs_rcv_display c blk
  else (blk, [])

/-- Feed the bytes of `cs`, in order, to the receive routine `rcv` of a block;
the result lists what each byte made the routine run. -/
def rcv_bytes (rcv : Nat → fsbus_block_t → fsbus_block_t × List RcvEvent) :
    List Nat → fsbus_block_t → fsbus_block_t × List (List RcvEvent)
  | [], blk => (blk, [])
  | c :: cs, blk =>
    let r := rcv c blk
    let r2 := rcv_bytes rcv cs r.1
    (r2.1, r.2 :: r2.2)

/-! ## fsbus_main.c and the dispatcher of fsbus_rcv.c -/

/-- The variables `next_handle` and `blocks` of fsbus_main.c and `fs_cid` and
`fs_blk` of fsbus_rcv.c; `fs_blk` is `none` for NULL and otherwise the index of
the block pointed to. -/
structure FsbusState where
  next_handle : Nat
  blocks : List fsbus_block_t
  fs_cid : Nat
  fs_blk : Option Nat
deriving DecidableEq, Repr

/-- The function fsbus_init. -/
def fsbus_init (st : FsbusState) : FsbusState :=
  { st with next_handle := 0 }

/-- The function fsbus_register: the new state and the index of the block
returned (`none` for NULL). -/
def fsbus_register (st : FsbusState) (cid ctrl_type update : Nat) : FsbusState × Option Nat :=
  if st.next_handle = MAX_RCV_CONTROLLERS then (st, none)
  else
    let this_handle := st.next_handle
    let b := st.blocks.getD this_handle default
    let b1 := { b with fs_cid := cid, fs_ctrl_type := ctrl_type, fs_callback := update }
    ({ st with next_handle := (st.next_handle + 1) % 256,
               blocks := st.blocks.set this_handle b1 }, some this_handle)

/-- The search loop of fs_get_blk over the indices `i, i+1, ..` below
`next_handle`; `fuel` bounds the number of iterations. -/
def fs_get_blk_from (st : FsbusState) (cid : Nat) : Nat → Nat → Option Nat
  | 0, _ => none
  | fuel + 1, i =>
    if i < st.next_handle then
      if cid = (st.blocks.getD i default).fs_cid then some i
      else fs_get_blk_from st cid fuel (i + 1)
    else none

/-- The function fs_get_blk: find the controller with the specified CID. -/
def fs_get_blk (st : FsbusState) (cid : Nat) : Option Nat :=
  fs_get_blk_from st cid st.next_handle 0

/-- The loop of fsbus_rcv_all over the indices `i, i+1, ..` below `next_handle`;
a trace record is the index of the block and what was run on it. -/
def fsbus_rcv_all_from (c : Nat) : Nat → Nat → FsbusState → FsbusState × List (Nat × RcvEvent)
  | 0, _, st => (st, [])
  | fuel + 1, i, st =>
    if i < st.next_handle then
      let b := st.blocks.getD i default
      let r := fs_rcv_func b.fs_ctrl_type c b
      let r2 := fsbus_rcv_all_from c fuel (i + 1) { st with blocks := st.blocks.set i r.1 }
      (r2.1, r.2.map (fun e => (i, e)) ++ r2.2)
    else (st, [])

/-- The function fsbus_rcv_all. -/
def fsbus_rcv_all (c : Nat) (st : FsbusState) : FsbusState × List (Nat × RcvEvent) :=
  fsbus_rcv_all_from c st.next_handle 0 st

/-- The function fsbus_rcv: handles the initial reception of a byte and hands
it off; returns the new state and what was run on which block. -/
def fsbus_rcv (c : Nat) (st : FsbusState) : FsbusState × List (Nat × RcvEvent) :=
  let st1 :=
    if c &&& FS_DF_START ≠ 0 then
      let cid := (c &&& FS_DF_CID_MASK) >>> 2
      { st with fs_cid := cid, fs_blk := fs_get_blk st cid }
    else st
  if st1.fs_cid = 0 then fsbus_rcv_all c st1
  else
    match st1.fs_blk with
    | some i =>
      let b := st1.blocks.getD i default
      let r := fs_rcv_func b.fs_ctrl_type c b
      ({ st1 with blocks := st1.blocks.set i r.1 }, r.2.map (fun e => (i, e)))
    | none => (st1, [])

/-- Feed the bytes of `cs`, in order, to fsbus_rcv; the result lists what each
byte made the receiver run. -/
def fsbus_rcv_bytes : List Nat → FsbusState → FsbusState × List (List (Nat × RcvEvent))
  | [], st => (st, [])
  | c :: cs, st =>
    let r := fsbus_rcv c st
    let r2 := fsbus_rcv_bytes cs r.1
    (r2.1, r.2 :: r2.2)

/-- The blocks after block `i` has been handed the byte `c` by the receive
routine of its controller type. -/
def fsbus_deliver (c i : Nat) (st : FsbusState) : FsbusState :=
  let b := st.blocks.getD i default
  { st with blocks := st.blocks.set i (fs_rcv_func b.fs_ctrl_type c b).1 }

/-- What a trace of the dispatcher records for block `i`. -/
def eventsOf (i : Nat) (tr : List (Nat × RcvEvent)) : List RcvEvent :=
  (tr.filter (fun x => decide (x.1 = i))).map (fun x => x.2)

/-! ## KAP140.c: constants and state -/

abbrev EVENT_HZ : Nat := 10

abbrev KAP_BASE_CID : Nat := 10
abbrev KAP_ALT_CID : Nat := KAP_BASE_CID + 0
abbrev KAP_VS_CID : Nat := KAP_BASE_CID + 1
abbrev KAP_BARO_HPA_CID : Nat := KAP_BASE_CID + 2
abbrev KAP_BARO_INHG_CID : Nat := KAP_BASE_CID + 3
abbrev KAP_DIO_CID : Nat := KAP_BASE_CID + 4
abbrev KAP_AIR_ALT_CID : Nat := KAP_BASE_CID + 5
abbrev KAP_AIR_VS_CID : Nat := KAP_BASE_CID + 6
abbrev KAP_ELEV_TRIM_CID : Nat := KAP_BASE_CID + 7

abbrev DIO_SW_APMASTER : Nat := 0
abbrev DIO_SW_HDG : Nat := 1
abbrev DIO_SW_NAV : Nat := 2
abbrev DIO_SW_APR : Nat := 3
abbrev DIO_SW_REV : Nat := 4
abbrev DIO_SW_ALT : Nat := 5
abbrev DIO_SW_WINGLEVEL : Nat := 6
abbrev DIO_SW_VSHOLD : Nat := 7
abbrev DIO_SW_VS_UP : Nat := 10
abbrev DIO_SW_VS_DOWN : Nat := 11
abbrev DIO_SW_ALT_ENC_20 : Nat := 12
abbrev DIO_SW_ALT_ENC_500 : Nat := 14
abbrev DIO_SW_ELEV_TRIM : Nat := 16
abbrev DIO_SW_BARO_HPA : Nat := 17
abbrev DIO_SW_BARO_INHG : Nat := 19

/-- The macro `_BV(bit)` of avr-libc. -/
abbrev BV (bit : Nat) : Nat := 1 <<< bit

abbrev FSX_AP : Nat := BV DIO_SW_APMASTER
abbrev FSX_HDG : Nat := BV DIO_SW_HDG
abbrev FSX_NAV : Nat := BV DIO_SW_NAV
abbrev FSX_APR : Nat := BV DIO_SW_APR
abbrev FSX_REV : Nat := BV DIO_SW_REV
abbrev FSX_ALT : Nat := BV DIO_SW_ALT
abbrev FSX_WGL : Nat := BV DIO_SW_WINGLEVEL
abbrev FSX_VS : Nat := BV DIO_SW_VSHOLD
/-- The macro FSX_BITS, `DIO_SW_WINGLEVEL + 1`. -/
abbrev FSX_BITS : Nat := DIO_SW_WINGLEVEL + 1

abbrev AP_DISABLED : Nat := 0x00
abbrev AP_ENABLED : Nat := 0x01
abbrev AP_TRANSITION : Nat := 0x40
abbrev AP_CHANGED : Nat := 0x80
/-- The macro AP_MODE, `~(AP_TRANSITION | AP_CHANGED)`, as a mask on a byte. -/
abbrev AP_MODE : Nat := 0xFF ^^^ (AP_TRANSITION ||| AP_CHANGED)

abbrev RM_ROL : Nat := 0x00
abbrev RM_HDG : Nat := 0x01
abbrev RM_NAV : Nat := 0x02
abbrev RM_APR : Nat := 0x03
abbrev RM_REV : Nat := 0x04
abbrev RM_CLR : Nat := 0x05
abbrev RM_CHANGED : Nat := 0x80

abbrev PM_ALT : Nat := 0x00
abbrev PM_VS : Nat := 0x01
abbrev PM_GS : Nat := 0x02
abbrev PM_CLR : Nat := 0x03
abbrev PM_CHANGED : Nat := 0x80

abbrev BARO_HPA : Nat := 0x00
abbrev BARO_INHG : Nat := 0x01

abbrev RHS_ALT : Nat := 0x00
abbrev RHS_VS : Nat := 0x01
abbrev RHS_BARO : Nat := 0x02
abbrev RHS_CHANGED : Nat := 0x80

abbrev KAP_DC_ALT : Nat := 0x01
abbrev KAP_DC_VS : Nat := 0x02
abbrev KAP_DC_BARO_HPA : Nat := 0x04
abbrev KAP_DC_BARO_INHG : Nat := 0x08
abbrev KAP_DC_AIR_ALT : Nat := 0x10

/-- ALT_INCR_SLOW: `20 ft - (now 100ft to match FSX)`. -/
abbrev ALT_INCR_SLOW : Int := 100
abbrev ALT_INCR_FAST : Int := 500

abbrev PT_NONE : Nat := 0x00
abbrev PT_UP : Nat := 0x01
abbrev PT_DOWN : Nat := 0x02
/-- Round the delta to the nearest PT_RND feet. -/
abbrev PT_RND : Int := 20

abbrev ALT_AT : Nat := 0x01
abbrev ALT_200_1000 : Nat := 0x02
abbrev ALT_REACHED : Nat := 0x40

/-- The table roll_mode_fsx: for each roll mode the FSX buttons required on
(FSX_REQUIRE) and the buttons disallowed (FSX_DISALLOW). -/
def roll_mode_fsx : List (Nat × Nat) :=
  [ (FSX_WGL, FSX_HDG ||| FSX_NAV ||| FSX_APR ||| FSX_REV),
    (FSX_HDG, FSX_NAV ||| FSX_APR ||| FSX_REV ||| FSX_WGL),
    (FSX_NAV, FSX_APR ||| FSX_REV ||| FSX_WGL),
    (FSX_APR, FSX_REV ||| FSX_NAV ||| FSX_ALT ||| FSX_WGL),
    (FSX_REV, FSX_NAV ||| FSX_WGL) ]

/-- The table pitch_mode_fsx. -/
def pitch_mode_fsx : List (Nat × Nat) :=
  [ (FSX_ALT, FSX_VS),
    (FSX_VS, FSX_ALT),
    (0, FSX_ALT ||| FSX_VS) ]

/-- The value of a C expression stored into an int8_t. -/
def wrap8 (x : Int) : Int := (x + 128) % 256 - 128
/-- The value of a C expression stored into an int16_t (also the range of `int`
on the AVR target). -/
def wrap16 (x : Int) : Int := (x + 32768) % 65536 - 32768
/-- The value of a C expression stored into an int32_t. -/
def wrap32 (x : Int) : Int := (x + 2147483648) % 4294967296 - 2147483648

/-- The C operator `/` with a positive divisor: the quotient truncated toward
zero. -/
def cdiv (a b : Int) : Int := if 0 ≤ a then a / b else -((-a) / b)
/-- The C operator `%`: `a - (a / b) * b` with the truncated quotient. -/
def cmod (a b : Int) : Int := a - cdiv a b * b

/-- One call of fsbus_snd made by the mode engine. -/
structure BusCmd where
  cid : Nat
  rcmd : Nat
  rcmd_v : Int
  rcmd_len : Nat
deriving DecidableEq, Repr

/-- The variables of KAP140.c (and those of switches.c it reads), the codec
state, and `sent`, the calls of fsbus_snd made so far, oldest first. The LCD and
the counters of the blink routines, which drive nothing but the LCD, are left
out. -/
structure KapState where
  /-- switches.c: press edges of port A not yet consumed -/
  sw_porta : Nat
  /-- switches.c: press edges of port B not yet consumed -/
  sw_portb : Nat
  /-- switches.c: debounced state of port A, a set bit is a held button -/
  sw_porta_state : Nat
  /-- switches.c: debounced state of port B -/
  sw_portb_state : Nat
  /-- switches.c: encoder movement not yet consumed (int8_t) -/
  sw_enc_delta : Int
  fsx_buttons : Nat
  ap_mode : Nat
  roll_mode : Nat
  roll_arm_mode : Nat
  pitch_mode : Nat
  pitch_arm_mode : Nat
  baro_mode : Nat
  rhs_mode : Nat
  kap_disp_flags : Nat
  /-- the vertical speed displayed (int16_t) -/
  vs : Int
  elev_trim : Int
  air_vs : Int
  /-- the altitude displayed (int32_t) -/
  alt_disp : Int
  /-- the altitude received from FSBUS (int32_t) -/
  alt_rcv : Int
  /-- the aircraft's actual altitude (int32_t) -/
  air_alt : Int
  baro_hpa : Int
  baro_inhg : Int
  pitch_trim : Nat
  alt_alert : Nat
  kap_pt_alert : Nat
  kap_baro_cancel : Nat
  baro_mode_check_cancel : Nat
  kap_vs_cancel : Nat
  kap_vs_pid : Nat
  kap_rm_blink_cancel : Nat
  kap_ap_blink_cancel : Nat
  kap_alert : Nat
  kap_enc_toggle_status : Nat
  kap_ap_button : Nat
  bus : FsbusState
  sent : List BusCmd
deriving DecidableEq, Repr

/-- The whole program state: the scheduler with the mode engine as the rest. -/
abbrev Kap := EventState KapState

/-- Function pointers of the routines registered as timer callbacks. -/
abbrev fn_kap_display : Nat := 1
abbrev fn_kap_buttons : Nat := 2
abbrev fn_kap_ap_on : Nat := 3
abbrev fn_kap_vs_end : Nat := 4
abbrev fn_kap_end_baro : Nat := 5
abbrev fn_baro_mode_check : Nat := 6
abbrev fn_kap_roll_mode_blink : Nat := 7
abbrev fn_kap_roll_arm_commit : Nat := 8
abbrev fn_kap_ap_off_blink : Nat := 9
abbrev fn_kap_ap_disable : Nat := 10
abbrev fn_kap_pt_display : Nat := 11
abbrev fn_kap_alert_flash : Nat := 12
abbrev fn_kap_extingush_alert : Nat := 13

/-- Apply a routine that touches only the mode engine's variables. -/
def onExt (f : KapState → KapState) (s : Kap) : Kap :=
  { s with ext := f s.ext }

/-- A call `fsbus_snd(cid, rcmd, rcmd_v, rcmd_len)` from the engine. -/
def kap_snd (cid rcmd : Nat) (rcmd_v : Int) (rcmd_len : Nat) (k : KapState) : KapState :=
  { k with sent := k.sent ++ [⟨cid, rcmd, rcmd_v, rcmd_len⟩] }

/-- A call `event_cancel(&h)` on the handle variable read by `get` and written
by `set`. -/
def kap_cancel (get : KapState → Nat) (set : KapState → Nat → KapState) (s : Kap) : Kap :=
  let r := event_cancel s (get s.ext)
  { r.1 with ext := set r.1.ext r.2 }

/-- The guarded form `if (h) event_cancel(&h);`. -/
def kap_cancel_if (get : KapState → Nat) (set : KapState → Nat → KapState) (s : Kap) : Kap :=
  if get s.ext ≠ 0 then kap_cancel get set s else s

/-- An assignment `h = event_register(func, period, occurrences)` to the handle
variable written by `set`. -/
def kap_register (set : KapState → Nat → KapState) (func period occurrences : Nat) (s : Kap) :
    Kap :=
  let r := event_register s func period occurrences
  { r.1 with ext := set r.1.ext r.2 }

/-! ## KAP140.c: blink routines and FSBUS callbacks -/

/-- The routine kap_pt_display: with no pitch trim to show it cancels its own
timer; the rest drives the LCD. -/
def kap_pt_display (s : Kap) : Kap :=
  if s.ext.pitch_trim = PT_NONE then
    kap_cancel (fun k => k.kap_pt_alert) (fun k h => { k with kap_pt_alert := h }) s
  else s

/-- The loop of my_atol over the characters up to the terminator: the number
read so far and whether a minus sign was met. -/
def my_atol_loop : List Nat → Int → Bool → Int × Bool
  | [], r, minus => (r, minus)
  | c :: cs, r, minus =>
    if c = 0 then (r, minus)
    else if 48 ≤ c ∧ c ≤ 57 then my_atol_loop cs (wrap32 (wrap32 (r * 10) + (c - 48))) minus
    else if c = 45 then my_atol_loop cs r true
    else my_atol_loop cs r minus

/-- The function my_atol. -/
def my_atol (buff : List Nat) : Int :=
  let r := my_atol_loop buff 0 false
  if r.2 then wrap32 (r.1 * -1) else r.1

/-- The loop of my_atoi, on an int16_t. -/
def my_atoi_loop : List Nat → Int → Bool → Int × Bool
  | [], r, minus => (r, minus)
  | c :: cs, r, minus =>
    if c = 0 then (r, minus)
    else if 48 ≤ c ∧ c ≤ 57 then my_atoi_loop cs (wrap16 (wrap16 (r * 10) + (c - 48))) minus
    else if c = 45 then my_atoi_loop cs r true
    else my_atoi_loop cs r minus

/-- The function my_atoi. -/
def my_atoi (buff : List Nat) : Int :=
  let r := my_atoi_loop buff 0 false
  if r.2 then wrap16 (r.1 * -1) else r.1

/-- The block pointers kap_init obtains from fsbus_register, as indices into
`blocks`: the registrations are the first eight, in this order. -/
abbrev kap_alt_fs_blk : Nat := 0
abbrev kap_vs_fs_blk : Nat := 1
abbrev kap_baro_hpa_fs_blk : Nat := 2
abbrev kap_baro_inhg_fs_blk : Nat := 3
abbrev kap_air_alt_fs_blk : Nat := 4
abbrev kap_dio_blk : Nat := 5
abbrev kap_elev_trim_blk : Nat := 6
abbrev kap_air_vs_blk : Nat := 7

/-- The digit string `blk->fs_display.fs_digits` of block `i`. -/
def kap_digits (k : KapState) (i : Nat) : List Nat :=
  (k.bus.blocks.getD i default).fs_display.fs_digits

/-- The routine kap_rcv_alt. -/
def kap_rcv_alt (k : KapState) : KapState :=
  { k with kap_disp_flags := k.kap_disp_flags ||| KAP_DC_ALT,
           alt_rcv := my_atol (kap_digits k kap_alt_fs_blk) }

/-- The routine kap_rcv_air_alt. -/
def kap_rcv_air_alt (k : KapState) : KapState :=
  { k with kap_disp_flags := k.kap_disp_flags ||| KAP_DC_AIR_ALT,
           air_alt := my_atol (kap_digits k kap_air_alt_fs_blk) }

/-- The routine kap_rcv_vs. -/
def kap_rcv_vs (k : KapState) : KapState :=
  { k with kap_disp_flags := k.kap_disp_flags ||| KAP_DC_VS,
           vs := my_atoi (kap_digits k kap_vs_fs_blk) }

/-- The routine kap_rcv_baro_hpa. -/
def kap_rcv_baro_hpa (k : KapState) : KapState :=
  { k with kap_disp_flags := k.kap_disp_flags ||| KAP_DC_BARO_HPA,
           baro_hpa := my_atoi (kap_digits k kap_baro_hpa_fs_blk) }

/-- The routine kap_rcv_baro_inhg. -/
def kap_rcv_baro_inhg (k : KapState) : KapState :=
  { k with kap_disp_flags := k.kap_disp_flags ||| KAP_DC_BARO_INHG,
           baro_inhg := my_atoi (kap_digits k kap_baro_inhg_fs_blk) }

/-- The routine kap_rcv_elev_trim. -/
def kap_rcv_elev_trim (k : KapState) : KapState :=
  { k with elev_trim := my_atoi (kap_digits k kap_elev_trim_blk) }

/-- The routine kap_rcv_air_vs. -/
def kap_rcv_air_vs (k : KapState) : KapState :=
  { k with air_vs := my_atoi (kap_digits k kap_air_vs_blk) }

/-- The routine kap_ap_disable: called to cancel the AP disable blink and to
clear the display. -/
def kap_ap_disable (s : Kap) : Kap :=
  let s1 := kap_cancel_if (fun k => k.kap_ap_blink_cancel)
    (fun k h => { k with kap_ap_blink_cancel := h }) s
  onExt (fun k => { k with ap_mode := AP_DISABLED, fsx_buttons := 0 }) s1

/-- The routine kap_rcv_dio: only deals with the AP being turned off. -/
def kap_rcv_dio (s : Kap) : Kap :=
  if ((s.ext.bus.blocks.getD kap_dio_blk default).fs_dio.fs_dout.getD 0 0) &&& FSX_AP = 0 then
    kap_ap_disable s
  else s

/-! ## KAP140.c: button routines -/

/-- The routine kap_button_up. -/
def kap_button_up (s : Kap) : Kap :=
  if s.ext.pitch_mode &&& (0xFF ^^^ PM_CHANGED) ≠ PM_GS then
    if s.ext.rhs_mode &&& (0xFF ^^^ RHS_CHANGED) = RHS_VS then
      let s1 := event_reset s s.ext.kap_vs_cancel
      onExt (fun k =>
        let k1 := kap_snd KAP_DIO_CID DIO_SW_VS_UP 1 3 k
        { k1 with vs := wrap16 (k1.vs + 100), kap_disp_flags := k1.kap_disp_flags ||| KAP_DC_VS })
        s1
    else onExt (fun k => { k with rhs_mode := RHS_VS ||| RHS_CHANGED }) s
  else s

/-- The routine kap_button_down. -/
def kap_button_down (s : Kap) : Kap :=
  if s.ext.pitch_mode &&& (0xFF ^^^ PM_CHANGED) ≠ PM_GS then
    if s.ext.rhs_mode &&& (0xFF ^^^ RHS_CHANGED) = RHS_VS then
      let s1 := event_reset s s.ext.kap_vs_cancel
      onExt (fun k =>
        let k1 := kap_snd KAP_DIO_CID DIO_SW_VS_DOWN 1 3 k
        { k1 with vs := wrap16 (k1.vs - 100), kap_disp_flags := k1.kap_disp_flags ||| KAP_DC_VS })
        s1
    else onExt (fun k => { k with rhs_mode := RHS_VS ||| RHS_CHANGED }) s
  else s

/-- The routine kap_button_encoder_toggle. -/
def kap_button_encoder_toggle (k : KapState) : KapState :=
  if k.rhs_mode &&& (0xFF ^^^ RHS_CHANGED) ≠ RHS_BARO then
    if k.kap_enc_toggle_status ≠ 0 then { k with kap_enc_toggle_status := 0 }
    else { k with kap_enc_toggle_status := 1 }
  else k

/-- The routine baro_mode_check. -/
def baro_mode_check (s : Kap) : Kap :=
  let s1 :=
    if s.ext.sw_porta_state &&& BV 1 ≠ 0 then
      let s2 := onExt (fun k =>
        if k.baro_mode = BARO_HPA then { k with baro_mode := BARO_INHG }
        else { k with baro_mode := BARO_HPA }) s
      let s3 := event_reset s2 s2.ext.kap_baro_cancel
      onExt (fun k => { k with rhs_mode := k.rhs_mode ||| RHS_CHANGED }) s3
    else s
  onExt (fun k => { k with baro_mode_check_cancel := 0 }) s1

/-- The routine kap_button_baro. -/
def kap_button_baro (s : Kap) : Kap :=
  if s.ext.rhs_mode &&& (0xFF ^^^ RHS_CHANGED) ≠ RHS_BARO then
    let s1 := onExt (fun k => { k with rhs_mode := RHS_CHANGED ||| RHS_BARO }) s
    kap_register (fun k h => { k with baro_mode_check_cancel := h }) fn_baro_mode_check
      (EVENT_HZ * 2) 1 s1
  else s

/-- The routine kap_button_arm: arm altitude mode toggle. -/
def kap_button_arm (k : KapState) : KapState :=
  if k.pitch_arm_mode &&& (0xFF ^^^ PM_CHANGED) = PM_CLR then
    { k with pitch_arm_mode := PM_ALT ||| PM_CHANGED }
  else
    { k with pitch_arm_mode := PM_CLR ||| PM_CHANGED, alt_alert := 0 }

/-- The routine kap_ap_on. -/
def kap_ap_on (k : KapState) : KapState :=
  let k1 :=
    if k.sw_porta_state &&& BV 5 ≠ 0 then
      if k.ap_mode &&& AP_MODE = AP_DISABLED then { k with ap_mode := AP_ENABLED ||| AP_CHANGED }
      else k
    else k
  { k1 with ap_mode := k1.ap_mode &&& (0xFF ^^^ AP_TRANSITION) }

/-- The routine kap_button_ap. -/
def kap_button_ap (s : Kap) : Kap :=
  if s.ext.ap_mode &&& AP_TRANSITION ≠ 0 then s
  else if s.ext.ap_mode &&& AP_MODE = AP_DISABLED then
    let s1 := onExt (fun k => { k with ap_mode := k.ap_mode ||| AP_TRANSITION }) s
    (event_register s1 fn_kap_ap_on (EVENT_HZ / 4) 1).1
  else
    onExt (fun k => { k with ap_mode := AP_DISABLED ||| AP_CHANGED ||| AP_TRANSITION }) s

/-- The routine kap_button_hdg. -/
def kap_button_hdg (k : KapState) : KapState :=
  if k.roll_mode &&& (0xFF ^^^ RM_CHANGED) = RM_ROL then
    { k with roll_mode := RM_HDG ||| RM_CHANGED }
  else if k.roll_mode &&& (0xFF ^^^ RM_CHANGED) = RM_HDG then
    { k with roll_mode := RM_ROL ||| RM_CHANGED }
  else
    let k1 :=
      if k.roll_mode &&& (0xFF ^^^ RM_CHANGED) = RM_APR then
        { k with pitch_mode := PM_VS ||| PM_CHANGED }
      else k
    { k1 with roll_mode := RM_HDG ||| RM_CHANGED }

/-- The common body of kap_button_nav, kap_button_apr and kap_button_rev, which
differ only in the mode `arm` they arm. -/
def kap_button_roll_arm (arm : Nat) (k : KapState) : KapState :=
  let k1 :=
    if k.roll_mode &&& (0xFF ^^^ RM_CHANGED) = RM_ROL then
      { k with roll_mode := RM_HDG ||| RM_CHANGED }
    else k
  if k1.roll_mode &&& (0xFF ^^^ RM_CHANGED) = RM_HDG ∧ k1.roll_arm_mode = RM_CLR then
    { k1 with roll_arm_mode := arm ||| RM_CHANGED }
  else k1

/-- The routine kap_button_nav. -/
def kap_button_nav (k : KapState) : KapState := kap_button_roll_arm RM_NAV k

/-- The routine kap_button_apr. -/
def kap_button_apr (k : KapState) : KapState := kap_button_roll_arm RM_APR k

/-- The routine kap_button_rev. -/
def kap_button_rev (k : KapState) : KapState := kap_button_roll_arm RM_REV k

/-- The branch of kap_button_enc taken outside barometer mode; `delta` is an
int8_t and the products `delta * ALT_INCR_SLOW`, `delta * ALT_INCR_FAST` are
computed in `int`. -/
def kap_button_enc_alt (delta : Int) (k : KapState) : KapState :=
  let k1 :=
    if k.pitch_arm_mode &&& (0xFF ^^^ PM_CHANGED) ≠ PM_ALT then
      { k with pitch_arm_mode := PM_ALT ||| PM_CHANGED, rhs_mode := RHS_ALT ||| RHS_CHANGED }
    else k
  let k2 :=
    if k1.kap_enc_toggle_status = 0 then
      { k1 with alt_disp := wrap32 (k1.alt_disp + wrap16 (delta * ALT_INCR_SLOW)) }
    else
      { k1 with alt_disp := wrap32 (k1.alt_disp + wrap16 (delta * ALT_INCR_FAST)) }
  { k2 with kap_disp_flags := k2.kap_disp_flags ||| KAP_DC_ALT }

/-- The routine kap_button_enc. -/
def kap_button_enc (delta : Int) (s : Kap) : Kap :=
  if s.ext.rhs_mode &&& (0xFF ^^^ RHS_CHANGED) ≠ RHS_BARO then
    onExt (kap_button_enc_alt delta) s
  else
    let s1 := event_reset s s.ext.kap_baro_cancel
    if s1.ext.baro_mode = BARO_HPA then
      onExt (kap_snd KAP_DIO_CID DIO_SW_BARO_HPA delta 3) s1
    else
      onExt (kap_snd KAP_DIO_CID DIO_SW_BARO_INHG delta 3) s1

/-- The routine kap_button_alt. -/
def kap_button_alt (k : KapState) : KapState :=
  if k.pitch_mode &&& (0xFF ^^^ PM_CHANGED) = PM_VS then
    { k with pitch_mode := PM_ALT ||| PM_CHANGED }
  else
    { k with pitch_mode := PM_VS ||| PM_CHANGED, rhs_mode := RHS_VS ||| RHS_CHANGED }

/-- The pattern `if (sw_porta & _BV(b)) { sw_porta ^= _BV(b); f(); }`. -/
def on_porta (b : Nat) (f : Kap → Kap) (s : Kap) : Kap :=
  if s.ext.sw_porta &&& BV b ≠ 0 then
    f (onExt (fun k => { k with sw_porta := k.sw_porta ^^^ BV b }) s)
  else s

/-- The pattern `if (sw_portb & _BV(b)) { sw_portb ^= _BV(b); f(); }`. -/
def on_portb (b : Nat) (f : Kap → Kap) (s : Kap) : Kap :=
  if s.ext.sw_portb &&& BV b ≠ 0 then
    f (onExt (fun k => { k with sw_portb := k.sw_portb ^^^ BV b }) s)
  else s

/-- The first statement of kap_buttons: the AP button, acted on only if it
was not already pressed. -/
def kap_buttons_ap (s : Kap) : Kap :=
  if s.ext.sw_porta &&& BV 5 ≠ 0 then
    let s1 := onExt (fun k => { k with sw_porta := k.sw_porta ^^^ BV 5 }) s
    if s1.ext.kap_ap_button = 0 then
      kap_button_ap (onExt (fun k => { k with kap_ap_button := 1 }) s1)
    else s1
  else if s.ext.sw_porta_state &&& BV 5 = 0 then
    onExt (fun k => { k with kap_ap_button := 0 }) s
  else s

/-- The encoder statement of kap_buttons. -/
def kap_buttons_enc (s : Kap) : Kap :=
  if s.ext.sw_enc_delta ≠ 0 then
    let delta := s.ext.sw_enc_delta
    kap_button_enc delta (onExt (fun k => { k with sw_enc_delta := 0 }) s)
  else s

/-- The second statement of kap_buttons: the other buttons, dealt with only if
the AP is enabled. -/
def kap_buttons_rest (s : Kap) : Kap :=
  if s.ext.ap_mode &&& (0xFF ^^^ AP_CHANGED) = AP_ENABLED then
    let s1 := on_porta 0 (onExt kap_button_encoder_toggle) s
    let s2 := on_porta 1 kap_button_baro s1
    let s3 := on_porta 2 kap_button_up s2
    let s4 := on_porta 3 (onExt kap_button_arm) s3
    let s5 := on_porta 4 (onExt kap_button_apr) s4
    let s6 := on_porta 6 (onExt kap_button_nav) s5
    let s7 := on_porta 7 (onExt kap_button_hdg) s6
    let s8 := kap_buttons_enc s7
    let s9 := on_portb 2 kap_button_down s8
    let s10 := on_portb 3 (onExt kap_button_rev) s9
    on_portb 4 (onExt kap_button_alt) s10
  else
    onExt (fun k => { k with sw_porta := 0, sw_portb := 0 }) s

/-- The routine kap_buttons. -/
def kap_buttons (s : Kap) : Kap :=
  kap_buttons_rest (kap_buttons_ap s)

/-! ## KAP140.c: display routines -/

/-- The routine kap_vs_end: reverts the right-hand side to the altitude after
the vertical speed has been displayed. -/
def kap_vs_end (k : KapState) : KapState :=
  let k1 := { k with kap_vs_cancel := 0 }
  if k1.rhs_mode &&& (0xFF ^^^ RHS_CHANGED) = RHS_VS then
    { k1 with rhs_mode := RHS_ALT ||| RHS_CHANGED }
  else k1

/-- BUF_LEN of KAP140.c: the display width of six characters and the
terminator. -/
abbrev BUF_LEN : Nat := 7

/-- The do-while loop of displ_val, entered with the buffer, the value still to
be written and the index `i` (int8_t); `fuel` bounds the number of iterations.
The result is the buffer and the index after the loop. -/
def displ_val_loop : Nat → List Nat → Int → Int → Option (List Nat × Int)
  | 0, _, _, _ => none
  | fuel + 1, buf, v, i =>
    let c := ((cmod v 10 + 48) % 256).toNat
    let v1 := cdiv v 10
    let buf1 := if i = 2 then buf.set 2 44 else buf
    let i1 := if i = 2 then i - 1 else i
    let buf2 := buf1.set i1.toNat c
    let i2 := i1 - 1
    if v1 ≠ 0 ∧ i2 ≥ 0 then displ_val_loop fuel buf2 v1 i2 else some (buf2, i2)

/-- The loop `while (i >= 0) { *(buf + i) = ' '; i--; }` of displ_val, entered
with `i = n - 1`. -/
def displ_val_pad : Nat → List Nat → List Nat
  | 0, buf => buf
  | n + 1, buf => displ_val_pad n (buf.set n 32)

/-- The function displ_val: the buffer after the call, characters as their
codes. -/
def displ_val (buf : List Nat) (v : Int) : Option (List Nat) :=
  let minus := decide (v < 0)
  let v1 := if minus then wrap32 (v * -1) else v
  let buf1 := buf.set (BUF_LEN - 1) 0
  match displ_val_loop BUF_LEN buf1 v1 (BUF_LEN - 2) with
  | none => none
  | some (buf2, i) =>
    let buf3 := if minus ∧ i ≥ 0 then buf2.set i.toNat 45 else buf2
    let i1 := if minus ∧ i ≥ 0 then i - 1 else i
    some (displ_val_pad (i1 + 1).toNat buf3)

/-- The routine kap_displ_vs. -/
def kap_displ_vs (s : Kap) : Kap :=
  let s1 :=
    if s.ext.rhs_mode &&& RHS_CHANGED ≠ 0 then
      let s2 := onExt (fun k => { k with rhs_mode := k.rhs_mode ^^^ RHS_CHANGED,
                                         kap_disp_flags := k.kap_disp_flags ||| KAP_DC_VS }) s
      kap_register (fun k h => { k with kap_vs_cancel := h }) fn_kap_vs_end (3 * EVENT_HZ) 1 s2
    else s
  if s1.ext.kap_disp_flags &&& KAP_DC_VS ≠ 0 then
    onExt (fun k => { k with kap_disp_flags := k.kap_disp_flags ^^^ KAP_DC_VS }) s1
  else s1

/-- The routine kap_displ_alt. -/
def kap_displ_alt (k : KapState) : KapState :=
  let k1 :=
    if k.rhs_mode &&& RHS_CHANGED ≠ 0 then
      { k with rhs_mode := k.rhs_mode ^^^ RHS_CHANGED,
               kap_disp_flags := k.kap_disp_flags ||| KAP_DC_ALT }
    else k
  if k1.kap_disp_flags &&& KAP_DC_ALT ≠ 0 then
    let k2 :=
      if k1.pitch_arm_mode &&& (0xFF ^^^ PM_CHANGED) = PM_CLR then { k1 with alt_disp := k1.alt_rcv }
      else k1
    { k2 with kap_disp_flags := k2.kap_disp_flags ^^^ KAP_DC_ALT }
  else k1

/-- The routine kap_displ_baro_hpa. -/
def kap_displ_baro_hpa (k : KapState) : KapState :=
  if k.kap_disp_flags &&& KAP_DC_BARO_HPA ≠ 0 then
    { k with kap_disp_flags := k.kap_disp_flags ^^^ KAP_DC_BARO_HPA }
  else k

/-- The routine kap_displ_baro_inhg. -/
def kap_displ_baro_inhg (k : KapState) : KapState :=
  if k.kap_disp_flags &&& KAP_DC_BARO_INHG ≠ 0 then
    { k with kap_disp_flags := k.kap_disp_flags ^^^ KAP_DC_BARO_INHG }
  else k

/-- One iteration of the loops of kap_display_roll and kap_display_pitch:
`if (m & _BV(i)) { fsbus_snd(KAP_DIO_CID, i, v, 3); fsx_buttons ^= _BV(i); }`. -/
def kap_fsx_bit (v : Int) (m : Nat) (k : KapState) (i : Nat) : KapState :=
  if m &&& BV i ≠ 0 then
    let k1 := kap_snd KAP_DIO_CID i v 3 k
    { k1 with fsx_buttons := k1.fsx_buttons ^^^ BV i }
  else k

/-- The loop `for (i = 1; i < FSX_BITS; i++)` over the bits of `m`. -/
def kap_fsx_loop (v : Int) (m : Nat) (k : KapState) : KapState :=
  (List.range' 1 (FSX_BITS - 1)).foldl (kap_fsx_bit v m) k

/-- The part kap_display_roll and kap_display_pitch have in common, given the
table row `(require, disallow)` of the mode: first the required buttons, then
the disallowed ones. -/
def kap_fsx_sync (row : Nat × Nat) (k : KapState) : KapState :=
  let m := row.1
  let m1 := 0xFF ^^^ ((m &&& k.fsx_buttons) ||| (0xFF ^^^ m))
  let k1 := if m1 ≠ 0 then kap_fsx_loop 1 m1 k else k
  let m2 := row.2
  let m3 := m2 &&& k1.fsx_buttons
  if m3 ≠ 0 then kap_fsx_loop 0 m3 k1 else k1

/-- The routine kap_display_roll; a read of roll_mode_fsx past its five rows
yields the default row. -/
def kap_display_roll (k : KapState) : KapState :=
  if k.roll_mode &&& RM_CHANGED ≠ 0 then
    let k1 := { k with roll_mode := k.roll_mode ^^^ RM_CHANGED }
    kap_fsx_sync (roll_mode_fsx.getD (k1.roll_mode &&& (0xFF ^^^ RM_CHANGED)) (0, 0)) k1
  else k

/-- The routine kap_roll_arm_commit: commits the current roll_arm_mode to the
roll_mode. -/
def kap_roll_arm_commit (s : Kap) : Kap :=
  let s1 := kap_cancel_if (fun k => k.kap_rm_blink_cancel)
    (fun k h => { k with kap_rm_blink_cancel := h }) s
  onExt (fun k =>
    let k1 := { k with roll_mode := k.roll_arm_mode ||| RM_CHANGED }
    let k2 := { k1 with roll_arm_mode := RM_CLR ||| RM_CHANGED }
    if k2.roll_mode &&& (0xFF ^^^ RM_CHANGED) = RM_APR then
      { k2 with pitch_mode := PM_GS ||| PM_CHANGED }
    else k2) s1

/-- The routine kap_display_roll_arm; the handle of the commit timer is not
kept. -/
def kap_display_roll_arm (s : Kap) : Kap :=
  if s.ext.roll_arm_mode &&& RM_CHANGED ≠ 0 then
    let s1 := onExt (fun k => { k with roll_arm_mode := k.roll_arm_mode ^^^ RM_CHANGED }) s
    if s1.ext.roll_arm_mode &&& (0xFF ^^^ RM_CHANGED) = RM_CLR then s1
    else
      let s2 := kap_register (fun k h => { k with kap_rm_blink_cancel := h })
        fn_kap_roll_mode_blink (EVENT_HZ / 5) 0 s1
      (event_register s2 fn_kap_roll_arm_commit (5 * EVENT_HZ) 1).1
  else s

/-- The routine kap_display_pitch. -/
def kap_display_pitch (k : KapState) : KapState :=
  if k.pitch_mode &&& PM_CHANGED ≠ 0 then
    let k1 := { k with pitch_mode := k.pitch_mode ^^^ PM_CHANGED }
    kap_fsx_sync (pitch_mode_fsx.getD (k1.pitch_mode &&& (0xFF ^^^ PM_CHANGED)) (0, 0)) k1
  else k

/-- The commit of kap_display_pitch_arm: the two tick counts (int8_t) computed
from `delta = alt_disp - alt_rcv` and the calls of fsbus_snd for the non-zero
ones. -/
def kap_alt_commit (k : KapState) : KapState :=
  let delta := wrap32 (k.alt_disp - k.alt_rcv)
  let slow_ticks := wrap8 (cdiv (cmod delta ALT_INCR_FAST) ALT_INCR_SLOW)
  let fast_ticks := wrap8 (cdiv delta ALT_INCR_FAST)
  let k1 := if slow_ticks ≠ 0 then kap_snd KAP_DIO_CID DIO_SW_ALT_ENC_20 slow_ticks 3 k else k
  if fast_ticks ≠ 0 then kap_snd KAP_DIO_CID DIO_SW_ALT_ENC_500 fast_ticks 3 k1 else k1

/-- The routine kap_display_pitch_arm. -/
def kap_display_pitch_arm (k : KapState) : KapState :=
  if k.pitch_arm_mode &&& PM_CHANGED ≠ 0 then
    let k1 := { k with pitch_arm_mode := k.pitch_arm_mode ^^^ PM_CHANGED }
    if k1.pitch_arm_mode &&& (0xFF ^^^ PM_CHANGED) = PM_CLR then kap_alt_commit k1
    else k1
  else k

/-- The routine kap_end_baro: reverts from barometer mode. -/
def kap_end_baro (k : KapState) : KapState :=
  let k1 := { k with kap_baro_cancel := 0 }
  if k1.rhs_mode &&& (0xFF ^^^ RHS_CHANGED) = RHS_BARO then
    { k1 with rhs_mode := RHS_ALT ||| RHS_CHANGED, kap_disp_flags := 0xFF }
  else k1

/-- The routine kap_display_baro. -/
def kap_display_baro (s : Kap) : Kap :=
  let s1 :=
    if s.ext.rhs_mode &&& RHS_CHANGED ≠ 0 then
      let s2 := onExt (fun k =>
        { k with rhs_mode := k.rhs_mode &&& (0xFF ^^^ RHS_CHANGED) }) s
      let s3 := kap_register (fun k h => { k with kap_baro_cancel := h }) fn_kap_end_baro
        (3 * EVENT_HZ) 1 s2
      onExt (fun k => { k with kap_disp_flags := 0xFF }) s3
    else s
  if s1.ext.baro_mode = BARO_HPA then onExt kap_displ_baro_hpa s1
  else onExt kap_displ_baro_inhg s1

/-- The routine kap_display_rhs. -/
def kap_display_rhs (s : Kap) : Kap :=
  if s.ext.rhs_mode &&& (0xFF ^^^ RHS_CHANGED) = RHS_ALT then onExt kap_displ_alt s
  else if s.ext.rhs_mode &&& (0xFF ^^^ RHS_CHANGED) = RHS_VS then kap_displ_vs s
  else if s.ext.rhs_mode &&& (0xFF ^^^ RHS_CHANGED) = RHS_BARO then kap_display_baro s
  else s

/-- The pitch trim part of kap_display_alerts for the rounded `delta`. -/
def kap_alerts_trim (delta : Int) (s : Kap) : Kap :=
  if delta > 0 then
    let s1 := onExt (fun k => { k with pitch_trim := PT_UP }) s
    if s1.ext.kap_pt_alert = 0 then
      kap_register (fun k h => { k with kap_pt_alert := h }) fn_kap_pt_display (EVENT_HZ / 4) 0 s1
    else s1
  else if delta < 0 then
    let s1 := onExt (fun k => { k with pitch_trim := PT_DOWN }) s
    if s1.ext.kap_pt_alert = 0 then
      kap_register (fun k h => { k with kap_pt_alert := h }) fn_kap_pt_display (EVENT_HZ / 4) 0 s1
    else s1
  else onExt (fun k => { k with pitch_trim := PT_NONE }) s

/-- The altitude alert part of kap_display_alerts for the absolute `delta`. -/
def kap_alerts_alt (delta : Int) (s : Kap) : Kap :=
  if s.ext.alt_alert &&& ALT_REACHED ≠ 0 then
    if delta > 200 ∧ delta ≤ 1000 then
      if s.ext.alt_alert &&& (0xFF ^^^ ALT_REACHED) ≠ ALT_200_1000 then
        let s1 := onExt (fun k => { k with alt_alert := ALT_200_1000 ||| ALT_REACHED }) s
        kap_register (fun k h => { k with kap_alert := h }) fn_kap_alert_flash (EVENT_HZ / 4) 0 s1
      else s
    else
      let s1 := kap_cancel_if (fun k => k.kap_alert) (fun k h => { k with kap_alert := h }) s
      if delta ≥ 1000 then onExt (fun k => { k with alt_alert := 0 }) s1
      else onExt (fun k => { k with alt_alert := ALT_REACHED }) s1
  else
    if delta = 0 then
      let s1 := onExt (fun k => { k with alt_alert := ALT_REACHED ||| ALT_AT }) s
      (event_register s1 fn_kap_extingush_alert EVENT_HZ 1).1
    else if delta > 200 ∧ delta ≤ 1000 then
      if s.ext.alt_alert ≠ ALT_200_1000 then onExt (fun k => { k with alt_alert := ALT_200_1000 }) s
      else s
    else
      if s.ext.alt_alert ≠ 0 then onExt (fun k => { k with alt_alert := 0 }) s
      else s

/-- The routine kap_display_alerts. -/
def kap_display_alerts (s : Kap) : Kap :=
  let s1 :=
    if s.ext.kap_disp_flags &&& KAP_DC_AIR_ALT ≠ 0 then
      onExt (fun k => { k with kap_disp_flags := k.kap_disp_flags ^^^ KAP_DC_AIR_ALT }) s
    else s
  let delta0 := wrap32 (s1.ext.alt_rcv - s1.ext.air_alt)
  let delta := wrap32 (cdiv delta0 PT_RND * PT_RND)
  let s2 := kap_alerts_trim delta s1
  let delta1 := if delta < 0 then wrap32 (delta * -1) else delta
  kap_alerts_alt delta1 s2

/-- The reset kap_display makes when the AP has just been enabled. -/
def kap_display_enable (k : KapState) : KapState :=
  let k1 := { k with roll_mode := RM_ROL ||| RM_CHANGED, roll_arm_mode := RM_CLR,
                     pitch_mode := PM_VS ||| PM_CHANGED, pitch_arm_mode := RM_CLR,
                     baro_mode := BARO_INHG, rhs_mode := RHS_VS ||| RHS_CHANGED,
                     kap_disp_flags := KAP_DC_ALT ||| KAP_DC_VS, alt_disp := 0, vs := 0,
                     kap_enc_toggle_status := 0, sw_enc_delta := 0,
                     fsx_buttons := BV DIO_SW_APMASTER }
  kap_snd KAP_DIO_CID DIO_SW_APMASTER 1 3 k1

/-- What kap_display does when the AP has just been disabled: tell FSBUS, cancel
the potential events, start the AP blink and schedule kap_ap_disable. -/
def kap_display_disable (s : Kap) : Kap :=
  let s1 := onExt (kap_snd KAP_DIO_CID DIO_SW_APMASTER 0 3) s
  let s2 := kap_cancel_if (fun k => k.kap_pt_alert) (fun k h => { k with kap_pt_alert := h }) s1
  let s3 := kap_cancel_if (fun k => k.kap_baro_cancel)
    (fun k h => { k with kap_baro_cancel := h }) s2
  let s4 := kap_cancel_if (fun k => k.kap_vs_cancel) (fun k h => { k with kap_vs_cancel := h }) s3
  let s5 := kap_cancel_if (fun k => k.kap_rm_blink_cancel)
    (fun k h => { k with kap_rm_blink_cancel := h }) s4
  let s6 := kap_cancel_if (fun k => k.kap_vs_pid) (fun k h => { k with kap_vs_pid := h }) s5
  let s7 := kap_cancel_if (fun k => k.kap_alert) (fun k h => { k with kap_alert := h }) s6
  let s8 := kap_register (fun k h => { k with kap_ap_blink_cancel := h }) fn_kap_ap_off_blink
    (EVENT_HZ / 5) 0 s7
  (event_register s8 fn_kap_ap_disable (4 * EVENT_HZ) 1).1

/-- The first statement of kap_display: the auto pilot enabled status. -/
def kap_display_ap (s : Kap) : Kap :=
  if s.ext.ap_mode &&& AP_CHANGED ≠ 0 then
    let s1 :=
      if s.ext.ap_mode &&& AP_MODE = AP_ENABLED then onExt kap_display_enable s
      else kap_display_disable s
    onExt (fun k => { k with ap_mode := k.ap_mode ^^^ AP_CHANGED }) s1
  else s

/-- The second statement of kap_display: the display routines, run while the
AP is enabled. -/
def kap_display_modes (s : Kap) : Kap :=
  if s.ext.ap_mode = AP_ENABLED then
    let s1 := onExt kap_display_roll s
    let s2 := kap_display_roll_arm s1
    let s3 := onExt kap_display_pitch s2
    let s4 := onExt kap_display_pitch_arm s3
    let s5 := kap_display_rhs s4
    kap_display_alerts s5
  else s

/-- The routine kap_display. -/
def kap_display (s : Kap) : Kap :=
  kap_display_modes (kap_display_ap s)

/-- Function pointers of the FSBUS callbacks, in the order kap_init registers
them. -/
abbrev fn_kap_rcv_alt : Nat := 1
abbrev fn_kap_rcv_vs : Nat := 2
abbrev fn_kap_rcv_baro_hpa : Nat := 3
abbrev fn_kap_rcv_baro_inhg : Nat := 4
abbrev fn_kap_rcv_air_alt : Nat := 5
abbrev fn_kap_rcv_dio : Nat := 6
abbrev fn_kap_rcv_elev_trim : Nat := 7
abbrev fn_kap_rcv_air_vs : Nat := 8

/-- The routine kap_init: the AP is off, register the virtual controllers and
the main events. -/
def kap_init (s : Kap) : Kap :=
  let s1 := onExt (fun k => { k with ap_mode := AP_DISABLED }) s
  let reg := fun (cid ty f : Nat) (k : KapState) =>
    { k with bus := (fsbus_register k.bus cid ty f).1 }
  let s2 := onExt (reg KAP_ALT_CID FS_CTRL_DISPLAY fn_kap_rcv_alt) s1
  let s3 := onExt (reg KAP_VS_CID FS_CTRL_DISPLAY fn_kap_rcv_vs) s2
  let s4 := onExt (reg KAP_BARO_HPA_CID FS_CTRL_DISPLAY fn_kap_rcv_baro_hpa) s3
  let s5 := onExt (reg KAP_BARO_INHG_CID FS_CTRL_DISPLAY fn_kap_rcv_baro_inhg) s4
  let s6 := onExt (reg KAP_AIR_ALT_CID FS_CTRL_DISPLAY fn_kap_rcv_air_alt) s5
  let s7 := onExt (reg KAP_DIO_CID FS_CTRL_DIO fn_kap_rcv_dio) s6
  let s8 := onExt (reg KAP_ELEV_TRIM_CID FS_CTRL_DISPLAY fn_kap_rcv_elev_trim) s7
  let s9 := onExt (reg KAP_AIR_VS_CID FS_CTRL_DISPLAY fn_kap_rcv_air_vs) s8
  let s10 := (event_register s9 fn_kap_display (EVENT_HZ / 8) 0).1
  (event_register s10 fn_kap_buttons (EVENT_HZ / 10) 0).1

/-- The timer callbacks of the mode engine by function pointer; the blink
routines kap_roll_mode_blink, kap_ap_off_blink and kap_alert_flash and the
routine kap_extingush_alert drive nothing but the LCD. -/
def kap_callbacks : Callbacks KapState := fun f _ s =>
  if f = fn_kap_display then kap_display s
  else if f = fn_kap_buttons then kap_buttons s
  else if f = fn_kap_ap_on then onExt kap_ap_on s
  else if f = fn_kap_vs_end then onExt kap_vs_end s
  else if f = fn_kap_end_baro then onExt kap_end_baro s
  else if f = fn_baro_mode_check then baro_mode_check s
  else if f = fn_kap_roll_arm_commit then kap_roll_arm_commit s
  else if f = fn_kap_ap_disable then kap_ap_disable s
  else if f = fn_kap_pt_display then kap_pt_display s
  else s

/-- The FSBUS callbacks of the mode engine by function pointer. -/
def kap_rcv_callbacks (f : Nat) (s : Kap) : Kap :=
  if f = fn_kap_rcv_alt then onExt kap_rcv_alt s
  else if f = fn_kap_rcv_vs then onExt kap_rcv_vs s
  else if f = fn_kap_rcv_baro_hpa then onExt kap_rcv_baro_hpa s
  else if f = fn_kap_rcv_baro_inhg then onExt kap_rcv_baro_inhg s
  else if f = fn_kap_rcv_air_alt then onExt kap_rcv_air_alt s
  else if f = fn_kap_rcv_dio then kap_rcv_dio s
  else if f = fn_kap_rcv_elev_trim then onExt kap_rcv_elev_trim s
  else if f = fn_kap_rcv_air_vs then onExt kap_rcv_air_vs s
  else s

/-- Run the engine callbacks named in the trace of one fsbus_rcv call, in
order. -/
def kap_rcv_run : List (Nat × RcvEvent) → Kap → Kap
  | [], s => s
  | (_, RcvEvent.callback f) :: tr, s => kap_rcv_run tr (kap_rcv_callbacks f s)
  | (_, RcvEvent.decode) :: tr, s => kap_rcv_run tr s

/-- The inputs of the running program. -/
inductive KapInput where
  /-- one call of event_tick from the clock interrupt -/
  | tick
  /-- switches_tick found the debounced state of the port A keys in the mask
  changed -/
  | porta (now : Nat)
  /-- switches_tick found the debounced state of the port B keys in the mask
  changed -/
  | portb (now : Nat)
  /-- switches_encoder counted one detent up or down -/
  | encoder (up : Bool)
  /-- fsbus_main received a byte from the UART -/
  | byte (c : Nat)
deriving DecidableEq, Repr

/-- The last two statements switches_tick makes for port A, with `now` the keys
whose debounce counter rolled over: `sw_porta_state ^= porta_now;
sw_porta |= sw_porta_state & porta_now;`. -/
def switches_porta (now : Nat) (k : KapState) : KapState :=
  let k1 := { k with sw_porta_state := k.sw_porta_state ^^^ now }
  { k1 with sw_porta := k1.sw_porta ||| (k1.sw_porta_state &&& now) }

/-- The same for port B. -/
def switches_portb (now : Nat) (k : KapState) : KapState :=
  let k1 := { k with sw_portb_state := k.sw_portb_state ^^^ now }
  { k1 with sw_portb := k1.sw_portb ||| (k1.sw_portb_state &&& now) }

/-- The byte handed to fsbus_rcv: the codec runs, then the callbacks it
called. -/
def kap_rcv (c : Nat) (s : Kap) : Kap :=
  let r := fsbus_rcv c s.ext.bus
  kap_rcv_run r.2 (onExt (fun k => { k with bus := r.1 }) s)

/-- One input to the running program. -/
def kap_step (s : Kap) : KapInput → Kap
  | KapInput.tick => (event_tick kap_callbacks s).1
  | KapInput.porta now => onExt (switches_porta (now % 256)) s
  | KapInput.portb now => onExt (switches_portb (now % 256)) s
  | KapInput.encoder up =>
    onExt (fun k => { k with sw_enc_delta := wrap8 (k.sw_enc_delta + (if up then 1 else -1)) }) s
  | KapInput.byte c => kap_rcv (c % 256) s

/-- Run a sequence of inputs. -/
def kap_run (s : Kap) (l : List KapInput) : Kap :=
  l.foldl kap_step s

/-- The timer table after event_init on a zeroed table, at tick 0. -/
def sched0 : EventState Unit :=
  { event_list := List.replicate 10 default, tick := 0, event_service := 0, ext := () }

/-- A table whose slots 1..9 are all occupied by periodic timers (slot 0, which
event_register never scans, is free as event_init left it). -/
def schedFull : EventState Unit :=
  { event_list := default :: List.replicate 9 ⟨5, 5, 0, 3⟩, tick := 0, event_service := 0,
    ext := () }

/-- Callbacks that do not touch the scheduler. -/
def idleCallbacks : Callbacks Unit := fun _ _ s => s

/-- A zeroed controller block, as the static array `blocks` holds at start-up. -/
def zeroBlock : fsbus_block_t :=
  { fs_cid := 0, fs_ctrl_type := 0, fs_rcv_buf := List.replicate 6 0, fs_rcv_len := 0,
    fs_rcmd := 0, fs_rcmd_len := 0, fs_rcmd_v := 0, fs_callback := 0,
    fs_display := ⟨0, 0, 0, 0, List.replicate 7 0⟩,
    fs_dio := ⟨List.replicate 4 0, List.replicate 8 0⟩ }

/-- The codec state at start-up: no controller registered. -/
def bus0 : FsbusState :=
  { next_handle := 0, blocks := List.replicate MAX_RCV_CONTROLLERS zeroBlock,
    fs_cid := 0, fs_blk := none }

/-- The codec state after the eight fsbus_register calls of kap_init in
KAP140.c (controller IDs 10, 11, 12, 13, 15, 14, 17, 16 in that order, the one
with ID 14 being the Digital I/O controller); the callbacks kap_rcv_alt,
kap_rcv_vs, kap_rcv_baro_hpa, kap_rcv_baro_inhg, kap_rcv_air_alt, kap_rcv_dio,
kap_rcv_elev_trim and kap_rcv_air_vs are numbered 1 to 8. -/
def kapBus : FsbusState :=
  let reg := fun (st : FsbusState) (cid ty f : Nat) => (fsbus_register st cid ty f).1
  let s1 := reg bus0 10 FS_CTRL_DISPLAY 1
  let s2 := reg s1 11 FS_CTRL_DISPLAY 2
  let s3 := reg s2 12 FS_CTRL_DISPLAY 3
  let s4 := reg s3 13 FS_CTRL_DISPLAY 4
  let s5 := reg s4 15 FS_CTRL_DISPLAY 5
  let s6 := reg s5 14 FS_CTRL_DIO 6
  let s7 := reg s6 17 FS_CTRL_DISPLAY 7
  reg s7 16 FS_CTRL_DISPLAY 8

/-- The inputs that come neither from a button nor from the encoder: ticks and
bus bytes. -/
def kapInputQuiet : KapInput → Bool
  | KapInput.tick => true
  | KapInput.byte _ => true
  | _ => false

/-- The memory at program start: every static variable zero. -/
def kapZero : Kap :=
  { event_list := List.replicate 10 default, tick := 0, event_service := 0,
    ext :=
      { sw_porta := 0, sw_portb := 0, sw_porta_state := 0, sw_portb_state := 0, sw_enc_delta := 0,
        fsx_buttons := 0, ap_mode := 0, roll_mode := 0, roll_arm_mode := 0, pitch_mode := 0,
        pitch_arm_mode := 0, baro_mode := 0, rhs_mode := 0, kap_disp_flags := 0, vs := 0,
        elev_trim := 0, air_vs := 0, alt_disp := 0, alt_rcv := 0, air_alt := 0, baro_hpa := 0,
        baro_inhg := 0, pitch_trim := 0, alt_alert := 0, kap_pt_alert := 0, kap_baro_cancel := 0,
        baro_mode_check_cancel := 0, kap_vs_cancel := 0, kap_vs_pid := 0,
        kap_rm_blink_cancel := 0, kap_ap_blink_cancel := 0, kap_alert := 0,
        kap_enc_toggle_status := 0, kap_ap_button := 0, bus := bus0, sent := [] } }

/-- The state in which main enters fsbus_main: after event_init and kap_init. -/
def kapStart : Kap := kap_init (event_init kapZero)

/-- The states the program can reach from its start by any sequence of
inputs. -/
def KapReachable (s : Kap) : Prop := ∃ l : List KapInput, s = kap_run kapStart l

/-- The master button (bit 5 of port A) is pressed and held; four ticks later
the hold timer has fired and a display pass has enabled the AP. -/
def masterOnRun : List KapInput :=
  KapInput.porta 0x20 :: List.replicate 4 KapInput.tick

/-- After masterOnRun: the master button is released; NAV (bit 6 of port A) is
pressed and, two ticks later, shown armed; NAV is released and the master
button pressed, which two ticks later has started the AP-off blink; the button
is released and the 40 ticks of the blink pass; the master button is pressed
and held again and eight further ticks pass. -/
def staleCommitRun : List KapInput :=
  masterOnRun ++
  [KapInput.porta 0x20, KapInput.tick, KapInput.porta 0x40, KapInput.tick, KapInput.tick,
    KapInput.porta 0x40, KapInput.porta 0x20, KapInput.tick, KapInput.tick, KapInput.porta 0x20] ++
  List.replicate 40 KapInput.tick ++
  KapInput.porta 0x20 :: List.replicate 8 KapInput.tick

/-- The master button is pressed; no tick has passed yet. -/
def masterPressRun : List KapInput := [KapInput.porta 0x20]

/-- After masterOnRun the encoder is turned one detent up. -/
def encoderRun : List KapInput :=
  masterOnRun ++ [KapInput.encoder true]

/-- After encoderRun two ticks pass, in which the encoder movement arms the
altitude at 100 and the display pass shows it; then the arm button (bit 3 of
port A) is pressed. -/
def armClearRun : List KapInput :=
  encoderRun ++ [KapInput.tick, KapInput.tick, KapInput.porta 0x08]

/-- The button mirror after kap_fsx_loop over the mask `m`, started with the
mirror `b`. -/
def fsx_loop_mirror (m b : Nat) : Nat :=
  (List.range' 1 (FSX_BITS - 1)).foldl (fun x i => if m &&& BV i ≠ 0 then x ^^^ BV i else x) b

/-- The button mirror after kap_fsx_sync for the table row `row`, started with
the mirror `b`. -/
def fsx_sync_mirror (row : Nat × Nat) (b : Nat) : Nat :=
  let m1 := 0xFF ^^^ ((row.1 &&& b) ||| (0xFF ^^^ row.1))
  let b1 := if m1 ≠ 0 then fsx_loop_mirror m1 b else b
  let m3 := row.2 &&& b1
  if m3 ≠ 0 then fsx_loop_mirror m3 b1 else b1

/-- The commands kap_fsx_loop sends for the mask `m` with the value `v`: one
for each of the bits 1 to FSX_BITS - 1 set in `m`, in ascending order. -/
def fsx_loop_cmds (v : Int) (m : Nat) : List BusCmd :=
  (List.range' 1 (FSX_BITS - 1)).foldl
    (fun l i => if m &&& BV i ≠ 0 then l ++ [⟨KAP_DIO_CID, i, v, 3⟩] else l) []

/-- The commands kap_fsx_sync sends for the table row `row`, started with the
mirror `b`. -/
def fsx_sync_cmds (row : Nat × Nat) (b : Nat) : List BusCmd :=
  let m1 := 0xFF ^^^ ((row.1 &&& b) ||| (0xFF ^^^ row.1))
  let b1 := if m1 ≠ 0 then fsx_loop_mirror m1 b else b
  let c1 := if m1 ≠ 0 then fsx_loop_cmds 1 m1 else []
  let m3 := row.2 &&& b1
  if m3 ≠ 0 then c1 ++ fsx_loop_cmds 0 m3 else c1

/-- The altitude adjustment commands among the calls of fsbus_snd. -/
def adjCmds (l : List BusCmd) : List BusCmd :=
  l.filter (fun c => decide (c.rcmd = DIO_SW_ALT_ENC_20 ∨ c.rcmd = DIO_SW_ALT_ENC_500))

/-- No change of the pitch arm mode is waiting to be displayed, and no button
edge or encoder movement is waiting to be polled. -/
def KapIdle (k : KapState) : Prop :=
  k.pitch_arm_mode &&& PM_CHANGED = 0 ∧ k.sw_porta = 0 ∧ k.sw_portb = 0 ∧ k.sw_enc_delta = 0

/-- The mode variables, the displayed values, the button mirror and the
commands sent. -/
def kapModes (k : KapState) :
    Nat × Nat × Nat × Nat × Nat × Nat × Nat × Int × Int × Nat × List BusCmd :=
  (k.ap_mode, k.roll_mode, k.roll_arm_mode, k.pitch_mode, k.pitch_arm_mode, k.baro_mode,
    k.rhs_mode, k.alt_disp, k.vs, k.fsx_buttons, k.sent)

/-- What decides whether an altitude commit can happen without new input: the
pitch arm mode, the pending inputs and the adjustment commands sent so far. -/
def kapView (k : KapState) : Nat × Nat × Nat × Int × List BusCmd :=
  (k.pitch_arm_mode, k.sw_porta, k.sw_portb, k.sw_enc_delta, adjCmds k.sent)

/-- The state is idle and the altitude adjustment commands sent so far are
`L`. -/
def KapSettled (L : List BusCmd) (k : KapState) : Prop :=
  KapIdle k ∧ adjCmds k.sent = L

/-- The format the specification gives for a displayed number: the digits of
`|v|`, a comma between the thousands and the hundreds digit when `|v| ≥ 1000`,
a minus sign directly before the first digit of a negative number, the whole
right-justified in six characters padded with spaces, then the terminator. -/
def displ_val_spec (v : Int) : List Nat :=
  let n := v.natAbs
  let digit := fun (k : Nat) => 48 + n / 10 ^ k % 10
  let body :=
    if n < 10 then [digit 0]
    else if n < 100 then [digit 1, digit 0]
    else if n < 1000 then [digit 2, digit 1, digit 0]
    else if n < 10000 then [digit 3, 44, digit 2, digit 1, digit 0]
    else [digit 4, digit 3, 44, digit 2, digit 1, digit 0]
  let signed := if v < 0 then 45 :: body else body
  List.replicate (6 - signed.length) 32 ++ signed ++ [0]

/-- The character codes of a string, followed by the terminator. -/
def cstr (s : String) : List Nat := s.toList.map Char.toNat ++ [0]

/-- A timer that calls the function `f` is in the table. -/
def timerPending {α : Type} (f : Nat) (s : EventState α) : Prop :=
  ∃ e ∈ s.event_list, e.e_func = f

instance {α : Type} (f : Nat) (s : EventState α) : Decidable (timerPending f s) := by
  unfold timerPending
  exact inferInstance

/-- The slots 1 to `m` of the timer table are free. The scan of event_register
runs downwards from the last slot, so the timers it has placed sit above the
free slots. -/
def LowFree {α : Type} (m : Nat) (s : EventState α) : Prop :=
  ∀ j, j < m + 1 → 1 ≤ j → (slotAt s j).e_func = 0

instance {α : Type} (m : Nat) (s : EventState α) : Decidable (LowFree m s) := by
  unfold LowFree
  exact inferInstance

/-- The difference kap_display_alerts computes from the reference altitude
`p.1` (alt_rcv) and the aircraft altitude `p.2` (air_alt):
`delta = alt_rcv - air_alt; delta = (delta / PT_RND) * PT_RND;`. -/
def kap_delta (p : Int × Int) : Int :=
  wrap32 (cdiv (wrap32 (p.1 - p.2)) PT_RND * PT_RND)

/-- The absolute deviation kap_display_alerts compares with the bands:
`if (delta < 0) delta *= -1;`. -/
def kap_deviation (p : Int × Int) : Int :=
  if kap_delta p < 0 then wrap32 (kap_delta p * -1) else kap_delta p

/-- An alert pass: kap_display_alerts run after the bus callbacks have stored
the reference altitude `p.1` and the aircraft altitude `p.2`. -/
def kap_alert_pass (s : Kap) (p : Int × Int) : Kap :=
  kap_display_alerts (onExt (fun k => { k with alt_rcv := p.1, air_alt := p.2 }) s)

/-- The flash timer, if one is in the table, is the one the handle kap_alert
names, and the alert state is then caution with the latch set. -/
def KapAlertInv (s : Kap) : Prop :=
  ∀ j, (slotAt s j).e_func = fn_kap_alert_flash →
    s.ext.kap_alert = j + 1 ∧ s.ext.alt_alert = ALT_200_1000 ||| ALT_REACHED

/-- After masterOnRun the master button is released and a tick passes: the AP
is enabled in wing-level mode and nothing is pending. -/
def enabledRun : List KapInput :=
  masterOnRun ++ [KapInput.porta 0x20, KapInput.tick]

/-- After enabledRun the NAV button (bit 6 of port A) is pressed. -/
def navPressRun : List KapInput :=
  enabledRun ++ [KapInput.porta 0x40]

/-- After enabledRun the HDG button (bit 7 of port A) is pressed, polled and
shown, and released: the roll mode is heading, no arm is pending. -/
def headingRun : List KapInput :=
  enabledRun ++ [KapInput.porta 0x80, KapInput.tick, KapInput.tick, KapInput.porta 0x80]

/-- After headingRun the APR button (bit 4 of port A) is pressed. -/
def aprPressRun : List KapInput :=
  headingRun ++ [KapInput.porta 0x10]

/-- With the AP off, the arm and NAV buttons of port A and the ALT button of
port B are pressed. -/
def offPressRun : List KapInput :=
  [KapInput.porta 0x48, KapInput.portb 0x10]

/-- After enabledRun the NAV button (bit 6 of port A) is pressed and two ticks
pass: the press is polled in the first, and the display pass of the second
shows the arm and registers the commit timer. -/
def navArmedRun : List KapInput :=
  enabledRun ++ [KapInput.porta 0x40, KapInput.tick, KapInput.tick]

/-- After navArmedRun NAV is released and the master button pressed, which two
ticks later has started the AP-off blink; the button is released and the 40
ticks of the blink pass. -/
def masterOffRun : List KapInput :=
  navArmedRun ++
  [KapInput.porta 0x40, KapInput.porta 0x20, KapInput.tick, KapInput.tick, KapInput.porta 0x20] ++
  List.replicate 40 KapInput.tick

/-- After headingRun the APR button is pressed and two ticks pass: the press
is polled in the first, and the display pass of the second shows the arm. -/
def aprArmedRun : List KapInput :=
  aprPressRun ++ [KapInput.tick, KapInput.tick]

/-- The same with the NAV button (bit 6 of port A). -/
def navHeadingArmedRun : List KapInput :=
  headingRun ++ [KapInput.porta 0x40, KapInput.tick, KapInput.tick]

/-- The same with the REV button (bit 3 of port B). -/
def revArmedRun : List KapInput :=
  headingRun ++ [KapInput.portb 0x08, KapInput.tick, KapInput.tick]

/-- After enabledRun the ALT button (bit 4 of port B) is pressed, polled and
released, and a second tick passes: the pitch mode is altitude hold and has
been shown. -/
def altHoldRun : List KapInput :=
  enabledRun ++ [KapInput.portb 0x10, KapInput.tick, KapInput.portb 0x10, KapInput.tick]

/-- After altHoldRun the ALT button is pressed again and polled. -/
def vsPressRun : List KapInput :=
  altHoldRun ++ [KapInput.portb 0x10, KapInput.tick]

/-- After vsPressRun one more tick passes, whose display pass shows the
vertical speed mode. -/
def vsShownRun : List KapInput :=
  vsPressRun ++ [KapInput.tick]

/-- A raw display dataframe for the air altitude controller (ID 15) with the
data bytes `d`. -/
def airAltFrame (d : List Nat) : List KapInput :=
  (KapInput.byte 0xBC :: d.map KapInput.byte) ++ [KapInput.byte 0x40]

/-- After enabledRun the host reports the aircraft altitude 300 and a tick
passes. -/
def alertFlashRun : List KapInput :=
  enabledRun ++ airAltFrame [0, 3, 0] ++ [KapInput.tick]

/-- After alertFlashRun the arm button (bit 3 of port A) is pressed and
polled. -/
def alertArmPressRun : List KapInput :=
  alertFlashRun ++ [KapInput.porta 0x08, KapInput.tick]

/-- After alertArmPressRun the host reports the aircraft altitude 1500 and a
tick passes. -/
def alertFarRun : List KapInput :=
  alertArmPressRun ++ airAltFrame [0, 5, 49] ++ [KapInput.tick]

/-! ## Further definitions: scheduler operations, receive cursor, store traces,
reset handles and sample inputs -/

/-- One call into event.c after event_init. -/
inductive SchedOp where
  /-- event_register(func, period, occurrences) -/
  | register (func period occurrences : Nat)
  /-- event_cancel on a handle variable holding `h` -/
  | cancel (h : Nat)
  /-- event_reset(h) -/
  | reset (h : Nat)
  /-- event_tick -/
  | tick
deriving DecidableEq, Repr

/-- The handle of a cancel is 0 or names an entry of the table, the handle of a
reset names one: the ranges in which the calls stay inside `event_list`. -/
def SchedOp.inTable : SchedOp → Prop
  | SchedOp.register _ _ _ => True
  | SchedOp.cancel h => h ≤ EVENT_MAX
  | SchedOp.reset h => 1 ≤ h ∧ h ≤ EVENT_MAX
  | SchedOp.tick => True

instance (op : SchedOp) : Decidable op.inTable := by
  cases op <;> unfold SchedOp.inTable <;> exact inferInstance

/-- The scheduler after one call. -/
def sched_step {α : Type} (cb : Callbacks α) (s : EventState α) : SchedOp → EventState α
  | SchedOp.register f p n => (event_register s f p n).1
  | SchedOp.cancel h => (event_cancel s h).1
  | SchedOp.reset h => event_reset s h
  | SchedOp.tick => (event_tick cb s).1

/-- The scheduler after a sequence of calls. -/
def sched_run {α : Type} (cb : Callbacks α) (s : EventState α) (ops : List SchedOp) :
    EventState α :=
  ops.foldl (sched_step cb) s

/-- The number of occupied entries of the timer table. -/
def registered {α : Type} (s : EventState α) : Nat :=
  (s.event_list.filter (fun e => decide (e.e_func ≠ 0))).length

/-- What the callbacks may do to the table: with slot 0 free and the table at
its size, a callback leaves slot 0 free and the table at its size (as every
callback does that touches the table through event.c only). -/
def KeepsSlotZero {α : Type} (cb : Callbacks α) : Prop :=
  ∀ f t s, (slotAt s 0).e_func = 0 → s.event_list.length = EVENT_MAX →
    (slotAt (cb f t s) 0).e_func = 0 ∧ (cb f t s).event_list.length = EVENT_MAX
/-- The byte fsbus_dio_decode stores for an output-bit command with value `v`
on bit `b`, the byte having been `old`: `old & ~_BV(b)` or `old | _BV(b)`. -/
def dio_outbit (old v b : Nat) : Nat :=
  if v = 0 then old &&& (0xFF ^^^ (1 <<< b)) else (old ||| (1 <<< b)) % 256

/-- The register image `fs_dio` of block `i`. -/
def dio_of (st : FsbusState) (i : Nat) : fsbus_dio_t :=
  (st.blocks.getD i default).fs_dio

/-- The size of `fs_rcv_buf` in fsbus.h. -/
abbrev FS_RCV_BUF_LEN : Nat := 6

/-- The index at which fs_rcv_dio stores the byte `c`: the receive cursor after
the start-byte test. -/
def fs_rcv_dio_store_index (c : Nat) (blk : fsbus_block_t) : Nat :=
  (fs_rcv_dio_begin c blk).fs_rcv_len

/-- The index at which fs_rcv_display stores the byte `c`. -/
def fs_rcv_display_store_index (c : Nat) (blk : fsbus_block_t) : Nat :=
  (fs_rcv_display_begin c blk).fs_rcv_len
/-- The indices at which the do-while loop of displ_val stores a character, in
order, and the index after the loop; the loop is that of displ_val_loop with
the buffer left out. -/
def displ_val_loop_stores : Nat → Int → Int → Option (List Int × Int)
  | 0, _, _ => none
  | fuel + 1, v, i =>
    let v1 := cdiv v 10
    let w := if i = 2 then [i] else []
    let i1 := if i = 2 then i - 1 else i
    let i2 := i1 - 1
    if v1 ≠ 0 ∧ i2 ≥ 0 then
      match displ_val_loop_stores fuel v1 i2 with
      | none => none
      | some r => some (w ++ i1 :: r.1, r.2)
    else some (w ++ [i1], i2)

/-- The indices at which the padding loop of displ_val, entered with
`i = n - 1`, stores a space. -/
def displ_val_pad_stores : Nat → List Int
  | 0 => []
  | n + 1 => (n : Int) :: displ_val_pad_stores n

/-- The indices at which displ_val stores into `buf`, in order: the terminator,
the digits and the comma, the minus sign, the padding. -/
def displ_val_stores (v : Int) : Option (List Int) :=
  let minus := decide (v < 0)
  let v1 := if minus then wrap32 (v * -1) else v
  match displ_val_loop_stores BUF_LEN v1 (BUF_LEN - 2) with
  | none => none
  | some (l, i) =>
    let m := if minus ∧ i ≥ 0 then [i] else []
    let i1 := if minus ∧ i ≥ 0 then i - 1 else i
    some (((BUF_LEN : Int) - 1) :: l ++ m ++ displ_val_pad_stores (i1 + 1).toNat)
/-- The slot index event_reset computes from the handle `h`: `h--` on a
uint8_t. -/
def event_reset_index (h : Nat) : Nat := (h + 255) % 256

/-- The handles kap_button_up passes to event_reset when run in the state `s`,
in the order of the calls. -/
def kap_button_up_resets (s : Kap) : List Nat :=
  if s.ext.pitch_mode &&& (0xFF ^^^ PM_CHANGED) ≠ PM_GS then
    if s.ext.rhs_mode &&& (0xFF ^^^ RHS_CHANGED) = RHS_VS then [s.ext.kap_vs_cancel]
    else []
  else []

/-- The handles kap_button_down passes to event_reset. -/
def kap_button_down_resets (s : Kap) : List Nat :=
  if s.ext.pitch_mode &&& (0xFF ^^^ PM_CHANGED) ≠ PM_GS then
    if s.ext.rhs_mode &&& (0xFF ^^^ RHS_CHANGED) = RHS_VS then [s.ext.kap_vs_cancel]
    else []
  else []

/-- The handles baro_mode_check passes to event_reset. -/
def baro_mode_check_resets (s : Kap) : List Nat :=
  if s.ext.sw_porta_state &&& BV 1 ≠ 0 then [s.ext.kap_baro_cancel] else []

/-- The handles kap_button_enc passes to event_reset. -/
def kap_button_enc_resets (s : Kap) : List Nat :=
  if s.ext.rhs_mode &&& (0xFF ^^^ RHS_CHANGED) ≠ RHS_BARO then []
  else [s.ext.kap_baro_cancel]

/-- The handles passed to event_reset during one call of kap_buttons: the
statements that reach a call are the up button, the encoder and the down
button, each run in the state the statements before it have left. -/
def kap_buttons_resets (s : Kap) : List Nat :=
  let s0 := kap_buttons_ap s
  if s0.ext.ap_mode &&& (0xFF ^^^ AP_CHANGED) = AP_ENABLED then
    let s1 := on_porta 0 (onExt kap_button_encoder_toggle) s0
    let s2 := on_porta 1 kap_button_baro s1
    let r3 :=
      if s2.ext.sw_porta &&& BV 2 ≠ 0 then
        kap_button_up_resets (onExt (fun k => { k with sw_porta := k.sw_porta ^^^ BV 2 }) s2)
      else []
    let s3 := on_porta 2 kap_button_up s2
    let s4 := on_porta 3 (onExt kap_button_arm) s3
    let s5 := on_porta 4 (onExt kap_button_apr) s4
    let s6 := on_porta 6 (onExt kap_button_nav) s5
    let s7 := on_porta 7 (onExt kap_button_hdg) s6
    let r8 :=
      if s7.ext.sw_enc_delta ≠ 0 then
        kap_button_enc_resets (onExt (fun k => { k with sw_enc_delta := 0 }) s7)
      else []
    let s8 := kap_buttons_enc s7
    let r9 :=
      if s8.ext.sw_portb &&& BV 2 ≠ 0 then
        kap_button_down_resets (onExt (fun k => { k with sw_portb := k.sw_portb ^^^ BV 2 }) s8)
      else []
    r3 ++ r8 ++ r9
  else []

/-- The handles a timer callback of the mode engine passes to event_reset:
the calls are made from kap_buttons and from baro_mode_check. -/
def kap_callbacks_resets (f : Nat) (s : Kap) : List Nat :=
  if f = fn_kap_buttons then kap_buttons_resets s
  else if f = fn_baro_mode_check then baro_mode_check_resets s
  else []

/-- The handles passed to event_reset during the dispatch loop of event_tick,
entered with the loop variable `i`. -/
def kap_dispatch_resets : Nat → Kap → List Nat
  | 0, _ => []
  | i + 1, s =>
    if (slotAt s (i + 1)).e_func ≠ 0 ∧ (slotAt s (i + 1)).e_when = s.tick then
      let e := slotAt s (i + 1)
      let s1 := { s with event_list := s.event_list.set (i + 1) (event_fire s.tick e) }
      kap_callbacks_resets e.e_func s1 ++
        kap_dispatch_resets i (event_call kap_callbacks (i + 1) s)
    else kap_dispatch_resets i s

/-- The handles passed to event_reset during one call of event_tick. -/
def kap_tick_resets (s : Kap) : List Nat :=
  if s.event_service ≠ 0 then []
  else
    kap_dispatch_resets (EVENT_MAX - 1)
      { s with event_service := 1, tick := (s.tick + 1) % 65536 }

/-- After enabledRun the BARO button (bit 1 of port A) is pressed and the
encoder is turned one detent up before the next poll. -/
def baroTurnRun : List KapInput :=
  enabledRun ++ [KapInput.porta 0x02, KapInput.encoder true]

/-- After enabledRun 30 ticks pass, in which the vertical speed shown since
master-on has been replaced by the altitude; then the up button (bit 2 of
port A) and the down button (bit 2 of port B) are pressed before the next
poll. -/
def upDownRun : List KapInput :=
  enabledRun ++ List.replicate 30 KapInput.tick ++ [KapInput.porta 0x04, KapInput.portb 0x04]
/-- After navArmedRun the host sends the first two bytes of the frame that
sets analog output 0 of the Digital I/O controller (ID 14) to 5; the third
byte of that frame is 2. -/
def hostAnalogRun : List KapInput :=
  navArmedRun ++ [KapInput.byte 0xB9, KapInput.byte 80]

/-- After navArmedRun the host sends the first two bytes of the frame that
sets digital output byte 0 of the Digital I/O controller to 1; the third byte
of that frame is 0. -/
def hostMasterRun : List KapInput :=
  navArmedRun ++ [KapInput.byte 0xB9, KapInput.byte 120]

/-- The indices of `fs_rcv_buf` at which the receive routine of a block of
controller type `ty` stores the bytes `cs`, one after the other; a type without
a receive routine stores nothing. -/
def fs_rcv_store_indices (ty : Nat) : List Nat → fsbus_block_t → List Nat
  | [], _ => []
  | c :: cs, b =>
    (if ty = FS_CTRL_DIO then [fs_rcv_dio_store_index c b]
      else if ty = FS_CTRL_DISPLAY then [fs_rcv_display_store_index c b]
      else []) ++
    fs_rcv_store_indices ty cs (fs_rcv_func ty c b).1

/-- Callbacks of which the function 1 registers the function 2 as a timer of
period 0 with one occurrence; every other function does nothing. -/
def chainCallbacks : Callbacks Unit := fun f _ s =>
  if f = 1 then (event_register s 2 0 1).1 else s

/-- The initialised table with the function 1 registered as a periodic timer of
period 1: it sits in slot 9 and is due at tick 1. -/
def schedChain : EventState Unit := (event_register sched0 1 1 0).1

/-- After enabledRun the arm button (bit 3 of port A) is pressed and polled:
the first press of the button after master-on. -/
def firstArmRun : List KapInput :=
  enabledRun ++ [KapInput.porta 0x08, KapInput.tick]

/-- After firstArmRun the arm button is released, a tick passes whose display
pass shows the pitch arm mode, and the button is pressed and polled again. -/
def secondArmRun : List KapInput :=
  firstArmRun ++ [KapInput.porta 0x08, KapInput.tick, KapInput.porta 0x08, KapInput.tick]

/-- The run staleCommitRun up to tick 53, when the AP is enabled again with the
commit timer of tick 7 still in slot 4; then the master button is released and
HDG (bit 7 of port A) pressed, polled, released and shown: at tick 55 the AP is
enabled in heading mode with no arm. -/
def staleHeadingRun : List KapInput :=
  masterOnRun ++
  [KapInput.porta 0x20, KapInput.tick, KapInput.porta 0x40, KapInput.tick, KapInput.tick,
    KapInput.porta 0x40, KapInput.porta 0x20, KapInput.tick, KapInput.tick, KapInput.porta 0x20] ++
  List.replicate 40 KapInput.tick ++
  KapInput.porta 0x20 :: List.replicate 4 KapInput.tick ++
  [KapInput.porta 0x20, KapInput.porta 0x80, KapInput.tick, KapInput.porta 0x80, KapInput.tick]

/-- After staleHeadingRun the APR button (bit 4 of port A) is pressed and
polled (tick 56). -/
def staleAprPressRun : List KapInput :=
  staleHeadingRun ++ [KapInput.porta 0x10, KapInput.tick]

/-- After staleAprPressRun one more tick passes (tick 57), whose display pass
shows the arm. -/
def staleAprShownRun : List KapInput :=
  staleAprPressRun ++ [KapInput.tick]

/-- After staleAprShownRun the APR button is released and `n` ticks pass. -/
def staleAprLaterRun (n : Nat) : List KapInput :=
  staleAprShownRun ++ KapInput.porta 0x10 :: List.replicate n KapInput.tick

/-- After masterOnRun the master button is released and 16 ticks pass (tick
20); then the host completes a frame for the Digital I/O controller that sets
analog output 0, with digital output byte 0 of the register image still zero. -/
def hostOffRun : List KapInput :=
  masterOnRun ++ KapInput.porta 0x20 :: List.replicate 16 KapInput.tick ++
  [KapInput.byte 0xB9, KapInput.byte 80, KapInput.byte 2]

/-- After hostOffRun the master button is pressed and held and four ticks pass
(tick 24): the hold timer has fired and a display pass has enabled the AP. -/
def hostOffOnRun : List KapInput :=
  hostOffRun ++ KapInput.porta 0x20 :: List.replicate 4 KapInput.tick

/-! ## Scheduler: auxiliary lemmas -/

theorem getD_set_self {β : Type} (l : List β) (i : Nat) (e d : β) (h : i < l.length) :
    (l.set i e).getD i d = e := by
  simp [List.getD_eq_getElem?_getD, List.getElem?_set, h]

theorem getD_set_other {β : Type} (l : List β) (i j : Nat) (e d : β) (h : i ≠ j) :
    (l.set i e).getD j d = l.getD j d := by
  simp [List.getD_eq_getElem?_getD, List.getElem?_set, h]

theorem callsFor_append (i : Nat) (a b : List Fired) :
    callsFor i (a ++ b) = callsFor i a ++ callsFor i b := by
  simp [callsFor]

theorem event_dispatch_due {α : Type} (cb : Callbacks α) (j : Nat) (s : EventState α)
    (h : (slotAt s (j + 1)).e_func ≠ 0 ∧ (slotAt s (j + 1)).e_when = s.tick) :
    event_dispatch cb (j + 1) s =
      ((event_dispatch cb j (event_call cb (j + 1) s)).1,
        ⟨j + 1, (slotAt s (j + 1)).e_func⟩ :: (event_dispatch cb j (event_call cb (j + 1) s)).2) := by
  rw [event_dispatch, if_pos h]

theorem event_dispatch_idle {α : Type} (cb : Callbacks α) (j : Nat) (s : EventState α)
    (h : ¬ ((slotAt s (j + 1)).e_func ≠ 0 ∧ (slotAt s (j + 1)).e_when = s.tick)) :
    event_dispatch cb (j + 1) s = event_dispatch cb j s := by
  rw [event_dispatch, if_neg h]

/-- Servicing another slot leaves slot `i`, the tick counter and the size of
the table as they were. -/
theorem event_call_other {α : Type} (cb : Callbacks α) (i j : Nat) (hcb : KeepsSlot cb i)
    (s : EventState α) (hji : j ≠ i) :
    (event_call cb j s).tick = s.tick ∧
    (event_call cb j s).event_list.length = s.event_list.length ∧
    slotAt (event_call cb j s) i = slotAt s i := by
  obtain ⟨h1, h2, h3⟩ := hcb (slotAt s j).e_func s.tick
    { s with event_list := s.event_list.set j (event_fire s.tick (slotAt s j)) }
  refine ⟨h1, ?_, ?_⟩
  · simpa [event_call] using h2
  · simp only [event_call]
    rw [h3]
    simp only [slotAt]
    exact getD_set_other _ _ _ _ _ hji

/-- Servicing slot `i` itself stores the updated entry there. -/
theorem event_call_self {α : Type} (cb : Callbacks α) (i : Nat) (hcb : KeepsSlot cb i)
    (s : EventState α) (hi : i < s.event_list.length) :
    (event_call cb i s).tick = s.tick ∧
    (event_call cb i s).event_list.length = s.event_list.length ∧
    slotAt (event_call cb i s) i = event_fire s.tick (slotAt s i) := by
  obtain ⟨h1, h2, h3⟩ := hcb (slotAt s i).e_func s.tick
    { s with event_list := s.event_list.set i (event_fire s.tick (slotAt s i)) }
  refine ⟨h1, ?_, ?_⟩
  · simpa [event_call] using h2
  · simp only [event_call]
    rw [h3]
    simp only [slotAt]
    exact getD_set_self _ _ _ _ hi

/-- The dispatch loop below slot `i` leaves slot `i` alone. -/
theorem event_dispatch_below {α : Type} (cb : Callbacks α) (i : Nat) (hcb : KeepsSlot cb i) :
    ∀ (j : Nat) (s : EventState α), j < i →
      (event_dispatch cb j s).1.tick = s.tick ∧
      (event_dispatch cb j s).1.event_list.length = s.event_list.length ∧
      slotAt (event_dispatch cb j s).1 i = slotAt s i ∧
      callsFor i (event_dispatch cb j s).2 = [] := by
  intro j
  induction j with
  | zero => intro s _; simp [event_dispatch, callsFor]
  | succ j ih =>
    intro s hj
    by_cases hdue : (slotAt s (j + 1)).e_func ≠ 0 ∧ (slotAt s (j + 1)).e_when = s.tick
    · rw [event_dispatch_due cb j s hdue]
      obtain ⟨h1, h2, h3⟩ := event_call_other cb i (j + 1) hcb s (by omega)
      obtain ⟨k1, k2, k3, k4⟩ := ih (event_call cb (j + 1) s) (by omega)
      refine ⟨by rw [k1, h1], by rw [k2, h2], by rw [k3, h3], ?_⟩
      have hne : ¬ (j + 1 = i) := by omega
      simpa [callsFor, hne] using k4
    · rw [event_dispatch_idle cb j s hdue]
      exact ih s (by omega)

/-- The dispatch loop from slot `j ≥ i` down visits slot `i` once: a due entry
is updated and its function called once, any other entry is left alone. -/
theorem event_dispatch_through {α : Type} (cb : Callbacks α) (i : Nat) (hcb : KeepsSlot cb i)
    (hi : 1 ≤ i) :
    ∀ (j : Nat) (s : EventState α), i ≤ j → i < s.event_list.length →
      (event_dispatch cb j s).1.tick = s.tick ∧
      (event_dispatch cb j s).1.event_list.length = s.event_list.length ∧
      (((slotAt s i).e_func ≠ 0 ∧ (slotAt s i).e_when = s.tick) →
        slotAt (event_dispatch cb j s).1 i = event_fire s.tick (slotAt s i) ∧
        callsFor i (event_dispatch cb j s).2 = [⟨i, (slotAt s i).e_func⟩]) ∧
      (¬ ((slotAt s i).e_func ≠ 0 ∧ (slotAt s i).e_when = s.tick) →
        slotAt (event_dispatch cb j s).1 i = slotAt s i ∧
        callsFor i (event_dispatch cb j s).2 = []) := by
  intro j
  induction j with
  | zero => intro s h0; omega
  | succ j ih =>
    intro s hj hlen
    by_cases hij : j + 1 = i
    · subst hij
      by_cases hdue : (slotAt s (j + 1)).e_func ≠ 0 ∧ (slotAt s (j + 1)).e_when = s.tick
      · rw [event_dispatch_due cb j s hdue]
        obtain ⟨h1, h2, h3⟩ := event_call_self cb (j + 1) hcb s hlen
        obtain ⟨k1, k2, k3, k4⟩ :=
          event_dispatch_below cb (j + 1) hcb j (event_call cb (j + 1) s) (by omega)
        refine ⟨by rw [k1, h1], by rw [k2, h2], ?_, fun hn => absurd hdue hn⟩
        intro _
        refine ⟨by rw [k3, h3], ?_⟩
        simp only [callsFor, List.filter_cons, decide_True, if_true] at k4 ⊢
        rw [k4]
      · rw [event_dispatch_idle cb j s hdue]
        obtain ⟨k1, k2, k3, k4⟩ := event_dispatch_below cb (j + 1) hcb j s (by omega)
        exact ⟨k1, k2, fun hd => absurd hd hdue, fun _ => ⟨k3, k4⟩⟩
    · by_cases hdue : (slotAt s (j + 1)).e_func ≠ 0 ∧ (slotAt s (j + 1)).e_when = s.tick
      · rw [event_dispatch_due cb j s hdue]
        obtain ⟨h1, h2, h3⟩ := event_call_other cb i (j + 1) hcb s hij
        obtain ⟨k1, k2, k3, k4⟩ := ih (event_call cb (j + 1) s) (by omega) (by rw [h2]; exact hlen)
        rw [h3, h1] at k3 k4
        refine ⟨by rw [k1, h1], by rw [k2, h2], ?_, ?_⟩
        · intro hd
          obtain ⟨a, b⟩ := k3 hd
          refine ⟨a, ?_⟩
          simpa [callsFor, hij] using b
        · intro hd
          obtain ⟨a, b⟩ := k4 hd
          refine ⟨a, ?_⟩
          simpa [callsFor, hij] using b
      · rw [event_dispatch_idle cb j s hdue]
        exact ih s (by omega) hlen

/-- One call of event_tick, seen from slot `i`. -/
theorem event_tick_slot {α : Type} (cb : Callbacks α) (i : Nat) (hcb : KeepsSlot cb i)
    (hi1 : 1 ≤ i) (hi2 : i < EVENT_MAX) (s : EventState α)
    (hsvc : s.event_service = 0) (hlen : s.event_list.length = EVENT_MAX) :
    (event_tick cb s).1.tick = (s.tick + 1) % 65536 ∧
    (event_tick cb s).1.event_service = 0 ∧
    (event_tick cb s).1.event_list.length = EVENT_MAX ∧
    (((slotAt s i).e_func ≠ 0 ∧ (slotAt s i).e_when = (s.tick + 1) % 65536) →
      slotAt (event_tick cb s).1 i = event_fire ((s.tick + 1) % 65536) (slotAt s i) ∧
      callsFor i (event_tick cb s).2 = [⟨i, (slotAt s i).e_func⟩]) ∧
    (¬ ((slotAt s i).e_func ≠ 0 ∧ (slotAt s i).e_when = (s.tick + 1) % 65536) →
      slotAt (event_tick cb s).1 i = slotAt s i ∧
      callsFor i (event_tick cb s).2 = []) := by
  have hi3 : i ≤ EVENT_MAX - 1 := by simp only [EVENT_MAX] at hi2 ⊢; omega
  obtain ⟨k1, k2, k3, k4⟩ := event_dispatch_through cb i hcb hi1 (EVENT_MAX - 1)
    { s with event_service := 1, tick := (s.tick + 1) % 65536 } hi3 (by simpa [hlen] using hi2)
  have hev : event_tick cb s =
      ({ (event_dispatch cb (EVENT_MAX - 1)
            { s with event_service := 1, tick := (s.tick + 1) % 65536 }).1 with
          event_service := 0 },
        (event_dispatch cb (EVENT_MAX - 1)
            { s with event_service := 1, tick := (s.tick + 1) % 65536 }).2) := by
    simp [event_tick, hsvc]
  rw [hev]
  exact ⟨k1, rfl, by simpa [hlen] using k2, k3, k4⟩

/-- A slot that is free stays free and is never called, when no callback
registers into it. -/
theorem free_slot_stays {α : Type} (cb : Callbacks α) (i : Nat) (hcb : KeepsSlot cb i)
    (hi1 : 1 ≤ i) (hi2 : i < EVENT_MAX) :
    ∀ (n : Nat) (s : EventState α), s.event_service = 0 → s.event_list.length = EVENT_MAX →
      (slotAt s i).e_func = 0 →
      callsFor i (event_ticks cb n s).2 = [] ∧ (slotAt (event_ticks cb n s).1 i).e_func = 0 := by
  intro n
  induction n with
  | zero => intro s _ _ h; simp [event_ticks, callsFor, h]
  | succ n ih =>
    intro s hsvc hlen hfree
    obtain ⟨t1, t2, t3, _, t5⟩ := event_tick_slot cb i hcb hi1 hi2 s hsvc hlen
    obtain ⟨a, b⟩ := t5 (by simp [hfree])
    obtain ⟨c, d⟩ := ih (event_tick cb s).1 t2 t3 (by rw [a]; exact hfree)
    simp only [event_ticks, callsFor_append, a, b, c, d, List.append_nil, and_self]

/-- A periodic entry that is `r` ticks away from its next firing is called
`(n + (P - r)) / P` times by the next `n` ticks. -/
theorem periodic_phase {α : Type} (cb : Callbacks α) (i : Nat) (hcb : KeepsSlot cb i)
    (hi1 : 1 ≤ i) (hi2 : i < EVENT_MAX) (f P : Nat) (hf : f ≠ 0) (hP : P < 65536) :
    ∀ (n : Nat) (s : EventState α) (r : Nat), s.event_service = 0 →
      s.event_list.length = EVENT_MAX → 1 ≤ r → r ≤ P →
      slotAt s i = ⟨(s.tick + r) % 65536, P, 0, f⟩ →
      callsFor i (event_ticks cb n s).2 = List.replicate ((n + (P - r)) / P) ⟨i, f⟩ := by
  intro n
  induction n with
  | zero =>
    intro s r _ _ h1 h2 _
    have : (P - r) / P = 0 := Nat.div_eq_of_lt (by omega)
    simp [event_ticks, callsFor, this]
  | succ n ih =>
    intro s r hsvc hlen hr1 hr2 hslot
    obtain ⟨t1, t2, t3, t4, t5⟩ := event_tick_slot cb i hcb hi1 hi2 s hsvc hlen
    simp only [event_ticks, callsFor_append]
    by_cases hr : r = 1
    · subst hr
      obtain ⟨a, b⟩ := t4 (by rw [hslot]; exact ⟨hf, rfl⟩)
      have hnew : slotAt (event_tick cb s).1 i =
          ⟨((event_tick cb s).1.tick + P) % 65536, P, 0, f⟩ := by
        rw [a, hslot, t1]; simp [event_fire]
      rw [b, ih (event_tick cb s).1 P t2 t3 (by omega) (le_refl P) hnew, hslot]
      have e1 : (n + 1 + (P - 1)) / P = (n + (P - P)) / P + 1 := by
        have : n + 1 + (P - 1) = n + P := by omega
        rw [this, Nat.add_div_right n (by omega)]
        simp
      rw [e1, List.replicate_succ]
      rfl
    · obtain ⟨a, b⟩ := t5 (by
        rw [hslot]
        simp only [not_and]
        intro _ hw
        have hw2 : (s.tick + r) % 65536 = (s.tick + 1) % 65536 := hw
        omega)
      have hnew : slotAt (event_tick cb s).1 i =
          ⟨((event_tick cb s).1.tick + (r - 1)) % 65536, P, 0, f⟩ := by
        rw [a, hslot, t1]
        have : (s.tick + r) % 65536 = ((s.tick + 1) % 65536 + (r - 1)) % 65536 := by omega
        rw [this]
      rw [b, ih (event_tick cb s).1 (r - 1) t2 t3 (by omega) (by omega) hnew]
      have e1 : n + 1 + (P - r) = n + (P - (r - 1)) := by omega
      rw [e1, List.nil_append]

/-- A finite entry with `q ≥ 1` firings left that is `r` ticks away from its
next firing is called `min ((n + (P - r)) / P) q` times by the next `n` ticks,
and its slot is free afterwards exactly when all `q` firings have happened. -/
theorem finite_phase {α : Type} (cb : Callbacks α) (i : Nat) (hcb : KeepsSlot cb i)
    (hi1 : 1 ≤ i) (hi2 : i < EVENT_MAX) (f P : Nat) (hf : f ≠ 0) (hP : P < 65536) :
    ∀ (n : Nat) (s : EventState α) (r q : Nat), s.event_service = 0 →
      s.event_list.length = EVENT_MAX → 1 ≤ r → r ≤ P → 1 ≤ q →
      slotAt s i = ⟨(s.tick + r) % 65536, P, q, f⟩ →
      callsFor i (event_ticks cb n s).2 =
        List.replicate (min ((n + (P - r)) / P) q) ⟨i, f⟩ ∧
      (q ≤ (n + (P - r)) / P → (slotAt (event_ticks cb n s).1 i).e_func = 0) ∧
      ((n + (P - r)) / P < q → (slotAt (event_ticks cb n s).1 i).e_func = f) := by
  intro n
  induction n with
  | zero =>
    intro s r q _ _ h1 h2 hq hslot
    have h0 : (0 + (P - r)) / P = 0 := Nat.div_eq_of_lt (by omega)
    rw [h0]
    refine ⟨by simp [event_ticks, callsFor], fun h => by omega, fun _ => ?_⟩
    simp [event_ticks, hslot]
  | succ n ih =>
    intro s r q hsvc hlen hr1 hr2 hq hslot
    obtain ⟨t1, t2, t3, t4, t5⟩ := event_tick_slot cb i hcb hi1 hi2 s hsvc hlen
    simp only [event_ticks, callsFor_append]
    by_cases hr : r = 1
    · subst hr
      obtain ⟨a, b⟩ := t4 (by rw [hslot]; exact ⟨hf, rfl⟩)
      have e1 : (n + 1 + (P - 1)) / P = n / P + 1 := by
        have : n + 1 + (P - 1) = n + P := by omega
        rw [this, Nat.add_div_right n (by omega)]
      rw [e1, b, hslot]
      by_cases hq1 : q = 1
      · subst hq1
        have hnew : (slotAt (event_tick cb s).1 i).e_func = 0 := by
          rw [a, hslot]; simp [event_fire]
        obtain ⟨c, d⟩ := free_slot_stays cb i hcb hi1 hi2 n (event_tick cb s).1 t2 t3 hnew
        rw [c]
        have hm : ∀ d : Nat, min (d + 1) 1 = 1 := by
          intro d; simp only [Nat.min_def]; split_ifs <;> omega
        rw [hm]
        exact ⟨rfl, fun _ => d, fun h => absurd h (Nat.not_lt.mpr (Nat.le_add_left 1 _))⟩
      · have hnew : slotAt (event_tick cb s).1 i =
            ⟨((event_tick cb s).1.tick + P) % 65536, P, q - 1, f⟩ := by
          rw [a, hslot, t1]
          have hq0 : q ≠ 0 := by omega
          have hq2 : q - 1 ≠ 0 := by omega
          simp [event_fire, hq0, hq2]
        obtain ⟨c, d, e⟩ := ih (event_tick cb s).1 P (q - 1) t2 t3 (by omega) (le_refl P)
          (by omega) hnew
        rw [Nat.sub_self, Nat.add_zero] at c d e
        rw [c]
        generalize n / P = dd at d e ⊢
        have hm : ∀ d : Nat, min (d + 1) q = min d (q - 1) + 1 := by
          intro d; simp only [Nat.min_def]; split_ifs <;> omega
        rw [hm, List.replicate_succ]
        exact ⟨rfl, fun h => d (by omega), fun h => e (by omega)⟩
    · obtain ⟨a, b⟩ := t5 (by
        rw [hslot]
        simp only [not_and]
        intro _ hw
        have hw2 : (s.tick + r) % 65536 = (s.tick + 1) % 65536 := hw
        omega)
      have hnew : slotAt (event_tick cb s).1 i =
          ⟨((event_tick cb s).1.tick + (r - 1)) % 65536, P, q, f⟩ := by
        rw [a, hslot, t1]
        have : (s.tick + r) % 65536 = ((s.tick + 1) % 65536 + (r - 1)) % 65536 := by omega
        rw [this]
      have e1 : n + 1 + (P - r) = n + (P - (r - 1)) := by omega
      rw [b, e1, List.nil_append]
      exact ih (event_tick cb s).1 (r - 1) q t2 t3 (by omega) (by omega) hq hnew

/-- The scan of event_register over a range with no free slot runs to `i = 0`
and changes nothing. -/
theorem event_register_scan_full {α : Type} (f P n : Nat) :
    ∀ (j : Nat) (s : EventState α), (∀ k, 1 ≤ k → k ≤ j → (slotAt s k).e_func ≠ 0) →
      event_register_scan f P n j s = (s, 0) := by
  intro j
  induction j with
  | zero => intro s _; rfl
  | succ j ih =>
    intro s h
    rw [event_register_scan, if_neg (h (j + 1) (by omega) (le_refl _))]
    exact ih s (fun k h1 h2 => h k h1 (by omega))

/-- The scan of event_register over a range with a free slot stops at a free
slot of that range and writes the new entry there. -/
theorem event_register_scan_found {α : Type} (f P n : Nat) :
    ∀ (j : Nat) (s : EventState α), (∃ k, 1 ≤ k ∧ k ≤ j ∧ (slotAt s k).e_func = 0) →
      1 ≤ (event_register_scan f P n j s).2 ∧ (event_register_scan f P n j s).2 ≤ j ∧
      (slotAt s (event_register_scan f P n j s).2).e_func = 0 ∧
      (event_register_scan f P n j s).1 =
        { s with event_list :=
            (s.event_list.set (event_register_scan f P n j s).2 ⟨(s.tick + P) % 65536, P, n, f⟩) }
      := by
  intro j
  induction j with
  | zero => intro s ⟨k, h1, h2, _⟩; omega
  | succ j ih =>
    intro s ⟨k, h1, h2, h3⟩
    by_cases hfree : (slotAt s (j + 1)).e_func = 0
    · rw [event_register_scan, if_pos hfree]
      exact ⟨by simp, le_refl _, hfree, rfl⟩
    · rw [event_register_scan, if_neg hfree]
      have hk : k ≠ j + 1 := fun e => hfree (e ▸ h3)
      obtain ⟨a, b, c, d⟩ := ih s ⟨k, h1, by omega, h3⟩
      exact ⟨a, by omega, c, d⟩

/-- A successful event_register: the handle is `slot + 1` for a slot in 1..9
that now holds the new entry; nothing else of the scheduler changed. -/
theorem event_register_found {α : Type} (s : EventState α) (f P n : Nat)
    (hlen : s.event_list.length = EVENT_MAX)
    (hfree : ∃ j, 1 ≤ j ∧ j < EVENT_MAX ∧ (slotAt s j).e_func = 0) :
    1 ≤ (event_register s f P n).2 - 1 ∧ (event_register s f P n).2 - 1 < EVENT_MAX ∧
    2 ≤ (event_register s f P n).2 ∧
    (event_register s f P n).1.tick = s.tick ∧
    (event_register s f P n).1.event_service = s.event_service ∧
    (event_register s f P n).1.event_list.length = EVENT_MAX ∧
    slotAt (event_register s f P n).1 ((event_register s f P n).2 - 1) =
      ⟨(s.tick + P) % 65536, P, n, f⟩ := by
  obtain ⟨j, h1, h2, h3⟩ := hfree
  obtain ⟨a, b, _, d⟩ := event_register_scan_found f P n (EVENT_MAX - 1) s
    ⟨j, h1, by simp only [EVENT_MAX] at h2 ⊢; omega, h3⟩
  simp only [EVENT_MAX] at a b d hlen ⊢
  simp only [event_register, EVENT_MAX]
  have hmod : ((event_register_scan f P n (10 - 1) s).2 + 1) % 256 - 1 =
      (event_register_scan f P n (10 - 1) s).2 := by omega
  rw [hmod, d]
  refine ⟨a, by omega, by omega, rfl, rfl, by simp [hlen], ?_⟩
  simp only [slotAt]
  exact getD_set_self _ _ _ _ (by omega)

/-- A free slot stays free through the dispatch loop, and is not called, when no
callback registers into it. -/
theorem event_dispatch_free {α : Type} (cb : Callbacks α) (i : Nat) (hcb : KeepsFree cb i) :
    ∀ (j : Nat) (s : EventState α), (slotAt s i).e_func = 0 →
      (slotAt (event_dispatch cb j s).1 i).e_func = 0 ∧
      callsFor i (event_dispatch cb j s).2 = [] := by
  intro j
  induction j with
  | zero => intro s h; simp [event_dispatch, callsFor, h]
  | succ j ih =>
    intro s hfree
    by_cases hdue : (slotAt s (j + 1)).e_func ≠ 0 ∧ (slotAt s (j + 1)).e_when = s.tick
    · rw [event_dispatch_due cb j s hdue]
      have hne : j + 1 ≠ i := fun e => hdue.1 (e ▸ hfree)
      have h1 : (slotAt (event_call cb (j + 1) s) i).e_func = 0 := by
        apply hcb
        simp only [slotAt]
        rw [getD_set_other _ _ _ _ _ hne]
        exact hfree
      obtain ⟨a, b⟩ := ih (event_call cb (j + 1) s) h1
      refine ⟨a, ?_⟩
      simpa [callsFor, hne] using b
    · rw [event_dispatch_idle cb j s hdue]
      exact ih s hfree

/-- A free slot stays free through any number of ticks, and is not called, when
no callback registers into it. -/
theorem event_ticks_free {α : Type} (cb : Callbacks α) (i : Nat) (hcb : KeepsFree cb i) :
    ∀ (n : Nat) (s : EventState α), (slotAt s i).e_func = 0 →
      (slotAt (event_ticks cb n s).1 i).e_func = 0 ∧
      callsFor i (event_ticks cb n s).2 = [] := by
  intro n
  induction n with
  | zero => intro s h; simp [event_ticks, callsFor, h]
  | succ n ih =>
    intro s hfree
    have h1 : (slotAt (event_tick cb s).1 i).e_func = 0 ∧ callsFor i (event_tick cb s).2 = [] := by
      by_cases hsvc : s.event_service ≠ 0
      · simp [event_tick, hsvc, callsFor, hfree]
      · obtain ⟨a, b⟩ := event_dispatch_free cb i hcb (EVENT_MAX - 1)
          { s with event_service := 1, tick := (s.tick + 1) % 65536 } hfree
        simp only [event_tick, hsvc, if_false]
        exact ⟨a, b⟩
    obtain ⟨c, d⟩ := ih (event_tick cb s).1 h1.1
    simp only [event_ticks, callsFor_append, h1.2, d, List.append_nil]
    exact ⟨c, trivial⟩

theorem idleCallbacks_keepsSlot (i : Nat) : KeepsSlot idleCallbacks i :=
  fun _ _ _ => ⟨rfl, rfl, rfl⟩

theorem idleCallbacks_keepsFree (i : Nat) : KeepsFree idleCallbacks i :=
  fun _ _ _ h => h

/-! ## Scheduler: specification properties -/

/-- C2. Periodic timers never drop: after a successful event_register(f, P, 0)
with `1 ≤ P ≤ 255`, from any value of the tick counter, `k * P` successive
(non-overlapping) calls of event_tick call `f` for that entry exactly `k`
times, provided no callback cancels, resets or overwrites the entry. -/
theorem periodic_timer_never_drops {α : Type} (cb : Callbacks α) (s : EventState α)
    (f P k : Nat) (hlen : s.event_list.length = EVENT_MAX) (hsvc : s.event_service = 0)
    (hf : f ≠ 0) (hP1 : 1 ≤ P) (hP2 : P < 256)
    (hfree : ∃ j, 1 ≤ j ∧ j < EVENT_MAX ∧ (slotAt s j).e_func = 0)
    (hcb : KeepsSlot cb ((event_register s f P 0).2 - 1)) :
    callsFor ((event_register s f P 0).2 - 1)
        (event_ticks cb (k * P) (event_register s f P 0).1).2 =
      List.replicate k ⟨(event_register s f P 0).2 - 1, f⟩ := by
  obtain ⟨r1, r2, _, r4, r5, r6, r7⟩ := event_register_found s f P 0 hlen hfree
  have h := periodic_phase cb _ hcb r1 r2 f P hf (by omega) (k * P)
    (event_register s f P 0).1 P (by rw [r5]; exact hsvc) r6 hP1 (le_refl P)
    (by rw [r7, r4])
  rw [h, Nat.sub_self, Nat.add_zero, Nat.mul_div_cancel k (by omega)]

/-- C2, at a concrete input: on the freshly initialised table a timer of period
2 is called 3 times by 6 ticks. -/
theorem periodic_timer_never_drops_witness :
    callsFor 9 (event_ticks idleCallbacks (3 * 2) (event_register sched0 7 2 0).1).2 =
      List.replicate 3 ⟨9, 7⟩ :=
  periodic_timer_never_drops idleCallbacks sched0 7 2 3 (by decide) (by decide) (by decide)
    (by decide) (by decide) ⟨9, by decide, by decide, by decide⟩ (idleCallbacks_keepsSlot _)

/-- C3, general form: when every slot that event_register scans (1..9) is
occupied, the call leaves the scheduler unchanged and returns the handle 1. -/
theorem event_register_full {α : Type} (s : EventState α) (f P n : Nat)
    (hfull : ∀ k, 1 ≤ k → k ≤ EVENT_MAX - 1 → (slotAt s k).e_func ≠ 0) :
    event_register s f P n = (s, 1) := by
  simp only [event_register, event_register_scan_full f P n (EVENT_MAX - 1) s hfull]

/-- C3. Table exhaustion, evaluated on a full table: event_register leaves the
table unchanged but returns the handle 1, not the null handle 0. -/
theorem event_register_exhausted_returns_one :
    event_register schedFull 7 5 0 = (schedFull, 1) ∧ (event_register schedFull 7 5 0).2 ≠ 0 := by
  decide

/-- C4. Cancel stops a timer: after event_cancel on the handle `h` of an
occupied entry the handle variable is 0 and the slot is free; through any
number of later calls of event_tick the slot stays free and nothing is called
for it, provided no callback registers a new timer into the freed slot. -/
theorem cancel_stops_timer {α : Type} (cb : Callbacks α) (s : EventState α) (h n : Nat)
    (hh : 1 ≤ h) (hocc : (slotAt s (h - 1)).e_func ≠ 0) (hcb : KeepsFree cb (h - 1)) :
    (event_cancel s h).2 = 0 ∧
    (slotAt (event_cancel s h).1 (h - 1)).e_func = 0 ∧
    callsFor (h - 1) (event_ticks cb n (event_cancel s h).1).2 = [] ∧
    (slotAt (event_ticks cb n (event_cancel s h).1).1 (h - 1)).e_func = 0 := by
  have hh0 : h ≠ 0 := by omega
  have hlt : h - 1 < s.event_list.length := by
    by_contra hge
    apply hocc
    simp only [slotAt]
    rw [List.getD_eq_default _ _ (by omega)]
    rfl
  have hfree : (slotAt (event_cancel s h).1 (h - 1)).e_func = 0 := by
    simp only [event_cancel, hh0, ne_eq, not_false_eq_true, if_true, slotAt]
    rw [getD_set_self _ _ _ _ hlt]
  obtain ⟨a, b⟩ := event_ticks_free cb (h - 1) hcb n (event_cancel s h).1 hfree
  refine ⟨?_, hfree, b, a⟩
  simp [event_cancel, hh0]

/-- C4, at a concrete input: the timer in slot 9 (handle 10) of the full table
is cancelled and 20 ticks follow. -/
theorem cancel_stops_timer_witness :
    (event_cancel schedFull 10).2 = 0 ∧
    (slotAt (event_cancel schedFull 10).1 (10 - 1)).e_func = 0 ∧
    callsFor (10 - 1) (event_ticks idleCallbacks 20 (event_cancel schedFull 10).1).2 = [] ∧
    (slotAt (event_ticks idleCallbacks 20 (event_cancel schedFull 10).1).1 (10 - 1)).e_func = 0 :=
  cancel_stops_timer idleCallbacks schedFull 10 20 (by decide) (by decide)
    (idleCallbacks_keepsFree _)

/-- C5. Finite timers: after a successful event_register(f, P, n) with
`1 ≤ P ≤ 255` and `n ≥ 1`, the first `m` ticks call `f` for that entry
exactly `min (m / P) n` times, for every `m`: once on each of the ticks
P, 2P, .., nP and never after. The slot still holds `f` before tick `n * P`
and is free from tick `n * P` on. No callback touches the entry. -/
theorem finite_timer_fires_n_times {α : Type} (cb : Callbacks α) (s : EventState α)
    (f P n m : Nat) (hlen : s.event_list.length = EVENT_MAX) (hsvc : s.event_service = 0)
    (hf : f ≠ 0) (hP1 : 1 ≤ P) (hP2 : P < 256) (hn1 : 1 ≤ n)
    (hfree : ∃ j, 1 ≤ j ∧ j < EVENT_MAX ∧ (slotAt s j).e_func = 0)
    (hcb : KeepsSlot cb ((event_register s f P n).2 - 1)) :
    callsFor ((event_register s f P n).2 - 1)
        (event_ticks cb m (event_register s f P n).1).2 =
      List.replicate (min (m / P) n) ⟨(event_register s f P n).2 - 1, f⟩ ∧
    (n * P ≤ m →
      (slotAt (event_ticks cb m (event_register s f P n).1).1
        ((event_register s f P n).2 - 1)).e_func = 0) ∧
    (m < n * P →
      (slotAt (event_ticks cb m (event_register s f P n).1).1
        ((event_register s f P n).2 - 1)).e_func = f) := by
  obtain ⟨r1, r2, _, r4, r5, r6, r7⟩ := event_register_found s f P n hlen hfree
  obtain ⟨a, b, c⟩ := finite_phase cb _ hcb r1 r2 f P hf (by omega) m
    (event_register s f P n).1 P n (by rw [r5]; exact hsvc) r6 hP1 (le_refl P) hn1
    (by rw [r7, r4])
  rw [Nat.sub_self, Nat.add_zero] at a b c
  have hP0 : 0 < P := by omega
  exact ⟨a, fun h => b ((Nat.le_div_iff_mul_le hP0).mpr h),
    fun h => c ((Nat.div_lt_iff_lt_mul hP0).mpr h)⟩

/-- C5, at a concrete input: a timer of period 3 with 2 occurrences, watched for
10 ticks. -/
theorem finite_timer_fires_n_times_witness :
    callsFor 9 (event_ticks idleCallbacks 10 (event_register sched0 7 3 2).1).2 =
      List.replicate (min (10 / 3) 2) ⟨9, 7⟩ ∧
    (2 * 3 ≤ 10 →
      (slotAt (event_ticks idleCallbacks 10 (event_register sched0 7 3 2).1).1 9).e_func = 0) ∧
    (10 < 2 * 3 →
      (slotAt (event_ticks idleCallbacks 10 (event_register sched0 7 3 2).1).1 9).e_func = 7) :=
  finite_timer_fires_n_times idleCallbacks sched0 7 3 2 10 (by decide) (by decide) (by decide)
    (by decide) (by decide) (by decide) ⟨9, by decide, by decide, by decide⟩
    (idleCallbacks_keepsSlot _)

/-- C6. Reset restarts the countdown: for the handle `h` of an occupied entry,
event_reset sets that entry's `e_when` to `(tick + e_period) % 65536` and
changes nothing else (period, occurrences, callback, every other entry, the
tick counter, the service flag); the entry is then the very entry a successful
event_register with the same callback, period and occurrence count writes at
the same tick. -/
theorem event_reset_restarts_countdown {α : Type} (s : EventState α) (h : Nat)
    (hlen : s.event_list.length = EVENT_MAX) (hh : 1 ≤ h)
    (hocc : (slotAt s (h - 1)).e_func ≠ 0) :
    slotAt (event_reset s h) (h - 1) =
      { slotAt s (h - 1) with
        e_when := (s.tick + (slotAt s (h - 1)).e_period) % 65536 } ∧
    (∀ j, j ≠ h - 1 → slotAt (event_reset s h) j = slotAt s j) ∧
    (event_reset s h).event_list.length = s.event_list.length ∧
    (event_reset s h).tick = s.tick ∧
    (event_reset s h).event_service = s.event_service ∧
    (event_reset s h).ext = s.ext ∧
    (∀ t : EventState α, t.tick = s.tick → t.event_list.length = EVENT_MAX →
      (∃ j, 1 ≤ j ∧ j < EVENT_MAX ∧ (slotAt t j).e_func = 0) →
      slotAt (event_register t (slotAt s (h - 1)).e_func (slotAt s (h - 1)).e_period
          (slotAt s (h - 1)).e_occurrences).1
        ((event_register t (slotAt s (h - 1)).e_func (slotAt s (h - 1)).e_period
          (slotAt s (h - 1)).e_occurrences).2 - 1) =
      slotAt (event_reset s h) (h - 1)) := by
  have hlt : h - 1 < s.event_list.length := by
    by_contra hge
    apply hocc
    simp only [slotAt]
    rw [List.getD_eq_default _ _ (by omega)]
    rfl
  have hidx : (h + 255) % 256 = h - 1 := by
    simp only [EVENT_MAX] at hlen
    omega
  have hself : slotAt (event_reset s h) (h - 1) =
      { slotAt s (h - 1) with
        e_when := (s.tick + (slotAt s (h - 1)).e_period) % 65536 } := by
    simp only [event_reset, hidx]
    simp only [slotAt]
    rw [getD_set_self _ _ _ _ hlt]
  refine ⟨hself, ?_, ?_, rfl, rfl, rfl, ?_⟩
  · intro j hj
    simp only [event_reset, hidx]
    simp only [slotAt]
    exact getD_set_other _ _ _ _ _ (Ne.symm hj)
  · simp [event_reset]
  · intro t ht htlen htfree
    obtain ⟨_, _, _, _, _, _, r7⟩ := event_register_found t (slotAt s (h - 1)).e_func
      (slotAt s (h - 1)).e_period (slotAt s (h - 1)).e_occurrences htlen htfree
    rw [r7, hself, ht]

/-- C6, at a concrete input: the timer in slot 9 of the full table is reset. -/
theorem event_reset_restarts_countdown_witness :
    slotAt (event_reset schedFull 10) (10 - 1) =
      { slotAt schedFull (10 - 1) with
        e_when := (schedFull.tick + (slotAt schedFull (10 - 1)).e_period) % 65536 } :=
  (event_reset_restarts_countdown schedFull 10 (by decide) (by decide) (by decide)).1

/-- C7. Overlapping tick is dropped: a call of event_tick made while the
in-service flag is set returns with the tick counter, the timer table and the
rest of the state unchanged, and calls nothing. -/
theorem overlapping_tick_dropped {α : Type} (cb : Callbacks α) (s : EventState α)
    (h : s.event_service ≠ 0) : event_tick cb s = (s, []) := by
  simp [event_tick, h]

/-- C7, at a concrete input: a dispatch pass is in service and a timer is due
on the next tick, yet the nested call does nothing. -/
theorem overlapping_tick_dropped_witness :
    event_tick idleCallbacks { schedFull with event_service := 1, tick := 4 } =
      ({ schedFull with event_service := 1, tick := 4 }, []) :=
  overlapping_tick_dropped idleCallbacks { schedFull with event_service := 1, tick := 4 }
    (by decide)

/-! ## Codec: auxiliary lemmas -/

set_option maxRecDepth 100000 in
/-- Bit fields of the start byte built by fsbus_snd, for a 5-bit controller
ID, a command high bit `h` and a value low bit `b`. -/
theorem snd_byte0_bits : ∀ cid < 32, ∀ h < 2, ∀ b < 2,
    ((0x80 ||| (cid <<< 2) ||| h ||| b) % 256) &&& 0x80 ≠ 0 ∧
    (((0x80 ||| (cid <<< 2) ||| h ||| b) % 256) &&& 0x7C) >>> 2 = cid ∧
    ((0x80 ||| (cid <<< 2) ||| h ||| b) % 256) &&& 0x02 = 0 ∧
    ((0x80 ||| (cid <<< 2) ||| h ||| b) % 256) &&& 0x01 = (h ||| b) ∧
    (0x80 ||| (cid <<< 2) ||| h ||| b) % 256 < 256 := by decide

set_option maxRecDepth 100000 in
theorem value_join : ∀ b < 2, ∀ h < 128, (b ||| ((h &&& 0x7F) <<< 1)) % 256 = b + 2 * h := by
  decide

set_option maxRecDepth 100000 in
theorem cmd_high_truncated : ∀ c < 256, ((c &&& 0x02) <<< 7) % 256 = 0 := by decide

set_option maxRecDepth 100000 in
theorem low_byte_bits : ∀ c < 128, c &&& 0x80 = 0 ∧ c &&& 0x7F = c := by decide

/-- The bytes fsbus_snd writes for a command code below 128. -/
theorem fsbus_snd_bytes (cid code : Nat) (v : Int) (hcode : code < 128) :
    fsbus_snd cid code v 2 =
      [(0x80 ||| (cid <<< 2) ||| 0 ||| (v % 2).toNat) % 256, code] ∧
    fsbus_snd cid code v 3 =
      [(0x80 ||| (cid <<< 2) ||| 0 ||| (v % 2).toNat) % 256, code, ((v / 2) % 128).toNat] := by
  have h7 : code >>> 7 = 0 := by
    rw [Nat.shiftRight_eq_div_pow]
    exact Nat.div_eq_of_lt hcode
  have hm : code &&& 0x7F = code := (low_byte_bits code hcode).2
  constructor <;> simp [fsbus_snd, List.range_succ, h7, hm]

/-- The decoder fsbus_dio_decode touches only the output registers. -/
theorem fsbus_dio_decode_frame (b : fsbus_block_t) :
    (fsbus_dio_decode b).fs_rcmd = b.fs_rcmd ∧
    (fsbus_dio_decode b).fs_rcmd_v = b.fs_rcmd_v ∧
    (fsbus_dio_decode b).fs_ctrl_type = b.fs_ctrl_type ∧
    (fsbus_dio_decode b).fs_rcv_len = b.fs_rcv_len ∧
    (fsbus_dio_decode b).fs_rcmd_len = b.fs_rcmd_len :=
  ⟨rfl, rfl, rfl, rfl, rfl⟩

/-- The Digital I/O receive routine on a start byte. -/
theorem fs_rcv_dio_on_start (c : Nat) (b : fsbus_block_t) (hc : c < 256) (hs : c &&& 0x80 ≠ 0) :
    (fs_rcv_dio c b).1.fs_ctrl_type = b.fs_ctrl_type ∧
    (fs_rcv_dio c b).1.fs_rcv_len = 1 ∧
    (fs_rcv_dio c b).1.fs_rcmd = 0 ∧
    (fs_rcv_dio c b).1.fs_rcmd_len = 0 ∧
    (fs_rcv_dio c b).1.fs_rcmd_v = c &&& 0x01 := by
  simp [fs_rcv_dio, fs_rcv_complete, fs_rcv_dio_command, fs_rcv_store, fs_rcv_dio_begin, hs,
    cmd_high_truncated c hc]

/-- The Digital I/O receive routine on the second byte of a frame whose code
has a 3-byte dataframe. -/
theorem fs_rcv_dio_on_second_long (c : Nat) (b : fsbus_block_t) (hc : c < 128)
    (hlen : b.fs_rcv_len = 1) (hcmd : b.fs_rcmd = 0) (hclen : b.fs_rcmd_len = 0)
    (hcode : (80 ≤ c ∧ c ≤ 87) ∨ (120 ≤ c ∧ c ≤ 123)) :
    (fs_rcv_dio c b).1.fs_ctrl_type = b.fs_ctrl_type ∧
    (fs_rcv_dio c b).1.fs_rcv_len = 2 ∧
    (fs_rcv_dio c b).1.fs_rcmd = c ∧
    (fs_rcv_dio c b).1.fs_rcmd_len = 3 ∧
    (fs_rcv_dio c b).1.fs_rcmd_v = b.fs_rcmd_v := by
  obtain ⟨h1, h2⟩ := low_byte_bits c hc
  have h127 : c &&& 127 = c := h2
  have hl : fs_rcv_dio_dflen c 0 = 3 := by
    rcases hcode with ⟨ha, hb⟩ | ⟨ha, hb⟩
    · have e1 : ¬ (128 ≤ c) := by omega
      simp [fs_rcv_dio_dflen, e1, ha, hb]
    · have e1 : ¬ (128 ≤ c) := by omega
      have e2 : ¬ (c ≤ 87) := by omega
      have e3 : ¬ (c ≤ 119) := by omega
      simp [fs_rcv_dio_dflen, e1, e2, e3, ha, hb]
  simp [fs_rcv_dio, fs_rcv_complete, fs_rcv_dio_command, fs_rcv_store, fs_rcv_dio_begin,
    hlen, hcmd, hclen, h1, h127, hl]

/-- The Digital I/O receive routine on the second byte of a frame whose code
has a 2-byte dataframe: the frame is complete. -/
theorem fs_rcv_dio_on_second_short (c : Nat) (b : fsbus_block_t)
    (hlen : b.fs_rcv_len = 1) (hcmd : b.fs_rcmd = 0) (hclen : b.fs_rcmd_len = 0)
    (ha : 88 ≤ c) (hb : c ≤ 119) :
    (fs_rcv_dio c b).1.fs_ctrl_type = b.fs_ctrl_type ∧
    (fs_rcv_dio c b).1.fs_rcv_len = 2 ∧
    (fs_rcv_dio c b).1.fs_rcmd = c ∧
    (fs_rcv_dio c b).1.fs_rcmd_len = 2 ∧
    (fs_rcv_dio c b).1.fs_rcmd_v = b.fs_rcmd_v := by
  obtain ⟨h1, h2⟩ := low_byte_bits c (by omega)
  have h127 : c &&& 127 = c := h2
  have hl : fs_rcv_dio_dflen c 0 = 2 := by
    have e1 : ¬ (128 ≤ c) := by omega
    have e2 : ¬ (c ≤ 87) := by omega
    simp [fs_rcv_dio_dflen, e1, e2, ha, hb]
  simp [fs_rcv_dio, fs_rcv_complete, fs_rcv_dio_command, fs_rcv_store, fs_rcv_dio_begin,
    hlen, hcmd, hclen, h1, h127, hl, fsbus_dio_decode_frame]

/-- The Digital I/O receive routine on the third byte of a 3-byte dataframe:
the value is completed. -/
theorem fs_rcv_dio_on_third (c : Nat) (b : fsbus_block_t) (hc : c < 128)
    (hlen : b.fs_rcv_len = 2) (hclen : b.fs_rcmd_len = 3) :
    (fs_rcv_dio c b).1.fs_ctrl_type = b.fs_ctrl_type ∧
    (fs_rcv_dio c b).1.fs_rcmd = b.fs_rcmd ∧
    (fs_rcv_dio c b).1.fs_rcmd_v = (b.fs_rcmd_v ||| ((c &&& 0x7F) <<< 1)) % 256 := by
  obtain ⟨h1, _⟩ := low_byte_bits c hc
  simp [fs_rcv_dio, fs_rcv_complete, fs_rcv_dio_command, fs_rcv_store, fs_rcv_dio_begin,
    hlen, hclen, h1, fsbus_dio_decode_frame]

/-- The completion stage keeps the identity of the block when the decoder
does. -/
theorem fs_rcv_complete_ident (decoder : fsbus_block_t → fsbus_block_t)
    (hd : ∀ b, (decoder b).fs_cid = b.fs_cid ∧ (decoder b).fs_ctrl_type = b.fs_ctrl_type ∧
      (decoder b).fs_callback = b.fs_callback)
    (c : Nat) (b : fsbus_block_t) :
    (fs_rcv_complete decoder c b).1.fs_cid = b.fs_cid ∧
    (fs_rcv_complete decoder c b).1.fs_ctrl_type = b.fs_ctrl_type ∧
    (fs_rcv_complete decoder c b).1.fs_callback = b.fs_callback := by
  unfold fs_rcv_complete
  split_ifs with h1 h2
  · exact hd _
  · exact hd _
  · exact ⟨rfl, rfl, rfl⟩

/-- The routine fs_rcv_dio never changes the controller ID, the controller type
or the callback of the block. -/
theorem fs_rcv_dio_ident (c : Nat) (b : fsbus_block_t) :
    (fs_rcv_dio c b).1.fs_cid = b.fs_cid ∧
    (fs_rcv_dio c b).1.fs_ctrl_type = b.fs_ctrl_type ∧
    (fs_rcv_dio c b).1.fs_callback = b.fs_callback := by
  obtain ⟨h1, h2, h3⟩ := fs_rcv_complete_ident fsbus_dio_decode (fun _ => ⟨rfl, rfl, rfl⟩) c
    (fs_rcv_dio_command c (fs_rcv_store c (fs_rcv_dio_begin c b)))
  have e : (fs_rcv_dio_command c (fs_rcv_store c (fs_rcv_dio_begin c b))).fs_cid = b.fs_cid ∧
      (fs_rcv_dio_command c (fs_rcv_store c (fs_rcv_dio_begin c b))).fs_ctrl_type =
        b.fs_ctrl_type ∧
      (fs_rcv_dio_command c (fs_rcv_store c (fs_rcv_dio_begin c b))).fs_callback =
        b.fs_callback := by
    unfold fs_rcv_dio_command fs_rcv_store fs_rcv_dio_begin
    split_ifs <;> exact ⟨rfl, rfl, rfl⟩
  unfold fs_rcv_dio
  exact ⟨h1.trans e.1, h2.trans e.2.1, h3.trans e.2.2⟩

/-- The routine fs_rcv_display never changes the controller ID, the controller
type or the callback of the block. -/
theorem fs_rcv_display_ident (c : Nat) (b : fsbus_block_t) :
    (fs_rcv_display c b).1.fs_cid = b.fs_cid ∧
    (fs_rcv_display c b).1.fs_ctrl_type = b.fs_ctrl_type ∧
    (fs_rcv_display c b).1.fs_callback = b.fs_callback := by
  obtain ⟨h1, h2, h3⟩ := fs_rcv_complete_ident fsbus_display_decode (fun _ => ⟨rfl, rfl, rfl⟩) c
    (fs_rcv_display_command c (fs_rcv_store c (fs_rcv_display_begin c b)))
  have e : (fs_rcv_display_command c (fs_rcv_store c (fs_rcv_display_begin c b))).fs_cid =
        b.fs_cid ∧
      (fs_rcv_display_command c (fs_rcv_store c (fs_rcv_display_begin c b))).fs_ctrl_type =
        b.fs_ctrl_type ∧
      (fs_rcv_display_command c (fs_rcv_store c (fs_rcv_display_begin c b))).fs_callback =
        b.fs_callback := by
    unfold fs_rcv_display_command fs_rcv_store fs_rcv_display_begin
    split_ifs <;> exact ⟨rfl, rfl, rfl⟩
  unfold fs_rcv_display fs_rcv_display_end
  split_ifs
  · exact ⟨h1.trans e.1, h2.trans e.2.1, h3.trans e.2.2⟩
  · exact ⟨h1.trans e.1, h2.trans e.2.1, h3.trans e.2.2⟩

/-- No receive routine changes the controller ID, the controller type or the
callback of the block it is given. -/
theorem fs_rcv_func_ident (t c : Nat) (b : fsbus_block_t) :
    (fs_rcv_func t c b).1.fs_cid = b.fs_cid ∧
    (fs_rcv_func t c b).1.fs_ctrl_type = b.fs_ctrl_type ∧
    (fs_rcv_func t c b).1.fs_callback = b.fs_callback := by
  unfold fs_rcv_func
  split_ifs
  · exact fs_rcv_dio_ident c b
  · exact fs_rcv_display_ident c b
  · exact ⟨rfl, rfl, rfl⟩

/-- What fs_get_blk returns is the index of a registered block with the ID
asked for. -/
theorem fs_get_blk_from_sound (st : FsbusState) (cid i : Nat) :
    ∀ (fuel k : Nat), fs_get_blk_from st cid fuel k = some i →
      k ≤ i ∧ i < st.next_handle ∧ (st.blocks.getD i default).fs_cid = cid := by
  intro fuel
  induction fuel with
  | zero => intro k h; simp [fs_get_blk_from] at h
  | succ fuel ih =>
    intro k h
    unfold fs_get_blk_from at h
    split_ifs at h with h1 h2
    · simp only [Option.some.injEq] at h
      subst h
      exact ⟨le_refl _, h1, h2.symm⟩
    · obtain ⟨a, b, c⟩ := ih (k + 1) h
      exact ⟨by omega, b, c⟩

theorem fs_get_blk_sound (st : FsbusState) (cid i : Nat) (h : fs_get_blk st cid = some i) :
    i < st.next_handle ∧ (st.blocks.getD i default).fs_cid = cid :=
  (fs_get_blk_from_sound st cid i st.next_handle 0 h).2

/-- The dispatcher fsbus_rcv on the start byte of a frame addressed to a
registered controller. -/
theorem fsbus_rcv_on_start (st : FsbusState) (c i : Nat) (hs : c &&& 0x80 ≠ 0)
    (hcid : (c &&& 0x7C) >>> 2 ≠ 0) (hg : fs_get_blk st ((c &&& 0x7C) >>> 2) = some i) :
    fsbus_rcv c st =
      ({ st with
          fs_cid := (c &&& 0x7C) >>> 2, fs_blk := some i,
          blocks := st.blocks.set i
            (fs_rcv_func (st.blocks.getD i default).fs_ctrl_type c
              (st.blocks.getD i default)).1 },
        (fs_rcv_func (st.blocks.getD i default).fs_ctrl_type c
          (st.blocks.getD i default)).2.map (fun e => (i, e))) := by
  simp [fsbus_rcv, hs, hcid, hg]

/-- The dispatcher fsbus_rcv on a byte that continues a frame addressed to a
registered controller. -/
theorem fsbus_rcv_on_next (st : FsbusState) (c i : Nat) (hs : c &&& 0x80 = 0)
    (hcid : st.fs_cid ≠ 0) (hb : st.fs_blk = some i) :
    fsbus_rcv c st =
      ({ st with
          blocks := st.blocks.set i
            (fs_rcv_func (st.blocks.getD i default).fs_ctrl_type c
              (st.blocks.getD i default)).1 },
        (fs_rcv_func (st.blocks.getD i default).fs_ctrl_type c
          (st.blocks.getD i default)).2.map (fun e => (i, e))) := by
  simp [fsbus_rcv, hs, hcid, hb]

/-- Bytes that continue a frame addressed to the registered block `i` all go
to the receive routine of that block, and to no other block. -/
theorem fsbus_rcv_bytes_next (i : Nat) :
    ∀ (cs : List Nat) (st : FsbusState), (∀ c ∈ cs, c &&& 0x80 = 0) → st.fs_cid ≠ 0 →
      st.fs_blk = some i → i < st.blocks.length →
      (fsbus_rcv_bytes cs st).1.blocks.getD i default =
        (rcv_bytes (fs_rcv_func (st.blocks.getD i default).fs_ctrl_type) cs
          (st.blocks.getD i default)).1 ∧
      (fsbus_rcv_bytes cs st).2 =
        (rcv_bytes (fs_rcv_func (st.blocks.getD i default).fs_ctrl_type) cs
          (st.blocks.getD i default)).2.map (List.map (fun e => (i, e))) ∧
      (∀ j, j ≠ i → (fsbus_rcv_bytes cs st).1.blocks.getD j default =
        st.blocks.getD j default) := by
  intro cs
  induction cs with
  | nil => intro st _ _ _ _; simp [fsbus_rcv_bytes, rcv_bytes]
  | cons c cs ih =>
    intro st hcs hcid hblk hi
    have hc : c &&& 0x80 = 0 := hcs c (List.mem_cons_self _ _)
    have hstep := fsbus_rcv_on_next st c i hc hcid hblk
    obtain ⟨a1, a2, a3⟩ := ih (fsbus_rcv c st).1
      (fun x hx => hcs x (List.mem_cons_of_mem _ hx))
      (by rw [hstep]; exact hcid) (by rw [hstep]; exact hblk)
      (by rw [hstep]; simpa using hi)
    have hb : (fsbus_rcv c st).1.blocks.getD i default =
        (fs_rcv_func (st.blocks.getD i default).fs_ctrl_type c (st.blocks.getD i default)).1 := by
      rw [hstep]
      exact getD_set_self _ _ _ _ hi
    have ht : ((fsbus_rcv c st).1.blocks.getD i default).fs_ctrl_type =
        (st.blocks.getD i default).fs_ctrl_type := by
      rw [hb]
      exact (fs_rcv_func_ident _ c _).2.1
    rw [ht, hb] at a1 a2
    refine ⟨?_, ?_, ?_⟩
    · simp only [fsbus_rcv_bytes, rcv_bytes]
      exact a1
    · simp only [fsbus_rcv_bytes, rcv_bytes, List.map_cons]
      rw [a2, hstep]
    · intro j hj
      simp only [fsbus_rcv_bytes]
      rw [a3 j hj, hstep]
      exact getD_set_other _ _ _ _ _ (Ne.symm hj)

/-- A whole frame addressed to a registered controller (a start byte carrying
its non-zero ID, then bytes without the start bit) goes, byte by byte, to the
receive routine of the block fs_get_blk finds for that ID, and to no other. -/
theorem fsbus_rcv_frame (st : FsbusState) (c0 : Nat) (cs : List Nat) (i : Nat)
    (hs : c0 &&& 0x80 ≠ 0) (hcid : (c0 &&& 0x7C) >>> 2 ≠ 0)
    (hg : fs_get_blk st ((c0 &&& 0x7C) >>> 2) = some i) (hi : i < st.blocks.length)
    (hcs : ∀ c ∈ cs, c &&& 0x80 = 0) :
    (fsbus_rcv_bytes (c0 :: cs) st).1.blocks.getD i default =
      (rcv_bytes (fs_rcv_func (st.blocks.getD i default).fs_ctrl_type) (c0 :: cs)
        (st.blocks.getD i default)).1 ∧
    (fsbus_rcv_bytes (c0 :: cs) st).2 =
      (rcv_bytes (fs_rcv_func (st.blocks.getD i default).fs_ctrl_type) (c0 :: cs)
        (st.blocks.getD i default)).2.map (List.map (fun e => (i, e))) ∧
    (∀ j, j ≠ i → (fsbus_rcv_bytes (c0 :: cs) st).1.blocks.getD j default =
      st.blocks.getD j default) := by
  have hstep := fsbus_rcv_on_start st c0 i hs hcid hg
  obtain ⟨a1, a2, a3⟩ := fsbus_rcv_bytes_next i cs (fsbus_rcv c0 st).1 hcs
    (by rw [hstep]; exact hcid) (by rw [hstep]) (by rw [hstep]; simpa using hi)
  have hb : (fsbus_rcv c0 st).1.blocks.getD i default =
      (fs_rcv_func (st.blocks.getD i default).fs_ctrl_type c0 (st.blocks.getD i default)).1 := by
    rw [hstep]
    exact getD_set_self _ _ _ _ hi
  have ht : ((fsbus_rcv c0 st).1.blocks.getD i default).fs_ctrl_type =
      (st.blocks.getD i default).fs_ctrl_type := by
    rw [hb]
    exact (fs_rcv_func_ident _ c0 _).2.1
  rw [ht, hb] at a1 a2
  refine ⟨?_, ?_, ?_⟩
  · simp only [fsbus_rcv_bytes, rcv_bytes]
    exact a1
  · simp only [fsbus_rcv_bytes, rcv_bytes, List.map_cons]
    rw [a2, hstep]
  · intro j hj
    simp only [fsbus_rcv_bytes]
    rw [a3 j hj, hstep]
    exact getD_set_other _ _ _ _ _ (Ne.symm hj)

/-- The Digital I/O receive routine fed a 3-byte frame of a 3-byte code. -/
theorem fs_rcv_dio_frame_long (b0 : fsbus_block_t) (c0 code hi : Nat) (hc0 : c0 < 256)
    (hs : c0 &&& 0x80 ≠ 0) (hhi : hi < 128)
    (hcode : (80 ≤ code ∧ code ≤ 87) ∨ (120 ≤ code ∧ code ≤ 123)) :
    (rcv_bytes fs_rcv_dio [c0, code, hi] b0).1.fs_rcmd = code ∧
    (rcv_bytes fs_rcv_dio [c0, code, hi] b0).1.fs_rcmd_v =
      ((c0 &&& 0x01) ||| ((hi &&& 0x7F) <<< 1)) % 256 := by
  obtain ⟨_, a2, a3, a4, a5⟩ := fs_rcv_dio_on_start c0 b0 hc0 hs
  obtain ⟨_, b2, b3, b4, b5⟩ := fs_rcv_dio_on_second_long code (fs_rcv_dio c0 b0).1
    (by omega) a2 a3 a4 hcode
  obtain ⟨_, c2, c3⟩ := fs_rcv_dio_on_third hi (fs_rcv_dio code (fs_rcv_dio c0 b0).1).1 hhi b2 b4
  simp only [rcv_bytes]
  exact ⟨by rw [c2, b3], by rw [c3, b5, a5]⟩

/-- The Digital I/O receive routine fed a 2-byte frame of a 2-byte code. -/
theorem fs_rcv_dio_frame_short (b0 : fsbus_block_t) (c0 code : Nat) (hc0 : c0 < 256)
    (hs : c0 &&& 0x80 ≠ 0) (ha : 88 ≤ code) (hb : code ≤ 119) :
    (rcv_bytes fs_rcv_dio [c0, code] b0).1.fs_rcmd = code ∧
    (rcv_bytes fs_rcv_dio [c0, code] b0).1.fs_rcmd_v = c0 &&& 0x01 := by
  obtain ⟨_, a2, a3, a4, a5⟩ := fs_rcv_dio_on_start c0 b0 hc0 hs
  obtain ⟨_, _, b3, _, b5⟩ := fs_rcv_dio_on_second_short code (fs_rcv_dio c0 b0).1 a2 a3 a4 ha hb
  simp only [rcv_bytes]
  exact ⟨b3, by rw [b5, a5]⟩

theorem fs_rcv_func_dio : fs_rcv_func FS_CTRL_DIO = fs_rcv_dio := by
  funext c b
  simp [fs_rcv_func]

/-- The display receive routine on a start byte that opens a raw display
dataframe and does not carry the end bit. -/
theorem fs_rcv_display_raw_on_start (c : Nat) (b : fsbus_block_t) (hs : c &&& 0x80 ≠ 0)
    (hd : c &&& 0x02 = 0) (he : c &&& 0x40 = 0) :
    fs_rcv_display c b =
      ({ b with fs_rcv_len := 1, fs_rcmd := FS_RCMD_DISPLAY, fs_rcmd_len := 0, fs_rcmd_v := 0,
                fs_rcv_buf := b.fs_rcv_buf.set 0 c }, []) := by
  simp [fs_rcv_display, fs_rcv_display_end, fs_rcv_complete, fs_rcv_display_command,
    fs_rcv_store, fs_rcv_display_begin, hs, hd, he]

/-- The display receive routine on a start byte that opens a raw display
dataframe and has bit 6 set (controller IDs 16..31): the decoder and the
callback run at once. -/
theorem fs_rcv_display_raw_on_start_high (c : Nat) (b : fsbus_block_t) (hs : c &&& 0x80 ≠ 0)
    (hd : c &&& 0x02 = 0) (he : c &&& 0x40 ≠ 0) :
    (fs_rcv_display c b).2 =
      RcvEvent.decode :: fs_callback_call b := by
  simp [fs_rcv_display, fs_rcv_display_end, fs_rcv_complete, fs_rcv_display_command,
    fs_rcv_store, fs_rcv_display_begin, hs, hd, he, fs_callback_call, fsbus_display_decode]

/-- The display receive routine on a data byte of a raw display dataframe
without the end bit: the byte is stored and nothing is run. -/
theorem fs_rcv_display_raw_on_data (c : Nat) (b : fsbus_block_t) (hs : c &&& 0x80 = 0)
    (he : c &&& 0x40 = 0) (hcmd : b.fs_rcmd = FS_RCMD_DISPLAY) (hlen : b.fs_rcmd_len = 0) :
    fs_rcv_display c b = (fs_rcv_store c b, []) := by
  simp [fs_rcv_display, fs_rcv_display_end, fs_rcv_complete, fs_rcv_display_command,
    fs_rcv_store, fs_rcv_display_begin, hs, he, hcmd, hlen]

/-- The display receive routine on a data byte of a raw display dataframe with
the end bit: the byte is stored, then the decoder and the callback run. -/
theorem fs_rcv_display_raw_on_end (c : Nat) (b : fsbus_block_t) (hs : c &&& 0x80 = 0)
    (he : c &&& 0x40 ≠ 0) (hcmd : b.fs_rcmd = FS_RCMD_DISPLAY) (hlen : b.fs_rcmd_len = 0) :
    fs_rcv_display c b =
      (fsbus_display_decode (fs_rcv_store c b), RcvEvent.decode :: fs_callback_call b) := by
  simp [fs_rcv_display, fs_rcv_display_end, fs_rcv_complete, fs_rcv_display_command,
    fs_rcv_store, fs_rcv_display_begin, hs, he, hcmd, hlen, fs_callback_call,
    fsbus_display_decode]

/-- A well-formed raw digits frame whose start byte has bit 6 clear (controller
IDs 1..15) makes the display receive routine run the decoder and the callback
once, on the fifth byte, and leaves the decoded frame in the digit string. -/
theorem fs_rcv_display_frame_low_id (b : fsbus_block_t) (c0 d1 d2 d3 d4 : Nat)
    (hs : c0 &&& 0x80 ≠ 0) (hd : c0 &&& 0x02 = 0) (he : c0 &&& 0x40 = 0)
    (h1 : d1 &&& 0x80 = 0 ∧ d1 &&& 0x40 = 0) (h2 : d2 &&& 0x80 = 0 ∧ d2 &&& 0x40 = 0)
    (h3 : d3 &&& 0x80 = 0 ∧ d3 &&& 0x40 = 0) (h4 : d4 &&& 0x80 = 0 ∧ d4 &&& 0x40 ≠ 0) :
    (rcv_bytes fs_rcv_display [c0, d1, d2, d3, d4] b).2 =
      [[], [], [], [], RcvEvent.decode :: fs_callback_call b] := by
  simp only [rcv_bytes]
  rw [fs_rcv_display_raw_on_start c0 b hs hd he]
  rw [fs_rcv_display_raw_on_data d1 _ h1.1 h1.2 rfl rfl]
  rw [fs_rcv_display_raw_on_data d2 _ h2.1 h2.2 rfl rfl]
  rw [fs_rcv_display_raw_on_data d3 _ h3.1 h3.2 rfl rfl]
  rw [fs_rcv_display_raw_on_end d4 _ h4.1 h4.2 rfl rfl]
  rfl

/-- The layout fsbus_snd really produces, for a 5-bit controller ID: `rcmd_len`
bytes; in the start byte the start bit, the ID in bits 6..2, bit 1 clear, and in
bit 0 the OR of the command high bit and bit 0 of the value; then the low seven
bits of the command and, in a 3-byte frame, bits 1..7 of the value. -/
theorem fsbus_snd_layout (cid rcmd : Nat) (v : Int) (hcid : cid ≤ 31) (hr : rcmd < 256) :
    (∀ len, (fsbus_snd cid rcmd v len).length = len) ∧
    (fsbus_snd cid rcmd v 2).getD 0 0 = (fsbus_snd cid rcmd v 3).getD 0 0 ∧
    (fsbus_snd cid rcmd v 2).getD 1 0 = (fsbus_snd cid rcmd v 3).getD 1 0 ∧
    (fsbus_snd cid rcmd v 3).getD 0 0 &&& FS_DF_START ≠ 0 ∧
    ((fsbus_snd cid rcmd v 3).getD 0 0 &&& FS_DF_CID_MASK) >>> 2 = cid ∧
    (fsbus_snd cid rcmd v 3).getD 0 0 &&& FS_DF_B1_CMD_MASK = 0 ∧
    (fsbus_snd cid rcmd v 3).getD 0 0 &&& FS_DF_B1_V0 = ((rcmd >>> 7) ||| (v % 2).toNat) ∧
    (fsbus_snd cid rcmd v 3).getD 1 0 = rcmd &&& 0x7F ∧
    (fsbus_snd cid rcmd v 3).getD 2 0 = ((v / 2) % 128).toNat := by
  have h7 : rcmd >>> 7 < 2 := by
    rw [Nat.shiftRight_eq_div_pow]; omega
  obtain ⟨k1, k2, k3, k4, _⟩ := snd_byte0_bits cid (by omega) (rcmd >>> 7) h7 (v % 2).toNat
    (by omega)
  refine ⟨fun len => by simp [fsbus_snd], rfl, rfl, k1, k2, k3, k4, rfl, rfl⟩

theorem eventsOf_append (i : Nat) (a b : List (Nat × RcvEvent)) :
    eventsOf i (a ++ b) = eventsOf i a ++ eventsOf i b := by
  simp [eventsOf]

theorem eventsOf_map_self (i : Nat) (l : List RcvEvent) :
    eventsOf i (l.map (fun e => (i, e))) = l := by
  induction l with
  | nil => rfl
  | cons a l ih =>
    simp only [eventsOf, List.map_cons, List.filter_cons, decide_True, if_true] at ih ⊢
    rw [ih]

theorem eventsOf_map_other (i k : Nat) (l : List RcvEvent) (h : k ≠ i) :
    eventsOf i (l.map (fun e => (k, e))) = [] := by
  induction l with
  | nil => rfl
  | cons a l ih =>
    simp only [eventsOf, List.map_cons, List.filter_cons, h, decide_False] at ih ⊢
    exact ih

/-- The loop of fsbus_rcv_all hands the byte to every registered block from
index `k` on, once each, and touches nothing else. -/
theorem fsbus_rcv_all_from_spec (c : Nat) :
    ∀ (fuel k : Nat) (st : FsbusState), st.next_handle ≤ st.blocks.length →
      (fsbus_rcv_all_from c fuel k st).1.next_handle = st.next_handle ∧
      (fsbus_rcv_all_from c fuel k st).1.fs_cid = st.fs_cid ∧
      (fsbus_rcv_all_from c fuel k st).1.fs_blk = st.fs_blk ∧
      (fsbus_rcv_all_from c fuel k st).1.blocks.length = st.blocks.length ∧
      (∀ i, k ≤ i → i < k + fuel → i < st.next_handle →
        (fsbus_rcv_all_from c fuel k st).1.blocks.getD i default =
          (fs_rcv_func (st.blocks.getD i default).fs_ctrl_type c (st.blocks.getD i default)).1 ∧
        eventsOf i (fsbus_rcv_all_from c fuel k st).2 =
          (fs_rcv_func (st.blocks.getD i default).fs_ctrl_type c (st.blocks.getD i default)).2) ∧
      (∀ i, ¬ (k ≤ i ∧ i < k + fuel ∧ i < st.next_handle) →
        (fsbus_rcv_all_from c fuel k st).1.blocks.getD i default = st.blocks.getD i default ∧
        eventsOf i (fsbus_rcv_all_from c fuel k st).2 = []) := by
  intro fuel
  induction fuel with
  | zero =>
    intro k st _
    refine ⟨rfl, rfl, rfl, rfl, fun i h1 h2 _ => by omega, fun i _ => ⟨rfl, rfl⟩⟩
  | succ fuel ih =>
    intro k st hwf
    by_cases hk : k < st.next_handle
    · have hklen : k < st.blocks.length := lt_of_lt_of_le hk hwf
      have hdef : fsbus_rcv_all_from c (fuel + 1) k st =
          ((fsbus_rcv_all_from c fuel (k + 1) (fsbus_deliver c k st)).1,
            (fs_rcv_func (st.blocks.getD k default).fs_ctrl_type c
                (st.blocks.getD k default)).2.map (fun e => (k, e)) ++
              (fsbus_rcv_all_from c fuel (k + 1) (fsbus_deliver c k st)).2) := by
        rw [fsbus_rcv_all_from, if_pos hk]
        rfl
      obtain ⟨a1, a2, a3, a4, a5, a6⟩ := ih (k + 1) (fsbus_deliver c k st)
        (by simpa [fsbus_deliver] using hwf)
      have hself : (fsbus_deliver c k st).blocks.getD k default =
          (fs_rcv_func (st.blocks.getD k default).fs_ctrl_type c (st.blocks.getD k default)).1 :=
        getD_set_self _ _ _ _ hklen
      have hother : ∀ i, i ≠ k →
          (fsbus_deliver c k st).blocks.getD i default = st.blocks.getD i default :=
        fun i hik => getD_set_other _ _ _ _ _ (Ne.symm hik)
      have hnh : (fsbus_deliver c k st).next_handle = st.next_handle := rfl
      have hlen : (fsbus_deliver c k st).blocks.length = st.blocks.length := by
        simp [fsbus_deliver]
      rw [hdef]
      refine ⟨a1, a2, a3, by rw [a4, hlen], ?_, ?_⟩
      · intro i h1 h2 h3
        by_cases hik : i = k
        · subst hik
          obtain ⟨b1, b2⟩ := a6 i (by omega)
          refine ⟨by rw [b1, hself], ?_⟩
          rw [eventsOf_append, b2, eventsOf_map_self, List.append_nil]
        · obtain ⟨b1, b2⟩ := a5 i (by omega) (by omega) (by rw [hnh]; exact h3)
          rw [hother i hik] at b1 b2
          refine ⟨b1, ?_⟩
          rw [eventsOf_append, b2, eventsOf_map_other _ _ _ (Ne.symm hik), List.nil_append]
      · intro i hi
        have hik : i ≠ k := by omega
        obtain ⟨b1, b2⟩ := a6 i (by rw [hnh]; omega)
        rw [hother i hik] at b1
        refine ⟨b1, ?_⟩
        rw [eventsOf_append, b2, eventsOf_map_other _ _ _ (Ne.symm hik), List.nil_append]
    · have hdef : fsbus_rcv_all_from c (fuel + 1) k st = (st, []) := by
        rw [fsbus_rcv_all_from, if_neg hk]
      rw [hdef]
      refine ⟨rfl, rfl, rfl, rfl, fun i h1 _ h3 => by omega, fun i _ => ⟨rfl, rfl⟩⟩

/-- The function fsbus_rcv_all hands the byte to each registered block, once,
and leaves the unregistered blocks alone. -/
theorem fsbus_rcv_all_spec (c : Nat) (st : FsbusState) (hwf : st.next_handle ≤ st.blocks.length) :
    (fsbus_rcv_all c st).1.next_handle = st.next_handle ∧
    (fsbus_rcv_all c st).1.fs_cid = st.fs_cid ∧
    (fsbus_rcv_all c st).1.fs_blk = st.fs_blk ∧
    (fsbus_rcv_all c st).1.blocks.length = st.blocks.length ∧
    (∀ i, i < st.next_handle →
      (fsbus_rcv_all c st).1.blocks.getD i default =
        (fs_rcv_func (st.blocks.getD i default).fs_ctrl_type c (st.blocks.getD i default)).1 ∧
      eventsOf i (fsbus_rcv_all c st).2 =
        (fs_rcv_func (st.blocks.getD i default).fs_ctrl_type c (st.blocks.getD i default)).2) ∧
    (∀ i, st.next_handle ≤ i →
      (fsbus_rcv_all c st).1.blocks.getD i default = st.blocks.getD i default ∧
      eventsOf i (fsbus_rcv_all c st).2 = []) := by
  obtain ⟨a1, a2, a3, a4, a5, a6⟩ := fsbus_rcv_all_from_spec c st.next_handle 0 st hwf
  exact ⟨a1, a2, a3, a4, fun i hi => a5 i (Nat.zero_le _) (by omega) hi,
    fun i hi => a6 i (by omega)⟩

/-- One byte of a broadcast frame (the start byte carrying ID 0, or a later
byte while the ID in force is 0) goes to every registered block. -/
theorem fsbus_rcv_broadcast_step (c : Nat) (st : FsbusState)
    (hwf : st.next_handle ≤ st.blocks.length)
    (h : (c &&& 0x80 ≠ 0 ∧ (c &&& 0x7C) >>> 2 = 0) ∨ (c &&& 0x80 = 0 ∧ st.fs_cid = 0)) :
    (fsbus_rcv c st).1.next_handle = st.next_handle ∧
    (fsbus_rcv c st).1.fs_cid = 0 ∧
    (fsbus_rcv c st).1.blocks.length = st.blocks.length ∧
    (∀ i, i < st.next_handle →
      (fsbus_rcv c st).1.blocks.getD i default =
        (fs_rcv_func (st.blocks.getD i default).fs_ctrl_type c (st.blocks.getD i default)).1 ∧
      eventsOf i (fsbus_rcv c st).2 =
        (fs_rcv_func (st.blocks.getD i default).fs_ctrl_type c (st.blocks.getD i default)).2) ∧
    (∀ i, st.next_handle ≤ i →
      (fsbus_rcv c st).1.blocks.getD i default = st.blocks.getD i default ∧
      eventsOf i (fsbus_rcv c st).2 = []) := by
  rcases h with ⟨hs, hid⟩ | ⟨hs, hid⟩
  · have hstep : fsbus_rcv c st =
        fsbus_rcv_all c { st with fs_cid := 0, fs_blk := fs_get_blk st 0 } := by
      simp [fsbus_rcv, hs, hid]
    obtain ⟨a1, a2, _, a4, a5, a6⟩ := fsbus_rcv_all_spec c
      { st with fs_cid := 0, fs_blk := fs_get_blk st 0 } hwf
    rw [hstep]
    exact ⟨a1, a2, a4, a5, a6⟩
  · have hstep : fsbus_rcv c st = fsbus_rcv_all c st := by
      simp [fsbus_rcv, hs, hid]
    obtain ⟨a1, a2, _, a4, a5, a6⟩ := fsbus_rcv_all_spec c st hwf
    rw [hstep]
    exact ⟨a1, by rw [a2, hid], a4, a5, a6⟩

/-- Bytes that continue a broadcast frame all go to every registered block. -/
theorem fsbus_rcv_bytes_broadcast :
    ∀ (cs : List Nat) (st : FsbusState), (∀ c ∈ cs, c &&& 0x80 = 0) → st.fs_cid = 0 →
      st.next_handle ≤ st.blocks.length →
      (∀ i, i < st.next_handle →
        (fsbus_rcv_bytes cs st).1.blocks.getD i default =
          (rcv_bytes (fs_rcv_func (st.blocks.getD i default).fs_ctrl_type) cs
            (st.blocks.getD i default)).1 ∧
        (fsbus_rcv_bytes cs st).2.map (eventsOf i) =
          (rcv_bytes (fs_rcv_func (st.blocks.getD i default).fs_ctrl_type) cs
            (st.blocks.getD i default)).2) ∧
      (∀ i, st.next_handle ≤ i →
        (fsbus_rcv_bytes cs st).1.blocks.getD i default = st.blocks.getD i default ∧
        (∀ tr ∈ (fsbus_rcv_bytes cs st).2, eventsOf i tr = [])) := by
  intro cs
  induction cs with
  | nil =>
    intro st _ _ _
    exact ⟨fun i _ => ⟨rfl, rfl⟩, fun i _ => ⟨rfl, fun tr h => by simp [fsbus_rcv_bytes] at h⟩⟩
  | cons c cs ih =>
    intro st hcs hcid hwf
    have hc : c &&& 0x80 = 0 := hcs c (List.mem_cons_self _ _)
    obtain ⟨s1, s2, s3, s4, s5⟩ := fsbus_rcv_broadcast_step c st hwf (Or.inr ⟨hc, hcid⟩)
    obtain ⟨a1, a2⟩ := ih (fsbus_rcv c st).1 (fun x hx => hcs x (List.mem_cons_of_mem _ hx)) s2
      (by rw [s1, s3]; exact hwf)
    refine ⟨?_, ?_⟩
    · intro i hi
      obtain ⟨b1, b2⟩ := a1 i (by rw [s1]; exact hi)
      obtain ⟨d1, d2⟩ := s4 i hi
      have ht : ((fsbus_rcv c st).1.blocks.getD i default).fs_ctrl_type =
          (st.blocks.getD i default).fs_ctrl_type := by
        rw [d1]; exact (fs_rcv_func_ident _ c _).2.1
      rw [ht, d1] at b1 b2
      simp only [fsbus_rcv_bytes, rcv_bytes, List.map_cons]
      exact ⟨b1, by rw [b2, d2]⟩
    · intro i hi
      obtain ⟨b1, b2⟩ := a2 i (by rw [s1]; exact hi)
      obtain ⟨d1, d2⟩ := s5 i hi
      simp only [fsbus_rcv_bytes]
      refine ⟨by rw [b1, d1], ?_⟩
      intro tr htr
      simp only [List.mem_cons] at htr
      rcases htr with rfl | htr
      · exact d2
      · exact b2 tr htr

/-- A whole broadcast frame (a start byte carrying ID 0, then bytes without the
start bit) goes, byte by byte, to every registered block; the blocks that are
not registered are left alone. -/
theorem fsbus_rcv_frame_broadcast (st : FsbusState) (c0 : Nat) (cs : List Nat)
    (hwf : st.next_handle ≤ st.blocks.length) (hs : c0 &&& 0x80 ≠ 0)
    (hcid : (c0 &&& 0x7C) >>> 2 = 0) (hcs : ∀ c ∈ cs, c &&& 0x80 = 0) :
    (∀ i, i < st.next_handle →
      (fsbus_rcv_bytes (c0 :: cs) st).1.blocks.getD i default =
        (rcv_bytes (fs_rcv_func (st.blocks.getD i default).fs_ctrl_type) (c0 :: cs)
          (st.blocks.getD i default)).1 ∧
      (fsbus_rcv_bytes (c0 :: cs) st).2.map (eventsOf i) =
        (rcv_bytes (fs_rcv_func (st.blocks.getD i default).fs_ctrl_type) (c0 :: cs)
          (st.blocks.getD i default)).2) ∧
    (∀ i, st.next_handle ≤ i →
      (fsbus_rcv_bytes (c0 :: cs) st).1.blocks.getD i default = st.blocks.getD i default ∧
      (∀ tr ∈ (fsbus_rcv_bytes (c0 :: cs) st).2, eventsOf i tr = [])) := by
  obtain ⟨s1, s2, s3, s4, s5⟩ := fsbus_rcv_broadcast_step c0 st hwf (Or.inl ⟨hs, hcid⟩)
  obtain ⟨a1, a2⟩ := fsbus_rcv_bytes_broadcast cs (fsbus_rcv c0 st).1 hcs s2
    (by rw [s1, s3]; exact hwf)
  refine ⟨?_, ?_⟩
  · intro i hi
    obtain ⟨b1, b2⟩ := a1 i (by rw [s1]; exact hi)
    obtain ⟨d1, d2⟩ := s4 i hi
    have ht : ((fsbus_rcv c0 st).1.blocks.getD i default).fs_ctrl_type =
        (st.blocks.getD i default).fs_ctrl_type := by
      rw [d1]; exact (fs_rcv_func_ident _ c0 _).2.1
    rw [ht, d1] at b1 b2
    simp only [fsbus_rcv_bytes, rcv_bytes, List.map_cons]
    exact ⟨b1, by rw [b2, d2]⟩
  · intro i hi
    obtain ⟨b1, b2⟩ := a2 i (by rw [s1]; exact hi)
    obtain ⟨d1, d2⟩ := s5 i hi
    simp only [fsbus_rcv_bytes]
    refine ⟨by rw [b1, d1], ?_⟩
    intro tr htr
    simp only [List.mem_cons] at htr
    rcases htr with rfl | htr
    · exact d2
    · exact b2 tr htr

/-- The search of fs_get_blk finds the first registered block with the ID
asked for. -/
theorem fs_get_blk_from_first (st : FsbusState) (cid i : Nat) :
    ∀ (fuel k : Nat), k ≤ i → i < k + fuel → i < st.next_handle →
      (st.blocks.getD i default).fs_cid = cid →
      (∀ j, k ≤ j → j < i → (st.blocks.getD j default).fs_cid ≠ cid) →
      fs_get_blk_from st cid fuel k = some i := by
  intro fuel
  induction fuel with
  | zero => intro k h1 h2; omega
  | succ fuel ih =>
    intro k h1 h2 h3 h4 h5
    by_cases hik : k = i
    · subst hik
      rw [fs_get_blk_from, if_pos h3, if_pos h4.symm]
    · have hk : k < st.next_handle := by omega
      have hne : ¬ (cid = (st.blocks.getD k default).fs_cid) :=
        fun e => h5 k (le_refl _) (by omega) e.symm
      rw [fs_get_blk_from, if_pos hk, if_neg hne]
      exact ih (k + 1) (by omega) (by omega) h3 h4 (fun j hj1 hj2 => h5 j (by omega) hj2)

/-- The search of fs_get_blk fails when no registered block has the ID asked
for. -/
theorem fs_get_blk_from_none (st : FsbusState) (cid : Nat)
    (h : ∀ j, j < st.next_handle → (st.blocks.getD j default).fs_cid ≠ cid) :
    ∀ (fuel k : Nat), fs_get_blk_from st cid fuel k = none := by
  intro fuel
  induction fuel with
  | zero => intro k; rfl
  | succ fuel ih =>
    intro k
    by_cases hk : k < st.next_handle
    · have hne : ¬ (cid = (st.blocks.getD k default).fs_cid) := fun e => h k hk e.symm
      rw [fs_get_blk_from, if_pos hk, if_neg hne]
      exact ih (k + 1)
    · rw [fs_get_blk_from, if_neg hk]

/-- A frame addressed to an ID that no registered block has changes no block
and runs nothing. -/
theorem fsbus_rcv_frame_nobody (st : FsbusState) (c0 : Nat) (cs : List Nat)
    (hs : c0 &&& 0x80 ≠ 0) (hcid : (c0 &&& 0x7C) >>> 2 ≠ 0)
    (hg : fs_get_blk st ((c0 &&& 0x7C) >>> 2) = none) (hcs : ∀ c ∈ cs, c &&& 0x80 = 0) :
    (fsbus_rcv_bytes (c0 :: cs) st).1.blocks = st.blocks ∧
    (∀ tr ∈ (fsbus_rcv_bytes (c0 :: cs) st).2, tr = []) := by
  have hstep : fsbus_rcv c0 st =
      ({ st with fs_cid := (c0 &&& 0x7C) >>> 2, fs_blk := none }, []) := by
    simp [fsbus_rcv, hs, hcid, hg]
  have hrest : ∀ (l : List Nat) (s : FsbusState), (∀ c ∈ l, c &&& 0x80 = 0) → s.fs_cid ≠ 0 →
      s.fs_blk = none →
      (fsbus_rcv_bytes l s).1.blocks = s.blocks ∧ (∀ tr ∈ (fsbus_rcv_bytes l s).2, tr = []) := by
    intro l
    induction l with
    | nil => intro s _ _ _; exact ⟨rfl, fun tr h => by simp [fsbus_rcv_bytes] at h⟩
    | cons c l ih =>
      intro s hl h1 h2
      have hc : c &&& 0x80 = 0 := hl c (List.mem_cons_self _ _)
      have hst : fsbus_rcv c s = (s, []) := by
        simp [fsbus_rcv, hc, h1, h2]
      obtain ⟨a, b⟩ := ih s (fun x hx => hl x (List.mem_cons_of_mem _ hx)) h1 h2
      simp only [fsbus_rcv_bytes, hst]
      refine ⟨a, ?_⟩
      intro tr htr
      simp only [List.mem_cons] at htr
      rcases htr with rfl | htr
      · rfl
      · exact b tr htr
  obtain ⟨a, b⟩ := hrest cs { st with fs_cid := (c0 &&& 0x7C) >>> 2, fs_blk := none } hcs hcid rfl
  simp only [fsbus_rcv_bytes, hstep]
  refine ⟨a, ?_⟩
  intro tr htr
  simp only [List.mem_cons] at htr
  rcases htr with rfl | htr
  · rfl
  · exact b tr htr

/-! ## Codec: specification properties -/

/-- C1, as stated, fails: the Digital I/O controller of the panel (ID 14) is
sent code 88 with value 2 in a 2-byte frame; the receiver reconstructs the code
but the value 0, not 2. -/
theorem round_trip_value_lost :
    ((fsbus_rcv_bytes (fsbus_snd 14 88 2 2) kapBus).1.blocks.getD 5 default).fs_cid = 14 ∧
    ((fsbus_rcv_bytes (fsbus_snd 14 88 2 2) kapBus).1.blocks.getD 5 default).fs_ctrl_type =
      FS_CTRL_DIO ∧
    ¬ (((fsbus_rcv_bytes (fsbus_snd 14 88 2 2) kapBus).1.blocks.getD 5 default).fs_rcmd = 88 ∧
      ((fsbus_rcv_bytes (fsbus_snd 14 88 2 2) kapBus).1.blocks.getD 5 default).fs_rcmd_v = 2) := by
  decide

/-- C1, amended. Round trip for the Digital I/O class: for every controller ID
in 1..31 whose registered block is a Digital I/O block and every signed 8-bit
value, feeding fsbus_rcv the bytes of fsbus_snd(ID, code, value, 3) for a code
with a 3-byte dataframe (80..87, 120..123) leaves that block with
`fs_rcmd = code` and `fs_rcmd_v` = the value as a byte; feeding it the bytes of
fsbus_snd(ID, code, value, 2) for a code with a 2-byte dataframe (88..119)
leaves it with `fs_rcmd = code` and `fs_rcmd_v` = bit 0 of the value. -/
theorem dio_round_trip (st : FsbusState) (i cid code : Nat) (v : Int)
    (hwf : st.next_handle ≤ st.blocks.length) (hcid1 : 1 ≤ cid) (hcid2 : cid ≤ 31)
    (hv1 : -128 ≤ v) (hv2 : v ≤ 127) (hblk : fs_get_blk st cid = some i)
    (htype : (st.blocks.getD i default).fs_ctrl_type = FS_CTRL_DIO) :
    (((80 ≤ code ∧ code ≤ 87) ∨ (120 ≤ code ∧ code ≤ 123)) →
      ((fsbus_rcv_bytes (fsbus_snd cid code v 3) st).1.blocks.getD i default).fs_rcmd = code ∧
      ((fsbus_rcv_bytes (fsbus_snd cid code v 3) st).1.blocks.getD i default).fs_rcmd_v =
        (v % 256).toNat) ∧
    ((88 ≤ code ∧ code ≤ 119) →
      ((fsbus_rcv_bytes (fsbus_snd cid code v 2) st).1.blocks.getD i default).fs_rcmd = code ∧
      ((fsbus_rcv_bytes (fsbus_snd cid code v 2) st).1.blocks.getD i default).fs_rcmd_v =
        (v % 2).toNat) := by
  obtain ⟨k1, k2, _, k4, k5⟩ := snd_byte0_bits cid (by omega) 0 (by omega) (v % 2).toNat (by omega)
  have hi : i < st.blocks.length := lt_of_lt_of_le (fs_get_blk_sound st cid i hblk).1 hwf
  have hne : (((0x80 ||| (cid <<< 2) ||| 0 ||| (v % 2).toNat) % 256) &&& 0x7C) >>> 2 ≠ 0 := by
    rw [k2]; omega
  have hv0 : ((0x80 ||| (cid <<< 2) ||| 0 ||| (v % 2).toNat) % 256) &&& 0x01 = (v % 2).toNat := by
    rw [k4, Nat.zero_or]
  have hhi : ((v / 2) % 128).toNat < 128 := by omega
  constructor
  · intro hcode
    have hlt : code < 128 := by omega
    obtain ⟨a1, _, _⟩ := fsbus_rcv_frame st _ [code, ((v / 2) % 128).toNat] i k1 hne
      (by rw [k2]; exact hblk) hi (by
        intro c hc
        simp only [List.mem_cons, List.mem_singleton, List.not_mem_nil, or_false] at hc
        rcases hc with rfl | rfl
        · exact (low_byte_bits _ hlt).1
        · exact (low_byte_bits _ hhi).1)
    obtain ⟨b1, b2⟩ := fs_rcv_dio_frame_long (st.blocks.getD i default) _ code
      ((v / 2) % 128).toNat k5 k1 hhi hcode
    rw [(fsbus_snd_bytes cid code v hlt).2, a1, htype, fs_rcv_func_dio]
    refine ⟨b1, ?_⟩
    rw [b2, hv0, value_join _ (by omega) _ hhi]
    omega
  · intro hcode
    have hlt : code < 128 := by omega
    obtain ⟨a1, _, _⟩ := fsbus_rcv_frame st _ [code] i k1 hne
      (by rw [k2]; exact hblk) hi (by
        intro c hc
        simp only [List.mem_singleton] at hc
        subst hc
        exact (low_byte_bits _ hlt).1)
    obtain ⟨b1, b2⟩ := fs_rcv_dio_frame_short (st.blocks.getD i default) _ code k5 k1
      hcode.1 hcode.2
    rw [(fsbus_snd_bytes cid code v hlt).1, a1, htype, fs_rcv_func_dio]
    exact ⟨b1, by rw [b2, hv0]⟩

/-- C1 amended, at a concrete input: the panel's Digital I/O controller (ID 14,
block 5), code 80 or 88 and the value -3. -/
theorem dio_round_trip_witness :
    (((80 ≤ 80 ∧ 80 ≤ 87) ∨ (120 ≤ 80 ∧ 80 ≤ 123)) →
      ((fsbus_rcv_bytes (fsbus_snd 14 80 (-3) 3) kapBus).1.blocks.getD 5 default).fs_rcmd = 80 ∧
      ((fsbus_rcv_bytes (fsbus_snd 14 80 (-3) 3) kapBus).1.blocks.getD 5 default).fs_rcmd_v =
        ((-3 : Int) % 256).toNat) ∧
    ((88 ≤ 80 ∧ 80 ≤ 119) →
      ((fsbus_rcv_bytes (fsbus_snd 14 80 (-3) 2) kapBus).1.blocks.getD 5 default).fs_rcmd = 80 ∧
      ((fsbus_rcv_bytes (fsbus_snd 14 80 (-3) 2) kapBus).1.blocks.getD 5 default).fs_rcmd_v =
        ((-3 : Int) % 2).toNat) :=
  dio_round_trip kapBus 5 14 80 (-3) (by decide) (by decide) (by decide) (by decide) (by decide)
    (by decide) (by decide)

/-- C8. Encoder byte layout, evaluated at fsbus_snd(1, 128, 0, 2): the bytes
written are 0x85, 0x00. The command high bit sits in bit 0 of the start byte
(where it is OR-ed with bit 0 of the value, here 0) and bit 1, the bit the
receivers test with FS_DF_B1_CMD_MASK, is clear. -/
theorem fsbus_snd_high_bit_in_bit0 :
    fsbus_snd 1 128 0 2 = [0x85, 0x00] ∧
    0x85 &&& FS_DF_B1_CMD_MASK = 0 ∧
    0x85 &&& FS_DF_B1_V0 = 1 ∧
    ((0 : Int) % 2).toNat = 0 := by
  decide

/-- Seven stores, one to each index, fix a 7-byte array. -/
theorem set_chain7 (l : List Nat) (h : l.length = 7) (a b c d e f : Nat) :
    ((((((l.set 5 a).set 4 b).set 3 c).set 2 d).set 1 e).set 0 f).set 6 0 =
      [f, e, d, c, b, a, 0] := by
  rcases l with _ | ⟨x0, _ | ⟨x1, _ | ⟨x2, _ | ⟨x3, _ | ⟨x4, _ | ⟨x5, _ | ⟨x6, _ | ⟨x7, t⟩⟩⟩⟩⟩⟩⟩⟩ <;>
    simp at h ⊢

theorem fs_display_conv_mem : ∀ k < 16, fs_display_conv.getD k 0 ∈ fs_display_conv := by
  decide

theorem nibble_lt (x : Nat) : x &&& 15 < 16 :=
  lt_of_le_of_lt Nat.and_le_right (by decide)

theorem packed_index_lt (x y : Nat) : ((x &&& 0x30) >>> 2) ||| ((y &&& 0x30) >>> 4) < 16 := by
  have hx : x &&& 0x30 ≤ 0x30 := Nat.and_le_right
  have hy : y &&& 0x30 ≤ 0x30 := Nat.and_le_right
  have h1 : (x &&& 0x30) >>> 2 < 2 ^ 4 := by
    rw [Nat.shiftRight_eq_div_pow]; omega
  have h2 : (y &&& 0x30) >>> 4 < 2 ^ 4 := by
    rw [Nat.shiftRight_eq_div_pow]; omega
  exact Nat.or_lt_two_pow h1 h2

/-- The digits fsbus_display_decode writes for a raw display dataframe held in
the receive buffer. -/
theorem fsbus_display_decode_digits (blk : fsbus_block_t) (b0 b1 b2 b3 b4 : Nat)
    (rest : List Nat) (hcmd : blk.fs_rcmd = FS_RCMD_DISPLAY)
    (hbuf : blk.fs_rcv_buf = b0 :: b1 :: b2 :: b3 :: b4 :: rest)
    (hlen : blk.fs_display.fs_digits.length = 7) :
    (fsbus_display_decode blk).fs_display.fs_digits =
      [ fs_display_conv.getD (b4 &&& 15) 0,
        fs_display_conv.getD (b3 &&& 15) 0,
        fs_display_conv.getD (((b3 &&& 0x30) >>> 2) ||| ((b4 &&& 0x30) >>> 4)) 0,
        fs_display_conv.getD (b2 &&& 15) 0,
        fs_display_conv.getD (b1 &&& 15) 0,
        fs_display_conv.getD (((b1 &&& 0x30) >>> 2) ||| ((b2 &&& 0x30) >>> 4)) 0,
        0 ] := by
  have hd : (fsbus_display_decode blk).fs_display.fs_digits =
      ((((((blk.fs_display.fs_digits.set 5
        (fs_display_conv.getD (((b1 &&& 0x30) >>> 2) ||| ((b2 &&& 0x30) >>> 4)) 0)).set 4
        (fs_display_conv.getD (b1 &&& 15) 0)).set 3
        (fs_display_conv.getD (b2 &&& 15) 0)).set 2
        (fs_display_conv.getD (((b3 &&& 0x30) >>> 2) ||| ((b4 &&& 0x30) >>> 4)) 0)).set 1
        (fs_display_conv.getD (b3 &&& 15) 0)).set 0
        (fs_display_conv.getD (b4 &&& 15) 0)).set 6 0 := by
    simp [fsbus_display_decode, fsbus_display_decode_regs, hcmd, hbuf]
  rw [hd]
  exact set_chain7 _ hlen _ _ _ _ _ _

/-- C9. Raw digits decode: for a raw display dataframe `b0 b1 b2 b3 b4` in the
receive buffer, fsbus_display_decode writes the 7-byte string
T[b4&15], T[b3&15], T[((b3&0x30)>>2)|((b4&0x30)>>4)], T[b2&15], T[b1&15],
T[((b1&0x30)>>2)|((b2&0x30)>>4)], 0 with T the 16-entry symbol table; its first
six bytes are characters of the table; and any other decode of a frame with the
same `b1..b4` (whatever the start byte, the rest of the block and the digits
held before) writes the same string. -/
theorem display_digits_decode (blk : fsbus_block_t) (b0 b1 b2 b3 b4 : Nat) (rest : List Nat)
    (hcmd : blk.fs_rcmd = FS_RCMD_DISPLAY)
    (hbuf : blk.fs_rcv_buf = b0 :: b1 :: b2 :: b3 :: b4 :: rest)
    (hlen : blk.fs_display.fs_digits.length = 7) :
    (fsbus_display_decode blk).fs_display.fs_digits =
      [ fs_display_conv.getD (b4 &&& 15) 0,
        fs_display_conv.getD (b3 &&& 15) 0,
        fs_display_conv.getD (((b3 &&& 0x30) >>> 2) ||| ((b4 &&& 0x30) >>> 4)) 0,
        fs_display_conv.getD (b2 &&& 15) 0,
        fs_display_conv.getD (b1 &&& 15) 0,
        fs_display_conv.getD (((b1 &&& 0x30) >>> 2) ||| ((b2 &&& 0x30) >>> 4)) 0,
        0 ] ∧
    (∀ d ∈ (fsbus_display_decode blk).fs_display.fs_digits.take 6, d ∈ fs_display_conv) ∧
    fs_display_conv.length = 16 ∧
    (∀ (blk2 : fsbus_block_t) (c0 : Nat) (rest2 : List Nat),
      blk2.fs_rcmd = FS_RCMD_DISPLAY →
      blk2.fs_rcv_buf = c0 :: b1 :: b2 :: b3 :: b4 :: rest2 →
      blk2.fs_display.fs_digits.length = 7 →
      (fsbus_display_decode blk2).fs_display.fs_digits =
        (fsbus_display_decode blk).fs_display.fs_digits) := by
  have h := fsbus_display_decode_digits blk b0 b1 b2 b3 b4 rest hcmd hbuf hlen
  refine ⟨h, ?_, rfl, ?_⟩
  · rw [h]
    intro d hd
    simp only [List.take, List.mem_cons, List.mem_nil_iff, or_false] at hd
    rcases hd with rfl | rfl | rfl | rfl | rfl | rfl
    · exact fs_display_conv_mem _ (nibble_lt b4)
    · exact fs_display_conv_mem _ (nibble_lt b3)
    · exact fs_display_conv_mem _ (packed_index_lt b3 b4)
    · exact fs_display_conv_mem _ (nibble_lt b2)
    · exact fs_display_conv_mem _ (nibble_lt b1)
    · exact fs_display_conv_mem _ (packed_index_lt b1 b2)
  · intro blk2 c0 rest2 h1 h2 h3
    rw [h, fsbus_display_decode_digits blk2 c0 b1 b2 b3 b4 rest2 h1 h2 h3]

/-- C9, at a concrete input: the frame C0 01 02 03 44 held by a zeroed block
decodes to the string `430210`. -/
theorem display_digits_decode_witness :
    (fsbus_display_decode
        { zeroBlock with fs_rcmd := 200, fs_rcv_buf := [0xC0, 1, 2, 3, 0x44, 0] }).fs_display.fs_digits =
      [52, 51, 48, 50, 49, 48, 0] :=
  (display_digits_decode
    { zeroBlock with fs_rcmd := 200, fs_rcv_buf := [0xC0, 1, 2, 3, 0x44, 0] }
    0xC0 1 2 3 0x44 [0] (by decide) (by decide) (by decide)).1

/-- C10. One decode per display frame, evaluated on the panel's own
configuration: the well-formed raw digits frame C0 01 02 03 44 addressed to the
Display controller with ID 16 (block 7, callback 8) makes the decoder and the
callback run on the start byte, before any data byte has arrived, and again on
the fifth byte: twice each. -/
theorem display_frame_decoded_on_start_byte :
    (kapBus.blocks.getD 7 default).fs_cid = 16 ∧
    (kapBus.blocks.getD 7 default).fs_ctrl_type = FS_CTRL_DISPLAY ∧
    (fsbus_rcv_bytes [0xC0, 0x01, 0x02, 0x03, 0x44] kapBus).2 =
      [ [(7, RcvEvent.decode), (7, RcvEvent.callback 8)], [], [], [],
        [(7, RcvEvent.decode), (7, RcvEvent.callback 8)] ] := by
  decide

/-- C11. Unrecognised codes are ignored, evaluated on the panel's own
configuration. The 2-byte R-command frame AA 48 for the Display controller
with ID 10 (block 0, callback 1) carries the code 200, which is not one of
128..133; the receive routine takes it for a raw display dataframe, runs the
decoder, which rewrites the digit string, and calls the callback. The frame
BA 50 05 for the Digital I/O controller (ID 14, block 5, callback 6) has the
command high bit set, hence the code 208; the receive routine drops that bit,
decodes the frame as code 80 and writes analog output 0. -/
theorem unrecognised_code_decoded :
    (fsbus_rcv_bytes [0xAA, 0x48] kapBus).2 =
      [[], [(0, RcvEvent.decode), (0, RcvEvent.callback 1)]] ∧
    (kapBus.blocks.getD 0 default).fs_display.fs_digits = [0, 0, 0, 0, 0, 0, 0] ∧
    ((fsbus_rcv_bytes [0xAA, 0x48] kapBus).1.blocks.getD 0 default).fs_display.fs_digits =
      [48, 48, 48, 48, 56, 48, 0] ∧
    (fsbus_rcv_bytes [0xBA, 0x50, 0x05] kapBus).2 =
      [[], [], [(5, RcvEvent.decode), (5, RcvEvent.callback 6)]] ∧
    (kapBus.blocks.getD 5 default).fs_dio.fs_aout = [0, 0, 0, 0, 0, 0, 0, 0] ∧
    ((fsbus_rcv_bytes [0xBA, 0x50, 0x05] kapBus).1.blocks.getD 5 default).fs_dio.fs_aout =
      [10, 0, 0, 0, 0, 0, 0, 0] := by
  decide

/-! ## Codec: the stores of a frame that fits the receive buffer -/

/-- The receive cursor after fs_rcv_dio has handled a byte is one past the
index at which the byte was stored. -/
theorem fs_rcv_dio_cursor (c : Nat) (b : fsbus_block_t) :
    (fs_rcv_dio c b).1.fs_rcv_len = (fs_rcv_dio_store_index c b + 1) % 256 := by
  have hd := fun x => (fsbus_dio_decode_frame x).2.2.2.1
  have hc : ∀ x : fsbus_block_t,
      (fs_rcv_complete fsbus_dio_decode c x).1.fs_rcv_len = x.fs_rcv_len := by
    intro x
    unfold fs_rcv_complete
    split_ifs
    · exact hd _
    · exact hd _
    · rfl
  have hm : ∀ x : fsbus_block_t, (fs_rcv_dio_command c x).fs_rcv_len = x.fs_rcv_len := by
    intro x
    unfold fs_rcv_dio_command
    split_ifs <;> rfl
  unfold fs_rcv_dio fs_rcv_dio_store_index
  rw [hc, hm]
  rfl

/-- The same for fs_rcv_display. -/
theorem fs_rcv_display_cursor (c : Nat) (b : fsbus_block_t) :
    (fs_rcv_display c b).1.fs_rcv_len = (fs_rcv_display_store_index c b + 1) % 256 := by
  have hc : ∀ x : fsbus_block_t,
      (fs_rcv_complete fsbus_display_decode c x).1.fs_rcv_len = x.fs_rcv_len := by
    intro x
    unfold fs_rcv_complete
    split_ifs <;> rfl
  have hm : ∀ x : fsbus_block_t, (fs_rcv_display_command c x).fs_rcv_len = x.fs_rcv_len := by
    intro x
    unfold fs_rcv_display_command
    split_ifs <;> rfl
  have he : ∀ r : fsbus_block_t × List RcvEvent,
      (fs_rcv_display_end c r).1.fs_rcv_len = r.1.fs_rcv_len := by
    intro r
    unfold fs_rcv_display_end
    split_ifs <;> rfl
  unfold fs_rcv_display fs_rcv_display_store_index
  rw [he, hc, hm]
  rfl

/-- A start byte is stored at index 0, a byte without the start bit at the
cursor as it stands. -/
theorem fs_rcv_store_index_of (c : Nat) (b : fsbus_block_t) :
    (c &&& 0x80 ≠ 0 → fs_rcv_dio_store_index c b = 0 ∧ fs_rcv_display_store_index c b = 0) ∧
    (c &&& 0x80 = 0 →
      fs_rcv_dio_store_index c b = b.fs_rcv_len ∧
      fs_rcv_display_store_index c b = b.fs_rcv_len) := by
  unfold fs_rcv_dio_store_index fs_rcv_display_store_index fs_rcv_dio_begin
    fs_rcv_display_begin
  constructor
  · intro h
    have h2 : c &&& FS_DF_START ≠ 0 := h
    rw [if_pos h2, if_pos h2]
    refine ⟨rfl, ?_⟩
    split_ifs <;> rfl
  · intro h
    have h2 : ¬ (c &&& FS_DF_START ≠ 0) := fun e => e h
    rw [if_neg h2, if_neg h2]
    exact ⟨rfl, rfl⟩

/-- The bytes that follow the start byte of a frame are stored at consecutive
indices from the cursor on: with the cursor at `n` and `n + cs.length` within
the buffer, every store is inside the buffer. -/
theorem fs_rcv_store_indices_cont (ty : Nat) :
    ∀ (cs : List Nat) (b : fsbus_block_t) (n : Nat), (∀ c ∈ cs, c &&& 0x80 = 0) →
      b.fs_rcv_len = n → n + cs.length ≤ FS_RCV_BUF_LEN →
      ∀ k ∈ fs_rcv_store_indices ty cs b, k < FS_RCV_BUF_LEN := by
  intro cs
  induction cs with
  | nil =>
    intro b n _ _ _ k hk
    simp [fs_rcv_store_indices] at hk
  | cons c cs ih =>
    intro b n hcs hn hlen k hk
    have hc : c &&& 0x80 = 0 := hcs c (List.mem_cons_self _ _)
    obtain ⟨i1, i2⟩ := (fs_rcv_store_index_of c b).2 hc
    simp only [List.length_cons] at hlen
    simp only [FS_RCV_BUF_LEN] at hlen ⊢
    unfold fs_rcv_store_indices at hk
    rw [List.mem_append] at hk
    rcases hk with hk | hk
    · split_ifs at hk
      · simp only [List.mem_singleton] at hk
        rw [hk, i1, hn]
        omega
      · simp only [List.mem_singleton] at hk
        rw [hk, i2, hn]
        omega
      · simp at hk
    · have hnext : (fs_rcv_func ty c b).1.fs_rcv_len = n + 1 ∨
          (fs_rcv_func ty c b).1.fs_rcv_len = n := by
        unfold fs_rcv_func
        split_ifs
        · left
          rw [fs_rcv_dio_cursor, i1, hn]
          omega
        · left
          rw [fs_rcv_display_cursor, i2, hn]
          omega
        · right
          exact hn
      have hk2 := fun m hm hle =>
        ih (fs_rcv_func ty c b).1 m (fun x hx => hcs x (List.mem_cons_of_mem _ hx)) hm hle k hk
      simp only [FS_RCV_BUF_LEN] at hk2
      rcases hnext with e | e
      · exact hk2 (n + 1) e (by omega)
      · exact hk2 n e (by omega)

/-- Every store of a frame of at most FS_RCV_BUF_LEN bytes (a start byte, then
bytes without the start bit) is at an index inside the receive buffer. -/
theorem fs_rcv_store_indices_frame (ty c0 : Nat) (cs : List Nat) (b : fsbus_block_t)
    (hs : c0 &&& 0x80 ≠ 0) (hcs : ∀ c ∈ cs, c &&& 0x80 = 0)
    (hlen : cs.length + 1 ≤ FS_RCV_BUF_LEN) :
    ∀ k ∈ fs_rcv_store_indices ty (c0 :: cs) b, k < FS_RCV_BUF_LEN := by
  intro k hk
  obtain ⟨i1, i2⟩ := (fs_rcv_store_index_of c0 b).1 hs
  unfold fs_rcv_store_indices at hk
  rw [List.mem_append] at hk
  rcases hk with hk | hk
  · split_ifs at hk
    · simp only [List.mem_singleton] at hk
      rw [hk, i1]
      decide
    · simp only [List.mem_singleton] at hk
      rw [hk, i2]
      decide
    · simp at hk
  · have hnext : (fs_rcv_func ty c0 b).1.fs_rcv_len = 1 ∨
        (fs_rcv_func ty c0 b).1.fs_rcv_len = b.fs_rcv_len ∧ ty ≠ FS_CTRL_DIO ∧
          ty ≠ FS_CTRL_DISPLAY := by
      unfold fs_rcv_func
      split_ifs with t1 t2
      · left
        rw [fs_rcv_dio_cursor, i1]
      · left
        rw [fs_rcv_display_cursor, i2]
      · right
        exact ⟨rfl, t1, t2⟩
    rcases hnext with e | ⟨_, t1, t2⟩
    · exact fs_rcv_store_indices_cont ty cs _ 1 hcs e (by omega) k hk
    · exfalso
      have hnil : ∀ (l : List Nat) (x : fsbus_block_t), fs_rcv_store_indices ty l x = [] := by
        intro l
        induction l with
        | nil => intro x; rfl
        | cons a l ih =>
          intro x
          unfold fs_rcv_store_indices
          rw [if_neg t1, if_neg t2, ih]
          rfl
      rw [hnil] at hk
      simp at hk

/-- C12. Routing: the bytes of a frame (a start byte, then bytes without the
start bit, at most FS_RCV_BUF_LEN bytes in all, the capacity of a block's
receive buffer) go to exactly these blocks. When the start byte carries ID 0,
every registered block is fed every byte by the receive routine of its type and
no unregistered block changes. When it carries another ID, the first registered
block with that ID is fed every byte, the trace holds only what was run on that
block, and every other block is unchanged. When no registered block has that
ID, no block changes and nothing is run. In a block that is fed, every byte of
the frame is stored at an index inside its receive buffer. -/
theorem fsbus_rcv_routing (st : FsbusState) (c0 : Nat) (cs : List Nat)
    (hwf : st.next_handle ≤ st.blocks.length) (hs : c0 &&& 0x80 ≠ 0)
    (hcs : ∀ c ∈ cs, c &&& 0x80 = 0) (hlen : cs.length + 1 ≤ FS_RCV_BUF_LEN) :
    ((c0 &&& 0x7C) >>> 2 = 0 →
      (∀ i, i < st.next_handle →
        (fsbus_rcv_bytes (c0 :: cs) st).1.blocks.getD i default =
          (rcv_bytes (fs_rcv_func (st.blocks.getD i default).fs_ctrl_type) (c0 :: cs)
            (st.blocks.getD i default)).1 ∧
        (fsbus_rcv_bytes (c0 :: cs) st).2.map (eventsOf i) =
          (rcv_bytes (fs_rcv_func (st.blocks.getD i default).fs_ctrl_type) (c0 :: cs)
            (st.blocks.getD i default)).2 ∧
        (∀ k ∈ fs_rcv_store_indices (st.blocks.getD i default).fs_ctrl_type (c0 :: cs)
            (st.blocks.getD i default), k < FS_RCV_BUF_LEN)) ∧
      (∀ i, st.next_handle ≤ i →
        (fsbus_rcv_bytes (c0 :: cs) st).1.blocks.getD i default = st.blocks.getD i default ∧
        (∀ tr ∈ (fsbus_rcv_bytes (c0 :: cs) st).2, eventsOf i tr = []))) ∧
    (∀ i, (c0 &&& 0x7C) >>> 2 ≠ 0 → i < st.next_handle →
      (st.blocks.getD i default).fs_cid = (c0 &&& 0x7C) >>> 2 →
      (∀ j, j < i → (st.blocks.getD j default).fs_cid ≠ (c0 &&& 0x7C) >>> 2) →
      (fsbus_rcv_bytes (c0 :: cs) st).1.blocks.getD i default =
        (rcv_bytes (fs_rcv_func (st.blocks.getD i default).fs_ctrl_type) (c0 :: cs)
          (st.blocks.getD i default)).1 ∧
      (fsbus_rcv_bytes (c0 :: cs) st).2 =
        (rcv_bytes (fs_rcv_func (st.blocks.getD i default).fs_ctrl_type) (c0 :: cs)
          (st.blocks.getD i default)).2.map (List.map (fun e => (i, e))) ∧
      (∀ j, j ≠ i →
        (fsbus_rcv_bytes (c0 :: cs) st).1.blocks.getD j default = st.blocks.getD j default) ∧
      (∀ k ∈ fs_rcv_store_indices (st.blocks.getD i default).fs_ctrl_type (c0 :: cs)
          (st.blocks.getD i default), k < FS_RCV_BUF_LEN)) ∧
    ((c0 &&& 0x7C) >>> 2 ≠ 0 →
      (∀ j, j < st.next_handle → (st.blocks.getD j default).fs_cid ≠ (c0 &&& 0x7C) >>> 2) →
      (fsbus_rcv_bytes (c0 :: cs) st).1.blocks = st.blocks ∧
      (∀ tr ∈ (fsbus_rcv_bytes (c0 :: cs) st).2, tr = [])) := by
  refine ⟨fun hid => ?_, ?_, ?_⟩
  · obtain ⟨b1, b2⟩ := fsbus_rcv_frame_broadcast st c0 cs hwf hs hid hcs
    exact ⟨fun i hi => ⟨(b1 i hi).1, (b1 i hi).2,
      fs_rcv_store_indices_frame _ c0 cs _ hs hcs hlen⟩, b2⟩
  · intro i hid hi hc hfirst
    have hg : fs_get_blk st ((c0 &&& 0x7C) >>> 2) = some i :=
      fs_get_blk_from_first st _ i st.next_handle 0 (Nat.zero_le _) (by omega) hi hc
        (fun j _ hj => hfirst j hj)
    obtain ⟨f1, f2, f3⟩ := fsbus_rcv_frame st c0 cs i hs hid hg (lt_of_lt_of_le hi hwf) hcs
    exact ⟨f1, f2, f3, fs_rcv_store_indices_frame _ c0 cs _ hs hcs hlen⟩
  · intro hid hnone
    exact fsbus_rcv_frame_nobody st c0 cs hs hid
      (fs_get_blk_from_none st _ hnone st.next_handle 0) hcs

/-- C12, at a concrete input: on the panel's configuration the frame B8 58
(ID 14) reaches block 5 alone, both bytes stored inside its buffer, and the
frame 84 05 (ID 1, which no block has) changes nothing. -/
theorem fsbus_rcv_routing_witness :
    ((fsbus_rcv_bytes [0xB8, 0x58] kapBus).1.blocks.getD 5 default =
        (rcv_bytes (fs_rcv_func (kapBus.blocks.getD 5 default).fs_ctrl_type) [0xB8, 0x58]
          (kapBus.blocks.getD 5 default)).1 ∧
      (fsbus_rcv_bytes [0xB8, 0x58] kapBus).2 =
        (rcv_bytes (fs_rcv_func (kapBus.blocks.getD 5 default).fs_ctrl_type) [0xB8, 0x58]
          (kapBus.blocks.getD 5 default)).2.map (List.map (fun e => (5, e))) ∧
      (∀ j, j ≠ 5 →
        (fsbus_rcv_bytes [0xB8, 0x58] kapBus).1.blocks.getD j default =
          kapBus.blocks.getD j default) ∧
      (∀ k ∈ fs_rcv_store_indices (kapBus.blocks.getD 5 default).fs_ctrl_type [0xB8, 0x58]
          (kapBus.blocks.getD 5 default), k < FS_RCV_BUF_LEN)) ∧
    ((fsbus_rcv_bytes [0x84, 0x05] kapBus).1.blocks = kapBus.blocks ∧
      (∀ tr ∈ (fsbus_rcv_bytes [0x84, 0x05] kapBus).2, tr = [])) :=
  ⟨(fsbus_rcv_routing kapBus 0xB8 [0x58] (by decide) (by decide) (by decide) (by decide)).2.1 5
      (by decide) (by decide) (by decide) (by decide),
    (fsbus_rcv_routing kapBus 0x84 [0x05] (by decide) (by decide) (by decide) (by decide)).2.2
      (by decide) (by decide)⟩

/-! ## Mode engine: auxiliary lemmas -/

theorem wrap32_id (x : Int) (h : -2147483648 ≤ x ∧ x < 2147483648) : wrap32 x = x := by
  unfold wrap32; omega

theorem wrap16_id (x : Int) (h : -32768 ≤ x ∧ x < 32768) : wrap16 x = x := by
  unfold wrap16; omega

theorem wrap8_id (x : Int) (h : -128 ≤ x ∧ x < 128) : wrap8 x = x := by
  unfold wrap8; omega

theorem alt_split (d : Int) (hm : d % 100 = 0) :
    500 * cdiv d 500 + 100 * cdiv (cmod d 500) 100 = d := by
  unfold cmod cdiv
  split_ifs <;> omega

theorem alt_split_bounds (d : Int) (hr : -64000 < d ∧ d < 64000) :
    (-128 ≤ cdiv d 500 ∧ cdiv d 500 < 128) ∧
    (-128 ≤ cdiv (cmod d 500) 100 ∧ cdiv (cmod d 500) 100 < 128) := by
  unfold cmod cdiv
  split_ifs <;> omega

theorem event_register_scan_ext {α : Type} (f p n : Nat) :
    ∀ i (s : EventState α), (event_register_scan f p n i s).1.ext = s.ext := by
  intro i
  induction i with
  | zero => intro s; rfl
  | succ i ih =>
    intro s
    unfold event_register_scan
    split_ifs
    · rfl
    · exact ih s

theorem event_register_ext {α : Type} (s : EventState α) (f p n : Nat) :
    (event_register s f p n).1.ext = s.ext :=
  event_register_scan_ext f p n _ s

theorem event_cancel_ext {α : Type} (s : EventState α) (h : Nat) :
    (event_cancel s h).1.ext = s.ext := by
  unfold event_cancel
  split_ifs <;> rfl

theorem event_reset_ext {α : Type} (s : EventState α) (h : Nat) :
    (event_reset s h).ext = s.ext := rfl

theorem onExt_ext (f : KapState → KapState) (s : Kap) : (onExt f s).ext = f s.ext := rfl

theorem kap_register_ext (set : KapState → Nat → KapState) (f p n : Nat) (s : Kap) :
    (kap_register set f p n s).ext = set s.ext (event_register s f p n).2 := by
  simp [kap_register, event_register_ext]

theorem kap_cancel_ext (get : KapState → Nat) (set : KapState → Nat → KapState) (s : Kap) :
    (kap_cancel get set s).ext = set s.ext (event_cancel s (get s.ext)).2 := by
  simp [kap_cancel, event_cancel_ext]

theorem kap_cancel_if_ext (get : KapState → Nat) (set : KapState → Nat → KapState) (s : Kap) :
    (kap_cancel_if get set s).ext =
      if get s.ext ≠ 0 then set s.ext (event_cancel s (get s.ext)).2 else s.ext := by
  unfold kap_cancel_if
  split_ifs <;> simp [kap_cancel_ext]

theorem kap_fsx_bit_buttons (v : Int) (m : Nat) (k : KapState) (i : Nat) :
    (kap_fsx_bit v m k i).fsx_buttons =
      if m &&& BV i ≠ 0 then k.fsx_buttons ^^^ BV i else k.fsx_buttons := by
  unfold kap_fsx_bit kap_snd
  split_ifs <;> rfl

theorem kap_fsx_fold_buttons (v : Int) (m : Nat) (l : List Nat) :
    ∀ k : KapState, (l.foldl (kap_fsx_bit v m) k).fsx_buttons =
      l.foldl (fun b i => if m &&& BV i ≠ 0 then b ^^^ BV i else b) k.fsx_buttons := by
  induction l with
  | nil => intro k; rfl
  | cons i l ih =>
    intro k
    rw [List.foldl_cons, ih, kap_fsx_bit_buttons, List.foldl_cons]

theorem kap_fsx_loop_buttons (v : Int) (m : Nat) (k : KapState) :
    (kap_fsx_loop v m k).fsx_buttons = fsx_loop_mirror m k.fsx_buttons :=
  kap_fsx_fold_buttons v m _ k

theorem kap_fsx_sync_buttons (row : Nat × Nat) (k : KapState) :
    (kap_fsx_sync row k).fsx_buttons = fsx_sync_mirror row k.fsx_buttons := by
  unfold kap_fsx_sync fsx_sync_mirror
  simp only []
  split_ifs <;> simp_all [kap_fsx_loop_buttons]


theorem adjCmds_append (a b : List BusCmd) : adjCmds (a ++ b) = adjCmds a ++ adjCmds b := by
  simp [adjCmds]

theorem kap_fsx_bit_keeps {β : Type} (g : KapState → β)
    (hg : ∀ k b l, g { k with fsx_buttons := b, sent := l } = g k)
    (v : Int) (m : Nat) (k : KapState) (i : Nat) : g (kap_fsx_bit v m k i) = g k := by
  unfold kap_fsx_bit kap_snd
  split_ifs
  · exact hg k _ _
  · rfl

theorem kap_fsx_fold_keeps {β : Type} (g : KapState → β)
    (hg : ∀ k b l, g { k with fsx_buttons := b, sent := l } = g k)
    (v : Int) (m : Nat) (l : List Nat) :
    ∀ k : KapState, g (l.foldl (kap_fsx_bit v m) k) = g k := by
  induction l with
  | nil => intro k; rfl
  | cons i l ih =>
    intro k
    rw [List.foldl_cons, ih, kap_fsx_bit_keeps g hg]

theorem kap_fsx_sync_keeps {β : Type} (g : KapState → β)
    (hg : ∀ k b l, g { k with fsx_buttons := b, sent := l } = g k)
    (row : Nat × Nat) (k : KapState) : g (kap_fsx_sync row k) = g k := by
  unfold kap_fsx_sync kap_fsx_loop
  simp only []
  split_ifs
  · rw [kap_fsx_fold_keeps g hg, kap_fsx_fold_keeps g hg]
  · rw [kap_fsx_fold_keeps g hg]
  · rw [kap_fsx_fold_keeps g hg]
  · rfl

theorem kap_fsx_bit_adj (v : Int) (m : Nat) (k : KapState) (i : Nat) (hi : i < 12) :
    adjCmds (kap_fsx_bit v m k i).sent = adjCmds k.sent := by
  unfold kap_fsx_bit kap_snd
  split_ifs
  · simp only [adjCmds_append]
    have : adjCmds [(⟨KAP_DIO_CID, i, v, 3⟩ : BusCmd)] = [] := by
      simp [adjCmds, DIO_SW_ALT_ENC_20, DIO_SW_ALT_ENC_500]
      omega
    rw [this, List.append_nil]
  · rfl

theorem kap_fsx_fold_adj (v : Int) (m : Nat) (l : List Nat) (hl : ∀ i ∈ l, i < 12) :
    ∀ k : KapState, adjCmds (l.foldl (kap_fsx_bit v m) k).sent = adjCmds k.sent := by
  induction l with
  | nil => intro k; rfl
  | cons i l ih =>
    intro k
    rw [List.foldl_cons, ih (fun j hj => hl j (List.mem_cons_of_mem _ hj)),
      kap_fsx_bit_adj v m k i (hl i (List.mem_cons_self _ _))]

theorem range_bits_small : ∀ i ∈ List.range' 1 (FSX_BITS - 1), i < 12 := by decide

theorem kap_fsx_sync_adj (row : Nat × Nat) (k : KapState) :
    adjCmds (kap_fsx_sync row k).sent = adjCmds k.sent := by
  unfold kap_fsx_sync kap_fsx_loop
  simp only []
  split_ifs
  · rw [kap_fsx_fold_adj _ _ _ range_bits_small, kap_fsx_fold_adj _ _ _ range_bits_small]
  · rw [kap_fsx_fold_adj _ _ _ range_bits_small]
  · rw [kap_fsx_fold_adj _ _ _ range_bits_small]
  · rfl

theorem kap_fsx_bit_sent (v : Int) (m : Nat) (k : KapState) (i : Nat) :
    (kap_fsx_bit v m k i).sent =
      if m &&& BV i ≠ 0 then k.sent ++ [⟨KAP_DIO_CID, i, v, 3⟩] else k.sent := by
  unfold kap_fsx_bit kap_snd
  split_ifs <;> rfl

theorem fsx_cmds_fold (v : Int) (m : Nat) (l : List Nat) :
    ∀ a b : List BusCmd,
      l.foldl (fun l i => if m &&& BV i ≠ 0 then l ++ [⟨KAP_DIO_CID, i, v, 3⟩] else l) (a ++ b) =
        a ++ l.foldl (fun l i => if m &&& BV i ≠ 0 then l ++ [⟨KAP_DIO_CID, i, v, 3⟩] else l) b := by
  induction l with
  | nil => intro a b; rfl
  | cons i l ih =>
    intro a b
    rw [List.foldl_cons, List.foldl_cons]
    split_ifs
    · rw [List.append_assoc, ih]
    · rw [ih]

theorem kap_fsx_fold_sent (v : Int) (m : Nat) (l : List Nat) :
    ∀ k : KapState, (l.foldl (kap_fsx_bit v m) k).sent =
      l.foldl (fun l i => if m &&& BV i ≠ 0 then l ++ [⟨KAP_DIO_CID, i, v, 3⟩] else l) k.sent := by
  induction l with
  | nil => intro k; rfl
  | cons i l ih =>
    intro k
    rw [List.foldl_cons, ih, kap_fsx_bit_sent, List.foldl_cons]

theorem kap_fsx_loop_sent (v : Int) (m : Nat) (k : KapState) :
    (kap_fsx_loop v m k).sent = k.sent ++ fsx_loop_cmds v m := by
  unfold kap_fsx_loop fsx_loop_cmds
  rw [kap_fsx_fold_sent]
  have h := fsx_cmds_fold v m (List.range' 1 (FSX_BITS - 1)) k.sent []
  rw [List.append_nil] at h
  exact h

theorem kap_fsx_sync_sent (row : Nat × Nat) (k : KapState) :
    (kap_fsx_sync row k).sent = k.sent ++ fsx_sync_cmds row k.fsx_buttons := by
  unfold kap_fsx_sync fsx_sync_cmds
  simp only []
  split_ifs <;>
    simp_all [kap_fsx_loop_sent, kap_fsx_loop_buttons]

/-- What kap_display_pitch does on a pending change, field by field. -/
theorem kap_display_pitch_changed (k : KapState) (h : k.pitch_mode &&& PM_CHANGED ≠ 0) :
    (kap_display_pitch k).pitch_mode = k.pitch_mode ^^^ PM_CHANGED ∧
    (kap_display_pitch k).fsx_buttons =
      fsx_sync_mirror
        (pitch_mode_fsx.getD ((k.pitch_mode ^^^ PM_CHANGED) &&& (0xFF ^^^ PM_CHANGED)) (0, 0))
        k.fsx_buttons ∧
    (kap_display_pitch k).sent =
      k.sent ++ fsx_sync_cmds
        (pitch_mode_fsx.getD ((k.pitch_mode ^^^ PM_CHANGED) &&& (0xFF ^^^ PM_CHANGED)) (0, 0))
        k.fsx_buttons := by
  unfold kap_display_pitch
  rw [if_pos h]
  simp only []
  refine ⟨?_, ?_, ?_⟩
  · rw [kap_fsx_sync_keeps (fun k => k.pitch_mode) (fun _ _ _ => rfl)]
  · rw [kap_fsx_sync_buttons]
  · rw [kap_fsx_sync_sent]

/-- What kap_display_roll does on a pending change, field by field. -/
theorem kap_display_roll_changed (k : KapState) (h : k.roll_mode &&& RM_CHANGED ≠ 0) :
    (kap_display_roll k).roll_mode = k.roll_mode ^^^ RM_CHANGED ∧
    (kap_display_roll k).fsx_buttons =
      fsx_sync_mirror
        (roll_mode_fsx.getD ((k.roll_mode ^^^ RM_CHANGED) &&& (0xFF ^^^ RM_CHANGED)) (0, 0))
        k.fsx_buttons ∧
    (kap_display_roll k).sent =
      k.sent ++ fsx_sync_cmds
        (roll_mode_fsx.getD ((k.roll_mode ^^^ RM_CHANGED) &&& (0xFF ^^^ RM_CHANGED)) (0, 0))
        k.fsx_buttons := by
  unfold kap_display_roll
  rw [if_pos h]
  simp only []
  refine ⟨?_, ?_, ?_⟩
  · rw [kap_fsx_sync_keeps (fun k => k.roll_mode) (fun _ _ _ => rfl)]
  · rw [kap_fsx_sync_buttons]
  · rw [kap_fsx_sync_sent]

/-- The fields kap_display_pitch never touches. -/
theorem kap_display_pitch_keeps {β : Type} (g : KapState → β)
    (hg : ∀ k b l, g { k with fsx_buttons := b, sent := l } = g k)
    (hp : ∀ k p, g { k with pitch_mode := p } = g k) (k : KapState) :
    g (kap_display_pitch k) = g k := by
  unfold kap_display_pitch
  split_ifs
  · simp only []
    rw [kap_fsx_sync_keeps g hg, hp]
  · rfl

/-- The fields kap_display_roll never touches. -/
theorem kap_display_roll_keeps {β : Type} (g : KapState → β)
    (hg : ∀ k b l, g { k with fsx_buttons := b, sent := l } = g k)
    (hp : ∀ k p, g { k with roll_mode := p } = g k) (k : KapState) :
    g (kap_display_roll k) = g k := by
  unfold kap_display_roll
  split_ifs
  · simp only []
    rw [kap_fsx_sync_keeps g hg, hp]
  · rfl

/-- The commands of the commit, for every state. -/
theorem kap_alt_commit_sent (k : KapState) :
    (kap_alt_commit k).sent =
      k.sent ++
        (if wrap8 (cdiv (cmod (wrap32 (k.alt_disp - k.alt_rcv)) 500) 100) ≠ 0 then
          [⟨KAP_DIO_CID, DIO_SW_ALT_ENC_20,
            wrap8 (cdiv (cmod (wrap32 (k.alt_disp - k.alt_rcv)) 500) 100), 3⟩]
        else []) ++
        (if wrap8 (cdiv (wrap32 (k.alt_disp - k.alt_rcv)) 500) ≠ 0 then
          [⟨KAP_DIO_CID, DIO_SW_ALT_ENC_500, wrap8 (cdiv (wrap32 (k.alt_disp - k.alt_rcv)) 500), 3⟩]
        else []) := by
  unfold kap_alt_commit
  simp only [ALT_INCR_FAST, ALT_INCR_SLOW]
  split_ifs <;> simp [kap_snd]

/-- The fields the commit never touches: all but the list of commands. -/
theorem kap_alt_commit_keeps {β : Type} (g : KapState → β)
    (hg : ∀ k l, g { k with sent := l } = g k) (k : KapState) :
    g (kap_alt_commit k) = g k := by
  unfold kap_alt_commit
  simp only []
  split_ifs <;> simp [kap_snd, hg]

/-- On a pending change to PM_CLR, kap_display_pitch_arm clears the flag and
runs the commit. -/
theorem kap_display_pitch_arm_edge (k : KapState) (hk : k.pitch_arm_mode = PM_CLR ||| PM_CHANGED) :
    kap_display_pitch_arm k = kap_alt_commit { k with pitch_arm_mode := PM_CLR } := by
  have hflag : k.pitch_arm_mode &&& PM_CHANGED ≠ 0 := by rw [hk]; decide
  have hx : k.pitch_arm_mode ^^^ PM_CHANGED = PM_CLR := by rw [hk]; decide
  unfold kap_display_pitch_arm
  rw [if_pos hflag]
  simp only [hx]
  rw [if_pos (by decide)]

/-- Without a pending change kap_display_pitch_arm does nothing. -/
theorem kap_display_pitch_arm_idle (k : KapState) (hk : k.pitch_arm_mode &&& PM_CHANGED = 0) :
    kap_display_pitch_arm k = k := by
  unfold kap_display_pitch_arm
  rw [if_neg (by rw [hk]; decide)]

theorem bit7_kept (x i : Nat) (hi : i ∈ List.range' 1 (FSX_BITS - 1)) :
    (x ^^^ BV i) &&& FSX_VS = x &&& FSX_VS := by
  have h : BV i &&& FSX_VS = 0 := by
    revert i
    decide
  rw [Nat.and_xor_distrib_right, h, Nat.xor_zero]

theorem fsx_fold_bit7 (m : Nat) (l : List Nat) (hl : ∀ i ∈ l, i ∈ List.range' 1 (FSX_BITS - 1)) :
    ∀ b, l.foldl (fun x i => if m &&& BV i ≠ 0 then x ^^^ BV i else x) b &&& FSX_VS =
      b &&& FSX_VS := by
  induction l with
  | nil => intro b; rfl
  | cons i l ih =>
    intro b
    rw [List.foldl_cons, ih (fun j hj => hl j (List.mem_cons_of_mem _ hj))]
    split_ifs
    · exact bit7_kept b i (hl i (List.mem_cons_self _ _))
    · rfl

theorem fsx_loop_mirror_bit7 (m b : Nat) : fsx_loop_mirror m b &&& FSX_VS = b &&& FSX_VS :=
  fsx_fold_bit7 m _ (fun _ h => h) b

theorem fsx_sync_mirror_bit7 (row : Nat × Nat) (b : Nat) :
    fsx_sync_mirror row b &&& FSX_VS = b &&& FSX_VS := by
  unfold fsx_sync_mirror
  simp only []
  split_ifs <;> simp [fsx_loop_mirror_bit7]

theorem kap_display_pitch_bit7 (k : KapState) :
    (kap_display_pitch k).fsx_buttons &&& FSX_VS = k.fsx_buttons &&& FSX_VS := by
  unfold kap_display_pitch
  split_ifs
  · simp only []
    rw [kap_fsx_sync_buttons, fsx_sync_mirror_bit7]
  · rfl

set_option maxRecDepth 100000 in
theorem roll_rows_reconciled : ∀ m < 5, ∀ b < 256,
    fsx_sync_mirror (roll_mode_fsx.getD m (0, 0)) b &&& (roll_mode_fsx.getD m (0, 0)).1 =
      (roll_mode_fsx.getD m (0, 0)).1 ∧
    fsx_sync_mirror (roll_mode_fsx.getD m (0, 0)) b &&& (roll_mode_fsx.getD m (0, 0)).2 = 0 := by
  decide

theorem mode_flag_bits : ∀ m < 5, (m ||| 0x80) &&& 0x80 ≠ 0 ∧ (m ||| 0x80) ^^^ 0x80 = m ∧
    m &&& (0xFF ^^^ 0x80) = m := by
  decide


/-- A poll of a port A button whose edge bit is clear does nothing. -/
theorem on_porta_idle (b : Nat) (f : Kap → Kap) (s : Kap) (h : s.ext.sw_porta = 0) :
    on_porta b f s = s := by
  unfold on_porta
  rw [if_neg (by rw [h]; simp)]

/-- A poll of a port B button whose edge bit is clear does nothing. -/
theorem on_portb_idle (b : Nat) (f : Kap → Kap) (s : Kap) (h : s.ext.sw_portb = 0) :
    on_portb b f s = s := by
  unfold on_portb
  rw [if_neg (by rw [h]; simp)]

/-- With no edge of the AP button pending, the first statement of kap_buttons
touches nothing but the flag kap_ap_button. -/
theorem kap_buttons_ap_skip (s : Kap) (h : s.ext.sw_porta &&& BV 5 = 0) :
    kap_buttons_ap s = s ∨
    kap_buttons_ap s = onExt (fun k => { k with kap_ap_button := 0 }) s := by
  unfold kap_buttons_ap
  rw [if_neg (by rw [h]; simp)]
  split_ifs
  · right; rfl
  · left; rfl

theorem kap_buttons_ap_idle (s : Kap) (h : s.ext.sw_porta = 0) :
    kap_buttons_ap s = s ∨
    kap_buttons_ap s = onExt (fun k => { k with kap_ap_button := 0 }) s :=
  kap_buttons_ap_skip s (by rw [h]; decide)

/-- The routine kap_button_enc outside barometer mode. -/
theorem kap_button_enc_alt_fields (d : Int) (s : Kap)
    (hrhs : s.ext.rhs_mode &&& (0xFF ^^^ RHS_CHANGED) ≠ RHS_BARO) :
    (kap_button_enc d s).event_list = s.event_list ∧
    (kap_button_enc d s).ext.sent = s.ext.sent ∧
    (kap_button_enc d s).ext.sw_portb = s.ext.sw_portb ∧
    (kap_button_enc d s).ext.sw_porta = s.ext.sw_porta ∧
    (kap_button_enc d s).ext.sw_enc_delta = s.ext.sw_enc_delta ∧
    (kap_button_enc d s).ext.alt_disp =
      wrap32 (s.ext.alt_disp +
        wrap16 (d * (if s.ext.kap_enc_toggle_status = 0 then ALT_INCR_SLOW else ALT_INCR_FAST))) ∧
    (s.ext.pitch_arm_mode &&& (0xFF ^^^ PM_CHANGED) ≠ PM_ALT →
      (kap_button_enc d s).ext.pitch_arm_mode = PM_ALT ||| PM_CHANGED ∧
      (kap_button_enc d s).ext.rhs_mode = RHS_ALT ||| RHS_CHANGED) ∧
    (s.ext.pitch_arm_mode &&& (0xFF ^^^ PM_CHANGED) = PM_ALT →
      (kap_button_enc d s).ext.pitch_arm_mode = s.ext.pitch_arm_mode ∧
      (kap_button_enc d s).ext.rhs_mode = s.ext.rhs_mode) := by
  unfold kap_button_enc
  rw [if_pos hrhs]
  refine ⟨rfl, ?_, ?_, ?_, ?_, ?_, ?_, ?_⟩
  · show (kap_button_enc_alt d s.ext).sent = _
    unfold kap_button_enc_alt
    dsimp only
    split_ifs <;> rfl
  · show (kap_button_enc_alt d s.ext).sw_portb = _
    unfold kap_button_enc_alt
    dsimp only
    split_ifs <;> rfl
  · show (kap_button_enc_alt d s.ext).sw_porta = _
    unfold kap_button_enc_alt
    dsimp only
    split_ifs <;> rfl
  · show (kap_button_enc_alt d s.ext).sw_enc_delta = _
    unfold kap_button_enc_alt
    dsimp only
    split_ifs <;> rfl
  · show (kap_button_enc_alt d s.ext).alt_disp = _
    unfold kap_button_enc_alt
    dsimp only
    split_ifs <;> rfl
  · intro h
    show (kap_button_enc_alt d s.ext).pitch_arm_mode = _ ∧ (kap_button_enc_alt d s.ext).rhs_mode = _
    unfold kap_button_enc_alt
    rw [if_pos h]
    dsimp only
    split_ifs <;> exact ⟨rfl, rfl⟩
  · intro h
    show (kap_button_enc_alt d s.ext).pitch_arm_mode = _ ∧ (kap_button_enc_alt d s.ext).rhs_mode = _
    unfold kap_button_enc_alt
    rw [if_neg (not_not.mpr h)]
    dsimp only
    split_ifs <;> exact ⟨rfl, rfl⟩

/-- A poll in which only the encoder has moved, with the AP enabled. -/
theorem kap_buttons_encoder_only (s : Kap) (d : Int)
    (hen : s.ext.ap_mode &&& (0xFF ^^^ AP_CHANGED) = AP_ENABLED)
    (hrhs : s.ext.rhs_mode &&& (0xFF ^^^ RHS_CHANGED) ≠ RHS_BARO)
    (hpa : s.ext.sw_porta = 0) (hpb : s.ext.sw_portb = 0)
    (hd : s.ext.sw_enc_delta = d) (hd0 : d ≠ 0) :
    kap_buttons s =
      kap_button_enc d (onExt (fun k => { k with sw_enc_delta := 0 }) (kap_buttons_ap s)) := by
  have key : ∀ s1 : Kap, s1.ext.ap_mode = s.ext.ap_mode → s1.ext.rhs_mode = s.ext.rhs_mode →
      s1.ext.sw_porta = 0 → s1.ext.sw_portb = 0 → s1.ext.sw_enc_delta = d →
      kap_buttons_rest s1 = kap_button_enc d (onExt (fun k => { k with sw_enc_delta := 0 }) s1) := by
    intro s1 h1 h2 h3 h4 h5
    unfold kap_buttons_rest
    rw [if_pos (by rw [h1]; exact hen)]
    simp only []
    rw [on_porta_idle 0 _ s1 h3, on_porta_idle 1 _ s1 h3, on_porta_idle 2 _ s1 h3,
      on_porta_idle 3 _ s1 h3, on_porta_idle 4 _ s1 h3, on_porta_idle 6 _ s1 h3,
      on_porta_idle 7 _ s1 h3]
    have he : kap_buttons_enc s1 =
        kap_button_enc d (onExt (fun k => { k with sw_enc_delta := 0 }) s1) := by
      unfold kap_buttons_enc
      rw [if_pos (by rw [h5]; exact hd0)]
      simp only [h5]
    rw [he]
    have hb : (kap_button_enc d (onExt (fun k => { k with sw_enc_delta := 0 }) s1)).ext.sw_portb
        = 0 := by
      rw [(kap_button_enc_alt_fields d _ (by simpa [onExt, h2] using hrhs)).2.2.1]
      simpa [onExt] using h4
    rw [on_portb_idle 2 _ _ hb, on_portb_idle 3 _ _ hb, on_portb_idle 4 _ _ hb]
  unfold kap_buttons
  rcases kap_buttons_ap_idle s hpa with h | h
  · rw [h]; exact key s rfl rfl hpa hpb hd
  · rw [h]; exact key _ rfl rfl hpa hpb hd

/-! ### Invariants of the engine state across ticks -/

/-- A property of the rest of the state that every callback keeps is kept by
the dispatch loop. -/
theorem event_dispatch_ext_inv {α : Type} (cb : Callbacks α) (Q : α → Prop)
    (hcb : ∀ f t s, Q s.ext → Q (cb f t s).ext) :
    ∀ n (s : EventState α), Q s.ext → Q (event_dispatch cb n s).1.ext := by
  intro n
  induction n with
  | zero => intro s h; exact h
  | succ n ih =>
    intro s h
    unfold event_dispatch
    split_ifs
    · exact ih _ (hcb _ _ _ h)
    · exact ih _ h

/-- A property of the rest of the state that every callback keeps is kept by
event_tick. -/
theorem event_tick_ext_inv {α : Type} (cb : Callbacks α) (Q : α → Prop)
    (hcb : ∀ f t s, Q s.ext → Q (cb f t s).ext) (s : EventState α) (h : Q s.ext) :
    Q (event_tick cb s).1.ext := by
  unfold event_tick
  split_ifs
  · exact h
  · exact event_dispatch_ext_inv cb Q hcb _ _ h

/-- A property of the rest of the state that every callback keeps is kept by any
number of ticks. -/
theorem event_ticks_ext_inv {α : Type} (cb : Callbacks α) (Q : α → Prop)
    (hcb : ∀ f t s, Q s.ext → Q (cb f t s).ext) :
    ∀ n (s : EventState α), Q s.ext → Q (event_ticks cb n s).1.ext := by
  intro n
  induction n with
  | zero => intro s h; exact h
  | succ n ih =>
    intro s h
    unfold event_ticks
    exact ih _ (event_tick_ext_inv cb Q hcb s h)

theorem KapSettled_of_view (L : List BusCmd) (k k1 : KapState) (h : kapView k1 = kapView k)
    (hk : KapSettled L k) : KapSettled L k1 := by
  unfold kapView at h
  simp only [Prod.mk.injEq] at h
  obtain ⟨h1, h2, h3, h4, h5⟩ := h
  obtain ⟨⟨a, b, c, d⟩, e⟩ := hk
  exact ⟨⟨by rw [h1]; exact a, by rw [h2]; exact b, by rw [h3]; exact c, by rw [h4]; exact d⟩,
    by rw [h5]; exact e⟩

theorem kap_pt_display_view (s : Kap) : kapView (kap_pt_display s).ext = kapView s.ext := by
  unfold kap_pt_display
  try dsimp only
  repeat' (first
    | rfl
    | split_ifs
    | simp only [onExt_ext, event_reset_ext, kap_register_ext, kap_cancel_ext, kap_cancel_if_ext,
        event_register_ext])

theorem kap_ap_disable_view (s : Kap) : kapView (kap_ap_disable s).ext = kapView s.ext := by
  unfold kap_ap_disable
  try dsimp only
  repeat' (first
    | rfl
    | split_ifs
    | simp only [onExt_ext, event_reset_ext, kap_register_ext, kap_cancel_ext, kap_cancel_if_ext,
        event_register_ext])

theorem kap_roll_arm_commit_view (s : Kap) :
    kapView (kap_roll_arm_commit s).ext = kapView s.ext := by
  unfold kap_roll_arm_commit
  try dsimp only
  repeat' (first
    | rfl
    | split_ifs
    | simp only [onExt_ext, event_reset_ext, kap_register_ext, kap_cancel_ext, kap_cancel_if_ext,
        event_register_ext])

theorem baro_mode_check_view (s : Kap) : kapView (baro_mode_check s).ext = kapView s.ext := by
  unfold baro_mode_check
  try dsimp only
  repeat' (first
    | rfl
    | split_ifs
    | simp only [onExt_ext, event_reset_ext, kap_register_ext, kap_cancel_ext, kap_cancel_if_ext,
        event_register_ext])

theorem kap_end_baro_view (k : KapState) : kapView (kap_end_baro k) = kapView k := by
  unfold kap_end_baro
  dsimp only
  split_ifs <;> rfl

theorem kap_vs_end_view (k : KapState) : kapView (kap_vs_end k) = kapView k := by
  unfold kap_vs_end
  dsimp only
  split_ifs <;> rfl

theorem kap_ap_on_view (k : KapState) : kapView (kap_ap_on k) = kapView k := by
  unfold kap_ap_on
  dsimp only
  split_ifs <;> rfl

theorem kap_alerts_trim_view (d : Int) (s : Kap) :
    kapView (kap_alerts_trim d s).ext = kapView s.ext := by
  unfold kap_alerts_trim
  try dsimp only
  repeat' (first
    | rfl
    | split_ifs
    | simp only [onExt_ext, event_reset_ext, kap_register_ext, kap_cancel_ext, kap_cancel_if_ext,
        event_register_ext])

theorem kap_alerts_alt_view (d : Int) (s : Kap) :
    kapView (kap_alerts_alt d s).ext = kapView s.ext := by
  unfold kap_alerts_alt
  try dsimp only
  repeat' (first
    | rfl
    | split_ifs
    | simp only [onExt_ext, event_reset_ext, kap_register_ext, kap_cancel_ext, kap_cancel_if_ext,
        event_register_ext])

theorem kap_display_alerts_view (s : Kap) :
    kapView (kap_display_alerts s).ext = kapView s.ext := by
  unfold kap_display_alerts
  dsimp only
  rw [kap_alerts_alt_view, kap_alerts_trim_view]
  split_ifs <;> rfl

theorem kap_displ_alt_view (k : KapState) : kapView (kap_displ_alt k) = kapView k := by
  unfold kap_displ_alt
  dsimp only
  split_ifs <;> rfl

theorem kap_displ_vs_view (s : Kap) : kapView (kap_displ_vs s).ext = kapView s.ext := by
  unfold kap_displ_vs
  try dsimp only
  repeat' (first
    | rfl
    | split_ifs
    | simp only [onExt_ext, event_reset_ext, kap_register_ext, kap_cancel_ext, kap_cancel_if_ext,
        event_register_ext])

theorem kap_display_baro_view (s : Kap) : kapView (kap_display_baro s).ext = kapView s.ext := by
  unfold kap_display_baro kap_displ_baro_hpa kap_displ_baro_inhg
  try dsimp only
  repeat' (first
    | rfl
    | split_ifs
    | simp only [onExt_ext, event_reset_ext, kap_register_ext, kap_cancel_ext, kap_cancel_if_ext,
        event_register_ext])

theorem kap_display_rhs_view (s : Kap) : kapView (kap_display_rhs s).ext = kapView s.ext := by
  unfold kap_display_rhs
  split_ifs
  · exact kap_displ_alt_view _
  · exact kap_displ_vs_view _
  · exact kap_display_baro_view _
  · rfl

theorem kap_display_roll_arm_view (s : Kap) :
    kapView (kap_display_roll_arm s).ext = kapView s.ext := by
  unfold kap_display_roll_arm
  try dsimp only
  repeat' (first
    | rfl
    | split_ifs
    | simp only [onExt_ext, event_reset_ext, kap_register_ext, kap_cancel_ext, kap_cancel_if_ext,
        event_register_ext])

theorem kap_display_roll_view (k : KapState) : kapView (kap_display_roll k) = kapView k := by
  unfold kapView
  rw [kap_display_roll_keeps (fun k => k.pitch_arm_mode) (fun _ _ _ => rfl) (fun _ _ => rfl),
    kap_display_roll_keeps (fun k => k.sw_porta) (fun _ _ _ => rfl) (fun _ _ => rfl),
    kap_display_roll_keeps (fun k => k.sw_portb) (fun _ _ _ => rfl) (fun _ _ => rfl),
    kap_display_roll_keeps (fun k => k.sw_enc_delta) (fun _ _ _ => rfl) (fun _ _ => rfl)]
  have : adjCmds (kap_display_roll k).sent = adjCmds k.sent := by
    unfold kap_display_roll
    split_ifs
    · dsimp only
      rw [kap_fsx_sync_adj]
    · rfl
  rw [this]

theorem kap_display_pitch_view (k : KapState) : kapView (kap_display_pitch k) = kapView k := by
  unfold kapView
  rw [kap_display_pitch_keeps (fun k => k.pitch_arm_mode) (fun _ _ _ => rfl) (fun _ _ => rfl),
    kap_display_pitch_keeps (fun k => k.sw_porta) (fun _ _ _ => rfl) (fun _ _ => rfl),
    kap_display_pitch_keeps (fun k => k.sw_portb) (fun _ _ _ => rfl) (fun _ _ => rfl),
    kap_display_pitch_keeps (fun k => k.sw_enc_delta) (fun _ _ _ => rfl) (fun _ _ => rfl)]
  have : adjCmds (kap_display_pitch k).sent = adjCmds k.sent := by
    unfold kap_display_pitch
    split_ifs
    · dsimp only
      rw [kap_fsx_sync_adj]
    · rfl
  rw [this]

theorem kapView_onExt (f : KapState → KapState) (hf : ∀ k, kapView (f k) = kapView k)
    (s : Kap) : kapView (onExt f s).ext = kapView s.ext := hf s.ext

theorem kapView_register (set : KapState → Nat → KapState) (f p n : Nat) (s : Kap)
    (hset : ∀ k h, kapView (set k h) = kapView k) :
    kapView (kap_register set f p n s).ext = kapView s.ext := by
  rw [kap_register_ext]; exact hset _ _

theorem kapView_cancel_if (get : KapState → Nat) (set : KapState → Nat → KapState) (s : Kap)
    (hset : ∀ k h, kapView (set k h) = kapView k) :
    kapView (kap_cancel_if get set s).ext = kapView s.ext := by
  rw [kap_cancel_if_ext]
  split_ifs
  · exact hset _ _
  · rfl

theorem kapView_snd (cid rcmd : Nat) (v : Int) (len : Nat) (k : KapState) (h : rcmd < 12) :
    kapView (kap_snd cid rcmd v len k) = kapView k := by
  unfold kapView kap_snd
  simp only [adjCmds_append]
  have : adjCmds [(⟨cid, rcmd, v, len⟩ : BusCmd)] = [] := by
    simp [adjCmds, DIO_SW_ALT_ENC_20, DIO_SW_ALT_ENC_500]
    omega
  rw [this, List.append_nil]

theorem kap_display_disable_view (s : Kap) :
    kapView (kap_display_disable s).ext = kapView s.ext := by
  unfold kap_display_disable
  dsimp only
  rw [event_register_ext]
  refine (kapView_register _ _ _ _ _ ?_).trans ?_
  · intro k h; rfl
  refine (kapView_cancel_if _ _ _ ?_).trans ?_
  · intro k h; rfl
  refine (kapView_cancel_if _ _ _ ?_).trans ?_
  · intro k h; rfl
  refine (kapView_cancel_if _ _ _ ?_).trans ?_
  · intro k h; rfl
  refine (kapView_cancel_if _ _ _ ?_).trans ?_
  · intro k h; rfl
  refine (kapView_cancel_if _ _ _ ?_).trans ?_
  · intro k h; rfl
  refine (kapView_cancel_if _ _ _ ?_).trans ?_
  · intro k h; rfl
  rw [onExt_ext]
  exact kapView_snd _ _ _ _ _ (by decide)

theorem adjCmds_single (c : BusCmd) (h : c.rcmd < 12) : adjCmds [c] = [] := by
  simp [adjCmds, DIO_SW_ALT_ENC_20, DIO_SW_ALT_ENC_500]
  omega

/-- The master-on reset keeps a settled state settled. -/
theorem kap_display_enable_settled (L : List BusCmd) (k : KapState) (hk : KapSettled L k) :
    KapSettled L (kap_display_enable k) := by
  obtain ⟨⟨_, b, c, _⟩, e⟩ := hk
  unfold kap_display_enable kap_snd
  refine ⟨⟨?_, ?_, ?_, ?_⟩, ?_⟩
  · dsimp only; decide
  · exact b
  · exact c
  · rfl
  · dsimp only
    rw [adjCmds_append, adjCmds_single _ (by decide), List.append_nil]
    exact e

theorem kap_display_ap_settled (L : List BusCmd) (s : Kap) (hs : KapSettled L s.ext) :
    KapSettled L (kap_display_ap s).ext := by
  unfold kap_display_ap
  split_ifs
  · dsimp only
    refine KapSettled_of_view L _ _ (kapView_onExt _ ?_ _) ?_
    · intro k; rfl
    · rw [onExt_ext]
      exact kap_display_enable_settled L _ hs
  · dsimp only
    refine KapSettled_of_view L _ _
      ((kapView_onExt _ ?_ _).trans (kap_display_disable_view s)) hs
    intro k; rfl
  · exact hs

theorem kap_display_modes_settled (L : List BusCmd) (s : Kap) (hs : KapSettled L s.ext) :
    KapSettled L (kap_display_modes s).ext := by
  unfold kap_display_modes
  split_ifs
  · dsimp only
    refine KapSettled_of_view L _ _ ?_ hs
    rw [kap_display_alerts_view, kap_display_rhs_view, onExt_ext]
    have h1 : kapView (onExt kap_display_pitch (kap_display_roll_arm (onExt kap_display_roll s))).ext
        = kapView s.ext := by
      rw [onExt_ext, kap_display_pitch_view, kap_display_roll_arm_view, onExt_ext,
        kap_display_roll_view]
    have h2 : (onExt kap_display_pitch (kap_display_roll_arm (onExt kap_display_roll s))).ext.pitch_arm_mode
        &&& PM_CHANGED = 0 := by
      have := congrArg (fun v => v.1) h1
      simp only [kapView] at this
      rw [this]
      exact hs.1.1
    rw [kap_display_pitch_arm_idle _ h2]
    exact h1
  · exact hs

theorem kap_display_settled (L : List BusCmd) (s : Kap) (hs : KapSettled L s.ext) :
    KapSettled L (kap_display s).ext :=
  kap_display_modes_settled L _ (kap_display_ap_settled L s hs)

theorem kap_buttons_settled (L : List BusCmd) (s : Kap) (hs : KapSettled L s.ext) :
    KapSettled L (kap_buttons s).ext := by
  have key : ∀ s1 : Kap, KapSettled L s1.ext → KapSettled L (kap_buttons_rest s1).ext := by
    intro s1 h1
    obtain ⟨⟨a, b, c, d⟩, e⟩ := h1
    unfold kap_buttons_rest
    split_ifs
    · dsimp only
      rw [on_porta_idle 0 _ s1 b, on_porta_idle 1 _ s1 b, on_porta_idle 2 _ s1 b,
        on_porta_idle 3 _ s1 b, on_porta_idle 4 _ s1 b, on_porta_idle 6 _ s1 b,
        on_porta_idle 7 _ s1 b]
      have he : kap_buttons_enc s1 = s1 := by
        unfold kap_buttons_enc
        rw [if_neg (by rw [d]; simp)]
      rw [he, on_portb_idle 2 _ s1 c, on_portb_idle 3 _ s1 c, on_portb_idle 4 _ s1 c]
      exact ⟨⟨a, b, c, d⟩, e⟩
    · exact ⟨⟨a, rfl, rfl, d⟩, e⟩
  unfold kap_buttons
  rcases kap_buttons_ap_idle s hs.1.2.1 with h | h
  · rw [h]; exact key s hs
  · rw [h]; exact key _ (KapSettled_of_view L _ _ rfl hs)

/-- No timer callback of the engine disturbs a settled state. -/
theorem kap_callbacks_settled (L : List BusCmd) (f t : Nat) (s : Kap)
    (hs : KapSettled L s.ext) : KapSettled L (kap_callbacks f t s).ext := by
  unfold kap_callbacks
  split_ifs
  · exact kap_display_settled L s hs
  · exact kap_buttons_settled L s hs
  · exact KapSettled_of_view L _ _ (kap_ap_on_view _) hs
  · exact KapSettled_of_view L _ _ (kap_vs_end_view _) hs
  · exact KapSettled_of_view L _ _ (kap_end_baro_view _) hs
  · exact KapSettled_of_view L _ _ (baro_mode_check_view _) hs
  · exact KapSettled_of_view L _ _ (kap_roll_arm_commit_view _) hs
  · exact KapSettled_of_view L _ _ (kap_ap_disable_view _) hs
  · exact KapSettled_of_view L _ _ (kap_pt_display_view _) hs
  · exact hs

/-- A poll of a port A button whose own edge bit is clear does nothing. -/
theorem on_porta_skip (b : Nat) (f : Kap → Kap) (s : Kap) (h : s.ext.sw_porta &&& BV b = 0) :
    on_porta b f s = s := by
  unfold on_porta
  rw [if_neg (by rw [h]; simp)]

theorem kap_display_roll_arm_alt (s : Kap) :
    (kap_display_roll_arm s).ext.alt_disp = s.ext.alt_disp ∧
    (kap_display_roll_arm s).ext.alt_rcv = s.ext.alt_rcv := by
  refine ⟨?_, ?_⟩ <;>
  · unfold kap_display_roll_arm
    try dsimp only
    repeat' (first
      | rfl
      | split_ifs
      | simp only [onExt_ext, event_reset_ext, kap_register_ext, kap_cancel_ext,
          kap_cancel_if_ext, event_register_ext])

/-- The commands of the commit are all altitude adjustment commands. -/
theorem adjCmds_commit (a b : Int) :
    adjCmds
      ((if a ≠ 0 then [(⟨KAP_DIO_CID, DIO_SW_ALT_ENC_20, a, 3⟩ : BusCmd)] else []) ++
        (if b ≠ 0 then [(⟨KAP_DIO_CID, DIO_SW_ALT_ENC_500, b, 3⟩ : BusCmd)] else [])) =
      (if a ≠ 0 then [(⟨KAP_DIO_CID, DIO_SW_ALT_ENC_20, a, 3⟩ : BusCmd)] else []) ++
        (if b ≠ 0 then [(⟨KAP_DIO_CID, DIO_SW_ALT_ENC_500, b, 3⟩ : BusCmd)] else []) := by
  split_ifs <;> simp [adjCmds]

/-- The display pass that finds the AP enabled and a change of the pitch arm
mode to PM_CLR pending: the flag is cleared, the pending inputs are left alone
and the adjustment commands sent grow by those of the commit. -/
theorem kap_display_commit_pass (s : Kap) (hen : s.ext.ap_mode = AP_ENABLED)
    (hk : s.ext.pitch_arm_mode = PM_CLR ||| PM_CHANGED) :
    kapView (kap_display s).ext =
      (PM_CLR, s.ext.sw_porta, s.ext.sw_portb, s.ext.sw_enc_delta,
        adjCmds s.ext.sent ++
          ((if wrap8 (cdiv (cmod (wrap32 (s.ext.alt_disp - s.ext.alt_rcv)) 500) 100) ≠ 0 then
              [⟨KAP_DIO_CID, DIO_SW_ALT_ENC_20,
                wrap8 (cdiv (cmod (wrap32 (s.ext.alt_disp - s.ext.alt_rcv)) 500) 100), 3⟩]
            else []) ++
            (if wrap8 (cdiv (wrap32 (s.ext.alt_disp - s.ext.alt_rcv)) 500) ≠ 0 then
              [⟨KAP_DIO_CID, DIO_SW_ALT_ENC_500,
                wrap8 (cdiv (wrap32 (s.ext.alt_disp - s.ext.alt_rcv)) 500), 3⟩]
            else []))) := by
  have hap : kap_display_ap s = s := by
    unfold kap_display_ap
    rw [if_neg (by rw [hen]; decide)]
  unfold kap_display
  rw [hap]
  unfold kap_display_modes
  rw [if_pos hen]
  dsimp only
  rw [kap_display_alerts_view, kap_display_rhs_view, onExt_ext]
  have h1 : kapView (onExt kap_display_pitch (kap_display_roll_arm (onExt kap_display_roll s))).ext
      = kapView s.ext := by
    rw [onExt_ext, kap_display_pitch_view, kap_display_roll_arm_view, onExt_ext,
      kap_display_roll_view]
  have ha : (onExt kap_display_pitch (kap_display_roll_arm (onExt kap_display_roll s))).ext.alt_disp
      = s.ext.alt_disp := by
    rw [onExt_ext,
      kap_display_pitch_keeps (fun k => k.alt_disp) (fun _ _ _ => rfl) (fun _ _ => rfl),
      (kap_display_roll_arm_alt _).1, onExt_ext,
      kap_display_roll_keeps (fun k => k.alt_disp) (fun _ _ _ => rfl) (fun _ _ => rfl)]
  have hr : (onExt kap_display_pitch (kap_display_roll_arm (onExt kap_display_roll s))).ext.alt_rcv
      = s.ext.alt_rcv := by
    rw [onExt_ext,
      kap_display_pitch_keeps (fun k => k.alt_rcv) (fun _ _ _ => rfl) (fun _ _ => rfl),
      (kap_display_roll_arm_alt _).2, onExt_ext,
      kap_display_roll_keeps (fun k => k.alt_rcv) (fun _ _ _ => rfl) (fun _ _ => rfl)]
  generalize (onExt kap_display_pitch (kap_display_roll_arm (onExt kap_display_roll s))).ext = k3
    at h1 ha hr
  unfold kapView at h1
  simp only [Prod.mk.injEq] at h1
  obtain ⟨v1, v2, v3, v4, v5⟩ := h1
  rw [kap_display_pitch_arm_edge k3 (by rw [v1]; exact hk)]
  unfold kapView
  rw [kap_alt_commit_sent,
    kap_alt_commit_keeps (fun k => k.pitch_arm_mode) (fun _ _ => rfl),
    kap_alt_commit_keeps (fun k => k.sw_porta) (fun _ _ => rfl),
    kap_alt_commit_keeps (fun k => k.sw_portb) (fun _ _ => rfl),
    kap_alt_commit_keeps (fun k => k.sw_enc_delta) (fun _ _ => rfl)]
  dsimp only
  rw [List.append_assoc, adjCmds_append, adjCmds_commit, v2, v3, v4, v5, ha, hr]

/-- The poll that finds the AP enabled, the pitch arm mode not cleared and just
the edge of the arm button pending. -/
theorem kap_buttons_arm_only (s : Kap) (hen : s.ext.ap_mode = AP_ENABLED)
    (harm : s.ext.pitch_arm_mode &&& (0xFF ^^^ PM_CHANGED) ≠ PM_CLR)
    (hpa : s.ext.sw_porta = BV 3) (hpb : s.ext.sw_portb = 0) (hd : s.ext.sw_enc_delta = 0) :
    (kap_buttons s).ext.ap_mode = AP_ENABLED ∧
    (kap_buttons s).ext.pitch_arm_mode = PM_CLR ||| PM_CHANGED ∧
    (kap_buttons s).ext.sw_porta = 0 ∧ (kap_buttons s).ext.sw_portb = 0 ∧
    (kap_buttons s).ext.sw_enc_delta = 0 ∧
    (kap_buttons s).ext.sent = s.ext.sent ∧
    (kap_buttons s).ext.alt_disp = s.ext.alt_disp ∧
    (kap_buttons s).ext.alt_rcv = s.ext.alt_rcv := by
  have key : ∀ s1 : Kap, s1.ext.ap_mode = AP_ENABLED →
      s1.ext.pitch_arm_mode &&& (0xFF ^^^ PM_CHANGED) ≠ PM_CLR →
      s1.ext.sw_porta = BV 3 → s1.ext.sw_portb = 0 → s1.ext.sw_enc_delta = 0 →
      kap_buttons_rest s1 =
        onExt kap_button_arm (onExt (fun k => { k with sw_porta := k.sw_porta ^^^ BV 3 }) s1) := by
    intro s1 h1 h2 h3 h4 h5
    unfold kap_buttons_rest
    rw [if_pos (by rw [h1]; decide)]
    dsimp only
    rw [on_porta_skip 0 _ s1 (by rw [h3]; decide), on_porta_skip 1 _ s1 (by rw [h3]; decide),
      on_porta_skip 2 _ s1 (by rw [h3]; decide)]
    have h6 : on_porta 3 (onExt kap_button_arm) s1 =
        onExt kap_button_arm (onExt (fun k => { k with sw_porta := k.sw_porta ^^^ BV 3 }) s1) := by
      unfold on_porta
      rw [if_pos (by rw [h3]; decide)]
    rw [h6]
    have h7 : (onExt kap_button_arm
        (onExt (fun k => { k with sw_porta := k.sw_porta ^^^ BV 3 }) s1)).ext.sw_porta = 0 := by
      show (kap_button_arm { s1.ext with sw_porta := s1.ext.sw_porta ^^^ BV 3 }).sw_porta = 0
      unfold kap_button_arm
      split_ifs <;> (dsimp only; rw [h3]; decide)
    have h8 : (onExt kap_button_arm
        (onExt (fun k => { k with sw_porta := k.sw_porta ^^^ BV 3 }) s1)).ext.sw_portb = 0 := by
      show (kap_button_arm { s1.ext with sw_porta := s1.ext.sw_porta ^^^ BV 3 }).sw_portb = 0
      unfold kap_button_arm
      split_ifs <;> exact h4
    have h9 : (onExt kap_button_arm
        (onExt (fun k => { k with sw_porta := k.sw_porta ^^^ BV 3 }) s1)).ext.sw_enc_delta = 0 := by
      show (kap_button_arm { s1.ext with sw_porta := s1.ext.sw_porta ^^^ BV 3 }).sw_enc_delta = 0
      unfold kap_button_arm
      split_ifs <;> exact h5
    generalize onExt kap_button_arm
      (onExt (fun k => { k with sw_porta := k.sw_porta ^^^ BV 3 }) s1) = sx at h7 h8 h9 ⊢
    rw [on_porta_idle 4 _ _ h7, on_porta_idle 6 _ _ h7, on_porta_idle 7 _ _ h7]
    have he : kap_buttons_enc sx = sx := by
      unfold kap_buttons_enc
      rw [if_neg (by rw [h9]; simp)]
    rw [he, on_portb_idle 2 _ _ h8, on_portb_idle 3 _ _ h8, on_portb_idle 4 _ _ h8]
  have fields : ∀ s1 : Kap, s1.ext.ap_mode = AP_ENABLED →
      s1.ext.pitch_arm_mode &&& (0xFF ^^^ PM_CHANGED) ≠ PM_CLR →
      s1.ext.sw_porta = BV 3 → s1.ext.sw_portb = 0 → s1.ext.sw_enc_delta = 0 →
      s1.ext.sent = s.ext.sent → s1.ext.alt_disp = s.ext.alt_disp →
      s1.ext.alt_rcv = s.ext.alt_rcv →
      (kap_buttons_rest s1).ext.ap_mode = AP_ENABLED ∧
      (kap_buttons_rest s1).ext.pitch_arm_mode = PM_CLR ||| PM_CHANGED ∧
      (kap_buttons_rest s1).ext.sw_porta = 0 ∧ (kap_buttons_rest s1).ext.sw_portb = 0 ∧
      (kap_buttons_rest s1).ext.sw_enc_delta = 0 ∧
      (kap_buttons_rest s1).ext.sent = s.ext.sent ∧
      (kap_buttons_rest s1).ext.alt_disp = s.ext.alt_disp ∧
      (kap_buttons_rest s1).ext.alt_rcv = s.ext.alt_rcv := by
    intro s1 h1 h2 h3 h4 h5 h6 h7 h8
    rw [key s1 h1 h2 h3 h4 h5]
    show (kap_button_arm { s1.ext with sw_porta := s1.ext.sw_porta ^^^ BV 3 }).ap_mode = _ ∧
      (kap_button_arm { s1.ext with sw_porta := s1.ext.sw_porta ^^^ BV 3 }).pitch_arm_mode = _ ∧
      (kap_button_arm { s1.ext with sw_porta := s1.ext.sw_porta ^^^ BV 3 }).sw_porta = _ ∧
      (kap_button_arm { s1.ext with sw_porta := s1.ext.sw_porta ^^^ BV 3 }).sw_portb = _ ∧
      (kap_button_arm { s1.ext with sw_porta := s1.ext.sw_porta ^^^ BV 3 }).sw_enc_delta = _ ∧
      (kap_button_arm { s1.ext with sw_porta := s1.ext.sw_porta ^^^ BV 3 }).sent = _ ∧
      (kap_button_arm { s1.ext with sw_porta := s1.ext.sw_porta ^^^ BV 3 }).alt_disp = _ ∧
      (kap_button_arm { s1.ext with sw_porta := s1.ext.sw_porta ^^^ BV 3 }).alt_rcv = _
    unfold kap_button_arm
    rw [if_neg (by dsimp only; exact h2)]
    dsimp only
    refine ⟨h1, rfl, ?_, h4, h5, h6, h7, h8⟩
    rw [h3]; decide
  unfold kap_buttons
  rcases kap_buttons_ap_skip s (by rw [hpa]; decide) with h | h
  · rw [h]; exact fields s hen harm hpa hpb hd rfl rfl rfl
  · rw [h]; exact fields _ hen harm hpa hpb hd rfl rfl rfl

/-! ### Bus bytes and input sequences -/

theorem kap_rcv_callbacks_view (f : Nat) (s : Kap) :
    kapView (kap_rcv_callbacks f s).ext = kapView s.ext := by
  unfold kap_rcv_callbacks
  split_ifs
  · rfl
  · rfl
  · rfl
  · rfl
  · rfl
  · unfold kap_rcv_dio
    split_ifs
    · exact kap_ap_disable_view s
    · rfl
  · rfl
  · rfl
  · rfl

theorem kap_rcv_run_view (tr : List (Nat × RcvEvent)) :
    ∀ s : Kap, kapView (kap_rcv_run tr s).ext = kapView s.ext := by
  induction tr with
  | nil => intro s; rfl
  | cons x tr ih =>
    intro s
    obtain ⟨i, ev⟩ := x
    cases ev with
    | decode => exact ih s
    | callback f => exact (ih _).trans (kap_rcv_callbacks_view f s)

theorem kap_rcv_view (c : Nat) (s : Kap) : kapView (kap_rcv c s).ext = kapView s.ext := by
  unfold kap_rcv
  dsimp only
  rw [kap_rcv_run_view]
  rfl

/-- An input that is a tick or a bus byte does not disturb a settled state. -/
theorem kap_step_settled (L : List BusCmd) (s : Kap) (x : KapInput)
    (hx : kapInputQuiet x = true) (hs : KapSettled L s.ext) : KapSettled L (kap_step s x).ext := by
  cases x with
  | tick =>
    exact event_tick_ext_inv kap_callbacks (KapSettled L)
      (fun f t s h => kap_callbacks_settled L f t s h) s hs
  | byte c => exact KapSettled_of_view L _ _ (kap_rcv_view _ s) hs
  | porta n => simp [kapInputQuiet] at hx
  | portb n => simp [kapInputQuiet] at hx
  | encoder u => simp [kapInputQuiet] at hx

/-- A sequence of ticks and bus bytes does not disturb a settled state. -/
theorem kap_run_settled (L : List BusCmd) (l : List KapInput) :
    ∀ s : Kap, (∀ x ∈ l, kapInputQuiet x = true) → KapSettled L s.ext →
      KapSettled L (kap_run s l).ext := by
  induction l with
  | nil => intro s _ hs; exact hs
  | cons x l ih =>
    intro s hq hs
    show KapSettled L (kap_run (kap_step s x) l).ext
    exact ih _ (fun y hy => hq y (List.mem_cons_of_mem _ hy))
      (kap_step_settled L s x (hq x (List.mem_cons_self _ _)) hs)

/-! ### The display pass that switches the AP on -/

theorem kap_alerts_trim_modes (d : Int) (s : Kap) :
    kapModes (kap_alerts_trim d s).ext = kapModes s.ext := by
  unfold kap_alerts_trim
  try dsimp only
  repeat' (first
    | rfl
    | split_ifs
    | simp only [onExt_ext, event_reset_ext, kap_register_ext, kap_cancel_ext, kap_cancel_if_ext,
        event_register_ext])

theorem kap_alerts_alt_modes (d : Int) (s : Kap) :
    kapModes (kap_alerts_alt d s).ext = kapModes s.ext := by
  unfold kap_alerts_alt
  try dsimp only
  repeat' (first
    | rfl
    | split_ifs
    | simp only [onExt_ext, event_reset_ext, kap_register_ext, kap_cancel_ext, kap_cancel_if_ext,
        event_register_ext])

theorem kap_display_alerts_modes (s : Kap) :
    kapModes (kap_display_alerts s).ext = kapModes s.ext := by
  unfold kap_display_alerts
  dsimp only
  rw [kap_alerts_alt_modes, kap_alerts_trim_modes]
  split_ifs <;> rfl

/-- The routine kap_displ_vs on a pending change: the flag is cleared and the
other mode variables are left alone. -/
theorem kap_displ_vs_modes (s : Kap) (h : s.ext.rhs_mode &&& RHS_CHANGED ≠ 0) :
    kapModes (kap_displ_vs s).ext =
      kapModes { s.ext with rhs_mode := s.ext.rhs_mode ^^^ RHS_CHANGED } := by
  unfold kap_displ_vs
  rw [if_pos h]
  dsimp only
  repeat' (first
    | rfl
    | split_ifs
    | simp only [onExt_ext, event_reset_ext, kap_register_ext, kap_cancel_ext, kap_cancel_if_ext,
        event_register_ext])

theorem kap_display_roll_arm_idle (s : Kap) (h : s.ext.roll_arm_mode &&& RM_CHANGED = 0) :
    kap_display_roll_arm s = s := by
  unfold kap_display_roll_arm
  rw [if_neg (by rw [h]; decide)]

theorem kap_display_roll_modes (k : KapState) (h : k.roll_mode &&& RM_CHANGED ≠ 0) :
    kapModes (kap_display_roll k) =
      (k.ap_mode, k.roll_mode ^^^ RM_CHANGED, k.roll_arm_mode, k.pitch_mode, k.pitch_arm_mode,
        k.baro_mode, k.rhs_mode, k.alt_disp, k.vs,
        fsx_sync_mirror
          (roll_mode_fsx.getD ((k.roll_mode ^^^ RM_CHANGED) &&& (0xFF ^^^ RM_CHANGED)) (0, 0))
          k.fsx_buttons,
        k.sent ++ fsx_sync_cmds
          (roll_mode_fsx.getD ((k.roll_mode ^^^ RM_CHANGED) &&& (0xFF ^^^ RM_CHANGED)) (0, 0))
          k.fsx_buttons) := by
  obtain ⟨h1, h2, h3⟩ := kap_display_roll_changed k h
  unfold kapModes
  rw [h1, h2, h3,
    kap_display_roll_keeps (fun k => k.ap_mode) (fun _ _ _ => rfl) (fun _ _ => rfl),
    kap_display_roll_keeps (fun k => k.roll_arm_mode) (fun _ _ _ => rfl) (fun _ _ => rfl),
    kap_display_roll_keeps (fun k => k.pitch_mode) (fun _ _ _ => rfl) (fun _ _ => rfl),
    kap_display_roll_keeps (fun k => k.pitch_arm_mode) (fun _ _ _ => rfl) (fun _ _ => rfl),
    kap_display_roll_keeps (fun k => k.baro_mode) (fun _ _ _ => rfl) (fun _ _ => rfl),
    kap_display_roll_keeps (fun k => k.rhs_mode) (fun _ _ _ => rfl) (fun _ _ => rfl),
    kap_display_roll_keeps (fun k => k.alt_disp) (fun _ _ _ => rfl) (fun _ _ => rfl),
    kap_display_roll_keeps (fun k => k.vs) (fun _ _ _ => rfl) (fun _ _ => rfl)]

theorem kap_display_pitch_modes (k : KapState) (h : k.pitch_mode &&& PM_CHANGED ≠ 0) :
    kapModes (kap_display_pitch k) =
      (k.ap_mode, k.roll_mode, k.roll_arm_mode, k.pitch_mode ^^^ PM_CHANGED, k.pitch_arm_mode,
        k.baro_mode, k.rhs_mode, k.alt_disp, k.vs,
        fsx_sync_mirror
          (pitch_mode_fsx.getD ((k.pitch_mode ^^^ PM_CHANGED) &&& (0xFF ^^^ PM_CHANGED)) (0, 0))
          k.fsx_buttons,
        k.sent ++ fsx_sync_cmds
          (pitch_mode_fsx.getD ((k.pitch_mode ^^^ PM_CHANGED) &&& (0xFF ^^^ PM_CHANGED)) (0, 0))
          k.fsx_buttons) := by
  obtain ⟨h1, h2, h3⟩ := kap_display_pitch_changed k h
  unfold kapModes
  rw [h1, h2, h3,
    kap_display_pitch_keeps (fun k => k.ap_mode) (fun _ _ _ => rfl) (fun _ _ => rfl),
    kap_display_pitch_keeps (fun k => k.roll_mode) (fun _ _ _ => rfl) (fun _ _ => rfl),
    kap_display_pitch_keeps (fun k => k.roll_arm_mode) (fun _ _ _ => rfl) (fun _ _ => rfl),
    kap_display_pitch_keeps (fun k => k.pitch_arm_mode) (fun _ _ _ => rfl) (fun _ _ => rfl),
    kap_display_pitch_keeps (fun k => k.baro_mode) (fun _ _ _ => rfl) (fun _ _ => rfl),
    kap_display_pitch_keeps (fun k => k.rhs_mode) (fun _ _ _ => rfl) (fun _ _ => rfl),
    kap_display_pitch_keeps (fun k => k.alt_disp) (fun _ _ _ => rfl) (fun _ _ => rfl),
    kap_display_pitch_keeps (fun k => k.vs) (fun _ _ _ => rfl) (fun _ _ => rfl)]

/-- The display pass that finds the AP just enabled: the mode variables, the
displayed values, the mirror and the commands sent after it. -/
theorem kap_display_enable_pass (s : Kap) (h : s.ext.ap_mode = AP_ENABLED ||| AP_CHANGED) :
    kapModes (kap_display s).ext =
      (AP_ENABLED, RM_ROL, RM_CLR, PM_VS, RM_CLR, BARO_INHG, RHS_VS, 0, 0, FSX_AP ||| FSX_WGL,
        s.ext.sent ++ [⟨KAP_DIO_CID, DIO_SW_APMASTER, 1, 3⟩,
          ⟨KAP_DIO_CID, DIO_SW_WINGLEVEL, 1, 3⟩]) := by
  have e0 : kapModes (kap_display_ap s).ext =
      (AP_ENABLED, RM_ROL ||| RM_CHANGED, RM_CLR, PM_VS ||| PM_CHANGED, RM_CLR, BARO_INHG,
        RHS_VS ||| RHS_CHANGED, 0, 0, FSX_AP,
        s.ext.sent ++ [⟨KAP_DIO_CID, DIO_SW_APMASTER, 1, 3⟩]) := by
    unfold kap_display_ap
    rw [if_pos (by rw [h]; decide), if_pos (by rw [h]; decide)]
    show kapModes { kap_display_enable s.ext with
      ap_mode := (kap_display_enable s.ext).ap_mode ^^^ AP_CHANGED } = _
    unfold kap_display_enable kap_snd kapModes
    dsimp only
    rw [h]
    rfl
  unfold kap_display
  generalize kap_display_ap s = s0 at e0 ⊢
  unfold kapModes at e0
  simp only [Prod.mk.injEq] at e0
  obtain ⟨a1, a2, a3, a4, a5, a6, a7, a8, a9, a10, a11⟩ := e0
  unfold kap_display_modes
  rw [if_pos a1]
  dsimp only
  rw [kap_display_alerts_modes]
  -- the roll mode
  have e1 := kap_display_roll_modes s0.ext (by rw [a2]; decide)
  rw [a1, a2, a3, a4, a5, a6, a7, a8, a9, a10, a11] at e1
  have r1 : fsx_sync_mirror (roll_mode_fsx.getD
      (((RM_ROL ||| RM_CHANGED) ^^^ RM_CHANGED) &&& (0xFF ^^^ RM_CHANGED)) (0, 0)) FSX_AP =
      FSX_AP ||| FSX_WGL := by decide
  have r2 : fsx_sync_cmds (roll_mode_fsx.getD
      (((RM_ROL ||| RM_CHANGED) ^^^ RM_CHANGED) &&& (0xFF ^^^ RM_CHANGED)) (0, 0)) FSX_AP =
      [⟨KAP_DIO_CID, DIO_SW_WINGLEVEL, 1, 3⟩] := by decide
  rw [r1, r2] at e1
  rw [show kap_display_roll s0.ext = (onExt kap_display_roll s0).ext from rfl] at e1
  generalize onExt kap_display_roll s0 = s1 at e1 ⊢
  unfold kapModes at e1
  simp only [Prod.mk.injEq] at e1
  obtain ⟨b1, b2, b3, b4, b5, b6, b7, b8, b9, b10, b11⟩ := e1
  -- the roll arm mode
  rw [kap_display_roll_arm_idle s1 (by rw [b3]; decide)]
  -- the pitch mode
  have e2 := kap_display_pitch_modes s1.ext (by rw [b4]; decide)
  rw [b1, b2, b3, b4, b5, b6, b7, b8, b9, b10, b11] at e2
  have p1 : fsx_sync_mirror (pitch_mode_fsx.getD
      (((PM_VS ||| PM_CHANGED) ^^^ PM_CHANGED) &&& (0xFF ^^^ PM_CHANGED)) (0, 0))
      (FSX_AP ||| FSX_WGL) = FSX_AP ||| FSX_WGL := by decide
  have p2 : fsx_sync_cmds (pitch_mode_fsx.getD
      (((PM_VS ||| PM_CHANGED) ^^^ PM_CHANGED) &&& (0xFF ^^^ PM_CHANGED)) (0, 0))
      (FSX_AP ||| FSX_WGL) = [] := by decide
  rw [p1, p2] at e2
  rw [show kap_display_pitch s1.ext = (onExt kap_display_pitch s1).ext from rfl] at e2
  generalize onExt kap_display_pitch s1 = s2 at e2 ⊢
  unfold kapModes at e2
  simp only [Prod.mk.injEq] at e2
  obtain ⟨c1, c2, c3, c4, c5, c6, c7, c8, c9, c10, c11⟩ := e2
  -- the pitch arm mode
  have hs3 : onExt kap_display_pitch_arm s2 = s2 := by
    unfold onExt
    rw [kap_display_pitch_arm_idle _ (by rw [c5]; decide)]
  rw [hs3]
  -- the right-hand side
  have hs4 : kap_display_rhs s2 = kap_displ_vs s2 := by
    unfold kap_display_rhs
    rw [if_neg (by rw [c7]; decide), if_pos (by rw [c7]; decide)]
  rw [hs4, kap_displ_vs_modes s2 (by rw [c7]; decide)]
  unfold kapModes
  dsimp only
  rw [c1, c2, c3, c4, c5, c6, c7, c8, c9, c10, c11]
  have q1 : (RM_ROL ||| RM_CHANGED) ^^^ RM_CHANGED = RM_ROL := by decide
  have q2 : (PM_VS ||| PM_CHANGED) ^^^ PM_CHANGED = PM_VS := by decide
  rw [q1, q2, List.append_nil, List.append_assoc]
  rfl

/-- The poll that finds the AP disabled and a fresh edge of the AP button:
kap_button_ap marks the transition and registers kap_ap_on; the other buttons
are discarded. -/
theorem kap_buttons_master_press (s : Kap) (hdis : s.ext.ap_mode = AP_DISABLED)
    (hpa : s.ext.sw_porta &&& BV 5 ≠ 0) (hb : s.ext.kap_ap_button = 0) :
    kap_buttons s =
      onExt (fun k => { k with sw_porta := 0, sw_portb := 0 })
        (event_register
          (onExt (fun k => { k with ap_mode := k.ap_mode ||| AP_TRANSITION })
            (onExt (fun k => { k with kap_ap_button := 1 })
              (onExt (fun k => { k with sw_porta := k.sw_porta ^^^ BV 5 }) s)))
          fn_kap_ap_on (EVENT_HZ / 4) 1).1 := by
  have h1 : kap_buttons_ap s =
      (event_register
          (onExt (fun k => { k with ap_mode := k.ap_mode ||| AP_TRANSITION })
            (onExt (fun k => { k with kap_ap_button := 1 })
              (onExt (fun k => { k with sw_porta := k.sw_porta ^^^ BV 5 }) s)))
          fn_kap_ap_on (EVENT_HZ / 4) 1).1 := by
    unfold kap_buttons_ap
    rw [if_pos hpa]
    dsimp only
    rw [if_pos (by simp only [onExt_ext]; exact hb)]
    unfold kap_button_ap
    rw [if_neg (by simp only [onExt_ext]; rw [hdis]; decide),
      if_pos (by simp only [onExt_ext]; rw [hdis]; decide)]
  unfold kap_buttons
  rw [h1]
  unfold kap_buttons_rest
  rw [if_neg (by
    rw [event_register_ext]
    simp only [onExt_ext]
    rw [hdis]; decide)]

/-- The fields of the state after that poll. -/
theorem kap_buttons_master_press_fields (s : Kap) (hdis : s.ext.ap_mode = AP_DISABLED)
    (hpa : s.ext.sw_porta &&& BV 5 ≠ 0) (hb : s.ext.kap_ap_button = 0) :
    (kap_buttons s).ext.ap_mode = AP_TRANSITION ∧
    (kap_buttons s).ext.sw_porta_state = s.ext.sw_porta_state ∧
    (kap_buttons s).ext.sent = s.ext.sent := by
  rw [kap_buttons_master_press s hdis hpa hb]
  simp only [onExt_ext, event_register_ext]
  refine ⟨?_, trivial, trivial⟩
  rw [hdis]; decide

/-! ## Mode engine: specification properties -/

/-- C13. Roll-active stays valid, evaluated on a run from program start: the commit
timer that kap_display_roll_arm registers has no handle, so switching the AP
off does not cancel it. On the run staleCommitRun (NAV armed, AP switched off
and, after the blink, on again within the five seconds) the timer fires after
the master-on reset has put RM_CLR into roll_arm_mode, and kap_roll_arm_commit
copies it: the program reaches a state with the AP enabled whose roll_mode,
change flag masked off, is RM_CLR = 5. -/
theorem roll_mode_cleared_by_stale_commit :
    KapReachable (kap_run kapStart staleCommitRun) ∧
    (kap_run kapStart staleCommitRun).ext.ap_mode = AP_ENABLED ∧
    (kap_run kapStart staleCommitRun).ext.roll_mode = RM_CLR ||| RM_CHANGED ∧
    (kap_run kapStart staleCommitRun).ext.roll_mode &&& (0xFF ^^^ RM_CHANGED) = 5 ∧
    (∀ s : Kap, (kap_roll_arm_commit s).ext.roll_mode = s.ext.roll_arm_mode ||| RM_CHANGED) := by
  refine ⟨⟨staleCommitRun, rfl⟩, ?_, ?_, ?_, ?_⟩
  · set_option maxRecDepth 1000000 in decide
  · set_option maxRecDepth 1000000 in decide
  · set_option maxRecDepth 1000000 in decide
  · intro s
    unfold kap_roll_arm_commit
    simp only [onExt_ext]
    split_ifs <;> simp [kap_cancel_if_ext] <;> split_ifs <;> rfl

/-- C14. Pitch-armed stays valid, at the master-on reset: the reset of
kap_display stores RM_CLR (5), the roll constant, in pitch_arm_mode, for every
state; so right after the reset (reached from program start by masterOnRun)
pitch_arm_mode is neither PM_ALT (0) nor PM_CLR (3), and the first press of the
arm button then takes the branch that clears instead of arming. -/
theorem pitch_arm_reset_to_roll_clear :
    (∀ k : KapState, (kap_display_enable k).pitch_arm_mode = RM_CLR) ∧
    KapReachable (kap_run kapStart masterOnRun) ∧
    (kap_run kapStart masterOnRun).ext.ap_mode = AP_ENABLED ∧
    (kap_run kapStart masterOnRun).ext.pitch_arm_mode &&& (0xFF ^^^ PM_CHANGED) = 5 ∧
    (kap_run kapStart masterOnRun).ext.pitch_arm_mode &&& (0xFF ^^^ PM_CHANGED) ≠ PM_ALT ∧
    (kap_run kapStart masterOnRun).ext.pitch_arm_mode &&& (0xFF ^^^ PM_CHANGED) ≠ PM_CLR ∧
    (kap_button_arm (kap_run kapStart masterOnRun).ext).pitch_arm_mode = PM_CLR ||| PM_CHANGED := by
  refine ⟨fun k => rfl, ⟨masterOnRun, rfl⟩, ?_, ?_, ?_, ?_, ?_⟩ <;>
    set_option maxRecDepth 1000000 in decide


/-- C15. Roll reconciliation: kap_display_roll, run on a pending change to any
of the five roll modes and any 8-bit button mirror, clears the change flag and
leaves a mirror that contains every bit of the mode's required mask and no bit
of its disallowed mask. -/
theorem roll_reconciliation (k : KapState) (m : Nat) (hm : m < 5) (hb : k.fsx_buttons < 256)
    (hr : k.roll_mode = m ||| RM_CHANGED) :
    (kap_display_roll k).roll_mode = m ∧
    (kap_display_roll k).fsx_buttons &&& (roll_mode_fsx.getD m (0, 0)).1 =
      (roll_mode_fsx.getD m (0, 0)).1 ∧
    (kap_display_roll k).fsx_buttons &&& (roll_mode_fsx.getD m (0, 0)).2 = 0 := by
  obtain ⟨h1, h2, h3⟩ := mode_flag_bits m hm
  have hflag : k.roll_mode &&& RM_CHANGED ≠ 0 := by rw [hr]; exact h1
  unfold kap_display_roll
  rw [if_pos hflag]
  simp only []
  have hrow : (k.roll_mode ^^^ RM_CHANGED) &&& (0xFF ^^^ RM_CHANGED) = m := by
    rw [hr, h2]; exact h3
  rw [hrow]
  refine ⟨?_, ?_, ?_⟩
  · rw [kap_fsx_sync_keeps (fun k => k.roll_mode) (fun _ _ _ => rfl)]
    show k.roll_mode ^^^ RM_CHANGED = m
    rw [hr, h2]
  · rw [kap_fsx_sync_buttons]
    exact (roll_rows_reconciled m hm k.fsx_buttons hb).1
  · rw [kap_fsx_sync_buttons]
    exact (roll_rows_reconciled m hm k.fsx_buttons hb).2

/-- C15, at a concrete input: a change to heading mode with the mirror holding
master and wing-level. -/
theorem roll_reconciliation_witness :
    (3 : Nat) < 5 ∧
    (kap_display_roll { kapStart.ext with roll_mode := 0x83, fsx_buttons := 0x41 }).roll_mode = 3 ∧
    (kap_display_roll { kapStart.ext with roll_mode := 0x83, fsx_buttons := 0x41 }).fsx_buttons
        &&& (roll_mode_fsx.getD 3 (0, 0)).1 = (roll_mode_fsx.getD 3 (0, 0)).1 ∧
    (kap_display_roll { kapStart.ext with roll_mode := 0x83, fsx_buttons := 0x41 }).fsx_buttons
        &&& (roll_mode_fsx.getD 3 (0, 0)).2 = 0 :=
  ⟨by decide,
    roll_reconciliation { kapStart.ext with roll_mode := 0x83, fsx_buttons := 0x41 } 3
      (by decide) (by decide) (by decide)⟩

/-- C16. Pitch reconciliation misses the VS-hold button: the loops of
kap_display_pitch run over the bits 1 to FSX_BITS - 1 = 6, but pitch_mode_fsx
names FSX_VS, bit 7, as the button required for VS and disallowed for ALT and
GS. So kap_display_pitch never changes bit 7 of the mirror, for any state; a
change to VS with the mirror holding just the master bit leaves the mirror as
it is and sends nothing; and in the state reached from program start by
masterOnRun, where the change to VS has been displayed, the mirror lacks the
required bit and no command for it has been sent. -/
theorem pitch_vs_bit_never_reconciled :
    (pitch_mode_fsx.getD PM_VS (0, 0)).1 = FSX_VS ∧
    (∀ k : KapState, (kap_display_pitch k).fsx_buttons &&& FSX_VS = k.fsx_buttons &&& FSX_VS) ∧
    (∀ k : KapState,
      (kap_display_pitch
          { k with pitch_mode := PM_VS ||| PM_CHANGED, fsx_buttons := FSX_AP }).fsx_buttons =
        FSX_AP ∧
      (kap_display_pitch
          { k with pitch_mode := PM_VS ||| PM_CHANGED, fsx_buttons := FSX_AP }).pitch_mode =
        PM_VS ∧
      (kap_display_pitch
          { k with pitch_mode := PM_VS ||| PM_CHANGED, fsx_buttons := FSX_AP }).sent = k.sent) ∧
    KapReachable (kap_run kapStart masterOnRun) ∧
    (kap_run kapStart masterOnRun).ext.pitch_mode = PM_VS ∧
    (kap_run kapStart masterOnRun).ext.fsx_buttons = FSX_AP ||| FSX_WGL ∧
    (kap_run kapStart masterOnRun).ext.fsx_buttons &&& (pitch_mode_fsx.getD PM_VS (0, 0)).1 = 0 ∧
    (kap_run kapStart masterOnRun).ext.sent =
      [⟨KAP_DIO_CID, DIO_SW_APMASTER, 1, 3⟩, ⟨KAP_DIO_CID, DIO_SW_WINGLEVEL, 1, 3⟩] := by
  refine ⟨rfl, kap_display_pitch_bit7, fun k => ?_, ⟨masterOnRun, rfl⟩, ?_, ?_, ?_, ?_⟩
  · obtain ⟨h1, h2, h3⟩ := kap_display_pitch_changed
      { k with pitch_mode := PM_VS ||| PM_CHANGED, fsx_buttons := FSX_AP }
      (by dsimp only; decide)
    refine ⟨?_, ?_, ?_⟩
    · rw [h2]; dsimp only; decide
    · rw [h1]; dsimp only; decide
    · rw [h3]
      dsimp only
      have : fsx_sync_cmds (pitch_mode_fsx.getD
        (((PM_VS ||| PM_CHANGED) ^^^ PM_CHANGED) &&& (0xFF ^^^ PM_CHANGED)) (0, 0)) FSX_AP = [] := by
        decide
      rw [this, List.append_nil]
  all_goals set_option maxRecDepth 1000000 in decide

/-- C17, as stated, fails: the slow step of the commit is ALT_INCR_SLOW =
100, not 20. With the displayed target 5000 and the reported altitude 4980 the
clearing edge sends no command at all: on the start state with these values
filled in, and in every other state. -/
theorem alt_commit_ignores_twenty :
    (kap_display_pitch_arm
        { kapStart.ext with pitch_arm_mode := PM_CLR ||| PM_CHANGED, alt_disp := 5000,
                            alt_rcv := 4980 }).sent = [] ∧
    (kap_display_pitch_arm
        { kapStart.ext with pitch_arm_mode := PM_CLR ||| PM_CHANGED, alt_disp := 5000,
                            alt_rcv := 4980 }).pitch_arm_mode = PM_CLR ∧
    ∀ k : KapState,
      (kap_display_pitch_arm
          { k with pitch_arm_mode := PM_CLR ||| PM_CHANGED, alt_disp := 5000,
                   alt_rcv := 4980 }).sent = k.sent := by
  refine ⟨by decide, by decide, ?_⟩
  intro k
  rw [kap_display_pitch_arm_edge _ rfl, kap_alt_commit_sent]
  dsimp only
  have h1 : wrap8 (cdiv (cmod (wrap32 (5000 - 4980)) 500) 100) = 0 := by decide
  have h2 : wrap8 (cdiv (wrap32 (5000 - 4980)) 500) = 0 := by decide
  rw [h1, h2]
  simp

/-- C17, amended. On the clearing edge, with delta = alt_disp - alt_rcv a
multiple of 100 and -64000 < delta < 64000, kap_display_pitch_arm computes the
counts f = delta / 500 and s = (delta % 500) / 100 (C division), which satisfy
500 * f + 100 * s = delta, and appends to the commands sent one command with
code DIO_SW_ALT_ENC_20 and value s if s is not zero, then one with code
DIO_SW_ALT_ENC_500 and value f if f is not zero, and nothing else; the change
flag is cleared. -/
theorem alt_commit_split (k : KapState) (hk : k.pitch_arm_mode = PM_CLR ||| PM_CHANGED)
    (hr : -64000 < k.alt_disp - k.alt_rcv ∧ k.alt_disp - k.alt_rcv < 64000)
    (hm : (k.alt_disp - k.alt_rcv) % 100 = 0) :
    500 * cdiv (k.alt_disp - k.alt_rcv) 500 +
        100 * cdiv (cmod (k.alt_disp - k.alt_rcv) 500) 100 = k.alt_disp - k.alt_rcv ∧
    (kap_display_pitch_arm k).sent =
      k.sent ++
        (if cdiv (cmod (k.alt_disp - k.alt_rcv) 500) 100 ≠ 0 then
          [⟨KAP_DIO_CID, DIO_SW_ALT_ENC_20, cdiv (cmod (k.alt_disp - k.alt_rcv) 500) 100, 3⟩]
        else []) ++
        (if cdiv (k.alt_disp - k.alt_rcv) 500 ≠ 0 then
          [⟨KAP_DIO_CID, DIO_SW_ALT_ENC_500, cdiv (k.alt_disp - k.alt_rcv) 500, 3⟩]
        else []) ∧
    (kap_display_pitch_arm k).pitch_arm_mode = PM_CLR := by
  have hw : wrap32 (k.alt_disp - k.alt_rcv) = k.alt_disp - k.alt_rcv :=
    wrap32_id _ (by omega)
  obtain ⟨hf, hs⟩ := alt_split_bounds _ hr
  refine ⟨alt_split _ hm, ?_, ?_⟩
  · rw [kap_display_pitch_arm_edge k hk, kap_alt_commit_sent]
    dsimp only
    rw [hw, wrap8_id _ hf, wrap8_id _ hs]
  · rw [kap_display_pitch_arm_edge k hk,
      kap_alt_commit_keeps (fun k => k.pitch_arm_mode) (fun _ _ => rfl)]

/-- C17 amended, at a concrete input: target 5000 with reported 4900 sends
exactly one slow command, with count 1, and no fast command. -/
theorem alt_commit_split_witness :
    (500 * cdiv (5000 - 4900) 500 + 100 * cdiv (cmod (5000 - 4900) 500) 100 = 5000 - 4900 ∧
    (kap_display_pitch_arm
        { kapStart.ext with pitch_arm_mode := PM_CLR ||| PM_CHANGED, alt_disp := 5000,
                            alt_rcv := 4900 }).sent =
      [] ++ [⟨KAP_DIO_CID, DIO_SW_ALT_ENC_20, 1, 3⟩] ++ [] ∧
    (kap_display_pitch_arm
        { kapStart.ext with pitch_arm_mode := PM_CLR ||| PM_CHANGED, alt_disp := 5000,
                            alt_rcv := 4900 }).pitch_arm_mode = PM_CLR) :=
  alt_commit_split
    { kapStart.ext with pitch_arm_mode := PM_CLR ||| PM_CHANGED, alt_disp := 5000,
                        alt_rcv := 4900 }
    (by decide) (by decide) (by decide)

/-- C18. The commit fires once per clearing edge. Take any state with the AP
enabled, the pitch arm mode not cleared and just the edge of the arm button
pending. The poll kap_buttons clears the arm (PM_CLR with the change flag) and
sends nothing. The display pass that follows sends the commands of the commit,
which are determined by alt_disp - alt_rcv, and no other adjustment command,
and leaves pitch_arm_mode at PM_CLR without the flag. After that, no sequence
of ticks and bus bytes (every timer callback and every bus callback of the
engine included) adds an adjustment command or raises the change flag
again. -/
theorem alt_commit_once (s : Kap) (l : List KapInput)
    (hen : s.ext.ap_mode = AP_ENABLED)
    (harm : s.ext.pitch_arm_mode &&& (0xFF ^^^ PM_CHANGED) ≠ PM_CLR)
    (hin : s.ext.sw_porta = BV 3 ∧ s.ext.sw_portb = 0 ∧ s.ext.sw_enc_delta = 0)
    (hq : ∀ x ∈ l, kapInputQuiet x = true) :
    (kap_buttons s).ext.pitch_arm_mode = PM_CLR ||| PM_CHANGED ∧
    (kap_buttons s).ext.sent = s.ext.sent ∧
    adjCmds (kap_display (kap_buttons s)).ext.sent =
      adjCmds s.ext.sent ++
        ((if wrap8 (cdiv (cmod (wrap32 (s.ext.alt_disp - s.ext.alt_rcv)) 500) 100) ≠ 0 then
            [⟨KAP_DIO_CID, DIO_SW_ALT_ENC_20,
              wrap8 (cdiv (cmod (wrap32 (s.ext.alt_disp - s.ext.alt_rcv)) 500) 100), 3⟩]
          else []) ++
          (if wrap8 (cdiv (wrap32 (s.ext.alt_disp - s.ext.alt_rcv)) 500) ≠ 0 then
            [⟨KAP_DIO_CID, DIO_SW_ALT_ENC_500,
              wrap8 (cdiv (wrap32 (s.ext.alt_disp - s.ext.alt_rcv)) 500), 3⟩]
          else [])) ∧
    (kap_display (kap_buttons s)).ext.pitch_arm_mode = PM_CLR ∧
    adjCmds (kap_run (kap_display (kap_buttons s)) l).ext.sent =
      adjCmds (kap_display (kap_buttons s)).ext.sent ∧
    (kap_run (kap_display (kap_buttons s)) l).ext.pitch_arm_mode &&& PM_CHANGED = 0 := by
  obtain ⟨hpa, hpb, hd⟩ := hin
  obtain ⟨b1, b2, b3, b4, b5, b6, b7, b8⟩ := kap_buttons_arm_only s hen harm hpa hpb hd
  have hv := kap_display_commit_pass (kap_buttons s) b1 b2
  rw [b3, b4, b5, b6, b7, b8] at hv
  unfold kapView at hv
  simp only [Prod.mk.injEq] at hv
  obtain ⟨v1, v2, v3, v4, v5⟩ := hv
  have hset : KapSettled (adjCmds (kap_display (kap_buttons s)).ext.sent)
      (kap_display (kap_buttons s)).ext :=
    ⟨⟨by rw [v1]; decide, v2, v3, v4⟩, rfl⟩
  have hinv := kap_run_settled (adjCmds (kap_display (kap_buttons s)).ext.sent) l _ hq hset
  exact ⟨b2, b6, v5, v1, hinv.2, hinv.1.1⟩

/-- C18, at a concrete input: from program start the AP is switched on, the
altitude armed at 100 with the encoder and the arm button pressed (armClearRun);
the poll and the display pass send the one slow adjustment, and five further
ticks and a bus frame reporting the altitude send no other. -/
theorem alt_commit_once_witness :
    (kap_run kapStart armClearRun).ext.alt_disp - (kap_run kapStart armClearRun).ext.alt_rcv = 100 ∧
    adjCmds (kap_run kapStart armClearRun).ext.sent = [] ∧
    adjCmds (kap_display (kap_buttons (kap_run kapStart armClearRun))).ext.sent =
      [⟨KAP_DIO_CID, DIO_SW_ALT_ENC_20, 1, 3⟩] ∧
    adjCmds (kap_run (kap_display (kap_buttons (kap_run kapStart armClearRun)))
        (List.replicate 5 KapInput.tick ++
          [KapInput.byte 0xA8, KapInput.byte 0x00, KapInput.byte 0x01, KapInput.byte 0x00,
            KapInput.byte 0x40, KapInput.tick])).ext.sent =
      adjCmds (kap_display (kap_buttons (kap_run kapStart armClearRun))).ext.sent :=
  ⟨by set_option maxRecDepth 1000000 in decide,
    by set_option maxRecDepth 1000000 in decide,
    (alt_commit_once (kap_run kapStart armClearRun) []
      (by set_option maxRecDepth 1000000 in decide)
      (by set_option maxRecDepth 1000000 in decide)
      (by set_option maxRecDepth 1000000 in decide)
      (by decide)).2.2.1.trans
      (by set_option maxRecDepth 1000000 in decide),
    (alt_commit_once (kap_run kapStart armClearRun)
      (List.replicate 5 KapInput.tick ++
          [KapInput.byte 0xA8, KapInput.byte 0x00, KapInput.byte 0x01, KapInput.byte 0x00,
            KapInput.byte 0x40, KapInput.tick])
      (by set_option maxRecDepth 1000000 in decide)
      (by set_option maxRecDepth 1000000 in decide)
      (by set_option maxRecDepth 1000000 in decide)
      (by decide)).2.2.2.2.1⟩

/-- C19, as stated, fails: the slow encoder step is ALT_INCR_SLOW = 100, not
20. From program start, with the AP switched on (masterOnRun: displayed altitude
0, toggle flag clear), one encoder detent up followed by one tick leaves the
displayed altitude at 100. -/
theorem encoder_step_is_hundred :
    (kap_run kapStart masterOnRun).ext.alt_disp = 0 ∧
    (kap_run kapStart masterOnRun).ext.kap_enc_toggle_status = 0 ∧
    (kap_run kapStart masterOnRun).ext.rhs_mode = RHS_VS ∧
    (kap_run kapStart (masterOnRun ++ [KapInput.encoder true])).ext.sw_enc_delta = 1 ∧
    (kap_run kapStart (masterOnRun ++ [KapInput.encoder true, KapInput.tick])).ext.alt_disp =
      100 := by
  refine ⟨?_, ?_, ?_, ?_, ?_⟩ <;> set_option maxRecDepth 1000000 in decide

/-- C19, amended. Encoder scaling: a poll of kap_buttons with the AP enabled, the
display selector not on the barometer, no button edge pending and the encoder
moved by d detents (d not zero and 500 * d within the 16-bit `int`) changes
alt_disp by 100 * d when the toggle flag is clear and by 500 * d when it is
set; it leaves pitch_arm_mode at PM_ALT, setting it and the display selector to
altitude with their change flags if it was not PM_ALT before and leaving both
alone if it was; it consumes the encoder movement, sends no command and touches
no timer. -/
theorem encoder_scaling (s : Kap) (d : Int)
    (hen : s.ext.ap_mode &&& (0xFF ^^^ AP_CHANGED) = AP_ENABLED)
    (hrhs : s.ext.rhs_mode &&& (0xFF ^^^ RHS_CHANGED) ≠ RHS_BARO)
    (hin : s.ext.sw_porta = 0 ∧ s.ext.sw_portb = 0 ∧ s.ext.sw_enc_delta = d)
    (hd : d ≠ 0 ∧ -65 ≤ d ∧ d ≤ 65)
    (halt : -2147000000 ≤ s.ext.alt_disp ∧ s.ext.alt_disp ≤ 2147000000) :
    (kap_buttons s).ext.alt_disp =
      s.ext.alt_disp + (if s.ext.kap_enc_toggle_status = 0 then 100 else 500) * d ∧
    (kap_buttons s).ext.pitch_arm_mode &&& (0xFF ^^^ PM_CHANGED) = PM_ALT ∧
    (s.ext.pitch_arm_mode &&& (0xFF ^^^ PM_CHANGED) ≠ PM_ALT →
      (kap_buttons s).ext.pitch_arm_mode = PM_ALT ||| PM_CHANGED ∧
      (kap_buttons s).ext.rhs_mode = RHS_ALT ||| RHS_CHANGED) ∧
    (s.ext.pitch_arm_mode &&& (0xFF ^^^ PM_CHANGED) = PM_ALT →
      (kap_buttons s).ext.pitch_arm_mode = s.ext.pitch_arm_mode ∧
      (kap_buttons s).ext.rhs_mode = s.ext.rhs_mode) ∧
    (kap_buttons s).ext.sw_enc_delta = 0 ∧
    (kap_buttons s).ext.sent = s.ext.sent ∧
    (kap_buttons s).event_list = s.event_list := by
  obtain ⟨hpa, hpb, hdelta⟩ := hin
  obtain ⟨hd0, hd1, hd2⟩ := hd
  rw [kap_buttons_encoder_only s d hen hrhs hpa hpb hdelta hd0]
  have hfields : ∀ s1 : Kap, s1.event_list = s.event_list →
      (s1.ext = s.ext ∨ s1.ext = { s.ext with kap_ap_button := 0 }) →
      (kap_button_enc d (onExt (fun k => { k with sw_enc_delta := 0 }) s1)).ext.alt_disp =
        s.ext.alt_disp + (if s.ext.kap_enc_toggle_status = 0 then 100 else 500) * d ∧
      (kap_button_enc d (onExt (fun k => { k with sw_enc_delta := 0 }) s1)).ext.pitch_arm_mode
          &&& (0xFF ^^^ PM_CHANGED) = PM_ALT ∧
      (s.ext.pitch_arm_mode &&& (0xFF ^^^ PM_CHANGED) ≠ PM_ALT →
        (kap_button_enc d (onExt (fun k => { k with sw_enc_delta := 0 }) s1)).ext.pitch_arm_mode =
          PM_ALT ||| PM_CHANGED ∧
        (kap_button_enc d (onExt (fun k => { k with sw_enc_delta := 0 }) s1)).ext.rhs_mode =
          RHS_ALT ||| RHS_CHANGED) ∧
      (s.ext.pitch_arm_mode &&& (0xFF ^^^ PM_CHANGED) = PM_ALT →
        (kap_button_enc d (onExt (fun k => { k with sw_enc_delta := 0 }) s1)).ext.pitch_arm_mode =
          s.ext.pitch_arm_mode ∧
        (kap_button_enc d (onExt (fun k => { k with sw_enc_delta := 0 }) s1)).ext.rhs_mode =
          s.ext.rhs_mode) ∧
      (kap_button_enc d (onExt (fun k => { k with sw_enc_delta := 0 }) s1)).ext.sw_enc_delta = 0 ∧
      (kap_button_enc d (onExt (fun k => { k with sw_enc_delta := 0 }) s1)).ext.sent = s.ext.sent ∧
      (kap_button_enc d (onExt (fun k => { k with sw_enc_delta := 0 }) s1)).event_list =
        s.event_list := by
    intro s1 hl he
    have hr1 : (onExt (fun k => { k with sw_enc_delta := 0 }) s1).ext.rhs_mode = s.ext.rhs_mode := by
      rcases he with he | he <;> simp [onExt, he]
    have hp1 : (onExt (fun k => { k with sw_enc_delta := 0 }) s1).ext.pitch_arm_mode =
        s.ext.pitch_arm_mode := by
      rcases he with he | he <;> simp [onExt, he]
    have ha1 : (onExt (fun k => { k with sw_enc_delta := 0 }) s1).ext.alt_disp =
        s.ext.alt_disp := by
      rcases he with he | he <;> simp [onExt, he]
    have ht1 : (onExt (fun k => { k with sw_enc_delta := 0 }) s1).ext.kap_enc_toggle_status =
        s.ext.kap_enc_toggle_status := by
      rcases he with he | he <;> simp [onExt, he]
    have hs1 : (onExt (fun k => { k with sw_enc_delta := 0 }) s1).ext.sent = s.ext.sent := by
      rcases he with he | he <;> simp [onExt, he]
    obtain ⟨e1, e2, _, _, e5, e6, e7, e8⟩ :=
      kap_button_enc_alt_fields d (onExt (fun k => { k with sw_enc_delta := 0 }) s1)
        (by rw [hr1]; exact hrhs)
    rw [hp1] at e7 e8
    rw [ha1, ht1] at e6
    have hal : (kap_button_enc d (onExt (fun k => { k with sw_enc_delta := 0 }) s1)).ext.alt_disp =
        s.ext.alt_disp + (if s.ext.kap_enc_toggle_status = 0 then 100 else 500) * d := by
      rw [e6]
      split_ifs
      · rw [wrap16_id _ (by simp only [ALT_INCR_SLOW]; omega), wrap32_id _ (by
          simp only [ALT_INCR_SLOW]; omega)]
        simp only [ALT_INCR_SLOW]; ring
      · rw [wrap16_id _ (by simp only [ALT_INCR_FAST]; omega), wrap32_id _ (by
          simp only [ALT_INCR_FAST]; omega)]
        simp only [ALT_INCR_FAST]; ring
    refine ⟨hal, ?_, ?_, ?_, ?_, ?_, ?_⟩
    · by_cases h : s.ext.pitch_arm_mode &&& (0xFF ^^^ PM_CHANGED) = PM_ALT
      · rw [(e8 h).1]; exact h
      · rw [(e7 h).1]; decide
    · intro h; exact e7 h
    · intro h; rw [hr1] at e8; exact e8 h
    · rw [e5]; rfl
    · rw [e2, hs1]
    · rw [e1]; exact hl
  rcases kap_buttons_ap_idle s hpa with h | h
  · rw [h]; exact hfields s rfl (Or.inl rfl)
  · rw [h]; exact hfields _ rfl (Or.inr rfl)

/-- C19 amended, at a concrete input: from program start the AP is switched
on and the encoder turned one detent up; the next poll moves the displayed
altitude from 0 to 100 and arms the altitude. -/
theorem encoder_scaling_witness :
    (kap_run kapStart encoderRun).ext.sw_enc_delta = 1 ∧
    (kap_run kapStart encoderRun).ext.kap_enc_toggle_status = 0 ∧
    (kap_buttons (kap_run kapStart encoderRun)).ext.alt_disp = 100 ∧
    (kap_buttons (kap_run kapStart encoderRun)).ext.pitch_arm_mode &&& (0xFF ^^^ PM_CHANGED) =
      PM_ALT ∧
    (kap_buttons (kap_run kapStart encoderRun)).ext.sent = (kap_run kapStart encoderRun).ext.sent :=
  ⟨by set_option maxRecDepth 1000000 in decide,
    by set_option maxRecDepth 1000000 in decide,
    (encoder_scaling (kap_run kapStart encoderRun) 1
      (by set_option maxRecDepth 1000000 in decide)
      (by set_option maxRecDepth 1000000 in decide)
      (by set_option maxRecDepth 1000000 in decide)
      (by decide)
      (by set_option maxRecDepth 1000000 in decide)).1.trans
      (by set_option maxRecDepth 1000000 in decide),
    (encoder_scaling (kap_run kapStart encoderRun) 1
      (by set_option maxRecDepth 1000000 in decide)
      (by set_option maxRecDepth 1000000 in decide)
      (by set_option maxRecDepth 1000000 in decide)
      (by decide)
      (by set_option maxRecDepth 1000000 in decide)).2.1,
    (encoder_scaling (kap_run kapStart encoderRun) 1
      (by set_option maxRecDepth 1000000 in decide)
      (by set_option maxRecDepth 1000000 in decide)
      (by set_option maxRecDepth 1000000 in decide)
      (by decide)
      (by set_option maxRecDepth 1000000 in decide)).2.2.2.2.2.1⟩

/-- Master enable reconciles the wing-level button: the display pass that
switches the AP on also
runs kap_display_roll for the new wing-level mode, so after it the button
mirror holds the wing-level bit besides the master bit and two commands have
been sent, master on and wing-level on. Shown on the run from program start
(masterOnRun: the button is pressed and held, four ticks pass). -/
theorem master_enable_sets_wing_level :
    (kap_run kapStart masterOnRun).ext.ap_mode = AP_ENABLED ∧
    (kap_run kapStart masterOnRun).ext.fsx_buttons = FSX_AP ||| FSX_WGL ∧
    (kap_run kapStart masterOnRun).ext.fsx_buttons ≠ FSX_AP ∧
    (kap_run kapStart masterOnRun).ext.sent =
      [⟨KAP_DIO_CID, DIO_SW_APMASTER, 1, 3⟩, ⟨KAP_DIO_CID, DIO_SW_WINGLEVEL, 1, 3⟩] ∧
    (kap_run kapStart masterOnRun).ext.sent.length = 2 := by
  refine ⟨?_, ?_, ?_, ?_, ?_⟩ <;> set_option maxRecDepth 1000000 in decide

/-- Master enable, step by step: take a state with the AP disabled (no
transition or change pending), a fresh edge of the master button pending, the
button held, and a free timer slot. The poll kap_buttons sets the transition
flag and registers kap_ap_on for EVENT_HZ / 4 = 2 ticks, once. When kap_ap_on
is then called with the button still held, ap_mode becomes enabled with the
change flag, and the display pass that follows leaves: ap_mode enabled,
roll_mode RM_ROL, roll_arm_mode RM_CLR, pitch_mode PM_VS, baro_mode inHg,
rhs_mode RHS_VS, alt_disp 0, vs 0, the mirror holding the master and the
wing-level bit, and two more commands sent: master on, then wing-level on.
When kap_ap_on is called after the button was released, ap_mode becomes
AP_DISABLED, the transition flag cleared. On the run from program start the
display selector is still RHS_VS 29 ticks after the enabling pass and is
RHS_ALT (with its change flag) after the 30th, in which kap_vs_end was
called. -/
theorem master_enable (s : Kap) (t : Nat)
    (hdis : s.ext.ap_mode = AP_DISABLED)
    (hpress : s.ext.sw_porta &&& BV 5 ≠ 0 ∧ s.ext.kap_ap_button = 0)
    (hheld : s.ext.sw_porta_state &&& BV 5 ≠ 0)
    (hlen : s.event_list.length = EVENT_MAX)
    (hfree : ∃ j, 1 ≤ j ∧ j < EVENT_MAX ∧ (slotAt s j).e_func = 0) :
    (kap_buttons s).ext.ap_mode = AP_TRANSITION ∧
    (∃ i, 1 ≤ i ∧ i < EVENT_MAX ∧
      slotAt (kap_buttons s) i =
        ⟨(s.tick + EVENT_HZ / 4) % 65536, EVENT_HZ / 4, 1, fn_kap_ap_on⟩) ∧
    (kap_callbacks fn_kap_ap_on t (kap_buttons s)).ext.ap_mode = AP_ENABLED ||| AP_CHANGED ∧
    ((kap_display (kap_callbacks fn_kap_ap_on t (kap_buttons s))).ext.ap_mode = AP_ENABLED ∧
      (kap_display (kap_callbacks fn_kap_ap_on t (kap_buttons s))).ext.roll_mode = RM_ROL ∧
      (kap_display (kap_callbacks fn_kap_ap_on t (kap_buttons s))).ext.roll_arm_mode = RM_CLR ∧
      (kap_display (kap_callbacks fn_kap_ap_on t (kap_buttons s))).ext.pitch_mode = PM_VS ∧
      (kap_display (kap_callbacks fn_kap_ap_on t (kap_buttons s))).ext.baro_mode = BARO_INHG ∧
      (kap_display (kap_callbacks fn_kap_ap_on t (kap_buttons s))).ext.rhs_mode = RHS_VS ∧
      (kap_display (kap_callbacks fn_kap_ap_on t (kap_buttons s))).ext.alt_disp = 0 ∧
      (kap_display (kap_callbacks fn_kap_ap_on t (kap_buttons s))).ext.vs = 0 ∧
      (kap_display (kap_callbacks fn_kap_ap_on t (kap_buttons s))).ext.fsx_buttons =
        FSX_AP ||| FSX_WGL ∧
      (kap_display (kap_callbacks fn_kap_ap_on t (kap_buttons s))).ext.sent =
        s.ext.sent ++ [⟨KAP_DIO_CID, DIO_SW_APMASTER, 1, 3⟩,
          ⟨KAP_DIO_CID, DIO_SW_WINGLEVEL, 1, 3⟩]) ∧
    (kap_callbacks fn_kap_ap_on t
      (onExt (switches_porta (BV 5)) (kap_buttons s))).ext.ap_mode = AP_DISABLED ∧
    (kap_run kapStart (masterOnRun ++ List.replicate 29 KapInput.tick)).ext.rhs_mode = RHS_VS ∧
    (kap_run kapStart (masterOnRun ++ List.replicate 30 KapInput.tick)).ext.rhs_mode =
      RHS_ALT ||| RHS_CHANGED := by
  obtain ⟨hpa, hb⟩ := hpress
  obtain ⟨f1, f2, f3⟩ := kap_buttons_master_press_fields s hdis hpa hb
  have hon : (kap_callbacks fn_kap_ap_on t (kap_buttons s)).ext.ap_mode =
      AP_ENABLED ||| AP_CHANGED := by
    show (kap_ap_on (kap_buttons s).ext).ap_mode = _
    unfold kap_ap_on
    dsimp only
    rw [if_pos (by rw [f2]; exact hheld), if_pos (by rw [f1]; decide)]
    dsimp only
    decide
  have hsent : (kap_callbacks fn_kap_ap_on t (kap_buttons s)).ext.sent = s.ext.sent := by
    show (kap_ap_on (kap_buttons s).ext).sent = _
    unfold kap_ap_on
    dsimp only
    split_ifs <;> exact f3
  refine ⟨f1, ?_, hon, ?_, ?_, ?_, ?_⟩
  · rw [kap_buttons_master_press s hdis hpa hb]
    obtain ⟨a, b, _, _, _, _, g⟩ := event_register_found
      (onExt (fun k => { k with ap_mode := k.ap_mode ||| AP_TRANSITION })
        (onExt (fun k => { k with kap_ap_button := 1 })
          (onExt (fun k => { k with sw_porta := k.sw_porta ^^^ BV 5 }) s)))
      fn_kap_ap_on (EVENT_HZ / 4) 1 hlen hfree
    exact ⟨_, a, b, g⟩
  · have hm := kap_display_enable_pass _ hon
    rw [hsent] at hm
    unfold kapModes at hm
    simp only [Prod.mk.injEq] at hm
    obtain ⟨m1, m2, m3, m4, _, m6, m7, m8, m9, m10, m11⟩ := hm
    exact ⟨m1, m2, m3, m4, m6, m7, m8, m9, m10, m11⟩
  · show (kap_ap_on (switches_porta (BV 5) (kap_buttons s).ext)).ap_mode = _
    have hrel : (switches_porta (BV 5) (kap_buttons s).ext).sw_porta_state &&& BV 5 = 0 := by
      show ((kap_buttons s).ext.sw_porta_state ^^^ BV 5) &&& BV 5 = 0
      rw [f2]
      have hx : ∀ x : Nat, x &&& BV 5 ≠ 0 → (x ^^^ BV 5) &&& BV 5 = 0 := by
        intro x hx
        have h5 : x &&& BV 5 = BV 5 := by
          have h6 := Nat.and_two_pow x 5
          simp only [BV, Nat.one_shiftLeft] at hx ⊢
          rw [h6] at hx ⊢
          cases hb : x.testBit 5
          · rw [hb] at hx; simp at hx
          · simp
        rw [Nat.and_xor_distrib_right, h5]
        decide
      exact hx _ hheld
    have hmode : (switches_porta (BV 5) (kap_buttons s).ext).ap_mode = AP_TRANSITION := f1
    unfold kap_ap_on
    dsimp only
    rw [if_neg (by rw [hrel]; decide), hmode]
    decide
  · set_option maxRecDepth 1000000 in decide
  · set_option maxRecDepth 1000000 in decide

/-- Master enable, at a concrete input: the state of the program right after
the master button was pressed for the first time. -/
theorem master_enable_witness :
    (kap_run kapStart masterPressRun).ext.ap_mode = AP_DISABLED ∧
    (kap_buttons (kap_run kapStart masterPressRun)).ext.ap_mode = AP_TRANSITION ∧
    (kap_callbacks fn_kap_ap_on 3 (kap_buttons (kap_run kapStart masterPressRun))).ext.ap_mode =
      AP_ENABLED ||| AP_CHANGED ∧
    (kap_display (kap_callbacks fn_kap_ap_on 3
        (kap_buttons (kap_run kapStart masterPressRun)))).ext.ap_mode = AP_ENABLED :=
  ⟨by set_option maxRecDepth 1000000 in decide,
    (master_enable (kap_run kapStart masterPressRun) 3
      (by set_option maxRecDepth 1000000 in decide)
      (by set_option maxRecDepth 1000000 in decide)
      (by set_option maxRecDepth 1000000 in decide)
      (by set_option maxRecDepth 1000000 in decide)
      ⟨7, by decide, by decide, by set_option maxRecDepth 1000000 in decide⟩).1,
    (master_enable (kap_run kapStart masterPressRun) 3
      (by set_option maxRecDepth 1000000 in decide)
      (by set_option maxRecDepth 1000000 in decide)
      (by set_option maxRecDepth 1000000 in decide)
      (by set_option maxRecDepth 1000000 in decide)
      ⟨7, by decide, by decide, by set_option maxRecDepth 1000000 in decide⟩).2.2.1,
    (master_enable (kap_run kapStart masterPressRun) 3
      (by set_option maxRecDepth 1000000 in decide)
      (by set_option maxRecDepth 1000000 in decide)
      (by set_option maxRecDepth 1000000 in decide)
      (by set_option maxRecDepth 1000000 in decide)
      ⟨7, by decide, by decide, by set_option maxRecDepth 1000000 in decide⟩).2.2.2.1.1⟩

/-- C20, evaluated on a run from program start: the master-on pass registers
its revert timer without regard to one that is pending. The AP is switched on
at tick 4, which registers kap_vs_end in slot 7 for tick 34. At tick 20 the
host switches the AP off (a completed Digital I/O frame with the master bit of
the register image clear); kap_ap_disable cancels only the blink timer, so the
AP is disabled with no transition pending and the revert timer still in the
table. The master button is pressed and held: the display pass of tick 24
enables the AP, sets the display selector to RHS_VS and registers a second
kap_vs_end in slot 6 for tick 54. With no further input the selector is still
RHS_VS at tick 33 and becomes RHS_ALT at tick 34, when the first timer fires:
10 ticks after the enabling pass, not 30. The same pass leaves the mirror at
master and wing-level bit and sends two commands. -/
theorem stale_revert_timer_cuts_master_on :
    (KapReachable (kap_run kapStart hostOffRun) ∧
      (kap_run kapStart hostOffRun).tick = 20 ∧
      (kap_run kapStart hostOffRun).ext.ap_mode = AP_DISABLED ∧
      slotAt (kap_run kapStart hostOffRun) 7 = ⟨34, 3 * EVENT_HZ, 1, fn_kap_vs_end⟩) ∧
    ((kap_run kapStart hostOffOnRun).tick = 24 ∧
      (kap_run kapStart hostOffOnRun).ext.ap_mode = AP_ENABLED ∧
      (kap_run kapStart hostOffOnRun).ext.rhs_mode = RHS_VS ∧
      (kap_run kapStart hostOffOnRun).ext.fsx_buttons = FSX_AP ||| FSX_WGL ∧
      slotAt (kap_run kapStart hostOffOnRun) 6 = ⟨54, 3 * EVENT_HZ, 1, fn_kap_vs_end⟩ ∧
      slotAt (kap_run kapStart hostOffOnRun) 7 = ⟨34, 3 * EVENT_HZ, 1, fn_kap_vs_end⟩) ∧
    ((kap_run kapStart (hostOffOnRun ++ List.replicate 9 KapInput.tick)).tick = 33 ∧
      (kap_run kapStart (hostOffOnRun ++ List.replicate 9 KapInput.tick)).ext.rhs_mode =
        RHS_VS) ∧
    ((kap_run kapStart (hostOffOnRun ++ List.replicate 10 KapInput.tick)).tick = 34 ∧
      (kap_run kapStart (hostOffOnRun ++ List.replicate 10 KapInput.tick)).ext.ap_mode =
        AP_ENABLED ∧
      (kap_run kapStart (hostOffOnRun ++ List.replicate 10 KapInput.tick)).ext.rhs_mode =
        RHS_ALT ||| RHS_CHANGED) := by
  refine ⟨⟨⟨_, rfl⟩, ?_, ?_, ?_⟩, ⟨?_, ?_, ?_, ?_, ?_, ?_⟩, ⟨?_, ?_⟩, ⟨?_, ?_, ?_⟩⟩
  all_goals set_option maxRecDepth 1000000 in decide

/-! ## Mode engine: auxiliary lemmas on formatting and single button presses -/

theorem cdiv_nat (n d : Nat) : cdiv (n : Int) (d : Int) = ((n / d : Nat) : Int) := by
  unfold cdiv
  rw [if_pos (Int.ofNat_nonneg n)]
  rfl

theorem cmod_nat (n d : Nat) : cmod (n : Int) (d : Int) = ((n % d : Nat) : Int) := by
  unfold cmod
  rw [cdiv_nat]
  have h2 : ((n : Int) / d) * d + (n : Int) % d = n := by
    rw [mul_comm]; exact Int.ediv_add_emod _ _
  push_cast
  omega

theorem digit_char (d : Nat) (h : d < 10) : (((d : Int) + 48) % 256).toNat = 48 + d := by
  omega

/-- The do-while loop of displ_val ends within the fuel when the index starts
below it. -/
theorem displ_val_loop_total : ∀ (fuel : Nat) (buf : List Nat) (v i : Int), 0 ≤ i → i < fuel →
    (displ_val_loop fuel buf v i).isSome = true := by
  intro fuel
  induction fuel with
  | zero => intro buf v i h0 h1; simp at h1; omega
  | succ fuel ih =>
    intro buf v i h0 h1
    rw [displ_val_loop]
    split_ifs with h2 h3 h4
    · exact ih _ _ _ h3.2 (by push_cast at h1; omega)
    · rfl
    · exact ih _ _ _ h4.2 (by push_cast at h1; omega)
    · rfl

/-- The function displ_val returns for every value and every buffer. -/
theorem displ_val_total (buf : List Nat) (v : Int) : (displ_val buf v).isSome = true := by
  have h := displ_val_loop_total BUF_LEN (buf.set (BUF_LEN - 1) 0)
    (if decide (v < 0) = true then wrap32 (v * -1) else v) (BUF_LEN - 2) (by decide) (by decide)
  unfold displ_val
  dsimp only
  cases hl : displ_val_loop BUF_LEN (buf.set (BUF_LEN - 1) 0)
    (if decide (v < 0) = true then wrap32 (v * -1) else v) (BUF_LEN - 2) with
  | none => rw [hl] at h; simp at h
  | some r => rfl

/-- The do-while loop of displ_val on a non-negative value of at most five
digits, by the number of digits. -/
theorem displ_val_loop_digits (b0 b1 b2 b3 b4 b5 b6 : Nat) (n : Nat) (h : n ≤ 99999) :
    displ_val_loop BUF_LEN [b0, b1, b2, b3, b4, b5, b6] (n : Int) 5 =
      some (
        if n < 10 then ([b0, b1, b2, b3, b4, 48 + n % 10, b6], 4)
        else if n < 100 then ([b0, b1, b2, b3, 48 + n / 10 % 10, 48 + n % 10, b6], 3)
        else if n < 1000 then
          ([b0, b1, b2, 48 + n / 100 % 10, 48 + n / 10 % 10, 48 + n % 10, b6], 2)
        else if n < 10000 then
          ([b0, 48 + n / 1000 % 10, 44, 48 + n / 100 % 10, 48 + n / 10 % 10, 48 + n % 10, b6], 0)
        else
          ([48 + n / 10000 % 10, 48 + n / 1000 % 10, 44, 48 + n / 100 % 10, 48 + n / 10 % 10,
            48 + n % 10, b6], -1)) := by
  have e10 : (10 : Int) = ((10 : Nat) : Int) := rfl
  have c1 : ∀ m : Nat, cdiv (m : Int) 10 = ((m / 10 : Nat) : Int) := fun m => by
    rw [e10, cdiv_nat]
  have c2 : ∀ m : Nat, (((cmod (m : Int) 10) + 48) % 256).toNat = 48 + m % 10 := fun m => by
    rw [e10, cmod_nat]; exact digit_char _ (Nat.mod_lt _ (by decide))
  have d2 : n / 10 / 10 = n / 100 := Nat.div_div_eq_div_mul _ _ _
  have d3 : n / 100 / 10 = n / 1000 := Nat.div_div_eq_div_mul _ _ _
  have d4 : n / 1000 / 10 = n / 10000 := Nat.div_div_eq_div_mul _ _ _
  simp only [BUF_LEN, displ_val_loop, c1, c2, d2, d3, d4]
  by_cases h1 : n < 10
  · have : (n : Int) / 10 = 0 := by omega
    simp [h1, this]
  · by_cases h2 : n < 100
    · have a1 : (n : Int) / 10 ≠ 0 := by omega
      have a2 : (n : Int) / 100 = 0 := by omega
      simp [h1, h2, a1, a2]
    · by_cases h3 : n < 1000
      · have a1 : (n : Int) / 10 ≠ 0 := by omega
        have a2 : (n : Int) / 100 ≠ 0 := by omega
        have a3 : (n : Int) / 1000 = 0 := by omega
        simp [h1, h2, h3, a1, a2, a3]
      · by_cases h4 : n < 10000
        · have a1 : (n : Int) / 10 ≠ 0 := by omega
          have a2 : (n : Int) / 100 ≠ 0 := by omega
          have a3 : (n : Int) / 1000 ≠ 0 := by omega
          have a4 : (n : Int) / 10000 = 0 := by omega
          simp [h1, h2, h3, h4, a1, a2, a3, a4]
        · have a1 : (n : Int) / 10 ≠ 0 := by omega
          have a2 : (n : Int) / 100 ≠ 0 := by omega
          have a3 : (n : Int) / 1000 ≠ 0 := by omega
          have a4 : (n : Int) / 10000 ≠ 0 := by omega
          simp [h1, h2, h3, h4, a1, a2, a3, a4]

theorem list_of_length_seven (buf : List Nat) (h : buf.length = 7) :
    ∃ b0 b1 b2 b3 b4 b5 b6, buf = [b0, b1, b2, b3, b4, b5, b6] := by
  match buf, h with
  | [b0, b1, b2, b3, b4, b5, b6], _ => exact ⟨b0, b1, b2, b3, b4, b5, b6, rfl⟩

/-- The function displ_val on a non-negative value of at most five digits. -/
theorem displ_val_of_nonneg (buf : List Nat) (n : Nat) (hlen : buf.length = BUF_LEN)
    (hn : n ≤ 99999) : displ_val buf (n : Int) = some (displ_val_spec (n : Int)) := by
  obtain ⟨b0, b1, b2, b3, b4, b5, b6, rfl⟩ := list_of_length_seven buf hlen
  have hneg : ¬ ((n : Int) < 0) := by omega
  have h5 : ((BUF_LEN : Int) - 2) = 5 := by decide
  unfold displ_val
  simp only [hneg, decide_False, Bool.false_eq_true, if_false, false_and, List.set, h5]
  rw [displ_val_loop_digits _ _ _ _ _ _ _ n hn]
  unfold displ_val_spec
  simp only [Int.natAbs_ofNat, hneg, if_false, pow_zero, Nat.div_one, pow_one]
  by_cases h1 : n < 10
  · simp [h1, displ_val_pad]
  · by_cases h2 : n < 100
    · simp [h1, h2, displ_val_pad]
    · by_cases h3 : n < 1000
      · simp [h1, h2, h3, displ_val_pad]
      · by_cases h4 : n < 10000
        · simp [h1, h2, h3, h4, displ_val_pad]
        · simp [h1, h2, h3, h4, displ_val_pad]

/-- The function displ_val on a negative value of at most four digits. -/
theorem displ_val_of_neg (buf : List Nat) (n : Nat) (hlen : buf.length = BUF_LEN)
    (h1n : 1 ≤ n) (hn : n ≤ 9999) :
    displ_val buf (-(n : Int)) = some (displ_val_spec (-(n : Int))) := by
  obtain ⟨b0, b1, b2, b3, b4, b5, b6, rfl⟩ := list_of_length_seven buf hlen
  have hneg : (-(n : Int) < 0) := by omega
  have h5 : ((BUF_LEN : Int) - 2) = 5 := by decide
  have hw : wrap32 (-(n : Int) * -1) = (n : Int) := by unfold wrap32; omega
  unfold displ_val
  simp only [hneg, decide_True, if_true, true_and, List.set, h5, hw]
  rw [displ_val_loop_digits _ _ _ _ _ _ _ n (by omega)]
  unfold displ_val_spec
  simp only [Int.natAbs_neg, Int.natAbs_ofNat, hneg, if_true, pow_zero, Nat.div_one, pow_one]
  by_cases h1 : n < 10
  · simp [h1, displ_val_pad]
  · by_cases h2 : n < 100
    · simp [h1, h2, displ_val_pad]
    · by_cases h3 : n < 1000
      · simp [h1, h2, h3, displ_val_pad]
      · have h4 : n < 10000 := by omega
        simp [h1, h2, h3, h4, displ_val_pad]

/-- The length, the comma and the minus sign of the specified format. -/
theorem displ_val_spec_marks (v : Int) (hv : -9999 ≤ v ∧ v ≤ 99999) :
    (displ_val_spec v).length = 7 ∧
    (44 ∈ displ_val_spec v ↔ 1000 ≤ v.natAbs) ∧ (45 ∈ displ_val_spec v ↔ v < 0) := by
  unfold displ_val_spec
  dsimp only
  have d0 := Nat.mod_lt (v.natAbs / 10 ^ 0) (show 0 < 10 by decide)
  have d1 := Nat.mod_lt (v.natAbs / 10 ^ 1) (show 0 < 10 by decide)
  have d2 := Nat.mod_lt (v.natAbs / 10 ^ 2) (show 0 < 10 by decide)
  have d3 := Nat.mod_lt (v.natAbs / 10 ^ 3) (show 0 < 10 by decide)
  have d4 := Nat.mod_lt (v.natAbs / 10 ^ 4) (show 0 < 10 by decide)
  generalize v.natAbs / 10 ^ 0 % 10 = x0 at d0 ⊢
  generalize v.natAbs / 10 ^ 1 % 10 = x1 at d1 ⊢
  generalize v.natAbs / 10 ^ 2 % 10 = x2 at d2 ⊢
  generalize v.natAbs / 10 ^ 3 % 10 = x3 at d3 ⊢
  generalize v.natAbs / 10 ^ 4 % 10 = x4 at d4 ⊢
  have hab : v < 0 → v.natAbs ≤ 9999 := by omega
  split_ifs <;> simp <;> omega

/-- Outside the range that fits the field the sign or the leading digit is
lost: -12345 is written as 12,345 and 123456 as 23,456. -/
theorem displ_val_out_of_range :
    displ_val (List.replicate 7 0) (-12345) = some (cstr "12,345") ∧
    displ_val (List.replicate 7 0) 123456 = some (cstr "23,456") := by
  decide

theorem BV_ne_zero (b : Nat) : BV b ≠ 0 := by
  simp [BV, Nat.shiftLeft_eq]

/-- Clearing the only pending edge of port A. -/
theorem porta_edge_cleared (s : Kap) (b : Nat) (h : s.ext.sw_porta = BV b) :
    onExt (fun k => { k with sw_porta := k.sw_porta ^^^ BV b }) s =
      onExt (fun k => { k with sw_porta := 0 }) s := by
  unfold onExt
  dsimp only
  rw [h, Nat.xor_self]

/-- Clearing the only pending edge of port B. -/
theorem portb_edge_cleared (s : Kap) (b : Nat) (h : s.ext.sw_portb = BV b) :
    onExt (fun k => { k with sw_portb := k.sw_portb ^^^ BV b }) s =
      onExt (fun k => { k with sw_portb := 0 }) s := by
  unfold onExt
  dsimp only
  rw [h, Nat.xor_self]

theorem on_porta_edge (b : Nat) (f : Kap → Kap) (s : Kap) (h : s.ext.sw_porta = BV b) :
    on_porta b f s = f (onExt (fun k => { k with sw_porta := 0 }) s) := by
  unfold on_porta
  rw [if_pos (by rw [h, Nat.and_self]; exact BV_ne_zero b), porta_edge_cleared s b h]

theorem on_portb_edge (b : Nat) (f : Kap → Kap) (s : Kap) (h : s.ext.sw_portb = BV b) :
    on_portb b f s = f (onExt (fun k => { k with sw_portb := 0 }) s) := by
  unfold on_portb
  rw [if_pos (by rw [h, Nat.and_self]; exact BV_ne_zero b), portb_edge_cleared s b h]

theorem on_portb_skip (b : Nat) (f : Kap → Kap) (s : Kap) (h : s.ext.sw_portb &&& BV b = 0) :
    on_portb b f s = s := by
  unfold on_portb
  rw [if_neg (by rw [h]; simp)]

theorem kap_buttons_enc_idle (s : Kap) (h : s.ext.sw_enc_delta = 0) : kap_buttons_enc s = s := by
  unfold kap_buttons_enc
  rw [if_neg (by rw [h]; simp)]

/-- The button routines leave the pending inputs alone. -/
theorem kap_button_arm_inputs (k : KapState) :
    (kap_button_arm k).sw_porta = k.sw_porta ∧ (kap_button_arm k).sw_portb = k.sw_portb ∧
    (kap_button_arm k).sw_enc_delta = k.sw_enc_delta := by
  unfold kap_button_arm
  split_ifs <;> exact ⟨rfl, rfl, rfl⟩

theorem kap_button_roll_arm_inputs (arm : Nat) (k : KapState) :
    (kap_button_roll_arm arm k).sw_porta = k.sw_porta ∧
    (kap_button_roll_arm arm k).sw_portb = k.sw_portb ∧
    (kap_button_roll_arm arm k).sw_enc_delta = k.sw_enc_delta := by
  unfold kap_button_roll_arm
  dsimp only
  split_ifs <;> exact ⟨rfl, rfl, rfl⟩

/-- The same with just the edge of the arm button pending. -/
theorem kap_buttons_rest_arm (s : Kap)
    (hen : s.ext.ap_mode &&& (0xFF ^^^ AP_CHANGED) = AP_ENABLED)
    (hpa : s.ext.sw_porta = BV 3) (hpb : s.ext.sw_portb = 0) (hd : s.ext.sw_enc_delta = 0) :
    kap_buttons_rest s = onExt kap_button_arm (onExt (fun k => { k with sw_porta := 0 }) s) := by
  unfold kap_buttons_rest
  rw [if_pos hen]
  dsimp only
  rw [on_porta_skip 0 _ s (by rw [hpa]; decide), on_porta_skip 1 _ s (by rw [hpa]; decide),
    on_porta_skip 2 _ s (by rw [hpa]; decide), on_porta_edge 3 _ s hpa]
  obtain ⟨a, b, c⟩ := kap_button_arm_inputs { s.ext with sw_porta := 0 }
  have ha : (onExt kap_button_arm (onExt (fun k => { k with sw_porta := 0 }) s)).ext.sw_porta
      = 0 := a
  have hb : (onExt kap_button_arm (onExt (fun k => { k with sw_porta := 0 }) s)).ext.sw_portb
      = 0 := b.trans hpb
  have hc : (onExt kap_button_arm (onExt (fun k => { k with sw_porta := 0 }) s)).ext.sw_enc_delta
      = 0 := c.trans hd
  generalize onExt kap_button_arm (onExt (fun k => { k with sw_porta := 0 }) s) = sx at ha hb hc ⊢
  rw [on_porta_idle 4 _ _ ha, on_porta_idle 6 _ _ ha, on_porta_idle 7 _ _ ha,
    kap_buttons_enc_idle _ hc, on_portb_idle 2 _ _ hb, on_portb_idle 3 _ _ hb,
    on_portb_idle 4 _ _ hb]

/-- The same with just the edge of the APR button pending. -/
theorem kap_buttons_rest_apr (s : Kap)
    (hen : s.ext.ap_mode &&& (0xFF ^^^ AP_CHANGED) = AP_ENABLED)
    (hpa : s.ext.sw_porta = BV 4) (hpb : s.ext.sw_portb = 0) (hd : s.ext.sw_enc_delta = 0) :
    kap_buttons_rest s = onExt kap_button_apr (onExt (fun k => { k with sw_porta := 0 }) s) := by
  unfold kap_buttons_rest
  rw [if_pos hen]
  dsimp only
  rw [on_porta_skip 0 _ s (by rw [hpa]; decide), on_porta_skip 1 _ s (by rw [hpa]; decide),
    on_porta_skip 2 _ s (by rw [hpa]; decide), on_porta_skip 3 _ s (by rw [hpa]; decide),
    on_porta_edge 4 _ s hpa]
  obtain ⟨a, b, c⟩ := kap_button_roll_arm_inputs RM_APR { s.ext with sw_porta := 0 }
  have ha : (onExt kap_button_apr (onExt (fun k => { k with sw_porta := 0 }) s)).ext.sw_porta
      = 0 := a
  have hb : (onExt kap_button_apr (onExt (fun k => { k with sw_porta := 0 }) s)).ext.sw_portb
      = 0 := b.trans hpb
  have hc : (onExt kap_button_apr (onExt (fun k => { k with sw_porta := 0 }) s)).ext.sw_enc_delta
      = 0 := c.trans hd
  generalize onExt kap_button_apr (onExt (fun k => { k with sw_porta := 0 }) s) = sx at ha hb hc ⊢
  rw [on_porta_idle 6 _ _ ha, on_porta_idle 7 _ _ ha,
    kap_buttons_enc_idle _ hc, on_portb_idle 2 _ _ hb, on_portb_idle 3 _ _ hb,
    on_portb_idle 4 _ _ hb]

/-- The same with just the edge of the NAV button pending. -/
theorem kap_buttons_rest_nav (s : Kap)
    (hen : s.ext.ap_mode &&& (0xFF ^^^ AP_CHANGED) = AP_ENABLED)
    (hpa : s.ext.sw_porta = BV 6) (hpb : s.ext.sw_portb = 0) (hd : s.ext.sw_enc_delta = 0) :
    kap_buttons_rest s = onExt kap_button_nav (onExt (fun k => { k with sw_porta := 0 }) s) := by
  unfold kap_buttons_rest
  rw [if_pos hen]
  dsimp only
  rw [on_porta_skip 0 _ s (by rw [hpa]; decide), on_porta_skip 1 _ s (by rw [hpa]; decide),
    on_porta_skip 2 _ s (by rw [hpa]; decide), on_porta_skip 3 _ s (by rw [hpa]; decide),
    on_porta_skip 4 _ s (by rw [hpa]; decide), on_porta_edge 6 _ s hpa]
  obtain ⟨a, b, c⟩ := kap_button_roll_arm_inputs RM_NAV { s.ext with sw_porta := 0 }
  have ha : (onExt kap_button_nav (onExt (fun k => { k with sw_porta := 0 }) s)).ext.sw_porta
      = 0 := a
  have hb : (onExt kap_button_nav (onExt (fun k => { k with sw_porta := 0 }) s)).ext.sw_portb
      = 0 := b.trans hpb
  have hc : (onExt kap_button_nav (onExt (fun k => { k with sw_porta := 0 }) s)).ext.sw_enc_delta
      = 0 := c.trans hd
  generalize onExt kap_button_nav (onExt (fun k => { k with sw_porta := 0 }) s) = sx at ha hb hc ⊢
  rw [on_porta_idle 7 _ _ ha,
    kap_buttons_enc_idle _ hc, on_portb_idle 2 _ _ hb, on_portb_idle 3 _ _ hb,
    on_portb_idle 4 _ _ hb]

/-- The same with just the edge of the REV button pending. -/
theorem kap_buttons_rest_rev (s : Kap)
    (hen : s.ext.ap_mode &&& (0xFF ^^^ AP_CHANGED) = AP_ENABLED)
    (hpa : s.ext.sw_porta = 0) (hpb : s.ext.sw_portb = BV 3) (hd : s.ext.sw_enc_delta = 0) :
    kap_buttons_rest s = onExt kap_button_rev (onExt (fun k => { k with sw_portb := 0 }) s) := by
  unfold kap_buttons_rest
  rw [if_pos hen]
  dsimp only
  rw [on_porta_idle 0 _ s hpa, on_porta_idle 1 _ s hpa, on_porta_idle 2 _ s hpa,
    on_porta_idle 3 _ s hpa, on_porta_idle 4 _ s hpa, on_porta_idle 6 _ s hpa,
    on_porta_idle 7 _ s hpa, kap_buttons_enc_idle s hd,
    on_portb_skip 2 _ s (by rw [hpb]; decide), on_portb_edge 3 _ s hpb]
  obtain ⟨_, b, _⟩ := kap_button_roll_arm_inputs RM_REV { s.ext with sw_portb := 0 }
  have hb : (onExt kap_button_rev (onExt (fun k => { k with sw_portb := 0 }) s)).ext.sw_portb
      = 0 := b
  generalize onExt kap_button_rev (onExt (fun k => { k with sw_portb := 0 }) s) = sx at hb ⊢
  rw [on_portb_idle 4 _ _ hb]

/-- The pitch trim part of kap_display_alerts sets the direction from the sign
of the rounded difference. -/
theorem kap_alerts_trim_direction (d : Int) (s : Kap) :
    (kap_alerts_trim d s).ext.pitch_trim =
      if d > 0 then PT_UP else if d < 0 then PT_DOWN else PT_NONE := by
  unfold kap_alerts_trim
  try dsimp only
  repeat' (first
    | rfl
    | split_ifs
    | simp only [onExt_ext, event_reset_ext, kap_register_ext, kap_cancel_ext, kap_cancel_if_ext,
        event_register_ext])

/-- The altitude alert part of kap_display_alerts leaves everything but the
alert state and the handle of the flash timer alone. -/
theorem kap_alerts_alt_keeps {β : Type} (g : KapState → β)
    (hg : ∀ k a h, g { k with alt_alert := a, kap_alert := h } = g k) (d : Int) (s : Kap) :
    g (kap_alerts_alt d s).ext = g s.ext := by
  have h1 : ∀ k a, g { k with alt_alert := a } = g k := fun k a => hg k a k.kap_alert
  have h2 : ∀ k h, g { k with kap_alert := h } = g k := fun k h => hg k k.alt_alert h
  unfold kap_alerts_alt
  try dsimp only
  repeat' (first
    | split_ifs
    | simp only [onExt_ext, event_reset_ext, kap_register_ext, kap_cancel_ext, kap_cancel_if_ext,
        event_register_ext, h1, h2, hg])

/-- The pitch trim part of kap_display_alerts leaves the altitudes alone. -/
theorem kap_alerts_trim_keeps {β : Type} (g : KapState → β)
    (hg : ∀ k a h, g { k with pitch_trim := a, kap_pt_alert := h } = g k) (d : Int) (s : Kap) :
    g (kap_alerts_trim d s).ext = g s.ext := by
  have h1 : ∀ k a, g { k with pitch_trim := a } = g k := fun k a => hg k a k.kap_pt_alert
  have h2 : ∀ k h, g { k with kap_pt_alert := h } = g k := fun k h => hg k k.pitch_trim h
  unfold kap_alerts_trim
  try dsimp only
  repeat' (first
    | split_ifs
    | simp only [onExt_ext, event_reset_ext, kap_register_ext, kap_cancel_ext, kap_cancel_if_ext,
        event_register_ext, h1, h2, hg])

/-- The sign of a 32-bit value rounded by `(x / 20) * 20`. -/
theorem round_sign (x : Int) (hx : -2147483648 ≤ x ∧ x < 2147483648) :
    (wrap32 (cdiv x PT_RND * PT_RND) > 0 ↔ 20 ≤ x) ∧
    (wrap32 (cdiv x PT_RND * PT_RND) < 0 ↔ x ≤ -20) := by
  have hq : -2147483648 ≤ cdiv x PT_RND * PT_RND ∧ cdiv x PT_RND * PT_RND < 2147483648 := by
    unfold cdiv
    simp only [PT_RND]
    split_ifs <;> omega
  rw [wrap32_id _ hq]
  unfold cdiv
  simp only [PT_RND]
  split_ifs <;> constructor <;> constructor <;> intro h <;> omega

theorem wrap32_range (x : Int) : -2147483648 ≤ wrap32 x ∧ wrap32 x < 2147483648 := by
  unfold wrap32
  omega

/-- The direction kap_display_alerts stores, from the difference of the two
altitudes. -/
theorem kap_display_alerts_direction (s : Kap) :
    (kap_display_alerts s).ext.pitch_trim =
      if 20 ≤ wrap32 (s.ext.alt_rcv - s.ext.air_alt) then PT_UP
      else if wrap32 (s.ext.alt_rcv - s.ext.air_alt) ≤ -20 then PT_DOWN else PT_NONE := by
  unfold kap_display_alerts
  dsimp only
  rw [kap_alerts_alt_keeps (fun k => k.pitch_trim) (fun _ _ _ => rfl),
    kap_alerts_trim_direction]
  have hs : ∀ s1 : Kap, s1.ext.alt_rcv = s.ext.alt_rcv → s1.ext.air_alt = s.ext.air_alt →
      (if wrap32 (cdiv (wrap32 (s1.ext.alt_rcv - s1.ext.air_alt)) PT_RND * PT_RND) > 0 then PT_UP
        else if wrap32 (cdiv (wrap32 (s1.ext.alt_rcv - s1.ext.air_alt)) PT_RND * PT_RND) < 0
          then PT_DOWN else PT_NONE) =
      if 20 ≤ wrap32 (s.ext.alt_rcv - s.ext.air_alt) then PT_UP
      else if wrap32 (s.ext.alt_rcv - s.ext.air_alt) ≤ -20 then PT_DOWN else PT_NONE := by
    intro s1 h1 h2
    rw [h1, h2]
    obtain ⟨a, b⟩ := round_sign _ (wrap32_range (s.ext.alt_rcv - s.ext.air_alt))
    simp only [a, b]
  by_cases h : s.ext.kap_disp_flags &&& KAP_DC_AIR_ALT ≠ 0
  · simp only [if_pos h]
    exact hs _ rfl rfl
  · simp only [if_neg h]
    exact hs _ rfl rfl

/-- A byte with the transition flag set is not the value AP_ENABLED, whether or
not the change flag is masked off. -/
theorem transition_not_enabled (x : Nat) :
    (x ||| AP_TRANSITION) &&& (0xFF ^^^ AP_CHANGED) ≠ AP_ENABLED := by
  intro h
  have h6 := congrArg (fun y => Nat.testBit y 6) h
  simp only [Nat.testBit_and, Nat.testBit_or] at h6
  have a : Nat.testBit AP_TRANSITION 6 = true := by decide
  have b : Nat.testBit (0xFF ^^^ AP_CHANGED) 6 = true := by decide
  have c : Nat.testBit AP_ENABLED 6 = false := by decide
  rw [a, b, c] at h6
  simp at h6

/-- The routine kap_button_ap touches only ap_mode and the timer table. -/
theorem kap_button_ap_keeps {β : Type} (g : KapState → β)
    (hg : ∀ k a, g { k with ap_mode := a } = g k) (s : Kap) :
    g (kap_button_ap s).ext = g s.ext := by
  unfold kap_button_ap
  try dsimp only
  repeat' (first
    | split_ifs
    | simp only [onExt_ext, event_register_ext, hg])

/-- The first statement of kap_buttons touches only ap_mode, the pending edge
of the AP button, the flag kap_ap_button and the timer table. -/
theorem kap_buttons_ap_keeps {β : Type} (g : KapState → β)
    (hg : ∀ k a, g { k with ap_mode := a } = g k)
    (hp : ∀ k p, g { k with sw_porta := p } = g k)
    (hb : ∀ k b, g { k with kap_ap_button := b } = g k) (s : Kap) :
    g (kap_buttons_ap s).ext = g s.ext := by
  unfold kap_buttons_ap
  dsimp only
  split_ifs
  · refine (kap_button_ap_keeps g hg _).trans ?_
    exact (hb { s.ext with sw_porta := s.ext.sw_porta ^^^ BV 5 } 1).trans (hp s.ext _)
  · exact hp s.ext _
  · exact hb s.ext 0
  · rfl

/-- A master that is not enabled is not enabled after kap_button_ap. -/
theorem kap_button_ap_off (s : Kap)
    (h : s.ext.ap_mode &&& (0xFF ^^^ AP_CHANGED) ≠ AP_ENABLED) :
    (kap_button_ap s).ext.ap_mode &&& (0xFF ^^^ AP_CHANGED) ≠ AP_ENABLED := by
  unfold kap_button_ap
  split_ifs
  · exact h
  · simp only [event_register_ext, onExt_ext]
    exact transition_not_enabled _
  · simp only [onExt_ext]
    decide

/-- A master that is not enabled is not enabled after the first statement of
kap_buttons. -/
theorem kap_buttons_ap_off (s : Kap)
    (h : s.ext.ap_mode &&& (0xFF ^^^ AP_CHANGED) ≠ AP_ENABLED) :
    (kap_buttons_ap s).ext.ap_mode &&& (0xFF ^^^ AP_CHANGED) ≠ AP_ENABLED := by
  unfold kap_buttons_ap
  dsimp only
  split_ifs
  · exact kap_button_ap_off _ h
  · exact h
  · exact h
  · exact h

/-- With the master not enabled, kap_buttons is its first statement followed by
the clearing of the pending edges. -/
theorem kap_buttons_gated (s : Kap)
    (h : s.ext.ap_mode &&& (0xFF ^^^ AP_CHANGED) ≠ AP_ENABLED) :
    kap_buttons s = onExt (fun k => { k with sw_porta := 0, sw_portb := 0 }) (kap_buttons_ap s) := by
  unfold kap_buttons kap_buttons_rest
  rw [if_neg (kap_buttons_ap_off s h)]

/-- The fields kap_buttons leaves alone while the master is not enabled. -/
theorem kap_buttons_gated_keeps {β : Type} (g : KapState → β)
    (hg : ∀ k a, g { k with ap_mode := a } = g k)
    (hp : ∀ k p, g { k with sw_porta := p } = g k)
    (hq : ∀ k p, g { k with sw_portb := p } = g k)
    (hb : ∀ k b, g { k with kap_ap_button := b } = g k) (s : Kap)
    (h : s.ext.ap_mode &&& (0xFF ^^^ AP_CHANGED) ≠ AP_ENABLED) :
    g (kap_buttons s).ext = g s.ext := by
  rw [kap_buttons_gated s h, onExt_ext]
  have e : ∀ k : KapState, g { k with sw_porta := 0, sw_portb := 0 } = g k := fun k =>
    (hq { k with sw_porta := 0 } 0).trans (hp k 0)
  rw [e, kap_buttons_ap_keeps g hg hp hb]

/-- The common body of kap_button_nav, kap_button_apr and kap_button_rev on the
two roll variables. -/
theorem kap_button_roll_arm_modes (arm : Nat) (k : KapState) :
    (kap_button_roll_arm arm k).roll_mode =
      (if k.roll_mode &&& (0xFF ^^^ RM_CHANGED) = RM_ROL then RM_HDG ||| RM_CHANGED
        else k.roll_mode) ∧
    (kap_button_roll_arm arm k).roll_arm_mode =
      (if (k.roll_mode &&& (0xFF ^^^ RM_CHANGED) = RM_ROL ∨
            k.roll_mode &&& (0xFF ^^^ RM_CHANGED) = RM_HDG) ∧ k.roll_arm_mode = RM_CLR
        then arm ||| RM_CHANGED else k.roll_arm_mode) := by
  unfold kap_button_roll_arm
  dsimp only
  by_cases ha : k.roll_mode &&& (0xFF ^^^ RM_CHANGED) = RM_ROL
  · have h81 : (RM_HDG ||| RM_CHANGED) &&& (0xFF ^^^ RM_CHANGED) = RM_HDG := by decide
    simp only [ha, if_true, h81, true_and, true_or]
    split_ifs <;> exact ⟨rfl, rfl⟩
  · simp only [ha, if_false, false_or]
    split_ifs <;> exact ⟨rfl, rfl⟩

/-- The routine kap_button_arm on the pitch arm mode. -/
theorem kap_button_arm_mode (k : KapState) :
    (kap_button_arm k).pitch_arm_mode =
      if k.pitch_arm_mode &&& (0xFF ^^^ PM_CHANGED) = PM_CLR then PM_ALT ||| PM_CHANGED
      else PM_CLR ||| PM_CHANGED := by
  unfold kap_button_arm
  split_ifs <;> rfl

/-- The routine kap_display_pitch_arm on the pitch arm mode: it clears the
change flag. -/
theorem kap_display_pitch_arm_mode (k : KapState) :
    (kap_display_pitch_arm k).pitch_arm_mode =
      if k.pitch_arm_mode &&& PM_CHANGED ≠ 0 then k.pitch_arm_mode ^^^ PM_CHANGED
      else k.pitch_arm_mode := by
  unfold kap_display_pitch_arm
  dsimp only
  split_ifs
  · exact kap_alt_commit_keeps (fun k => k.pitch_arm_mode) (fun _ _ => rfl) _
  · rfl
  · rfl

/-! ### The timer table under event_register and event_cancel -/

/-- The scan of event_register stops at the highest free slot of its range. -/
theorem event_register_scan_highest {α : Type} (f P n : Nat) :
    ∀ (j : Nat) (s : EventState α) (k : Nat), 1 ≤ k → k ≤ j → (slotAt s k).e_func = 0 →
      k ≤ (event_register_scan f P n j s).2 := by
  intro j
  induction j with
  | zero => intro s k h1 h2 _; omega
  | succ j ih =>
    intro s k h1 h2 h3
    by_cases hfree : (slotAt s (j + 1)).e_func = 0
    · rw [event_register_scan, if_pos hfree]
      exact h2
    · rw [event_register_scan, if_neg hfree]
      have hk : k ≠ j + 1 := fun e => hfree (e ▸ h3)
      exact ih s k h1 (by omega) h3

/-- With the slots 1 to `m + 1` free, event_register writes the new entry into
a free slot above `m` and returns its handle. -/
theorem event_register_low {α : Type} (s : EventState α) (f P n m : Nat) (hm : m + 1 ≤ 9)
    (hfree : LowFree (m + 1) s) :
    ∃ j, m + 1 ≤ j ∧ j ≤ 9 ∧ (slotAt s j).e_func = 0 ∧
      event_register s f P n =
        ({ s with event_list := s.event_list.set j ⟨(s.tick + P) % 65536, P, n, f⟩ }, j + 1) := by
  have e9 : EVENT_MAX - 1 = 9 := rfl
  have hex : ∃ k, 1 ≤ k ∧ k ≤ 9 ∧ (slotAt s k).e_func = 0 :=
    ⟨m + 1, by omega, hm, hfree (m + 1) (by omega) (by omega)⟩
  obtain ⟨a, b, c, d⟩ := event_register_scan_found f P n 9 s hex
  have e := event_register_scan_highest f P n 9 s (m + 1) (by omega) hm
    (hfree (m + 1) (by omega) (by omega))
  refine ⟨(event_register_scan f P n 9 s).2, e, b, c, ?_⟩
  unfold event_register
  rw [e9]
  dsimp only
  rw [Prod.mk.injEq]
  refine ⟨d, ?_⟩
  omega

/-- In every case event_register either leaves the table alone and returns the
handle 1, or writes the new entry into one free slot and returns its handle. -/
theorem event_register_cases {α : Type} (s : EventState α) (f P n : Nat) :
    event_register s f P n = (s, 1) ∨
    ∃ j, 1 ≤ j ∧ j ≤ 9 ∧ (slotAt s j).e_func = 0 ∧
      event_register s f P n =
        ({ s with event_list := s.event_list.set j ⟨(s.tick + P) % 65536, P, n, f⟩ }, j + 1) := by
  have e9 : EVENT_MAX - 1 = 9 := rfl
  by_cases hex : ∃ k, 1 ≤ k ∧ k ≤ 9 ∧ (slotAt s k).e_func = 0
  · right
    obtain ⟨a, b, c, d⟩ := event_register_scan_found f P n 9 s hex
    refine ⟨(event_register_scan f P n 9 s).2, a, b, c, ?_⟩
    unfold event_register
    rw [e9]
    dsimp only
    rw [Prod.mk.injEq]
    refine ⟨d, ?_⟩
    omega
  · left
    apply event_register_full
    rw [e9]
    intro k h1 h2 h3
    exact hex ⟨k, h1, h2, h3⟩

/-- The handle event_register returns is never the null handle. -/
theorem event_register_handle {α : Type} (s : EventState α) (f P n : Nat) :
    (event_register s f P n).2 ≠ 0 := by
  rcases event_register_cases s f P n with h | ⟨j, _, _, _, h⟩ <;> rw [h] <;> simp

/-- An entry with a function, found at a slot, is in the table. -/
theorem mem_of_slotAt {α : Type} (s : EventState α) (j : Nat) (e : event_t)
    (h : slotAt s j = e) (hf : e.e_func ≠ 0) : e ∈ s.event_list := by
  unfold slotAt at h
  by_cases hj : j < s.event_list.length
  · rw [List.getD_eq_getElem _ _ hj] at h
    rw [← h]
    exact List.getElem_mem _
  · rw [List.getD_eq_default _ _ (by omega)] at h
    rw [← h] at hf
    exact absurd rfl hf

/-- An entry of the table is found at some slot. -/
theorem slotAt_of_mem {α : Type} (s : EventState α) (e : event_t) (h : e ∈ s.event_list) :
    ∃ j, slotAt s j = e := by
  obtain ⟨j, hj, he⟩ := List.getElem_of_mem h
  refine ⟨j, ?_⟩
  unfold slotAt
  rw [List.getD_eq_getElem _ _ hj]
  exact he

/-- No timer calling `f` is pending when no slot holds `f`. -/
theorem not_pending_of_slots {α : Type} (f : Nat) (s : EventState α)
    (h : ∀ j, (slotAt s j).e_func ≠ f) : ¬ timerPending f s := by
  rintro ⟨e, he, hf⟩
  obtain ⟨j, hj⟩ := slotAt_of_mem s e he
  exact h j (by rw [hj]; exact hf)

/-- No slot holds `f` when no timer calling `f` is pending. -/
theorem slots_of_not_pending {α : Type} (f : Nat) (hf : f ≠ 0) (s : EventState α)
    (h : ¬ timerPending f s) : ∀ j, (slotAt s j).e_func ≠ f := by
  intro j hj
  exact h ⟨slotAt s j, mem_of_slotAt s j _ rfl (by rw [hj]; exact hf), hj⟩

theorem slotAt_set_self {α : Type} (s : EventState α) (j : Nat) (e : event_t)
    (hj : j < s.event_list.length) :
    slotAt { s with event_list := s.event_list.set j e } j = e := by
  unfold slotAt
  exact getD_set_self _ _ _ _ hj

theorem slotAt_set_other {α : Type} (s : EventState α) (i j : Nat) (e : event_t) (h : i ≠ j) :
    slotAt { s with event_list := s.event_list.set i e } j = slotAt s j := by
  unfold slotAt
  exact getD_set_other _ _ _ _ _ h

/-! ### The timer table under the routines of the engine -/

theorem slotAt_onExt (f : KapState → KapState) (s : Kap) (j : Nat) :
    slotAt (onExt f s) j = slotAt s j := rfl

theorem LowFree_onExt (f : KapState → KapState) (s : Kap) (m : Nat) (h : LowFree m s) :
    LowFree m (onExt f s) := h

/-- A slot after kap_register: as before, or it was free and now holds the new
entry, whose handle has been stored. -/
theorem kap_register_slot (set : KapState → Nat → KapState) (f P n : Nat) (s : Kap) (j : Nat) :
    slotAt (kap_register set f P n s) j = slotAt s j ∨
    ((slotAt s j).e_func = 0 ∧
      slotAt (kap_register set f P n s) j = ⟨(s.tick + P) % 65536, P, n, f⟩ ∧
      (kap_register set f P n s).ext = set s.ext (j + 1)) := by
  unfold kap_register
  dsimp only
  rcases event_register_cases s f P n with h | ⟨i, _, _, h3, h⟩
  · left
    rw [h]
    rfl
  · rw [h]
    by_cases hij : i = j
    · subst hij
      by_cases hlen : i < s.event_list.length
      · right
        exact ⟨h3, getD_set_self _ _ _ _ hlen, rfl⟩
      · left
        show (s.event_list.set i _).getD i default = s.event_list.getD i default
        rw [List.getD_eq_default _ _ (by rw [List.length_set]; omega),
          List.getD_eq_default _ _ (by omega)]
    · left
      exact getD_set_other _ _ _ _ _ hij

/-- The same for a call of event_register whose handle is not kept. -/
theorem event_register_slot {α : Type} (s : EventState α) (f P n : Nat) (j : Nat) :
    slotAt (event_register s f P n).1 j = slotAt s j ∨
    ((slotAt s j).e_func = 0 ∧
      slotAt (event_register s f P n).1 j = ⟨(s.tick + P) % 65536, P, n, f⟩) := by
  rcases event_register_cases s f P n with h | ⟨i, _, _, h3, h⟩
  · left
    rw [h]
  · rw [h]
    by_cases hij : i = j
    · subst hij
      by_cases hlen : i < s.event_list.length
      · right
        exact ⟨h3, getD_set_self _ _ _ _ hlen⟩
      · left
        show (s.event_list.set i _).getD i default = s.event_list.getD i default
        rw [List.getD_eq_default _ _ (by rw [List.length_set]; omega),
          List.getD_eq_default _ _ (by omega)]
    · left
      exact getD_set_other _ _ _ _ _ hij

/-- With the slots 1 to `m + 1` free, event_register succeeds and leaves the
slots 1 to `m` free. -/
theorem event_register_keeps_low {α : Type} (s : EventState α) (f P n m : Nat) (hm : m + 1 ≤ 9)
    (hlen : s.event_list.length = EVENT_MAX) (hfree : LowFree (m + 1) s) :
    LowFree m (event_register s f P n).1 ∧
    (∃ j, 1 ≤ j ∧ j ≤ 9 ∧ slotAt (event_register s f P n).1 j = ⟨(s.tick + P) % 65536, P, n, f⟩ ∧
      (event_register s f P n).2 = j + 1) := by
  obtain ⟨j, h1, h2, _, h⟩ := event_register_low s f P n m hm hfree
  rw [h]
  constructor
  · intro k k1 k2
    show ((s.event_list.set j _).getD k default).e_func = 0
    rw [getD_set_other _ _ _ _ _ (by omega)]
    exact hfree k (by omega) k2
  · refine ⟨j, by omega, h2, ?_, rfl⟩
    exact getD_set_self _ _ _ _ (by rw [hlen]; simp only [EVENT_MAX]; omega)

theorem event_register_length {α : Type} (s : EventState α) (f P n : Nat) :
    (event_register s f P n).1.event_list.length = s.event_list.length ∧
    (event_register s f P n).1.tick = s.tick := by
  rcases event_register_cases s f P n with h | ⟨i, _, _, _, h⟩
  · rw [h]; exact ⟨rfl, rfl⟩
  · rw [h]; exact ⟨List.length_set _ _ _, rfl⟩

/-- A slot after event_cancel: as before, or it is the slot the handle named
and is free now. -/
theorem event_cancel_slot {α : Type} (s : EventState α) (h j : Nat) :
    (slotAt (event_cancel s h).1 j = slotAt s j ∨ (slotAt (event_cancel s h).1 j).e_func = 0) ∧
    (h = j + 1 → (slotAt (event_cancel s h).1 j).e_func = 0) := by
  unfold event_cancel
  by_cases h0 : h ≠ 0
  · rw [if_pos h0]
    dsimp only
    by_cases hj : h - 1 = j
    · subst hj
      have hfree : ∀ e : event_t, e.e_func = 0 →
          (slotAt { s with event_list := s.event_list.set (h - 1) e } (h - 1)).e_func = 0 := by
        intro e he
        by_cases hlen : h - 1 < s.event_list.length
        · rw [slotAt_set_self _ _ _ hlen]
          exact he
        · unfold slotAt
          dsimp only
          rw [List.getD_eq_default _ _ (by rw [List.length_set]; omega)]
          rfl
      exact ⟨Or.inr (hfree _ rfl), fun _ => hfree _ rfl⟩
    · refine ⟨Or.inl (slotAt_set_other _ _ _ _ hj), fun e => ?_⟩
      omega
  · rw [if_neg h0]
    refine ⟨Or.inl rfl, fun e => ?_⟩
    omega

theorem event_cancel_length {α : Type} (s : EventState α) (h : Nat) :
    (event_cancel s h).1.event_list.length = s.event_list.length ∧
    (event_cancel s h).1.tick = s.tick := by
  unfold event_cancel
  split_ifs
  · exact ⟨List.length_set _ _ _, rfl⟩
  · exact ⟨rfl, rfl⟩

/-- A slot after the guarded cancel of the handle read by `get`. -/
theorem kap_cancel_if_slot (get : KapState → Nat) (set : KapState → Nat → KapState) (s : Kap)
    (j : Nat) :
    (slotAt (kap_cancel_if get set s) j = slotAt s j ∨
      (slotAt (kap_cancel_if get set s) j).e_func = 0) ∧
    (get s.ext = j + 1 → (slotAt (kap_cancel_if get set s) j).e_func = 0) := by
  unfold kap_cancel_if
  by_cases h0 : get s.ext ≠ 0
  · rw [if_pos h0]
    exact event_cancel_slot s (get s.ext) j
  · rw [if_neg h0]
    refine ⟨Or.inl rfl, fun e => ?_⟩
    omega

/-! ### The alert pass -/

/-- The alert part of kap_display_alerts with the latch clear. -/
theorem kap_alerts_alt_unlatched (d : Int) (s : Kap) (h : s.ext.alt_alert &&& ALT_REACHED = 0) :
    (d = 0 →
      kap_alerts_alt d s =
        (event_register (onExt (fun k => { k with alt_alert := ALT_REACHED ||| ALT_AT }) s)
          fn_kap_extingush_alert EVENT_HZ 1).1) ∧
    (d > 200 ∧ d ≤ 1000 →
      (kap_alerts_alt d s).ext.alt_alert = ALT_200_1000 ∧
      (kap_alerts_alt d s).ext.kap_alert = s.ext.kap_alert ∧
      (kap_alerts_alt d s).event_list = s.event_list) ∧
    (d ≠ 0 → ¬ (d > 200 ∧ d ≤ 1000) →
      (kap_alerts_alt d s).ext.alt_alert = 0 ∧
      (kap_alerts_alt d s).ext.kap_alert = s.ext.kap_alert ∧
      (kap_alerts_alt d s).event_list = s.event_list) := by
  have hn : ¬ (s.ext.alt_alert &&& ALT_REACHED ≠ 0) := not_not.mpr h
  refine ⟨?_, ?_, ?_⟩
  · intro h0
    unfold kap_alerts_alt
    rw [if_neg hn, if_pos h0]
  · intro hb
    have h0 : ¬ d = 0 := by omega
    unfold kap_alerts_alt
    rw [if_neg hn, if_neg h0, if_pos hb]
    split_ifs with h2
    · exact ⟨rfl, rfl, rfl⟩
    · exact ⟨not_not.mp h2, rfl, rfl⟩
  · intro h0 hb
    unfold kap_alerts_alt
    rw [if_neg hn, if_neg h0, if_neg hb]
    split_ifs with h2
    · exact ⟨rfl, rfl, rfl⟩
    · exact ⟨not_not.mp h2, rfl, rfl⟩

/-- The alert part of kap_display_alerts with the latch set. -/
theorem kap_alerts_alt_latched (d : Int) (s : Kap) (h : s.ext.alt_alert &&& ALT_REACHED ≠ 0) :
    (d > 200 ∧ d ≤ 1000 → s.ext.alt_alert &&& (0xFF ^^^ ALT_REACHED) ≠ ALT_200_1000 →
      kap_alerts_alt d s =
        kap_register (fun k h => { k with kap_alert := h }) fn_kap_alert_flash (EVENT_HZ / 4) 0
          (onExt (fun k => { k with alt_alert := ALT_200_1000 ||| ALT_REACHED }) s)) ∧
    (d > 200 ∧ d ≤ 1000 → s.ext.alt_alert &&& (0xFF ^^^ ALT_REACHED) = ALT_200_1000 →
      kap_alerts_alt d s = s) ∧
    (¬ (d > 200 ∧ d ≤ 1000) →
      kap_alerts_alt d s =
        onExt (fun k => { k with alt_alert := if d ≥ 1000 then 0 else ALT_REACHED })
          (kap_cancel_if (fun k => k.kap_alert) (fun k h => { k with kap_alert := h }) s)) := by
  refine ⟨?_, ?_, ?_⟩
  · intro hb hm
    unfold kap_alerts_alt
    rw [if_pos h, if_pos hb, if_pos hm]
  · intro hb hm
    unfold kap_alerts_alt
    rw [if_pos h, if_pos hb, if_neg (not_not.mpr hm)]
  · intro hb
    unfold kap_alerts_alt
    rw [if_pos h, if_neg hb]
    dsimp only
    split_ifs <;> rfl

/-- The pitch trim part of kap_display_alerts and the timer table. -/
theorem kap_alerts_trim_table (d : Int) (s : Kap) :
    (kap_alerts_trim d s).tick = s.tick ∧
    (kap_alerts_trim d s).event_list.length = s.event_list.length ∧
    (d ≠ 0 → (kap_alerts_trim d s).ext.kap_pt_alert ≠ 0) ∧
    (s.ext.kap_pt_alert ≠ 0 ∨ d = 0 → (kap_alerts_trim d s).event_list = s.event_list) ∧
    (∀ j, slotAt (kap_alerts_trim d s) j = slotAt s j ∨
      ((slotAt s j).e_func = 0 ∧ (slotAt (kap_alerts_trim d s) j).e_func = fn_kap_pt_display)) ∧
    (∀ m, m + 1 ≤ 9 → LowFree (m + 1) s → LowFree m (kap_alerts_trim d s)) := by
  have hreg : ∀ s1 : Kap, s1.tick = s.tick → s1.event_list = s.event_list →
      (kap_register (fun k h => { k with kap_pt_alert := h }) fn_kap_pt_display (EVENT_HZ / 4) 0
        s1).tick = s.tick ∧
      (kap_register (fun k h => { k with kap_pt_alert := h }) fn_kap_pt_display (EVENT_HZ / 4) 0
        s1).event_list.length = s.event_list.length ∧
      (kap_register (fun k h => { k with kap_pt_alert := h }) fn_kap_pt_display (EVENT_HZ / 4) 0
        s1).ext.kap_pt_alert ≠ 0 ∧
      (∀ j, slotAt (kap_register (fun k h => { k with kap_pt_alert := h }) fn_kap_pt_display
          (EVENT_HZ / 4) 0 s1) j = slotAt s j ∨
        ((slotAt s j).e_func = 0 ∧ (slotAt (kap_register (fun k h => { k with kap_pt_alert := h })
          fn_kap_pt_display (EVENT_HZ / 4) 0 s1) j).e_func = fn_kap_pt_display)) ∧
      (∀ m, m + 1 ≤ 9 → LowFree (m + 1) s → LowFree m (kap_register
        (fun k h => { k with kap_pt_alert := h }) fn_kap_pt_display (EVENT_HZ / 4) 0 s1)) := by
    intro s1 e1 e2
    have es : ∀ j, slotAt s1 j = slotAt s j := fun j => by unfold slotAt; rw [e2]
    refine ⟨?_, ?_, ?_, ?_, ?_⟩
    · show (event_register s1 _ _ _).1.tick = _
      rw [(event_register_length s1 _ _ _).2, e1]
    · show (event_register s1 _ _ _).1.event_list.length = _
      rw [(event_register_length s1 _ _ _).1, e2]
    · rw [kap_register_ext]
      exact event_register_handle s1 _ _ _
    · intro j
      rcases kap_register_slot (fun k h => { k with kap_pt_alert := h }) fn_kap_pt_display
        (EVENT_HZ / 4) 0 s1 j with h | ⟨h1, h2, _⟩
      · left; rw [h, es]
      · right
        rw [es] at h1
        exact ⟨h1, by rw [h2]⟩
    · intro m hm hf k k1 k2
      have hf1 : LowFree (m + 1) s1 := fun i i1 i2 => by rw [es]; exact hf i i1 i2
      obtain ⟨i, i1, _, _, hi⟩ := event_register_low s1 fn_kap_pt_display (EVENT_HZ / 4) 0 m hm hf1
      show (slotAt (event_register s1 _ _ _).1 k).e_func = 0
      rw [hi]
      show ((s1.event_list.set i _).getD k default).e_func = 0
      rw [getD_set_other _ _ _ _ _ (by omega)]
      exact hf1 k (by omega) k2
  have hsame : ∀ f : KapState → KapState, (∀ k, (f k).kap_pt_alert = k.kap_pt_alert) →
      (onExt f s).tick = s.tick ∧ (onExt f s).event_list.length = s.event_list.length ∧
      ((onExt f s).event_list = s.event_list) ∧
      (∀ j, slotAt (onExt f s) j = slotAt s j ∨
        ((slotAt s j).e_func = 0 ∧ (slotAt (onExt f s) j).e_func = fn_kap_pt_display)) ∧
      (∀ m, m + 1 ≤ 9 → LowFree (m + 1) s → LowFree m (onExt f s)) := by
    intro f _
    exact ⟨rfl, rfl, rfl, fun j => Or.inl rfl, fun m _ hf k k1 k2 => hf k (by omega) k2⟩
  unfold kap_alerts_trim
  by_cases hpos : d > 0
  · rw [if_pos hpos]
    dsimp only
    by_cases hpt : s.ext.kap_pt_alert = 0
    · rw [if_pos (show (onExt (fun k => { k with pitch_trim := PT_UP }) s).ext.kap_pt_alert = 0
        from hpt)]
      obtain ⟨a, b, c, e, f⟩ := hreg (onExt (fun k => { k with pitch_trim := PT_UP }) s) rfl rfl
      exact ⟨a, b, fun _ => c, fun h => by rcases h with h | h <;> omega, e, f⟩
    · rw [if_neg (show ¬ (onExt (fun k => { k with pitch_trim := PT_UP }) s).ext.kap_pt_alert = 0
        from hpt)]
      obtain ⟨a, b, c, e, f⟩ := hsame (fun k => { k with pitch_trim := PT_UP }) (fun _ => rfl)
      exact ⟨a, b, fun _ => hpt, fun _ => c, e, f⟩
  · rw [if_neg hpos]
    by_cases hneg : d < 0
    · rw [if_pos hneg]
      dsimp only
      by_cases hpt : s.ext.kap_pt_alert = 0
      · rw [if_pos (show (onExt (fun k => { k with pitch_trim := PT_DOWN }) s).ext.kap_pt_alert = 0
          from hpt)]
        obtain ⟨a, b, c, e, f⟩ := hreg (onExt (fun k => { k with pitch_trim := PT_DOWN }) s) rfl rfl
        exact ⟨a, b, fun _ => c, fun h => by rcases h with h | h <;> omega, e, f⟩
      · rw [if_neg (show ¬ (onExt (fun k => { k with pitch_trim := PT_DOWN }) s).ext.kap_pt_alert = 0
          from hpt)]
        obtain ⟨a, b, c, e, f⟩ := hsame (fun k => { k with pitch_trim := PT_DOWN }) (fun _ => rfl)
        exact ⟨a, b, fun _ => hpt, fun _ => c, e, f⟩
    · rw [if_neg hneg]
      obtain ⟨a, b, c, e, f⟩ := hsame (fun k => { k with pitch_trim := PT_NONE }) (fun _ => rfl)
      exact ⟨a, b, fun h => by omega, fun _ => c, e, f⟩

/-- The routine kap_display_alerts is the alert part run on the absolute
deviation after the pitch trim part run on the rounded difference, from a state
that differs from the one before the pass in a display flag at most. -/
theorem kap_display_alerts_eq (s : Kap) :
    ∃ s1 : Kap, s1.event_list = s.event_list ∧ s1.tick = s.tick ∧
      s1.ext.alt_alert = s.ext.alt_alert ∧ s1.ext.kap_alert = s.ext.kap_alert ∧
      s1.ext.kap_pt_alert = s.ext.kap_pt_alert ∧
      kap_display_alerts s =
        kap_alerts_alt (kap_deviation (s.ext.alt_rcv, s.ext.air_alt))
          (kap_alerts_trim (kap_delta (s.ext.alt_rcv, s.ext.air_alt)) s1) := by
  have key : ∀ s1 : Kap, s1.ext.alt_rcv = s.ext.alt_rcv → s1.ext.air_alt = s.ext.air_alt →
      kap_alerts_alt
        (if wrap32 (cdiv (wrap32 (s1.ext.alt_rcv - s1.ext.air_alt)) PT_RND * PT_RND) < 0 then
          wrap32 (wrap32 (cdiv (wrap32 (s1.ext.alt_rcv - s1.ext.air_alt)) PT_RND * PT_RND) * -1)
          else wrap32 (cdiv (wrap32 (s1.ext.alt_rcv - s1.ext.air_alt)) PT_RND * PT_RND))
        (kap_alerts_trim (wrap32 (cdiv (wrap32 (s1.ext.alt_rcv - s1.ext.air_alt)) PT_RND * PT_RND))
          s1) =
      kap_alerts_alt (kap_deviation (s.ext.alt_rcv, s.ext.air_alt))
        (kap_alerts_trim (kap_delta (s.ext.alt_rcv, s.ext.air_alt)) s1) := by
    intro s1 e1 e2
    rw [e1, e2]
    rfl
  unfold kap_display_alerts
  by_cases h : s.ext.kap_disp_flags &&& KAP_DC_AIR_ALT ≠ 0
  · rw [if_pos h]
    exact ⟨onExt (fun k => { k with kap_disp_flags := k.kap_disp_flags ^^^ KAP_DC_AIR_ALT }) s,
      rfl, rfl, rfl, rfl, rfl, key _ rfl rfl⟩
  · rw [if_neg h]
    exact ⟨s, rfl, rfl, rfl, rfl, rfl, key _ rfl rfl⟩

/-- An alert pass after the bus has reported the two altitudes. -/
theorem kap_alert_pass_eq (s : Kap) (p : Int × Int) :
    ∃ s1 : Kap, s1.event_list = s.event_list ∧ s1.tick = s.tick ∧
      s1.ext.alt_alert = s.ext.alt_alert ∧ s1.ext.kap_alert = s.ext.kap_alert ∧
      s1.ext.kap_pt_alert = s.ext.kap_pt_alert ∧
      kap_alert_pass s p = kap_alerts_alt (kap_deviation p) (kap_alerts_trim (kap_delta p) s1) := by
  obtain ⟨s1, a, b, c, d, e, f⟩ :=
    kap_display_alerts_eq (onExt (fun k => { k with alt_rcv := p.1, air_alt := p.2 }) s)
  exact ⟨s1, a, b, c, d, e, f⟩

/-- A state whose alert variable lacks the latch, or lacks the caution band,
holds no flash timer when the invariant of the flash timer holds. -/
theorem no_flash_of_inv (s : Kap) (hinv : KapAlertInv s)
    (h : s.ext.alt_alert ≠ ALT_200_1000 ||| ALT_REACHED) :
    ∀ j, (slotAt s j).e_func ≠ fn_kap_alert_flash :=
  fun j hj => h (hinv j hj).2

/-- The invariant of the flash timer holds where no flash timer is. -/
theorem inv_of_no_flash (s : Kap) (h : ∀ j, (slotAt s j).e_func ≠ fn_kap_alert_flash) :
    KapAlertInv s :=
  fun j hj => absurd hj (h j)

theorem latch_bit_of_caution (x : Nat) (h1 : x &&& ALT_REACHED = 0) :
    x ≠ ALT_200_1000 ||| ALT_REACHED := by
  intro e
  rw [e] at h1
  exact absurd h1 (by decide)

theorem mask_of_caution (x : Nat) (h1 : x &&& (0xFF ^^^ ALT_REACHED) ≠ ALT_200_1000) :
    x ≠ ALT_200_1000 ||| ALT_REACHED := by
  intro e
  rw [e] at h1
  exact h1 (by decide)

/-- One alert pass keeps the invariant of the flash timer; with the deviation
above 1000 it leaves the alert state at zero and no flash timer in the
table. -/
theorem kap_alert_pass_inv (s : Kap) (p : Int × Int) (hinv : KapAlertInv s) :
    KapAlertInv (kap_alert_pass s p) ∧
    (kap_deviation p > 1000 →
      (kap_alert_pass s p).ext.alt_alert = 0 ∧
      ∀ j, (slotAt (kap_alert_pass s p) j).e_func ≠ fn_kap_alert_flash) := by
  obtain ⟨s1, e1, _, e3, e4, _, e6⟩ := kap_alert_pass_eq s p
  rw [e6]
  obtain ⟨_, _, _, _, t5, _⟩ := kap_alerts_trim_table (kap_delta p) s1
  have ta : (kap_alerts_trim (kap_delta p) s1).ext.alt_alert = s.ext.alt_alert :=
    (kap_alerts_trim_keeps (fun k => k.alt_alert) (fun _ _ _ => rfl) _ _).trans e3
  have tk : (kap_alerts_trim (kap_delta p) s1).ext.kap_alert = s.ext.kap_alert :=
    (kap_alerts_trim_keeps (fun k => k.kap_alert) (fun _ _ _ => rfl) _ _).trans e4
  have tinv : KapAlertInv (kap_alerts_trim (kap_delta p) s1) := by
    intro j hj
    rcases t5 j with h | ⟨_, h⟩
    · rw [h] at hj
      have hs : slotAt s1 j = slotAt s j := by unfold slotAt; rw [e1]
      rw [hs] at hj
      rw [ta, tk]
      exact hinv j hj
    · rw [h] at hj
      exact absurd hj (by decide)
  generalize kap_alerts_trim (kap_delta p) s1 = t at tinv
  generalize kap_deviation p = d
  by_cases hl : t.ext.alt_alert &&& ALT_REACHED = 0
  · have hnf := no_flash_of_inv t tinv (latch_bit_of_caution _ hl)
    obtain ⟨c1, c2, c3⟩ := kap_alerts_alt_unlatched d t hl
    by_cases h0 : d = 0
    · have hn : ∀ j, (slotAt (kap_alerts_alt d t) j).e_func ≠ fn_kap_alert_flash := by
        intro j
        rw [c1 h0]
        rcases event_register_slot
          (onExt (fun k => { k with alt_alert := ALT_REACHED ||| ALT_AT }) t)
          fn_kap_extingush_alert EVENT_HZ 1 j with h | ⟨_, h⟩
        · rw [h]; exact hnf j
        · rw [h]
          exact (by decide : fn_kap_extingush_alert ≠ fn_kap_alert_flash)
      exact ⟨inv_of_no_flash _ hn, fun hd => by omega⟩
    · by_cases hb : d > 200 ∧ d ≤ 1000
      · obtain ⟨_, _, c⟩ := c2 hb
        have hn : ∀ j, (slotAt (kap_alerts_alt d t) j).e_func ≠ fn_kap_alert_flash := by
          intro j; unfold slotAt; rw [c]; exact hnf j
        exact ⟨inv_of_no_flash _ hn, fun hd => by omega⟩
      · obtain ⟨a, _, c⟩ := c3 h0 hb
        have hn : ∀ j, (slotAt (kap_alerts_alt d t) j).e_func ≠ fn_kap_alert_flash := by
          intro j; unfold slotAt; rw [c]; exact hnf j
        exact ⟨inv_of_no_flash _ hn, fun _ => ⟨a, hn⟩⟩
  · obtain ⟨c1, c2, c3⟩ := kap_alerts_alt_latched d t hl
    by_cases hb : d > 200 ∧ d ≤ 1000
    · by_cases hm : t.ext.alt_alert &&& (0xFF ^^^ ALT_REACHED) = ALT_200_1000
      · rw [c2 hb hm]
        exact ⟨tinv, fun hd => by omega⟩
      · have hnf := no_flash_of_inv t tinv (mask_of_caution _ hm)
        rw [c1 hb hm]
        refine ⟨?_, fun hd => by omega⟩
        intro j hj
        rcases kap_register_slot (fun k h => { k with kap_alert := h }) fn_kap_alert_flash
          (EVENT_HZ / 4) 0 (onExt (fun k => { k with alt_alert := ALT_200_1000 ||| ALT_REACHED }) t)
          j with h | ⟨_, _, h⟩
        · rw [h] at hj
          exact absurd hj (hnf j)
        · rw [h]
          exact ⟨rfl, rfl⟩
    · rw [c3 hb]
      have hn : ∀ j, (slotAt (onExt (fun k => { k with alt_alert := if d ≥ 1000 then 0
          else ALT_REACHED }) (kap_cancel_if (fun k => k.kap_alert)
          (fun k h => { k with kap_alert := h }) t)) j).e_func ≠ fn_kap_alert_flash := by
        intro j hj
        obtain ⟨g1, g2⟩ := kap_cancel_if_slot (fun k => k.kap_alert)
          (fun k h => { k with kap_alert := h }) t j
        rw [slotAt_onExt] at hj
        rcases g1 with g | g
        · rw [g] at hj
          have := g2 (tinv j hj).1
          rw [g] at this
          rw [this] at hj
          exact absurd hj (by decide)
        · rw [g] at hj
          exact absurd hj (by decide)
      refine ⟨inv_of_no_flash _ hn, fun hd => ⟨?_, hn⟩⟩
      show (if d ≥ 1000 then 0 else ALT_REACHED) = 0
      rw [if_pos (by omega)]

/-- Any sequence of alert passes keeps the invariant of the flash timer. -/
theorem kap_alert_passes_inv (l : List (Int × Int)) :
    ∀ s : Kap, KapAlertInv s → KapAlertInv (l.foldl kap_alert_pass s) := by
  induction l with
  | nil => intro s h; exact h
  | cons p l ih =>
    intro s h
    exact ih _ (kap_alert_pass_inv s p h).1

theorem kap_delta_range (p : Int × Int) :
    -2147483648 ≤ kap_delta p ∧ kap_delta p < 2147483648 :=
  wrap32_range _

/-- The absolute deviation is zero exactly when the rounded difference is. -/
theorem kap_deviation_zero (p : Int × Int) : kap_deviation p = 0 ↔ kap_delta p = 0 := by
  have h := kap_delta_range p
  unfold kap_deviation wrap32
  split_ifs <;> constructor <;> intro e <;> omega

/-- The pitch trim part of kap_display_alerts leaves its handle alone when a
timer is already registered or the difference is zero. -/
theorem kap_alerts_trim_handle (d : Int) (s : Kap) (h : s.ext.kap_pt_alert ≠ 0 ∨ d = 0) :
    (kap_alerts_trim d s).ext.kap_pt_alert = s.ext.kap_pt_alert := by
  unfold kap_alerts_trim
  by_cases hpos : d > 0
  · rw [if_pos hpos]
    dsimp only
    have hpt : ¬ (onExt (fun k => { k with pitch_trim := PT_UP }) s).ext.kap_pt_alert = 0 := by
      rcases h with h | h
      · exact h
      · omega
    rw [if_neg hpt]
    rfl
  · rw [if_neg hpos]
    by_cases hneg : d < 0
    · rw [if_pos hneg]
      dsimp only
      have hpt : ¬ (onExt (fun k => { k with pitch_trim := PT_DOWN }) s).ext.kap_pt_alert = 0 := by
        rcases h with h | h
        · exact h
        · omega
      rw [if_neg hpt]
      rfl
    · rw [if_neg hneg]
      rfl

/-- An alert pass with the latch clear. -/
theorem kap_alert_pass_unlatched (s : Kap) (p : Int × Int)
    (hl : s.ext.alt_alert &&& ALT_REACHED = 0) :
    (kap_alert_pass s p).tick = s.tick ∧
    (kap_alert_pass s p).event_list.length = s.event_list.length ∧
    (kap_deviation p = 0 →
      (kap_alert_pass s p).ext.alt_alert = ALT_REACHED ||| ALT_AT ∧
      (kap_alert_pass s p).ext.kap_pt_alert = s.ext.kap_pt_alert ∧
      (∀ m, m + 1 ≤ 9 → LowFree (m + 1) s → s.event_list.length = EVENT_MAX →
        LowFree m (kap_alert_pass s p) ∧
        (⟨(s.tick + EVENT_HZ) % 65536, EVENT_HZ, 1, fn_kap_extingush_alert⟩ : event_t) ∈
          (kap_alert_pass s p).event_list)) ∧
    (kap_deviation p ≠ 0 →
      (kap_alert_pass s p).ext.kap_pt_alert ≠ 0 ∧
      (kap_alert_pass s p).ext.alt_alert =
        (if kap_deviation p > 200 ∧ kap_deviation p ≤ 1000 then ALT_200_1000 else 0) ∧
      (s.ext.kap_pt_alert ≠ 0 → (kap_alert_pass s p).event_list = s.event_list) ∧
      (∀ m, m + 1 ≤ 9 → LowFree (m + 1) s → LowFree m (kap_alert_pass s p))) := by
  obtain ⟨s1, e1, e2, e3, e4, e5, e6⟩ := kap_alert_pass_eq s p
  rw [e6]
  obtain ⟨t1, t2, t3, t4, _, t6⟩ := kap_alerts_trim_table (kap_delta p) s1
  have ta : (kap_alerts_trim (kap_delta p) s1).ext.alt_alert = s.ext.alt_alert :=
    (kap_alerts_trim_keeps (fun k => k.alt_alert) (fun _ _ _ => rfl) _ _).trans e3
  have hz := kap_deviation_zero p
  have hs : ∀ j, slotAt s1 j = slotAt s j := fun j => by unfold slotAt; rw [e1]
  have hlow : ∀ m, LowFree m s → LowFree m s1 := fun m h j j1 j2 => by rw [hs]; exact h j j1 j2
  have hl2 : (kap_alerts_trim (kap_delta p) s1).ext.alt_alert &&& ALT_REACHED = 0 := by
    rw [ta]; exact hl
  obtain ⟨c1, c2, c3⟩ := kap_alerts_alt_unlatched (kap_deviation p)
    (kap_alerts_trim (kap_delta p) s1) hl2
  have hpt : ∀ d : Int, (kap_alerts_alt d (kap_alerts_trim (kap_delta p) s1)).ext.kap_pt_alert =
      (kap_alerts_trim (kap_delta p) s1).ext.kap_pt_alert := fun d =>
    kap_alerts_alt_keeps (fun k => k.kap_pt_alert) (fun _ _ _ => rfl) _ _
  have htl : (kap_alerts_alt (kap_deviation p) (kap_alerts_trim (kap_delta p) s1)).tick = s.tick ∧
      (kap_alerts_alt (kap_deviation p) (kap_alerts_trim (kap_delta p) s1)).event_list.length =
        s.event_list.length := by
    by_cases h0 : kap_deviation p = 0
    · rw [c1 h0]
      obtain ⟨a, b⟩ := event_register_length
        (onExt (fun k => { k with alt_alert := ALT_REACHED ||| ALT_AT })
          (kap_alerts_trim (kap_delta p) s1)) fn_kap_extingush_alert EVENT_HZ 1
      exact ⟨b.trans (t1.trans e2), a.trans (t2.trans (by rw [e1]))⟩
    · by_cases hb : kap_deviation p > 200 ∧ kap_deviation p ≤ 1000
      · obtain ⟨_, _, c⟩ := c2 hb
        refine ⟨?_, by rw [c, t2, e1]⟩
        unfold kap_alerts_alt
        rw [if_neg (not_not.mpr hl2), if_neg h0, if_pos hb]
        split_ifs <;> exact t1.trans e2
      · obtain ⟨_, _, c⟩ := c3 h0 hb
        refine ⟨?_, by rw [c, t2, e1]⟩
        unfold kap_alerts_alt
        rw [if_neg (not_not.mpr hl2), if_neg h0, if_neg hb]
        split_ifs <;> exact t1.trans e2
  refine ⟨htl.1, htl.2, ?_, ?_⟩
  · intro h0
    have hd0 : kap_delta p = 0 := hz.mp h0
    have htab : (kap_alerts_trim (kap_delta p) s1).event_list = s.event_list :=
      (t4 (Or.inr hd0)).trans e1
    refine ⟨?_, ?_, ?_⟩
    · rw [c1 h0, event_register_ext]
      rfl
    · rw [hpt, kap_alerts_trim_handle _ _ (Or.inr hd0), e5]
    · intro m hm hf hlen
      rw [c1 h0]
      have hf2 : LowFree (m + 1) (onExt (fun k => { k with alt_alert := ALT_REACHED ||| ALT_AT })
          (kap_alerts_trim (kap_delta p) s1)) := by
        intro j j1 j2
        show ((kap_alerts_trim (kap_delta p) s1).event_list.getD j default).e_func = 0
        rw [htab]
        exact hf j j1 j2
      obtain ⟨r1, j, j1, j2, j3, _⟩ := event_register_keeps_low
        (onExt (fun k => { k with alt_alert := ALT_REACHED ||| ALT_AT })
          (kap_alerts_trim (kap_delta p) s1)) fn_kap_extingush_alert EVENT_HZ 1 m hm
        (by show (kap_alerts_trim (kap_delta p) s1).event_list.length = _; rw [htab]; exact hlen)
        hf2
      refine ⟨r1, ?_⟩
      have hm2 := mem_of_slotAt _ j _ j3 (by decide : fn_kap_extingush_alert ≠ 0)
      have htk : (onExt (fun k => { k with alt_alert := ALT_REACHED ||| ALT_AT })
          (kap_alerts_trim (kap_delta p) s1)).tick = s.tick := t1.trans e2
      rw [htk] at hm2
      exact hm2
  · intro h0
    have hd0 : kap_delta p ≠ 0 := fun e => h0 (hz.mpr e)
    refine ⟨by rw [hpt]; exact t3 hd0, ?_, ?_, ?_⟩
    · by_cases hb : kap_deviation p > 200 ∧ kap_deviation p ≤ 1000
      · rw [if_pos hb]; exact (c2 hb).1
      · rw [if_neg hb]; exact (c3 h0 hb).1
    · intro hp
      have htab : (kap_alerts_trim (kap_delta p) s1).event_list = s.event_list :=
        (t4 (Or.inl (by rw [e5]; exact hp))).trans e1
      by_cases hb : kap_deviation p > 200 ∧ kap_deviation p ≤ 1000
      · rw [(c2 hb).2.2, htab]
      · rw [(c3 h0 hb).2.2, htab]
    · intro m hm hf
      have hf2 := t6 m hm (hlow _ hf)
      intro j j1 j2
      unfold slotAt
      by_cases hb : kap_deviation p > 200 ∧ kap_deviation p ≤ 1000
      · rw [(c2 hb).2.2]; exact hf2 j j1 j2
      · rw [(c3 h0 hb).2.2]; exact hf2 j j1 j2

/-- An alert pass that enters the caution band with the latch set. -/
theorem kap_alert_pass_flash (s : Kap) (p : Int × Int)
    (hl : s.ext.alt_alert &&& ALT_REACHED ≠ 0)
    (hm : s.ext.alt_alert &&& (0xFF ^^^ ALT_REACHED) ≠ ALT_200_1000)
    (hb : kap_deviation p > 200 ∧ kap_deviation p ≤ 1000)
    (hp : s.ext.kap_pt_alert ≠ 0) (hf : LowFree 1 s) (hlen : s.event_list.length = EVENT_MAX) :
    (kap_alert_pass s p).ext.alt_alert = ALT_200_1000 ||| ALT_REACHED ∧
    slotAt (kap_alert_pass s p) ((kap_alert_pass s p).ext.kap_alert - 1) =
      ⟨(s.tick + EVENT_HZ / 4) % 65536, EVENT_HZ / 4, 0, fn_kap_alert_flash⟩ ∧
    (⟨(s.tick + EVENT_HZ / 4) % 65536, EVENT_HZ / 4, 0, fn_kap_alert_flash⟩ : event_t) ∈
      (kap_alert_pass s p).event_list := by
  obtain ⟨s1, e1, e2, e3, e4, e5, e6⟩ := kap_alert_pass_eq s p
  rw [e6]
  obtain ⟨t1, t2, _, t4, _, _⟩ := kap_alerts_trim_table (kap_delta p) s1
  have ta : (kap_alerts_trim (kap_delta p) s1).ext.alt_alert = s.ext.alt_alert :=
    (kap_alerts_trim_keeps (fun k => k.alt_alert) (fun _ _ _ => rfl) _ _).trans e3
  have htab : (kap_alerts_trim (kap_delta p) s1).event_list = s.event_list :=
    (t4 (Or.inl (by rw [e5]; exact hp))).trans e1
  rw [(kap_alerts_alt_latched (kap_deviation p) (kap_alerts_trim (kap_delta p) s1)
    (by rw [ta]; exact hl)).1 hb (by rw [ta]; exact hm)]
  have hf2 : LowFree (0 + 1) (onExt (fun k => { k with alt_alert := ALT_200_1000 ||| ALT_REACHED })
      (kap_alerts_trim (kap_delta p) s1)) := by
    intro j j1 j2
    show ((kap_alerts_trim (kap_delta p) s1).event_list.getD j default).e_func = 0
    rw [htab]
    exact hf j j1 j2
  obtain ⟨_, j, j1, j2, j3, j4⟩ := event_register_keeps_low
    (onExt (fun k => { k with alt_alert := ALT_200_1000 ||| ALT_REACHED })
      (kap_alerts_trim (kap_delta p) s1)) fn_kap_alert_flash (EVENT_HZ / 4) 0 0 (by omega)
    (by show (kap_alerts_trim (kap_delta p) s1).event_list.length = _; rw [htab]; exact hlen)
    hf2
  have htk : (onExt (fun k => { k with alt_alert := ALT_200_1000 ||| ALT_REACHED })
      (kap_alerts_trim (kap_delta p) s1)).tick = s.tick := t1.trans e2
  rw [htk] at j3
  have hk : (kap_register (fun k h => { k with kap_alert := h }) fn_kap_alert_flash (EVENT_HZ / 4) 0
      (onExt (fun k => { k with alt_alert := ALT_200_1000 ||| ALT_REACHED })
        (kap_alerts_trim (kap_delta p) s1))).ext.kap_alert = j + 1 := by
    rw [kap_register_ext]
    exact j4
  refine ⟨by rw [kap_register_ext]; rfl, ?_, ?_⟩
  · rw [hk, Nat.add_sub_cancel]
    exact j3
  · exact mem_of_slotAt _ j _ j3 (by decide : fn_kap_alert_flash ≠ 0)

theorem LowFree_of_table {α : Type} (m : Nat) (s t : EventState α)
    (h : s.event_list = t.event_list) (hf : LowFree m t) : LowFree m s := by
  intro j j1 j2
  unfold slotAt
  rw [h]
  exact hf j j1 j2

theorem timerPending_of_table {α : Type} (f : Nat) (s t : EventState α)
    (h : s.event_list = t.event_list) (hf : ¬ timerPending f t) : ¬ timerPending f s := by
  unfold timerPending at *
  rw [h]
  exact hf

/-- The altitude alert scenario. Start with the alert state extinguished, no
flash timer pending, a table of EVENT_MAX slots and slots 1 to 3 free. Alert
passes with the absolute deviations 1500, 800, 0 and 300 give in turn: alert
state 0 and no flash timer; ALT_200_1000 (caution, latch clear) and no flash
timer; ALT_REACHED with ALT_AT and a one-shot timer of EVENT_HZ ticks calling
kap_extingush_alert in the table; ALT_200_1000 with ALT_REACHED and, in the slot
named by kap_alert, a periodic timer of EVENT_HZ / 4 ticks calling
kap_alert_flash. After any sequence of alert passes from the start state, a
pass with the deviation above 1000 leaves the alert state 0 and no flash timer
pending. -/
theorem altitude_alert_scenario (s : Kap) (p1 p2 p3 p4 : Int × Int)
    (hlen : s.event_list.length = EVENT_MAX)
    (h0 : s.ext.alt_alert = 0 ∧ ¬ timerPending fn_kap_alert_flash s)
    (hfree : LowFree 3 s)
    (hd : kap_deviation p1 = 1500 ∧ kap_deviation p2 = 800 ∧ kap_deviation p3 = 0 ∧
      kap_deviation p4 = 300) :
    ((kap_alert_pass s p1).ext.alt_alert = 0 ∧
      ¬ timerPending fn_kap_alert_flash (kap_alert_pass s p1)) ∧
    ((kap_alert_pass (kap_alert_pass s p1) p2).ext.alt_alert = ALT_200_1000 ∧
      ¬ timerPending fn_kap_alert_flash (kap_alert_pass (kap_alert_pass s p1) p2)) ∧
    ((kap_alert_pass (kap_alert_pass (kap_alert_pass s p1) p2) p3).ext.alt_alert =
        ALT_REACHED ||| ALT_AT ∧
      (⟨(s.tick + EVENT_HZ) % 65536, EVENT_HZ, 1, fn_kap_extingush_alert⟩ : event_t) ∈
        (kap_alert_pass (kap_alert_pass (kap_alert_pass s p1) p2) p3).event_list) ∧
    ((kap_alert_pass (kap_alert_pass (kap_alert_pass (kap_alert_pass s p1) p2) p3) p4).ext.alt_alert =
        ALT_200_1000 ||| ALT_REACHED ∧
      slotAt (kap_alert_pass (kap_alert_pass (kap_alert_pass (kap_alert_pass s p1) p2) p3) p4)
        ((kap_alert_pass (kap_alert_pass (kap_alert_pass (kap_alert_pass s p1) p2) p3) p4).ext.kap_alert
          - 1) = ⟨(s.tick + EVENT_HZ / 4) % 65536, EVENT_HZ / 4, 0, fn_kap_alert_flash⟩ ∧
      timerPending fn_kap_alert_flash
        (kap_alert_pass (kap_alert_pass (kap_alert_pass (kap_alert_pass s p1) p2) p3) p4)) ∧
    (∀ (l : List (Int × Int)) (p : Int × Int), kap_deviation p > 1000 →
      (kap_alert_pass (l.foldl kap_alert_pass s) p).ext.alt_alert &&& ALT_REACHED = 0 ∧
      ¬ timerPending fn_kap_alert_flash (kap_alert_pass (l.foldl kap_alert_pass s) p)) := by
  obtain ⟨d1, d2, d3, d4⟩ := hd
  have hinv : KapAlertInv s :=
    inv_of_no_flash s (slots_of_not_pending _ (by decide) s h0.2)
  -- first pass
  obtain ⟨a1, a2, _, a4⟩ := kap_alert_pass_unlatched s p1 (by rw [h0.1]; decide)
  obtain ⟨a5, a6, _, a8⟩ := a4 (by omega)
  have a9 := (kap_alert_pass_inv s p1 hinv).2 (by omega)
  have f1 : LowFree 2 (kap_alert_pass s p1) := a8 2 (by omega) hfree
  -- second pass
  obtain ⟨b1, b2, _, b4⟩ := kap_alert_pass_unlatched (kap_alert_pass s p1) p2
    (by rw [a9.1]; decide)
  obtain ⟨b5, b6, b7, _⟩ := b4 (by omega)
  have b8 := b7 a5
  rw [if_pos (by omega)] at b6
  have f2 : LowFree 2 (kap_alert_pass (kap_alert_pass s p1) p2) := LowFree_of_table _ _ _ b8 f1
  have n2 : ¬ timerPending fn_kap_alert_flash (kap_alert_pass (kap_alert_pass s p1) p2) :=
    timerPending_of_table _ _ _ b8 (not_pending_of_slots _ _ a9.2)
  -- third pass
  obtain ⟨c1, c2, c3, _⟩ := kap_alert_pass_unlatched (kap_alert_pass (kap_alert_pass s p1) p2) p3
    (by rw [b6]; decide)
  obtain ⟨c5, c6, c7⟩ := c3 d3
  obtain ⟨f3, c8⟩ := c7 1 (by omega) f2 (by rw [b2, a2]; exact hlen)
  rw [b1, a1] at c8
  -- fourth pass
  obtain ⟨e1, e2, e3⟩ := kap_alert_pass_flash
    (kap_alert_pass (kap_alert_pass (kap_alert_pass s p1) p2) p3) p4
    (by rw [c5]; decide) (by rw [c5]; decide) (by omega) (by rw [c6]; exact b5) f3
    (by rw [c2, b2, a2]; exact hlen)
  rw [c1, b1, a1] at e2 e3
  refine ⟨⟨a9.1, not_pending_of_slots _ _ a9.2⟩, ⟨b6, n2⟩, ⟨c5, c8⟩, ⟨e1, e2, ⟨_, e3, rfl⟩⟩, ?_⟩
  intro l p hp
  obtain ⟨g1, g2⟩ := (kap_alert_pass_inv _ p (kap_alert_passes_inv l s hinv)).2 hp
  exact ⟨by rw [g1]; decide, not_pending_of_slots _ _ g2⟩

/-! ## Mode engine: further specification properties -/

/-- C23, as stated, fails: a press of NAV, APR or REV in wing-level mode is not
ignored. In the state the program reaches by enabledRun the AP is enabled, the
roll mode is wing level and no arm is pending; the poll that sees NAV pressed
switches the roll mode to heading and arms NAV, both with their change flags. -/
theorem nav_press_from_wing_level :
    (kap_run kapStart navPressRun).ext.ap_mode = AP_ENABLED ∧
    (kap_run kapStart navPressRun).ext.roll_mode = RM_ROL ∧
    (kap_run kapStart navPressRun).ext.roll_arm_mode = RM_CLR ∧
    (kap_buttons (kap_run kapStart navPressRun)).ext.roll_mode = RM_HDG ||| RM_CHANGED ∧
    (kap_buttons (kap_run kapStart navPressRun)).ext.roll_arm_mode = RM_NAV ||| RM_CHANGED ∧
    (kap_run kapStart (navPressRun ++ [KapInput.tick])).ext.roll_mode = RM_HDG ||| RM_CHANGED ∧
    (kap_run kapStart (navPressRun ++ [KapInput.tick])).ext.roll_arm_mode =
      RM_NAV ||| RM_CHANGED := by
  refine ⟨?_, ?_, ?_, ?_, ?_, ?_, ?_⟩ <;> set_option maxRecDepth 1000000 in decide

/-- C23, amended. Arm gating: take a poll of kap_buttons with the AP enabled
and just the edge of NAV, APR or REV pending. If the roll mode is wing level,
the poll switches it to heading with the change flag; otherwise it leaves
roll_mode alone. If the roll mode is wing level or heading and roll_arm_mode
is RM_CLR with no change pending, the poll stores the mode of the button with
the change flag in roll_arm_mode; in every other state (roll mode NAV, APR or
REV, or roll_arm_mode not RM_CLR) it leaves roll_arm_mode alone. -/
theorem arm_gating (s : Kap) (arm : Nat)
    (harm : arm = RM_NAV ∨ arm = RM_APR ∨ arm = RM_REV)
    (hen : s.ext.ap_mode &&& (0xFF ^^^ AP_CHANGED) = AP_ENABLED)
    (hin : s.ext.sw_porta = (if arm = RM_APR then BV 4 else if arm = RM_NAV then BV 6 else 0) ∧
      s.ext.sw_portb = (if arm = RM_REV then BV 3 else 0) ∧ s.ext.sw_enc_delta = 0) :
    (kap_buttons s).ext.roll_mode =
      (if s.ext.roll_mode &&& (0xFF ^^^ RM_CHANGED) = RM_ROL then RM_HDG ||| RM_CHANGED
        else s.ext.roll_mode) ∧
    (kap_buttons s).ext.roll_arm_mode =
      (if (s.ext.roll_mode &&& (0xFF ^^^ RM_CHANGED) = RM_ROL ∨
            s.ext.roll_mode &&& (0xFF ^^^ RM_CHANGED) = RM_HDG) ∧ s.ext.roll_arm_mode = RM_CLR
        then arm ||| RM_CHANGED else s.ext.roll_arm_mode) := by
  obtain ⟨hpa, hpb, hd⟩ := hin
  have hcases : kap_buttons_ap s = s ∨
      kap_buttons_ap s = onExt (fun k => { k with kap_ap_button := 0 }) s :=
    kap_buttons_ap_skip s (by
      rw [hpa]
      rcases harm with rfl | rfl | rfl <;> decide)
  have hrest : ∀ s1 : Kap, s1.ext.ap_mode = s.ext.ap_mode → s1.ext.sw_porta = s.ext.sw_porta →
      s1.ext.sw_portb = s.ext.sw_portb → s1.ext.sw_enc_delta = s.ext.sw_enc_delta →
      s1.ext.roll_mode = s.ext.roll_mode → s1.ext.roll_arm_mode = s.ext.roll_arm_mode →
      (kap_buttons_rest s1).ext.roll_mode =
        (if s.ext.roll_mode &&& (0xFF ^^^ RM_CHANGED) = RM_ROL then RM_HDG ||| RM_CHANGED
          else s.ext.roll_mode) ∧
      (kap_buttons_rest s1).ext.roll_arm_mode =
        (if (s.ext.roll_mode &&& (0xFF ^^^ RM_CHANGED) = RM_ROL ∨
              s.ext.roll_mode &&& (0xFF ^^^ RM_CHANGED) = RM_HDG) ∧ s.ext.roll_arm_mode = RM_CLR
          then arm ||| RM_CHANGED else s.ext.roll_arm_mode) := by
    intro s1 e1 e2 e3 e4 e5 e6
    rw [← e1] at hen
    rw [← e2] at hpa
    rw [← e3] at hpb
    rw [← e4] at hd
    rcases harm with rfl | rfl | rfl
    · rw [kap_buttons_rest_nav s1 hen (by rw [hpa]; decide) (by rw [hpb]; decide) hd]
      have hf := kap_button_roll_arm_modes RM_NAV { s1.ext with sw_porta := 0 }
      have r1 : ({ s1.ext with sw_porta := 0 } : KapState).roll_mode = s.ext.roll_mode := e5
      have r2 : ({ s1.ext with sw_porta := 0 } : KapState).roll_arm_mode = s.ext.roll_arm_mode := e6
      rw [r1, r2] at hf
      exact hf
    · rw [kap_buttons_rest_apr s1 hen (by rw [hpa]; decide) (by rw [hpb]; decide) hd]
      have hf := kap_button_roll_arm_modes RM_APR { s1.ext with sw_porta := 0 }
      have r1 : ({ s1.ext with sw_porta := 0 } : KapState).roll_mode = s.ext.roll_mode := e5
      have r2 : ({ s1.ext with sw_porta := 0 } : KapState).roll_arm_mode = s.ext.roll_arm_mode := e6
      rw [r1, r2] at hf
      exact hf
    · rw [kap_buttons_rest_rev s1 hen (by rw [hpa]; decide) (by rw [hpb]; decide) hd]
      have hf := kap_button_roll_arm_modes RM_REV { s1.ext with sw_portb := 0 }
      have r1 : ({ s1.ext with sw_portb := 0 } : KapState).roll_mode = s.ext.roll_mode := e5
      have r2 : ({ s1.ext with sw_portb := 0 } : KapState).roll_arm_mode = s.ext.roll_arm_mode := e6
      rw [r1, r2] at hf
      exact hf
  unfold kap_buttons
  rcases hcases with h | h
  · rw [h]; exact hrest s rfl rfl rfl rfl rfl rfl
  · rw [h]; exact hrest _ rfl rfl rfl rfl rfl rfl

/-- C23 amended, at a concrete input: from program start the AP is switched
on, heading mode selected and the APR button pressed; the poll arms APR and
leaves the roll mode at heading. -/
theorem arm_gating_witness :
    (kap_run kapStart aprPressRun).ext.roll_mode = RM_HDG ∧
    (kap_run kapStart aprPressRun).ext.roll_arm_mode = RM_CLR ∧
    (kap_buttons (kap_run kapStart aprPressRun)).ext.roll_mode = RM_HDG ∧
    (kap_buttons (kap_run kapStart aprPressRun)).ext.roll_arm_mode = RM_APR ||| RM_CHANGED :=
  ⟨by set_option maxRecDepth 1000000 in decide,
    by set_option maxRecDepth 1000000 in decide,
    (arm_gating (kap_run kapStart aprPressRun) RM_APR (Or.inr (Or.inl rfl))
      (by set_option maxRecDepth 1000000 in decide)
      (by set_option maxRecDepth 1000000 in decide)).1.trans
      (by set_option maxRecDepth 1000000 in decide),
    (arm_gating (kap_run kapStart aprPressRun) RM_APR (Or.inr (Or.inl rfl))
      (by set_option maxRecDepth 1000000 in decide)
      (by set_option maxRecDepth 1000000 in decide)).2.trans
      (by set_option maxRecDepth 1000000 in decide)⟩

/-- C25. Pitch-trim direction: the pass truncates, it does not round to the
nearest multiple of 20. For every state, after kap_display_alerts the direction
is up when the 32-bit difference alt_rcv - air_alt is at least 20, down when it
is at most -20 and none for every difference from -19 to 19. With the reference
altitude 15 above the aircraft altitude the nearest multiple of 20 is 20, which
is positive, and the direction stored is none. -/
theorem pitch_trim_truncates :
    (∀ s : Kap, (kap_display_alerts s).ext.pitch_trim =
      if 20 ≤ wrap32 (s.ext.alt_rcv - s.ext.air_alt) then PT_UP
      else if wrap32 (s.ext.alt_rcv - s.ext.air_alt) ≤ -20 then PT_DOWN else PT_NONE) ∧
    (kap_display_alerts
      (onExt (fun k => { k with alt_rcv := 1015, air_alt := 1000 }) kapStart)).ext.pitch_trim =
      PT_NONE ∧
    (kap_display_alerts
      (onExt (fun k => { k with alt_rcv := 1000, air_alt := 1015 }) kapStart)).ext.pitch_trim =
      PT_NONE ∧
    (kap_display_alerts
      (onExt (fun k => { k with alt_rcv := 1020, air_alt := 1000 }) kapStart)).ext.pitch_trim =
      PT_UP := by
  refine ⟨kap_display_alerts_direction, ?_, ?_, ?_⟩
  · rw [kap_display_alerts_direction]; decide
  · rw [kap_display_alerts_direction]; decide
  · rw [kap_display_alerts_direction]; decide

/-- Altitude-arm toggle from PM_CLR and PM_ALT: take a poll of kap_buttons with
the AP enabled
and just the edge of the arm button pending, the pitch arm mode being PM_CLR
or PM_ALT (with or without its change flag). From PM_CLR the poll sets it to
PM_ALT and leaves alt_alert alone; from PM_ALT it sets it to PM_CLR and sets
alt_alert, latch included, to zero; both with the change flag. Two calls of
kap_button_arm, with or without the display pass between them, return the pitch
arm mode to the value it had. -/
theorem alt_arm_toggle (s : Kap)
    (hen : s.ext.ap_mode &&& (0xFF ^^^ AP_CHANGED) = AP_ENABLED)
    (hin : s.ext.sw_porta = BV 3 ∧ s.ext.sw_portb = 0 ∧ s.ext.sw_enc_delta = 0)
    (harm : s.ext.pitch_arm_mode &&& (0xFF ^^^ PM_CHANGED) = PM_CLR ∨
      s.ext.pitch_arm_mode &&& (0xFF ^^^ PM_CHANGED) = PM_ALT) :
    (kap_buttons s).ext.pitch_arm_mode =
      (if s.ext.pitch_arm_mode &&& (0xFF ^^^ PM_CHANGED) = PM_CLR then PM_ALT ||| PM_CHANGED
        else PM_CLR ||| PM_CHANGED) ∧
    (kap_buttons s).ext.alt_alert =
      (if s.ext.pitch_arm_mode &&& (0xFF ^^^ PM_CHANGED) = PM_CLR then s.ext.alt_alert else 0) ∧
    (kap_button_arm (kap_button_arm s.ext)).pitch_arm_mode &&& (0xFF ^^^ PM_CHANGED) =
      s.ext.pitch_arm_mode &&& (0xFF ^^^ PM_CHANGED) ∧
    (kap_button_arm (kap_display_pitch_arm (kap_button_arm s.ext))).pitch_arm_mode &&&
        (0xFF ^^^ PM_CHANGED) =
      s.ext.pitch_arm_mode &&& (0xFF ^^^ PM_CHANGED) := by
  obtain ⟨hpa, hpb, hd⟩ := hin
  have hrest : ∀ s1 : Kap, s1.ext.ap_mode = s.ext.ap_mode → s1.ext.sw_porta = s.ext.sw_porta →
      s1.ext.sw_portb = s.ext.sw_portb → s1.ext.sw_enc_delta = s.ext.sw_enc_delta →
      s1.ext.pitch_arm_mode = s.ext.pitch_arm_mode → s1.ext.alt_alert = s.ext.alt_alert →
      (kap_buttons_rest s1).ext.pitch_arm_mode =
        (if s.ext.pitch_arm_mode &&& (0xFF ^^^ PM_CHANGED) = PM_CLR then PM_ALT ||| PM_CHANGED
          else PM_CLR ||| PM_CHANGED) ∧
      (kap_buttons_rest s1).ext.alt_alert =
        (if s.ext.pitch_arm_mode &&& (0xFF ^^^ PM_CHANGED) = PM_CLR then s.ext.alt_alert
          else 0) := by
    intro s1 e1 e2 e3 e4 e5 e6
    rw [← e1] at hen
    rw [← e2] at hpa
    rw [← e3] at hpb
    rw [← e4] at hd
    rw [kap_buttons_rest_arm s1 hen hpa hpb hd]
    show (kap_button_arm { s1.ext with sw_porta := 0 }).pitch_arm_mode = _ ∧
      (kap_button_arm { s1.ext with sw_porta := 0 }).alt_alert = _
    unfold kap_button_arm
    dsimp only
    rw [e5]
    split_ifs
    · exact ⟨rfl, e6⟩
    · exact ⟨rfl, rfl⟩
  have htwice : (kap_button_arm (kap_button_arm s.ext)).pitch_arm_mode &&& (0xFF ^^^ PM_CHANGED) =
        s.ext.pitch_arm_mode &&& (0xFF ^^^ PM_CHANGED) ∧
      (kap_button_arm (kap_display_pitch_arm (kap_button_arm s.ext))).pitch_arm_mode &&&
          (0xFF ^^^ PM_CHANGED) =
        s.ext.pitch_arm_mode &&& (0xFF ^^^ PM_CHANGED) := by
    have a1 : (PM_ALT ||| PM_CHANGED) &&& (0xFF ^^^ PM_CHANGED) ≠ PM_CLR := by decide
    have a2 : (PM_CLR ||| PM_CHANGED) &&& (0xFF ^^^ PM_CHANGED) = PM_CLR := by decide
    have a3 : (PM_ALT ||| PM_CHANGED) &&& PM_CHANGED ≠ 0 := by decide
    have a4 : (PM_CLR ||| PM_CHANGED) &&& PM_CHANGED ≠ 0 := by decide
    have a5 : ((PM_ALT ||| PM_CHANGED) ^^^ PM_CHANGED) &&& (0xFF ^^^ PM_CHANGED) ≠ PM_CLR := by
      decide
    have a6 : ((PM_CLR ||| PM_CHANGED) ^^^ PM_CHANGED) &&& (0xFF ^^^ PM_CHANGED) = PM_CLR := by
      decide
    rcases harm with h | h
    · constructor
      · rw [kap_button_arm_mode, kap_button_arm_mode, if_pos h, if_neg a1, h]
        decide
      · rw [kap_button_arm_mode, kap_display_pitch_arm_mode, kap_button_arm_mode, if_pos h,
          if_pos a3, if_neg a5, h]
        decide
    · have hne : ¬ (s.ext.pitch_arm_mode &&& (0xFF ^^^ PM_CHANGED) = PM_CLR) := by
        rw [h]; decide
      constructor
      · rw [kap_button_arm_mode, kap_button_arm_mode, if_neg hne, if_pos a2, h]
        decide
      · rw [kap_button_arm_mode, kap_display_pitch_arm_mode, kap_button_arm_mode, if_neg hne,
          if_pos a4, if_pos a6, h]
        decide
  refine ⟨?_, ?_, htwice.1, htwice.2⟩
  · unfold kap_buttons
    rcases kap_buttons_ap_skip s (by rw [hpa]; decide) with h | h
    · rw [h]; exact (hrest s rfl rfl rfl rfl rfl rfl).1
    · rw [h]
      exact (hrest (onExt (fun k => { k with kap_ap_button := 0 }) s) rfl rfl rfl rfl rfl rfl).1
  · unfold kap_buttons
    rcases kap_buttons_ap_skip s (by rw [hpa]; decide) with h | h
    · rw [h]; exact (hrest s rfl rfl rfl rfl rfl rfl).2
    · rw [h]
      exact (hrest (onExt (fun k => { k with kap_ap_button := 0 }) s) rfl rfl rfl rfl rfl rfl).2

/-- Altitude-arm toggle from PM_ALT, at a concrete input: from program start
the AP is switched on, the
altitude armed with the encoder and the arm button pressed (armClearRun); the
poll clears the arm and the alert state. -/
theorem alt_arm_toggle_witness :
    (kap_run kapStart armClearRun).ext.pitch_arm_mode = PM_ALT ∧
    (kap_run kapStart armClearRun).ext.alt_alert = ALT_REACHED ∧
    (kap_buttons (kap_run kapStart armClearRun)).ext.pitch_arm_mode = PM_CLR ||| PM_CHANGED ∧
    (kap_buttons (kap_run kapStart armClearRun)).ext.alt_alert = 0 :=
  ⟨by set_option maxRecDepth 1000000 in decide,
    by set_option maxRecDepth 1000000 in decide,
    (alt_arm_toggle (kap_run kapStart armClearRun)
      (by set_option maxRecDepth 1000000 in decide)
      (by set_option maxRecDepth 1000000 in decide)
      (Or.inr (by set_option maxRecDepth 1000000 in decide))).1.trans
      (by set_option maxRecDepth 1000000 in decide),
    (alt_arm_toggle (kap_run kapStart armClearRun)
      (by set_option maxRecDepth 1000000 in decide)
      (by set_option maxRecDepth 1000000 in decide)
      (Or.inr (by set_option maxRecDepth 1000000 in decide))).2.1.trans
      (by set_option maxRecDepth 1000000 in decide)⟩

/-- C28, evaluated on a run from program start: the master-on reset leaves
pitch_arm_mode at 5 (RM_CLR), which is neither PM_CLR nor PM_ALT, and
kap_button_arm arms only from PM_CLR. With the AP enabled and the alert latch
set (enabledRun), the first press of the arm button does not arm the altitude:
the poll stores PM_CLR with the change flag and zeroes the alert state. The
display pass shows PM_CLR, and the second press arms: after two presses the
pitch arm mode is PM_ALT, not the value it started from. For every state in
which the pitch arm mode, flag aside, is not PM_CLR the routine clears. -/
theorem first_arm_press_clears :
    (∀ k : KapState, k.pitch_arm_mode &&& (0xFF ^^^ PM_CHANGED) ≠ PM_CLR →
      (kap_button_arm k).pitch_arm_mode = PM_CLR ||| PM_CHANGED ∧
      (kap_button_arm k).alt_alert = 0) ∧
    KapReachable (kap_run kapStart enabledRun) ∧
    (kap_run kapStart enabledRun).ext.ap_mode = AP_ENABLED ∧
    (kap_run kapStart enabledRun).ext.pitch_arm_mode = RM_CLR ∧
    (kap_run kapStart enabledRun).ext.alt_alert = ALT_REACHED ∧
    (kap_run kapStart firstArmRun).ext.pitch_arm_mode = PM_CLR ||| PM_CHANGED ∧
    (kap_run kapStart firstArmRun).ext.pitch_arm_mode ≠ PM_ALT ||| PM_CHANGED ∧
    (kap_run kapStart firstArmRun).ext.alt_alert = 0 ∧
    (kap_run kapStart secondArmRun).ext.pitch_arm_mode = PM_ALT ||| PM_CHANGED ∧
    (kap_run kapStart secondArmRun).ext.pitch_arm_mode &&& (0xFF ^^^ PM_CHANGED) ≠
      (kap_run kapStart enabledRun).ext.pitch_arm_mode &&& (0xFF ^^^ PM_CHANGED) := by
  refine ⟨?_, ⟨_, rfl⟩, ?_, ?_, ?_, ?_, ?_, ?_, ?_, ?_⟩
  · intro k hk
    unfold kap_button_arm
    rw [if_neg hk]
    exact ⟨rfl, rfl⟩
  all_goals set_option maxRecDepth 1000000 in decide

/-- C29. Buttons gated by master: whenever ap_mode, the change flag aside, is
not AP_ENABLED (the AP is disabled, or a transition is pending), kap_buttons is
its first statement, which deals with the AP button, followed by the clearing
of sw_porta and sw_portb. Whatever edges are pending, it leaves the roll, pitch,
display selector, barometer, altitude and vertical speed variables, the encoder
toggle, the alert state and the button mirror as they were, and sends
nothing. -/
theorem buttons_gated_by_master (s : Kap)
    (hoff : s.ext.ap_mode &&& (0xFF ^^^ AP_CHANGED) ≠ AP_ENABLED) :
    kap_buttons s =
      onExt (fun k => { k with sw_porta := 0, sw_portb := 0 }) (kap_buttons_ap s) ∧
    (kap_buttons s).ext.sw_porta = 0 ∧ (kap_buttons s).ext.sw_portb = 0 ∧
    (kap_buttons s).ext.ap_mode &&& (0xFF ^^^ AP_CHANGED) ≠ AP_ENABLED ∧
    (kap_buttons s).ext.sent = s.ext.sent ∧
    (kap_buttons s).ext.roll_mode = s.ext.roll_mode ∧
    (kap_buttons s).ext.roll_arm_mode = s.ext.roll_arm_mode ∧
    (kap_buttons s).ext.pitch_mode = s.ext.pitch_mode ∧
    (kap_buttons s).ext.pitch_arm_mode = s.ext.pitch_arm_mode ∧
    (kap_buttons s).ext.rhs_mode = s.ext.rhs_mode ∧
    (kap_buttons s).ext.baro_mode = s.ext.baro_mode ∧
    (kap_buttons s).ext.alt_disp = s.ext.alt_disp ∧
    (kap_buttons s).ext.vs = s.ext.vs ∧
    (kap_buttons s).ext.kap_enc_toggle_status = s.ext.kap_enc_toggle_status ∧
    (kap_buttons s).ext.alt_alert = s.ext.alt_alert ∧
    (kap_buttons s).ext.fsx_buttons = s.ext.fsx_buttons := by
  have hg := kap_buttons_gated s hoff
  refine ⟨hg, ?_, ?_, ?_,
    kap_buttons_gated_keeps (fun k => k.sent) (fun _ _ => rfl) (fun _ _ => rfl) (fun _ _ => rfl)
      (fun _ _ => rfl) s hoff,
    kap_buttons_gated_keeps (fun k => k.roll_mode) (fun _ _ => rfl) (fun _ _ => rfl)
      (fun _ _ => rfl) (fun _ _ => rfl) s hoff,
    kap_buttons_gated_keeps (fun k => k.roll_arm_mode) (fun _ _ => rfl) (fun _ _ => rfl)
      (fun _ _ => rfl) (fun _ _ => rfl) s hoff,
    kap_buttons_gated_keeps (fun k => k.pitch_mode) (fun _ _ => rfl) (fun _ _ => rfl)
      (fun _ _ => rfl) (fun _ _ => rfl) s hoff,
    kap_buttons_gated_keeps (fun k => k.pitch_arm_mode) (fun _ _ => rfl) (fun _ _ => rfl)
      (fun _ _ => rfl) (fun _ _ => rfl) s hoff,
    kap_buttons_gated_keeps (fun k => k.rhs_mode) (fun _ _ => rfl) (fun _ _ => rfl)
      (fun _ _ => rfl) (fun _ _ => rfl) s hoff,
    kap_buttons_gated_keeps (fun k => k.baro_mode) (fun _ _ => rfl) (fun _ _ => rfl)
      (fun _ _ => rfl) (fun _ _ => rfl) s hoff,
    kap_buttons_gated_keeps (fun k => k.alt_disp) (fun _ _ => rfl) (fun _ _ => rfl)
      (fun _ _ => rfl) (fun _ _ => rfl) s hoff,
    kap_buttons_gated_keeps (fun k => k.vs) (fun _ _ => rfl) (fun _ _ => rfl)
      (fun _ _ => rfl) (fun _ _ => rfl) s hoff,
    kap_buttons_gated_keeps (fun k => k.kap_enc_toggle_status) (fun _ _ => rfl) (fun _ _ => rfl)
      (fun _ _ => rfl) (fun _ _ => rfl) s hoff,
    kap_buttons_gated_keeps (fun k => k.alt_alert) (fun _ _ => rfl) (fun _ _ => rfl)
      (fun _ _ => rfl) (fun _ _ => rfl) s hoff,
    kap_buttons_gated_keeps (fun k => k.fsx_buttons) (fun _ _ => rfl) (fun _ _ => rfl)
      (fun _ _ => rfl) (fun _ _ => rfl) s hoff⟩
  · rw [hg]; rfl
  · rw [hg]; rfl
  · rw [hg]
    exact kap_buttons_ap_off s hoff

/-- C29, at a concrete input: at program start, with the AP off, the arm, NAV
and ALT buttons are pressed; the poll discards the edges. -/
theorem buttons_gated_by_master_witness :
    (kap_run kapStart offPressRun).ext.sw_porta = 0x48 ∧
    (kap_run kapStart offPressRun).ext.sw_portb = 0x10 ∧
    (kap_buttons (kap_run kapStart offPressRun)).ext.sw_porta = 0 ∧
    (kap_buttons (kap_run kapStart offPressRun)).ext.sw_portb = 0 ∧
    (kap_buttons (kap_run kapStart offPressRun)).ext.roll_arm_mode =
      (kap_run kapStart offPressRun).ext.roll_arm_mode :=
  ⟨by set_option maxRecDepth 1000000 in decide,
    by set_option maxRecDepth 1000000 in decide,
    (buttons_gated_by_master (kap_run kapStart offPressRun)
      (by set_option maxRecDepth 1000000 in decide)).2.1,
    (buttons_gated_by_master (kap_run kapStart offPressRun)
      (by set_option maxRecDepth 1000000 in decide)).2.2.1,
    (buttons_gated_by_master (kap_run kapStart offPressRun)
      (by set_option maxRecDepth 1000000 in decide)).2.2.2.2.2.2.1⟩

/-- C30, as stated, fails: for a negative value of five digits the minus sign
is not written. displ_val writes the sign only while the index is inside the
field (`minus && i >= 0`), and the five digits with their comma fill the six
characters: -10000 is written as "10,000", with no minus sign anywhere in the
buffer. A value of six digits loses its leading digit: 100000 is written as
"00,000". -/
theorem displ_val_drops_sign :
    displ_val (List.replicate 7 0) (-10000) = some (cstr "10,000") ∧
    45 ∉ cstr "10,000" ∧
    displ_val (List.replicate 7 0) (-10000) = displ_val (List.replicate 7 0) 10000 ∧
    displ_val (List.replicate 7 0) 100000 = some (cstr "00,000") := by
  decide

/-- C30, amended. Numeric formatting: for every value from -9999 to 99999 (the
values whose format fits six characters) and every buffer of BUF_LEN bytes, displ_val
returns and leaves in the buffer the format
of the specification (displ_val_spec): six characters and the terminator, the
digits right-justified and padded with spaces, with a comma exactly when
|v| ≥ 1000 and a minus sign exactly when v is negative. -/
theorem displ_val_formats (buf : List Nat) (v : Int) (hlen : buf.length = BUF_LEN)
    (hv : -9999 ≤ v ∧ v ≤ 99999) :
    displ_val buf v = some (displ_val_spec v) ∧
    (displ_val_spec v).length = 7 ∧
    (44 ∈ displ_val_spec v ↔ 1000 ≤ v.natAbs) ∧
    (45 ∈ displ_val_spec v ↔ v < 0) := by
  refine ⟨?_, displ_val_spec_marks v hv⟩
  by_cases h0 : 0 ≤ v
  · obtain ⟨n, rfl⟩ := Int.eq_ofNat_of_zero_le h0
    exact displ_val_of_nonneg buf n hlen (by omega)
  · obtain ⟨n, hn⟩ := Int.eq_ofNat_of_zero_le (show 0 ≤ -v by omega)
    have hv2 : v = -(n : Int) := by omega
    rw [hv2]
    exact displ_val_of_neg buf n hlen (by omega) (by omega)

/-- C30, at the two values of the specification: 1234 is written as " 1,234"
and -12 as "   -12". -/
theorem displ_val_formats_witness :
    displ_val (List.replicate 7 0) 1234 = some (cstr " 1,234") ∧
    displ_val (List.replicate 7 0) (-12) = some (cstr "   -12") :=
  ⟨(displ_val_formats (List.replicate 7 0) 1234 (by decide) (by decide)).1.trans (by decide),
    (displ_val_formats (List.replicate 7 0) (-12) (by decide) (by decide)).1.trans (by decide)⟩

/-- C21. Master off cancels sub-mode timers, evaluated on a run from program
start: with the AP enabled NAV is armed, which registers the commit timer in
slot 4 for tick 57 (navArmedRun); the AP is then switched off and the blink
runs out (masterOffRun). At the end the AP is disabled with no change pending,
the blink and disable timers are gone and every handle variable is zero, but
the commit timer is still in slot 4: kap_display_roll_arm keeps no handle for
it, so the master-off branch of kap_display cannot cancel it. -/
theorem master_off_leaves_commit_timer :
    (KapReachable (kap_run kapStart navArmedRun) ∧
      (kap_run kapStart navArmedRun).ext.ap_mode = AP_ENABLED ∧
      slotAt (kap_run kapStart navArmedRun) 4 = ⟨57, 5 * EVENT_HZ, 1, fn_kap_roll_arm_commit⟩) ∧
    (KapReachable (kap_run kapStart masterOffRun) ∧
      (kap_run kapStart masterOffRun).tick = 49 ∧
      (kap_run kapStart masterOffRun).ext.ap_mode = AP_DISABLED ∧
      ¬ timerPending fn_kap_ap_off_blink (kap_run kapStart masterOffRun) ∧
      ¬ timerPending fn_kap_ap_disable (kap_run kapStart masterOffRun) ∧
      ((kap_run kapStart masterOffRun).ext.kap_pt_alert = 0 ∧
        (kap_run kapStart masterOffRun).ext.kap_baro_cancel = 0 ∧
        (kap_run kapStart masterOffRun).ext.kap_vs_cancel = 0 ∧
        (kap_run kapStart masterOffRun).ext.kap_rm_blink_cancel = 0 ∧
        (kap_run kapStart masterOffRun).ext.kap_vs_pid = 0 ∧
        (kap_run kapStart masterOffRun).ext.kap_alert = 0) ∧
      slotAt (kap_run kapStart masterOffRun) 4 = ⟨57, 5 * EVENT_HZ, 1, fn_kap_roll_arm_commit⟩ ∧
      timerPending fn_kap_roll_arm_commit (kap_run kapStart masterOffRun)) := by
  refine ⟨⟨⟨navArmedRun, rfl⟩, ?_, ?_⟩, ⟨masterOffRun, rfl⟩, ?_⟩
  · set_option maxRecDepth 1000000 in decide
  · set_option maxRecDepth 1000000 in decide
  · set_option maxRecDepth 1000000 in decide

/-- C26. VS display window, evaluated on a run from program start: with the AP
enabled and the pitch mode altitude hold (altHoldRun, tick 7) the ALT button
switches the pitch mode to vertical speed and the selector to RHS_VS
(vsPressRun, tick 8), and the display pass of tick 9 shows it (vsShownRun).
That pass registers a second kap_vs_end timer, for tick 39, while the one the
master-on pass registered for tick 34 is still in the table: kap_displ_vs does
not cancel or reset the older timer. The older timer fires first, so 24 ticks
after the display pass the selector is still RHS_VS and after the 25th it has
reverted to RHS_ALT, five ticks early. -/
theorem vs_window_cut_short :
    (KapReachable (kap_run kapStart altHoldRun) ∧
      (kap_run kapStart altHoldRun).ext.ap_mode = AP_ENABLED ∧
      (kap_run kapStart altHoldRun).ext.pitch_mode = PM_ALT) ∧
    ((kap_run kapStart vsPressRun).ext.pitch_mode = PM_VS ||| PM_CHANGED ∧
      (kap_run kapStart vsPressRun).ext.rhs_mode = RHS_VS ||| RHS_CHANGED) ∧
    ((kap_run kapStart vsShownRun).tick = 9 ∧
      (kap_run kapStart vsShownRun).ext.pitch_mode = PM_VS ∧
      (kap_run kapStart vsShownRun).ext.rhs_mode = RHS_VS ∧
      slotAt (kap_run kapStart vsShownRun) 7 = ⟨34, 3 * EVENT_HZ, 1, fn_kap_vs_end⟩ ∧
      slotAt (kap_run kapStart vsShownRun) 5 = ⟨39, 3 * EVENT_HZ, 1, fn_kap_vs_end⟩) ∧
    (kap_run kapStart (vsShownRun ++ List.replicate 24 KapInput.tick)).ext.rhs_mode = RHS_VS ∧
    (kap_run kapStart (vsShownRun ++ List.replicate 25 KapInput.tick)).ext.rhs_mode =
      RHS_ALT ||| RHS_CHANGED ∧
    (kap_run kapStart (vsShownRun ++ List.replicate 26 KapInput.tick)).ext.rhs_mode = RHS_ALT := by
  refine ⟨⟨⟨altHoldRun, rfl⟩, ?_, ?_⟩, ?_, ?_, ?_, ?_, ?_⟩
  · set_option maxRecDepth 1000000 in decide
  · set_option maxRecDepth 1000000 in decide
  · set_option maxRecDepth 1000000 in decide
  · set_option maxRecDepth 1000000 in decide
  · set_option maxRecDepth 1000000 in decide
  · set_option maxRecDepth 1000000 in decide
  · set_option maxRecDepth 1000000 in decide

/-- C24. Altitude alert scenario, evaluated on a run from program start: with
the selected altitude 0 and the latch set, the host reports the aircraft at 300
and the alert pass registers the flash timer (alertFlashRun); the arm button is
pressed and kap_button_arm clears alt_alert without cancelling that timer
(alertArmPressRun); the host reports the aircraft at 1500 and an alert pass
runs (alertFarRun). After that pass, and after any number of further passes,
the deviation is above 1000 and the alert state is 0, yet the flash timer is
still pending. -/
theorem alert_flash_survives_arm_press :
    (KapReachable (kap_run kapStart alertFlashRun) ∧
      (kap_run kapStart alertFlashRun).ext.ap_mode = AP_ENABLED ∧
      kap_deviation ((kap_run kapStart alertFlashRun).ext.alt_rcv,
        (kap_run kapStart alertFlashRun).ext.air_alt) = 300 ∧
      (kap_run kapStart alertFlashRun).ext.alt_alert = ALT_200_1000 ||| ALT_REACHED ∧
      slotAt (kap_run kapStart alertFlashRun) ((kap_run kapStart alertFlashRun).ext.kap_alert - 1) =
        ⟨8, EVENT_HZ / 4, 0, fn_kap_alert_flash⟩) ∧
    ((kap_run kapStart alertArmPressRun).ext.alt_alert = 0 ∧
      timerPending fn_kap_alert_flash (kap_run kapStart alertArmPressRun)) ∧
    (KapReachable (kap_run kapStart alertFarRun) ∧
      (kap_run kapStart alertFarRun).ext.ap_mode = AP_ENABLED ∧
      kap_deviation ((kap_run kapStart alertFarRun).ext.alt_rcv,
        (kap_run kapStart alertFarRun).ext.air_alt) = 1500 ∧
      (kap_run kapStart alertFarRun).ext.alt_alert = 0 ∧
      timerPending fn_kap_alert_flash (kap_run kapStart alertFarRun)) ∧
    ((kap_display_alerts (kap_run kapStart alertFarRun)).ext.alt_alert = 0 ∧
      timerPending fn_kap_alert_flash (kap_display_alerts (kap_run kapStart alertFarRun))) ∧
    (kap_run kapStart (alertFarRun ++ List.replicate 20 KapInput.tick)).ext.alt_alert = 0 ∧
    timerPending fn_kap_alert_flash
      (kap_run kapStart (alertFarRun ++ List.replicate 20 KapInput.tick)) := by
  refine ⟨⟨⟨alertFlashRun, rfl⟩, ?_⟩, ?_, ⟨⟨alertFarRun, rfl⟩, ?_⟩, ?_, ?_⟩
  · set_option maxRecDepth 1000000 in decide
  · set_option maxRecDepth 1000000 in decide
  · set_option maxRecDepth 1000000 in decide
  · set_option maxRecDepth 1000000 in decide
  · set_option maxRecDepth 1000000 in decide

/-- Roll commit with no older commit timer pending. For every state
kap_roll_arm_commit copies roll_arm_mode
into roll_mode, stores RM_CLR in roll_arm_mode (both with the change flag) and
sets pitch_mode to PM_GS exactly when the committed mode is RM_APR. Evaluated on
runs from program start, in heading mode with no arm: the APR press leaves
roll_mode RM_HDG and arms RM_APR, the display pass of tick 9 registers the
commit timer for tick 59; 49 ticks later nothing has changed, and the 50th tick
commits RM_APR, clears the arm and sets PM_GS. With NAV or REV armed the 50th
tick commits that mode and clears the arm, and pitch_mode stays PM_VS. -/
theorem roll_commit :
    (∀ s : Kap,
      (kap_roll_arm_commit s).ext.roll_mode = s.ext.roll_arm_mode ||| RM_CHANGED ∧
      (kap_roll_arm_commit s).ext.roll_arm_mode = RM_CLR ||| RM_CHANGED ∧
      (kap_roll_arm_commit s).ext.pitch_mode =
        (if (s.ext.roll_arm_mode ||| RM_CHANGED) &&& (0xFF ^^^ RM_CHANGED) = RM_APR then
          PM_GS ||| PM_CHANGED else s.ext.pitch_mode)) ∧
    ((kap_run kapStart headingRun).ext.ap_mode = AP_ENABLED ∧
      (kap_run kapStart headingRun).ext.roll_mode = RM_HDG ∧
      (kap_run kapStart headingRun).ext.roll_arm_mode = RM_CLR ∧
      (kap_run kapStart headingRun).ext.pitch_mode = PM_VS) ∧
    ((kap_run kapStart (aprPressRun ++ [KapInput.tick])).ext.roll_mode = RM_HDG ∧
      (kap_run kapStart (aprPressRun ++ [KapInput.tick])).ext.roll_arm_mode =
        RM_APR ||| RM_CHANGED) ∧
    ((kap_run kapStart aprArmedRun).tick = 9 ∧
      (kap_run kapStart aprArmedRun).ext.roll_mode = RM_HDG ∧
      (kap_run kapStart aprArmedRun).ext.roll_arm_mode = RM_APR ∧
      slotAt (kap_run kapStart aprArmedRun) 4 = ⟨59, 5 * EVENT_HZ, 1, fn_kap_roll_arm_commit⟩) ∧
    ((kap_run kapStart (aprArmedRun ++ List.replicate 49 KapInput.tick)).ext.roll_mode = RM_HDG ∧
      (kap_run kapStart (aprArmedRun ++ List.replicate 49 KapInput.tick)).ext.roll_arm_mode =
        RM_APR ∧
      (kap_run kapStart (aprArmedRun ++ List.replicate 49 KapInput.tick)).ext.pitch_mode = PM_VS) ∧
    ((kap_run kapStart (aprArmedRun ++ List.replicate 50 KapInput.tick)).ext.roll_mode =
        RM_APR ||| RM_CHANGED ∧
      (kap_run kapStart (aprArmedRun ++ List.replicate 50 KapInput.tick)).ext.roll_arm_mode =
        RM_CLR ||| RM_CHANGED ∧
      (kap_run kapStart (aprArmedRun ++ List.replicate 50 KapInput.tick)).ext.pitch_mode =
        PM_GS ||| PM_CHANGED) ∧
    ((kap_run kapStart (aprArmedRun ++ List.replicate 51 KapInput.tick)).ext.roll_mode = RM_APR ∧
      (kap_run kapStart (aprArmedRun ++ List.replicate 51 KapInput.tick)).ext.roll_arm_mode =
        RM_CLR ∧
      (kap_run kapStart (aprArmedRun ++ List.replicate 51 KapInput.tick)).ext.pitch_mode = PM_GS) ∧
    ((kap_run kapStart (navHeadingArmedRun ++ List.replicate 49 KapInput.tick)).ext.roll_mode =
        RM_HDG ∧
      (kap_run kapStart (navHeadingArmedRun ++ List.replicate 50 KapInput.tick)).ext.roll_mode =
        RM_NAV ||| RM_CHANGED ∧
      (kap_run kapStart (navHeadingArmedRun ++ List.replicate 50 KapInput.tick)).ext.roll_arm_mode =
        RM_CLR ||| RM_CHANGED ∧
      (kap_run kapStart (navHeadingArmedRun ++ List.replicate 50 KapInput.tick)).ext.pitch_mode =
        PM_VS) ∧
    ((kap_run kapStart (revArmedRun ++ List.replicate 49 KapInput.tick)).ext.roll_mode = RM_HDG ∧
      (kap_run kapStart (revArmedRun ++ List.replicate 50 KapInput.tick)).ext.roll_mode =
        RM_REV ||| RM_CHANGED ∧
      (kap_run kapStart (revArmedRun ++ List.replicate 50 KapInput.tick)).ext.roll_arm_mode =
        RM_CLR ||| RM_CHANGED ∧
      (kap_run kapStart (revArmedRun ++ List.replicate 50 KapInput.tick)).ext.pitch_mode = PM_VS) := by
  refine ⟨?_, ?_, ?_, ?_, ?_, ?_, ?_, ?_, ?_⟩
  · intro s
    unfold kap_roll_arm_commit
    simp only [onExt_ext, kap_cancel_if_ext]
    split_ifs <;> exact ⟨rfl, rfl, rfl⟩
  · set_option maxRecDepth 1000000 in decide
  · set_option maxRecDepth 1000000 in decide
  · set_option maxRecDepth 1000000 in decide
  · set_option maxRecDepth 1000000 in decide
  · set_option maxRecDepth 1000000 in decide
  · set_option maxRecDepth 1000000 in decide
  · set_option maxRecDepth 1000000 in decide
  · set_option maxRecDepth 1000000 in decide

/-- C22, evaluated on a run from program start: the commit timer is registered
without a handle, so one that is left over commits a later arm. NAV is armed at
tick 7 (commit timer in slot 4, due at tick 57), the AP is switched off and on
again, and heading mode is selected: at tick 55 the AP is enabled with
roll_mode RM_HDG and roll_arm_mode RM_CLR, the old timer still pending. APR is
pressed; the poll of tick 56 arms RM_APR and leaves RM_HDG. The display pass of
tick 57 shows the arm and registers the commit timer for tick 107, and the old
timer fires in the same pass: the approach is committed 0 ticks, not 50, after
the pass that shows the arm. Nothing changes in the next 49 ticks, and at tick
107 the new timer commits the cleared arm: roll_mode becomes RM_CLR = 5. -/
theorem stale_timer_commits_approach :
    (KapReachable (kap_run kapStart staleHeadingRun) ∧
      (kap_run kapStart staleHeadingRun).tick = 55 ∧
      (kap_run kapStart staleHeadingRun).ext.ap_mode = AP_ENABLED ∧
      (kap_run kapStart staleHeadingRun).ext.roll_mode = RM_HDG ∧
      (kap_run kapStart staleHeadingRun).ext.roll_arm_mode = RM_CLR ∧
      slotAt (kap_run kapStart staleHeadingRun) 4 =
        ⟨57, 5 * EVENT_HZ, 1, fn_kap_roll_arm_commit⟩) ∧
    ((kap_run kapStart staleAprPressRun).ext.roll_mode = RM_HDG ∧
      (kap_run kapStart staleAprPressRun).ext.roll_arm_mode = RM_APR ||| RM_CHANGED) ∧
    ((kap_run kapStart staleAprShownRun).tick = 57 ∧
      (kap_run kapStart staleAprShownRun).ext.roll_mode = RM_APR ||| RM_CHANGED ∧
      (kap_run kapStart staleAprShownRun).ext.roll_arm_mode = RM_CLR ||| RM_CHANGED ∧
      (kap_run kapStart staleAprShownRun).ext.pitch_mode = PM_GS ||| PM_CHANGED ∧
      slotAt (kap_run kapStart staleAprShownRun) 5 =
        ⟨107, 5 * EVENT_HZ, 1, fn_kap_roll_arm_commit⟩ ∧
      (slotAt (kap_run kapStart staleAprShownRun) 4).e_func = 0) ∧
    ((kap_run kapStart (staleAprLaterRun 49)).tick = 106 ∧
      (kap_run kapStart (staleAprLaterRun 49)).ext.roll_mode = RM_APR ∧
      (kap_run kapStart (staleAprLaterRun 49)).ext.roll_arm_mode = RM_CLR) ∧
    ((kap_run kapStart (staleAprLaterRun 50)).tick = 107 ∧
      (kap_run kapStart (staleAprLaterRun 50)).ext.ap_mode = AP_ENABLED ∧
      (kap_run kapStart (staleAprLaterRun 50)).ext.roll_mode = RM_CLR ||| RM_CHANGED ∧
      (kap_run kapStart (staleAprLaterRun 50)).ext.roll_mode &&& (0xFF ^^^ RM_CHANGED) = 5) := by
  refine ⟨⟨⟨_, rfl⟩, ?_, ?_, ?_, ?_, ?_⟩, ⟨?_, ?_⟩, ⟨?_, ?_, ?_, ?_, ?_, ?_⟩, ⟨?_, ?_, ?_⟩,
    ⟨?_, ?_, ?_, ?_⟩⟩
  all_goals set_option maxRecDepth 1000000 in decide

/-! ## Scheduler: cancelling twice -/

/-- C31. Cancel is idempotent: event_cancel on a handle variable holding 0
returns the scheduler and the handle as they were. On a non-zero handle `h`
that names an entry of the table it clears `e_func` of entry `h - 1`, leaves
the other fields of that entry, every other entry, the tick counter and the
rest of the state alone, and stores 0 in the handle variable. A second
event_cancel on the same handle variable changes nothing more. -/
theorem cancel_idempotent {α : Type} (s : EventState α) (h : Nat)
    (hh : h ≤ s.event_list.length) :
    (h = 0 → event_cancel s h = (s, 0)) ∧
    (h ≠ 0 →
      (event_cancel s h).2 = 0 ∧
      slotAt (event_cancel s h).1 (h - 1) = { slotAt s (h - 1) with e_func := 0 } ∧
      (∀ j, j ≠ h - 1 → slotAt (event_cancel s h).1 j = slotAt s j) ∧
      (event_cancel s h).1.event_list.length = s.event_list.length ∧
      (event_cancel s h).1.tick = s.tick ∧
      (event_cancel s h).1.event_service = s.event_service ∧
      (event_cancel s h).1.ext = s.ext) ∧
    event_cancel (event_cancel s h).1 (event_cancel s h).2 = event_cancel s h := by
  refine ⟨?_, ?_, ?_⟩
  · intro h0
    subst h0
    rfl
  · intro h0
    unfold event_cancel
    rw [if_pos h0]
    refine ⟨rfl, ?_, ?_, ?_, rfl, rfl, rfl⟩
    · exact slotAt_set_self s (h - 1) _ (by omega)
    · intro j hj
      exact slotAt_set_other s (h - 1) j _ (fun e => hj e.symm)
    · simp
  · by_cases h0 : h = 0
    · subst h0
      rfl
    · unfold event_cancel
      rw [if_pos h0]
      rfl

/-- C31, at a concrete input: the timer in slot 9 (handle 10) of the full table
is cancelled, and cancelled again through the zeroed handle. -/
theorem cancel_idempotent_witness :
    (event_cancel schedFull 10).2 = 0 ∧
    (slotAt (event_cancel schedFull 10).1 9).e_func = 0 ∧
    event_cancel (event_cancel schedFull 10).1 (event_cancel schedFull 10).2 =
      event_cancel schedFull 10 ∧
    event_cancel schedFull 0 = (schedFull, 0) :=
  ⟨((cancel_idempotent schedFull 10 (by decide)).2.1 (by decide)).1,
    by rw [((cancel_idempotent schedFull 10 (by decide)).2.1 (by decide)).2.1],
    (cancel_idempotent schedFull 10 (by decide)).2.2,
    (cancel_idempotent schedFull 0 (by decide)).1 rfl⟩

/-! ## Scheduler: slot 0 -/

theorem event_init_loop_length {α : Type} :
    ∀ (n : Nat) (s : EventState α), (event_init_loop n s).event_list.length = s.event_list.length := by
  intro n
  induction n with
  | zero => intro s; rfl
  | succ n ih =>
    intro s
    rw [event_init_loop, ih]
    simp

theorem event_init_loop_slot {α : Type} :
    ∀ (n : Nat) (s : EventState α) (j : Nat), j < n → j < s.event_list.length →
      (slotAt (event_init_loop n s) j).e_func = 0 := by
  intro n
  induction n with
  | zero => intro s j h; omega
  | succ n ih =>
    intro s j hj hlen
    rw [event_init_loop]
    by_cases hjn : j = n
    · subst hjn
      have hkeep : ∀ (m : Nat) (t : EventState α), j < t.event_list.length → m ≤ j →
          (slotAt t j).e_func = 0 → (slotAt (event_init_loop m t) j).e_func = 0 := by
        intro m
        induction m with
        | zero => intro t _ _ h; exact h
        | succ m ihm =>
          intro t ht hm h
          rw [event_init_loop]
          refine ihm _ (by simpa using ht) (by omega) ?_
          rw [slotAt_set_other t m j _ (by omega)]
          exact h
      refine hkeep j _ (by simpa using hlen) (le_refl _) ?_
      rw [slotAt_set_self s j _ hlen]
    · exact ih _ j (by omega) (by simpa using hlen)

/-- After event_init every entry of the table is free. -/
theorem event_init_free {α : Type} (s : EventState α) (hlen : s.event_list.length = EVENT_MAX)
    (j : Nat) : (slotAt (event_init s) j).e_func = 0 ∧
    (event_init s).event_list.length = EVENT_MAX := by
  unfold event_init
  refine ⟨?_, by rw [event_init_loop_length]; exact hlen⟩
  by_cases hj : j < EVENT_MAX
  · exact event_init_loop_slot EVENT_MAX s j hj (by rw [hlen]; exact hj)
  · unfold slotAt
    rw [List.getD_eq_default _ _ (by rw [event_init_loop_length, hlen]; omega)]
    rfl

theorem event_register_scan_zero {α : Type} (f P n : Nat) :
    ∀ (j : Nat) (s : EventState α),
      slotAt (event_register_scan f P n j s).1 0 = slotAt s 0 ∧
      (event_register_scan f P n j s).1.event_list.length = s.event_list.length := by
  intro j
  induction j with
  | zero => intro s; exact ⟨rfl, rfl⟩
  | succ j ih =>
    intro s
    rw [event_register_scan]
    split_ifs
    · exact ⟨slotAt_set_other s (j + 1) 0 _ (by omega), by simp⟩
    · exact ih s

/-- The calls event_register, event_cancel and event_reset leave slot 0 free and
the table at its size. -/
theorem sched_step_zero {α : Type} (cb : Callbacks α) (hcb : KeepsSlotZero cb)
    (s : EventState α) (op : SchedOp) (h0 : (slotAt s 0).e_func = 0)
    (hlen : s.event_list.length = EVENT_MAX) :
    (slotAt (sched_step cb s op) 0).e_func = 0 ∧
    (sched_step cb s op).event_list.length = EVENT_MAX := by
  cases op with
  | register f p n =>
    obtain ⟨a, b⟩ := event_register_scan_zero f p n (EVENT_MAX - 1) s
    exact ⟨by show (slotAt (event_register_scan f p n (EVENT_MAX - 1) s).1 0).e_func = 0
              rw [a]; exact h0,
      by show (event_register_scan f p n (EVENT_MAX - 1) s).1.event_list.length = EVENT_MAX
         rw [b]; exact hlen⟩
  | cancel h =>
    show (slotAt (event_cancel s h).1 0).e_func = 0 ∧
      (event_cancel s h).1.event_list.length = EVENT_MAX
    refine ⟨?_, by rw [(event_cancel_length s h).1]; exact hlen⟩
    rcases (event_cancel_slot s h 0).1 with e | e
    · rw [e]; exact h0
    · exact e
  | reset h =>
    show (slotAt (event_reset s h) 0).e_func = 0 ∧ (event_reset s h).event_list.length = EVENT_MAX
    unfold event_reset
    refine ⟨?_, by simpa using hlen⟩
    by_cases hi : (h + 255) % 256 = 0
    · rw [hi]
      rw [slotAt_set_self s 0 _ (by rw [hlen]; decide)]
      exact h0
    · rw [slotAt_set_other s _ 0 _ hi]
      exact h0
  | tick =>
    show (slotAt (event_tick cb s).1 0).e_func = 0 ∧ (event_tick cb s).1.event_list.length = EVENT_MAX
    have key : ∀ (j : Nat) (t : EventState α), (slotAt t 0).e_func = 0 →
        t.event_list.length = EVENT_MAX →
        (slotAt (event_dispatch cb j t).1 0).e_func = 0 ∧
        (event_dispatch cb j t).1.event_list.length = EVENT_MAX := by
      intro j
      induction j with
      | zero => intro t a b; exact ⟨a, b⟩
      | succ j ih =>
        intro t a b
        rw [event_dispatch]
        split_ifs
        · refine ih _ ?_ ?_
          · exact (hcb _ _ _ (by rw [slotAt_set_other t (j + 1) 0 _ (by omega)]; exact a)
              (by simpa using b)).1
          · exact (hcb _ _ _ (by rw [slotAt_set_other t (j + 1) 0 _ (by omega)]; exact a)
              (by simpa using b)).2
        · exact ih t a b
    unfold event_tick
    split_ifs
    · exact ⟨h0, hlen⟩
    · exact key _ _ h0 hlen

theorem sched_run_zero {α : Type} (cb : Callbacks α) (hcb : KeepsSlotZero cb) :
    ∀ (ops : List SchedOp) (s : EventState α), (slotAt s 0).e_func = 0 →
      s.event_list.length = EVENT_MAX →
      (slotAt (sched_run cb s ops) 0).e_func = 0 ∧
      (sched_run cb s ops).event_list.length = EVENT_MAX := by
  intro ops
  induction ops with
  | nil => intro s a b; exact ⟨a, b⟩
  | cons op ops ih =>
    intro s a b
    obtain ⟨c, d⟩ := sched_step_zero cb hcb s op a b
    exact ih _ c d

/-- A table whose first entry is free has fewer occupied entries than entries. -/
theorem registered_lt {α : Type} (s : EventState α) (h0 : (slotAt s 0).e_func = 0)
    (hlen : s.event_list.length = EVENT_MAX) : registered s ≤ EVENT_MAX - 1 := by
  unfold registered
  rcases hl : s.event_list with _ | ⟨e, l⟩
  · simp
  · have he : e.e_func = 0 := by
      unfold slotAt at h0
      rw [hl] at h0
      exact h0
    rw [hl] at hlen
    rw [List.filter_cons_of_neg (by simp [he])]
    have := List.length_filter_le (fun e : event_t => decide (e.e_func ≠ 0)) l
    simp only [List.length_cons] at hlen
    omega

theorem idleCallbacks_keepsSlotZero : KeepsSlotZero idleCallbacks :=
  fun _ _ _ h0 hlen => ⟨h0, hlen⟩

/-- C34. Slot 0 is never used: take the table event_init leaves and any
sequence of event_register, event_cancel, event_reset and event_tick calls whose
handles stay inside the table, with callbacks that keep slot 0 free. Afterwards
slot 0 is free and at most EVENT_MAX - 1 entries are occupied. A further
event_register returns a handle from 1 to EVENT_MAX. It returns 1 exactly when
none of the slots 1 to EVENT_MAX - 1 is free, and then the scheduler is left as
it was, so that no later tick calls anything on behalf of this registration.
Otherwise the handle is the index plus one of a slot that was free, which now
holds the new entry, and no other slot has changed. -/
theorem slot_zero_never_used {α : Type} (cb : Callbacks α) (s : EventState α)
    (ops : List SchedOp) (f p n : Nat) (hlen : s.event_list.length = EVENT_MAX)
    (hcb : KeepsSlotZero cb) (_hops : ∀ op ∈ ops, op.inTable) :
    (slotAt (sched_run cb (event_init s) ops) 0).e_func = 0 ∧
    registered (sched_run cb (event_init s) ops) ≤ EVENT_MAX - 1 ∧
    1 ≤ (event_register (sched_run cb (event_init s) ops) f p n).2 ∧
    (event_register (sched_run cb (event_init s) ops) f p n).2 ≤ EVENT_MAX ∧
    ((event_register (sched_run cb (event_init s) ops) f p n).2 = 1 ↔
      ∀ k, 1 ≤ k → k ≤ EVENT_MAX - 1 → (slotAt (sched_run cb (event_init s) ops) k).e_func ≠ 0) ∧
    ((event_register (sched_run cb (event_init s) ops) f p n).2 = 1 →
      (event_register (sched_run cb (event_init s) ops) f p n).1 =
        sched_run cb (event_init s) ops ∧
      ∀ m, event_ticks cb m (event_register (sched_run cb (event_init s) ops) f p n).1 =
        event_ticks cb m (sched_run cb (event_init s) ops)) ∧
    ((event_register (sched_run cb (event_init s) ops) f p n).2 ≠ 1 →
      (slotAt (sched_run cb (event_init s) ops)
        ((event_register (sched_run cb (event_init s) ops) f p n).2 - 1)).e_func = 0 ∧
      slotAt (event_register (sched_run cb (event_init s) ops) f p n).1
        ((event_register (sched_run cb (event_init s) ops) f p n).2 - 1) =
          ⟨((sched_run cb (event_init s) ops).tick + p) % 65536, p, n, f⟩ ∧
      ∀ j, j ≠ (event_register (sched_run cb (event_init s) ops) f p n).2 - 1 →
        slotAt (event_register (sched_run cb (event_init s) ops) f p n).1 j =
          slotAt (sched_run cb (event_init s) ops) j) := by
  obtain ⟨i0, ilen⟩ := event_init_free s hlen 0
  obtain ⟨h0, hl⟩ := sched_run_zero cb hcb ops (event_init s) i0 ilen
  generalize sched_run cb (event_init s) ops = t at h0 hl ⊢
  refine ⟨h0, registered_lt t h0 hl, ?_⟩
  rcases event_register_cases t f p n with e | ⟨j, j1, j2, j3, e⟩
  · rw [e]
    refine ⟨le_refl _, (by decide : 1 ≤ EVENT_MAX), ?_, fun _ => ⟨rfl, fun _ => rfl⟩,
      fun h => absurd rfl h⟩
    refine ⟨fun _ => ?_, fun _ => rfl⟩
    by_contra hne
    push_neg at hne
    obtain ⟨k, k1, k2, k3⟩ := hne
    have e9 : EVENT_MAX - 1 = 9 := rfl
    rw [e9] at k2
    obtain ⟨r1, r2, r3, _⟩ := event_register_found t f p n hl ⟨k, k1, by
      simp only [EVENT_MAX]; omega, k3⟩
    rw [e] at r3
    omega
  · rw [e]
    have hjl : j < t.event_list.length := by rw [hl]; simp only [EVENT_MAX]; omega
    refine ⟨by omega, by simp only [EVENT_MAX]; omega, ?_, fun h => by omega, fun _ => ?_⟩
    · refine ⟨fun h => by omega, fun hfull => ?_⟩
      exact absurd j3 (hfull j j1 (by
        have e9 : EVENT_MAX - 1 = 9 := rfl
        rw [e9]; exact j2))
    · rw [Nat.add_sub_cancel]
      exact ⟨j3, slotAt_set_self t j _ hjl, fun k hk => slotAt_set_other t j k _ (fun e => hk e.symm)⟩

/-- C34, at a concrete input: on the freshly initialised table a timer is
registered, a tick passes, the timer is reset and cancelled; slot 0 is free and
the next registration takes slot 9 again. -/
theorem slot_zero_never_used_witness :
    (slotAt (sched_run idleCallbacks (event_init sched0)
      [SchedOp.register 7 2 0, SchedOp.tick, SchedOp.reset 10, SchedOp.cancel 10]) 0).e_func = 0 ∧
    (event_register (sched_run idleCallbacks (event_init sched0)
      [SchedOp.register 7 2 0, SchedOp.tick, SchedOp.reset 10, SchedOp.cancel 10]) 5 3 1).2 = 10 :=
  ⟨(slot_zero_never_used idleCallbacks sched0
      [SchedOp.register 7 2 0, SchedOp.tick, SchedOp.reset 10, SchedOp.cancel 10] 5 3 1
      (by decide) idleCallbacks_keepsSlotZero (by decide)).1,
    by decide⟩

/-! ## Scheduler: timers of period zero -/

/-- A periodic entry of period 0 that is `r` ticks away from its next firing
(`1 ≤ r ≤ 65536`) is called `(n + (65536 - r)) / 65536` times by the next `n`
ticks: each firing stores the current tick as the next time, which the counter
reaches again after 65536 increments. -/
theorem zero_period_phase {α : Type} (cb : Callbacks α) (i : Nat) (hcb : KeepsSlot cb i)
    (hi1 : 1 ≤ i) (hi2 : i < EVENT_MAX) (f : Nat) (hf : f ≠ 0) :
    ∀ (n : Nat) (s : EventState α) (r : Nat), s.event_service = 0 →
      s.event_list.length = EVENT_MAX → 1 ≤ r → r ≤ 65536 →
      slotAt s i = ⟨(s.tick + r) % 65536, 0, 0, f⟩ →
      callsFor i (event_ticks cb n s).2 = List.replicate ((n + (65536 - r)) / 65536) ⟨i, f⟩ := by
  intro n
  induction n with
  | zero =>
    intro s r _ _ h1 h2 _
    have : (0 + (65536 - r)) / 65536 = 0 := Nat.div_eq_of_lt (by omega)
    rw [this]
    simp [event_ticks, callsFor]
  | succ n ih =>
    intro s r hsvc hlen hr1 hr2 hslot
    obtain ⟨t1, t2, t3, t4, t5⟩ := event_tick_slot cb i hcb hi1 hi2 s hsvc hlen
    simp only [event_ticks, callsFor_append]
    by_cases hr : r = 1
    · subst hr
      obtain ⟨a, b⟩ := t4 (by rw [hslot]; exact ⟨hf, rfl⟩)
      have hnew : slotAt (event_tick cb s).1 i =
          ⟨((event_tick cb s).1.tick + 65536) % 65536, 0, 0, f⟩ := by
        rw [a, hslot, t1]
        simp [event_fire]
      rw [b, ih (event_tick cb s).1 65536 t2 t3 (by omega) (le_refl _) hnew, hslot]
      have e1 : (n + 1 + (65536 - 1)) / 65536 = (n + (65536 - 65536)) / 65536 + 1 := by
        omega
      rw [e1, List.replicate_succ]
      rfl
    · obtain ⟨a, b⟩ := t5 (by
        rw [hslot]
        simp only [not_and]
        intro _ hw
        have hw2 : (s.tick + r) % 65536 = (s.tick + 1) % 65536 := hw
        omega)
      have hnew : slotAt (event_tick cb s).1 i =
          ⟨((event_tick cb s).1.tick + (r - 1)) % 65536, 0, 0, f⟩ := by
        rw [a, hslot, t1]
        have : (s.tick + r) % 65536 = ((s.tick + 1) % 65536 + (r - 1)) % 65536 := by omega
        rw [this]
      rw [b, ih (event_tick cb s).1 (r - 1) t2 t3 (by omega) (by omega) hnew]
      have e1 : n + 1 + (65536 - r) = n + (65536 - (r - 1)) := by omega
      rw [e1, List.nil_append]

/-- The same for an entry of period 0 with `q ≥ 1` firings left: it is called
`min ((n + (65536 - r)) / 65536) q` times. -/
theorem zero_period_finite_phase {α : Type} (cb : Callbacks α) (i : Nat) (hcb : KeepsSlot cb i)
    (hi1 : 1 ≤ i) (hi2 : i < EVENT_MAX) (f : Nat) (hf : f ≠ 0) :
    ∀ (n : Nat) (s : EventState α) (r q : Nat), s.event_service = 0 →
      s.event_list.length = EVENT_MAX → 1 ≤ r → r ≤ 65536 → 1 ≤ q →
      slotAt s i = ⟨(s.tick + r) % 65536, 0, q, f⟩ →
      callsFor i (event_ticks cb n s).2 =
        List.replicate (min ((n + (65536 - r)) / 65536) q) ⟨i, f⟩ := by
  intro n
  induction n with
  | zero =>
    intro s r q _ _ h1 h2 hq hslot
    have h0 : (0 + (65536 - r)) / 65536 = 0 := Nat.div_eq_of_lt (by omega)
    rw [h0]
    simp [event_ticks, callsFor]
  | succ n ih =>
    intro s r q hsvc hlen hr1 hr2 hq hslot
    obtain ⟨t1, t2, t3, t4, t5⟩ := event_tick_slot cb i hcb hi1 hi2 s hsvc hlen
    simp only [event_ticks, callsFor_append]
    by_cases hr : r = 1
    · subst hr
      obtain ⟨a, b⟩ := t4 (by rw [hslot]; exact ⟨hf, rfl⟩)
      have e1 : (n + 1 + (65536 - 1)) / 65536 = n / 65536 + 1 := by omega
      rw [e1, b, hslot]
      by_cases hq1 : q = 1
      · subst hq1
        have hnew : (slotAt (event_tick cb s).1 i).e_func = 0 := by
          rw [a, hslot]; simp [event_fire]
        obtain ⟨c, _⟩ := free_slot_stays cb i hcb hi1 hi2 n (event_tick cb s).1 t2 t3 hnew
        rw [c]
        have hm : ∀ d : Nat, min (d + 1) 1 = 1 := by
          intro d; simp only [Nat.min_def]; split_ifs <;> omega
        rw [hm]
        rfl
      · have hnew : slotAt (event_tick cb s).1 i =
            ⟨((event_tick cb s).1.tick + 65536) % 65536, 0, q - 1, f⟩ := by
          rw [a, hslot, t1]
          have hq0 : q ≠ 0 := by omega
          have hq2 : q - 1 ≠ 0 := by omega
          simp [event_fire, hq0, hq2]
        have c := ih (event_tick cb s).1 65536 (q - 1) t2 t3 (by omega) (le_refl _)
          (by omega) hnew
        rw [Nat.sub_self, Nat.add_zero] at c
        rw [c]
        generalize n / 65536 = dd
        have hm : ∀ d : Nat, min (d + 1) q = min d (q - 1) + 1 := by
          intro d; simp only [Nat.min_def]; split_ifs <;> omega
        rw [hm, List.replicate_succ]
        rfl
    · obtain ⟨a, b⟩ := t5 (by
        rw [hslot]
        simp only [not_and]
        intro _ hw
        have hw2 : (s.tick + r) % 65536 = (s.tick + 1) % 65536 := hw
        omega)
      have hnew : slotAt (event_tick cb s).1 i =
          ⟨((event_tick cb s).1.tick + (r - 1)) % 65536, 0, q, f⟩ := by
        rw [a, hslot, t1]
        have : (s.tick + r) % 65536 = ((s.tick + 1) % 65536 + (r - 1)) % 65536 := by omega
        rw [this]
      have e1 : n + 1 + (65536 - r) = n + (65536 - (r - 1)) := by omega
      rw [b, e1, List.nil_append]
      exact ih (event_tick cb s).1 (r - 1) q t2 t3 (by omega) (by omega) hq hnew

/-- C40, as stated, fails for a timer registered during a dispatch pass. The
periodic timer in slot 9 is due at tick 1; its function registers the function
2 with period 0, which goes into slot 8 with the tick counter, already
incremented to 1, as its time. The loop of event_tick then reaches slot 8 in
the same pass and finds it due: the function 2 is called in the very pass that
registered it, not 65536 ticks later. -/
theorem zero_period_timer_called_in_same_pass :
    slotAt schedChain 9 = ⟨1, 1, 0, 1⟩ ∧
    schedChain.tick = 0 ∧
    (event_tick chainCallbacks schedChain).1.tick = 1 ∧
    (event_tick chainCallbacks schedChain).2 = [⟨9, 1⟩, ⟨8, 2⟩] ∧
    callsFor 8 (event_tick chainCallbacks schedChain).2 = [⟨8, 2⟩] := by
  decide

/-- C40, amended. Zero-period timers: after a successful event_register(f, 0, q)
made while no dispatch pass is running, the
entry holds the current tick as its time. The first `n` ticks call `f` for it
`n / 65536` times when `q = 0` (forever) and `min (n / 65536) q` times when
`q ≥ 1`: never on the first 65535 ticks, once on the 65536th and once every
65536 ticks after that, as long as no callback touches the entry. -/
theorem zero_period_timer {α : Type} (cb : Callbacks α) (s : EventState α) (f q n : Nat)
    (hlen : s.event_list.length = EVENT_MAX) (hsvc : s.event_service = 0) (hf : f ≠ 0)
    (hfree : ∃ j, 1 ≤ j ∧ j < EVENT_MAX ∧ (slotAt s j).e_func = 0)
    (hcb : KeepsSlot cb ((event_register s f 0 q).2 - 1)) :
    slotAt (event_register s f 0 q).1 ((event_register s f 0 q).2 - 1) =
      ⟨s.tick % 65536, 0, q, f⟩ ∧
    callsFor ((event_register s f 0 q).2 - 1)
        (event_ticks cb n (event_register s f 0 q).1).2 =
      List.replicate (if q = 0 then n / 65536 else min (n / 65536) q)
        ⟨(event_register s f 0 q).2 - 1, f⟩ ∧
    (n < 65536 →
      callsFor ((event_register s f 0 q).2 - 1)
        (event_ticks cb n (event_register s f 0 q).1).2 = []) ∧
    (n = 65536 →
      callsFor ((event_register s f 0 q).2 - 1)
        (event_ticks cb n (event_register s f 0 q).1).2 = [⟨(event_register s f 0 q).2 - 1, f⟩]) := by
  obtain ⟨r1, r2, _, r4, r5, r6, r7⟩ := event_register_found s f 0 q hlen hfree
  have hslot : slotAt (event_register s f 0 q).1 ((event_register s f 0 q).2 - 1) =
      ⟨((event_register s f 0 q).1.tick + 65536) % 65536, 0, q, f⟩ := by
    rw [r7, r4]
    simp
  have key : callsFor ((event_register s f 0 q).2 - 1)
        (event_ticks cb n (event_register s f 0 q).1).2 =
      List.replicate (if q = 0 then n / 65536 else min (n / 65536) q)
        ⟨(event_register s f 0 q).2 - 1, f⟩ := by
    by_cases hq : q = 0
    · subst hq
      rw [if_pos rfl]
      have h := zero_period_phase cb _ hcb r1 r2 f hf n (event_register s f 0 0).1 65536
        (by rw [r5]; exact hsvc) r6 (by omega) (by omega) hslot
      rw [Nat.sub_self, Nat.add_zero] at h
      exact h
    · rw [if_neg hq]
      have h := zero_period_finite_phase cb _ hcb r1 r2 f hf n (event_register s f 0 q).1 65536 q
        (by rw [r5]; exact hsvc) r6 (by omega) (by omega) (by omega) hslot
      rw [Nat.sub_self, Nat.add_zero] at h
      exact h
  refine ⟨by rw [r7]; simp, key, ?_, ?_⟩
  · intro hn
    rw [key, Nat.div_eq_of_lt hn]
    split_ifs <;> simp
  · intro hn
    rw [key, hn]
    by_cases hq : q = 0
    · rw [if_pos hq]; rfl
    · rw [if_neg hq]
      have : min (65536 / 65536) q = 1 := by
        simp only [Nat.min_def]; split_ifs <;> omega
      rw [this]; rfl

/-- C40, at a concrete input: on the freshly initialised table a periodic timer
of period 0 is not called by the first 65535 ticks and is called once by
65536. -/
theorem zero_period_timer_witness :
    callsFor 9 (event_ticks idleCallbacks 65535 (event_register sched0 7 0 0).1).2 = [] ∧
    callsFor 9 (event_ticks idleCallbacks 65536 (event_register sched0 7 0 0).1).2 =
      [⟨9, 7⟩] :=
  ⟨(zero_period_timer idleCallbacks sched0 7 0 65535 (by decide) (by decide) (by decide)
      ⟨9, by decide, by decide, by decide⟩ (idleCallbacks_keepsSlot _)).2.2.1 (by omega),
    (zero_period_timer idleCallbacks sched0 7 0 65536 (by decide) (by decide) (by decide)
      ⟨9, by decide, by decide, by decide⟩ (idleCallbacks_keepsSlot _)).2.2.2 rfl⟩

/-! ## Codec: Digital I/O frames in full -/

theorem fs_callback_call_of (b b1 : fsbus_block_t) (h : b1.fs_callback = b.fs_callback) :
    fs_callback_call b1 = fs_callback_call b := by
  unfold fs_callback_call
  rw [h]

/-- The Digital I/O receive routine on a start byte: nothing is decoded. -/
theorem fs_rcv_dio_start_full (c : Nat) (b : fsbus_block_t) (hc : c < 256)
    (hs : c &&& 0x80 ≠ 0) :
    (fs_rcv_dio c b).1.fs_dio = b.fs_dio ∧
    (fs_rcv_dio c b).1.fs_callback = b.fs_callback ∧
    (fs_rcv_dio c b).2 = [] := by
  simp [fs_rcv_dio, fs_rcv_complete, fs_rcv_dio_command, fs_rcv_store, fs_rcv_dio_begin, hs,
    cmd_high_truncated c hc]

/-- The second byte of a frame whose code has a 3-byte dataframe: nothing is
decoded yet. -/
theorem fs_rcv_dio_second_long_full (c : Nat) (b : fsbus_block_t) (hc : c < 128)
    (hlen : b.fs_rcv_len = 1) (hcmd : b.fs_rcmd = 0) (hclen : b.fs_rcmd_len = 0)
    (hcode : (80 ≤ c ∧ c ≤ 87) ∨ (120 ≤ c ∧ c ≤ 123)) :
    (fs_rcv_dio c b).1.fs_dio = b.fs_dio ∧
    (fs_rcv_dio c b).1.fs_callback = b.fs_callback ∧
    (fs_rcv_dio c b).2 = [] := by
  obtain ⟨h1, h2⟩ := low_byte_bits c hc
  have h127 : c &&& 127 = c := h2
  have hl : fs_rcv_dio_dflen c 0 = 3 := by
    rcases hcode with ⟨ha, hb⟩ | ⟨ha, hb⟩
    · have e1 : ¬ (128 ≤ c) := by omega
      simp [fs_rcv_dio_dflen, e1, ha, hb]
    · have e1 : ¬ (128 ≤ c) := by omega
      have e2 : ¬ (c ≤ 87) := by omega
      have e3 : ¬ (c ≤ 119) := by omega
      simp [fs_rcv_dio_dflen, e1, e2, e3, ha, hb]
  simp [fs_rcv_dio, fs_rcv_complete, fs_rcv_dio_command, fs_rcv_store, fs_rcv_dio_begin,
    hlen, hcmd, hclen, h1, h127, hl]

/-- The second byte of a frame whose code has a 2-byte dataframe: the decoder
and the callback run. -/
theorem fs_rcv_dio_second_short_full (c : Nat) (b : fsbus_block_t)
    (hlen : b.fs_rcv_len = 1) (hcmd : b.fs_rcmd = 0) (hclen : b.fs_rcmd_len = 0)
    (ha : 88 ≤ c) (hb : c ≤ 119) :
    (fs_rcv_dio c b).1.fs_dio = fsbus_dio_decode_regs c b.fs_rcmd_v b.fs_dio ∧
    (fs_rcv_dio c b).1.fs_callback = b.fs_callback ∧
    (fs_rcv_dio c b).2 = RcvEvent.decode :: fs_callback_call b := by
  obtain ⟨h1, h2⟩ := low_byte_bits c (by omega)
  have h127 : c &&& 127 = c := h2
  have hl : fs_rcv_dio_dflen c 0 = 2 := by
    have e1 : ¬ (128 ≤ c) := by omega
    have e2 : ¬ (c ≤ 87) := by omega
    simp [fs_rcv_dio_dflen, e1, e2, ha, hb]
  simp [fs_rcv_dio, fs_rcv_complete, fs_rcv_dio_command, fs_rcv_store, fs_rcv_dio_begin,
    hlen, hcmd, hclen, h1, h127, hl, fsbus_dio_decode, fs_callback_call]

/-- The third byte of a 3-byte dataframe: the value is completed, the decoder
and the callback run. -/
theorem fs_rcv_dio_third_full (c : Nat) (b : fsbus_block_t) (hc : c < 128)
    (hlen : b.fs_rcv_len = 2) (hclen : b.fs_rcmd_len = 3) :
    (fs_rcv_dio c b).1.fs_dio =
      fsbus_dio_decode_regs b.fs_rcmd ((b.fs_rcmd_v ||| ((c &&& 0x7F) <<< 1)) % 256) b.fs_dio ∧
    (fs_rcv_dio c b).1.fs_callback = b.fs_callback ∧
    (fs_rcv_dio c b).2 = RcvEvent.decode :: fs_callback_call b := by
  obtain ⟨h1, _⟩ := low_byte_bits c hc
  simp [fs_rcv_dio, fs_rcv_complete, fs_rcv_dio_command, fs_rcv_store, fs_rcv_dio_begin,
    hlen, hclen, h1, fsbus_dio_decode, fs_callback_call]

/-- The Digital I/O receive routine fed a 3-byte frame of a 3-byte code: the
decoder runs once, on the third byte, with the code and the joined value. -/
theorem fs_rcv_dio_frame_long_full (b0 : fsbus_block_t) (c0 code hi : Nat) (hc0 : c0 < 256)
    (hs : c0 &&& 0x80 ≠ 0) (hhi : hi < 128)
    (hcode : (80 ≤ code ∧ code ≤ 87) ∨ (120 ≤ code ∧ code ≤ 123)) :
    (rcv_bytes fs_rcv_dio [c0, code, hi] b0).1.fs_dio =
      fsbus_dio_decode_regs code (((c0 &&& 0x01) ||| ((hi &&& 0x7F) <<< 1)) % 256) b0.fs_dio ∧
    (rcv_bytes fs_rcv_dio [c0, code, hi] b0).2 =
      [[], [], RcvEvent.decode :: fs_callback_call b0] := by
  obtain ⟨_, a2, a3, a4, a5⟩ := fs_rcv_dio_on_start c0 b0 hc0 hs
  obtain ⟨a6, a7, a8⟩ := fs_rcv_dio_start_full c0 b0 hc0 hs
  obtain ⟨_, b2, b3, b4, b5⟩ := fs_rcv_dio_on_second_long code (fs_rcv_dio c0 b0).1
    (by omega) a2 a3 a4 hcode
  obtain ⟨b6, b7, b8⟩ := fs_rcv_dio_second_long_full code (fs_rcv_dio c0 b0).1
    (by omega) a2 a3 a4 hcode
  obtain ⟨c6, c7, c8⟩ := fs_rcv_dio_third_full hi (fs_rcv_dio code (fs_rcv_dio c0 b0).1).1 hhi b2 b4
  simp only [rcv_bytes]
  refine ⟨by rw [c6, b3, b5, a5, b6, a6], ?_⟩
  rw [a8, b8, c8, fs_callback_call_of b0 _ (b7.trans a7)]

/-- The Digital I/O receive routine fed a 2-byte frame of a 2-byte code: the
decoder runs once, on the second byte, with the code and bit 0 of the start
byte. -/
theorem fs_rcv_dio_frame_short_full (b0 : fsbus_block_t) (c0 code : Nat) (hc0 : c0 < 256)
    (hs : c0 &&& 0x80 ≠ 0) (ha : 88 ≤ code) (hb : code ≤ 119) :
    (rcv_bytes fs_rcv_dio [c0, code] b0).1.fs_dio =
      fsbus_dio_decode_regs code (c0 &&& 0x01) b0.fs_dio ∧
    (rcv_bytes fs_rcv_dio [c0, code] b0).2 = [[], RcvEvent.decode :: fs_callback_call b0] := by
  obtain ⟨_, a2, a3, a4, a5⟩ := fs_rcv_dio_on_start c0 b0 hc0 hs
  obtain ⟨a6, a7, a8⟩ := fs_rcv_dio_start_full c0 b0 hc0 hs
  obtain ⟨b6, _, b8⟩ := fs_rcv_dio_second_short_full code (fs_rcv_dio c0 b0).1 a2 a3 a4 ha hb
  simp only [rcv_bytes]
  refine ⟨by rw [b6, a5, a6], ?_⟩
  rw [a8, b8, fs_callback_call_of b0 _ a7]

theorem outbit_clear (old b : Nat) (hold : old < 256) (hb : b < 8) :
    (old &&& (0xFF ^^^ (1 <<< b))).testBit b = false ∧
    ∀ k, k ≠ b → (old &&& (0xFF ^^^ (1 <<< b))).testBit k = old.testBit k := by
  have h255 : (0xFF : Nat) = 2 ^ 8 - 1 := by norm_num
  rw [h255, Nat.one_shiftLeft]
  constructor
  · rw [Nat.testBit_and, Nat.testBit_xor, Nat.testBit_two_pow_self, Nat.testBit_two_pow_sub_one]
    simp [hb]
  · intro k hk
    rw [Nat.testBit_and, Nat.testBit_xor, Nat.testBit_two_pow, Nat.testBit_two_pow_sub_one]
    by_cases hk8 : k < 8
    · simp [hk8, Ne.symm hk]
    · have h1 : old.testBit k = false :=
        Nat.testBit_eq_false_of_lt (lt_of_lt_of_le hold (by
          calc 256 = 2 ^ 8 := by norm_num
            _ ≤ 2 ^ k := Nat.pow_le_pow_right (by norm_num) (by omega)))
      simp [h1]

theorem outbit_set (old b : Nat) (hold : old < 256) (hb : b < 8) :
    ((old ||| (1 <<< b)) % 256).testBit b = true ∧
    ∀ k, k ≠ b → ((old ||| (1 <<< b)) % 256).testBit k = old.testBit k := by
  rw [Nat.one_shiftLeft]
  have hlt : old ||| 2 ^ b < 256 := by
    have h2 : 2 ^ b < 2 ^ 8 := Nat.pow_lt_pow_right (by norm_num) hb
    have h3 : old < 2 ^ 8 := by omega
    have := Nat.or_lt_two_pow h3 h2
    omega
  rw [Nat.mod_eq_of_lt hlt]
  constructor
  · rw [Nat.testBit_or, Nat.testBit_two_pow_self]
    simp
  · intro k hk
    rw [Nat.testBit_or, Nat.testBit_two_pow]
    simp [Ne.symm hk]

/-- The decoder on an analog-output code. -/
theorem fsbus_dio_decode_regs_aout (j v : Nat) (iop : fsbus_dio_t) (hj : j < 8) :
    fsbus_dio_decode_regs (80 + j) v iop = { iop with fs_aout := iop.fs_aout.set j v } := by
  unfold fsbus_dio_decode_regs
  have e1 : ¬ (80 + j = 128) := by omega
  have e2 : ¬ (80 + j = 129) := by omega
  have e3 : ¬ (80 + j = 130) := by omega
  have e4 : ¬ (80 + j = 131) := by omega
  have e5 : ¬ (80 + j = 132) := by omega
  have e6 : ¬ (80 + j = 133) := by omega
  have e7 : 80 ≤ 80 + j ∧ 80 + j ≤ 87 := by omega
  simp only [FS_RCMD_RESET, FS_RCMD_SETCID, FS_RCMD_SETBRIGHT, FS_RCMD_SETPOWER,
    FS_RCMD_SETDECIMALPOINT, FS_RCMD_SETBASEBRIGHT, FS_RCMD_A_OUT_0, FS_RCMD_A_OUT_7,
    if_neg e1, if_neg e2, if_neg e3, if_neg e4, if_neg e5, if_neg e6, if_pos e7,
    Nat.add_sub_cancel_left]

/-- The decoder on an output-byte code. -/
theorem fsbus_dio_decode_regs_outbyte (j v : Nat) (iop : fsbus_dio_t) (hj : j < 4) :
    fsbus_dio_decode_regs (120 + j) v iop = { iop with fs_dout := iop.fs_dout.set j v } := by
  unfold fsbus_dio_decode_regs
  have e1 : ¬ (120 + j = 128) := by omega
  have e2 : ¬ (120 + j = 129) := by omega
  have e3 : ¬ (120 + j = 130) := by omega
  have e4 : ¬ (120 + j = 131) := by omega
  have e5 : ¬ (120 + j = 132) := by omega
  have e6 : ¬ (120 + j = 133) := by omega
  have e7 : ¬ (80 ≤ 120 + j ∧ 120 + j ≤ 87) := by omega
  have e8 : ¬ (88 ≤ 120 + j ∧ 120 + j ≤ 119) := by omega
  have e9 : 120 ≤ 120 + j ∧ 120 + j ≤ 123 := by omega
  simp only [FS_RCMD_RESET, FS_RCMD_SETCID, FS_RCMD_SETBRIGHT, FS_RCMD_SETPOWER,
    FS_RCMD_SETDECIMALPOINT, FS_RCMD_SETBASEBRIGHT, FS_RCMD_A_OUT_0, FS_RCMD_A_OUT_7,
    FS_RCMD_D_OUTBIT0_0, FS_RCMD_D_OUTBIT3_7, FS_RCMD_D_OUTBYTE0, FS_RCMD_D_OUTBYTE3,
    if_neg e1, if_neg e2, if_neg e3, if_neg e4, if_neg e5, if_neg e6, if_neg e7, if_neg e8,
    if_pos e9, Nat.add_sub_cancel_left]

/-- The decoder on an output-bit code. -/
theorem fsbus_dio_decode_regs_outbit (n v : Nat) (iop : fsbus_dio_t) (hn : n < 32) :
    fsbus_dio_decode_regs (88 + n) v iop =
      { iop with
        fs_dout := iop.fs_dout.set (n / 8) (dio_outbit (iop.fs_dout.getD (n / 8) 0) v (n % 8)) } := by
  unfold fsbus_dio_decode_regs
  have e1 : ¬ (88 + n = 128) := by omega
  have e2 : ¬ (88 + n = 129) := by omega
  have e3 : ¬ (88 + n = 130) := by omega
  have e4 : ¬ (88 + n = 131) := by omega
  have e5 : ¬ (88 + n = 132) := by omega
  have e6 : ¬ (88 + n = 133) := by omega
  have e7 : ¬ (80 ≤ 88 + n ∧ 88 + n ≤ 87) := by omega
  have e8 : 88 ≤ 88 + n ∧ 88 + n ≤ 119 := by omega
  simp only [FS_RCMD_RESET, FS_RCMD_SETCID, FS_RCMD_SETBRIGHT, FS_RCMD_SETPOWER,
    FS_RCMD_SETDECIMALPOINT, FS_RCMD_SETBASEBRIGHT, FS_RCMD_A_OUT_0, FS_RCMD_A_OUT_7,
    FS_RCMD_D_OUTBIT0_0, FS_RCMD_D_OUTBIT3_7,
    if_neg e1, if_neg e2, if_neg e3, if_neg e4, if_neg e5, if_neg e6, if_neg e7, if_pos e8,
    Nat.add_sub_cancel_left, dio_outbit]
  split_ifs <;> rfl

/-- A frame of fsbus_snd for a code below 128, handed to fsbus_rcv byte by byte,
reaches the receive routine of the addressed Digital I/O block and no other
block. -/
theorem fsbus_snd_to_dio (st : FsbusState) (i cid code : Nat) (v : Int) (len : Nat)
    (hwf : st.next_handle ≤ st.blocks.length) (hcid1 : 1 ≤ cid) (hcid2 : cid ≤ 31)
    (hblk : fs_get_blk st cid = some i)
    (htype : (st.blocks.getD i default).fs_ctrl_type = FS_CTRL_DIO)
    (hcode : code < 128) (hlen : len = 2 ∨ len = 3) :
    (fsbus_rcv_bytes (fsbus_snd cid code v len) st).1.blocks.getD i default =
      (rcv_bytes fs_rcv_dio (fsbus_snd cid code v len) (st.blocks.getD i default)).1 ∧
    (fsbus_rcv_bytes (fsbus_snd cid code v len) st).2 =
      (rcv_bytes fs_rcv_dio (fsbus_snd cid code v len) (st.blocks.getD i default)).2.map
        (List.map (fun e => (i, e))) ∧
    (∀ j, j ≠ i → (fsbus_rcv_bytes (fsbus_snd cid code v len) st).1.blocks.getD j default =
      st.blocks.getD j default) := by
  obtain ⟨k1, k2, _, _, _⟩ := snd_byte0_bits cid (by omega) 0 (by omega) (v % 2).toNat (by omega)
  have hi : i < st.blocks.length := lt_of_lt_of_le (fs_get_blk_sound st cid i hblk).1 hwf
  have hne : (((0x80 ||| (cid <<< 2) ||| 0 ||| (v % 2).toNat) % 256) &&& 0x7C) >>> 2 ≠ 0 := by
    rw [k2]; omega
  have hhi : ((v / 2) % 128).toNat < 128 := by omega
  rcases hlen with rfl | rfl
  · rw [(fsbus_snd_bytes cid code v hcode).1]
    have h := fsbus_rcv_frame st _ [code] i k1 hne (by rw [k2]; exact hblk) hi (by
      intro c hc
      simp only [List.mem_singleton] at hc
      subst hc
      exact (low_byte_bits _ hcode).1)
    rw [htype, fs_rcv_func_dio] at h
    exact h
  · rw [(fsbus_snd_bytes cid code v hcode).2]
    have h := fsbus_rcv_frame st _ [code, ((v / 2) % 128).toNat] i k1 hne
      (by rw [k2]; exact hblk) hi (by
        intro c hc
        simp only [List.mem_cons, List.mem_singleton, List.not_mem_nil, or_false] at hc
        rcases hc with rfl | rfl
        · exact (low_byte_bits _ hcode).1
        · exact (low_byte_bits _ hhi).1)
    rw [htype, fs_rcv_func_dio] at h
    exact h

/-- C33. Digital I/O output frames update exactly the addressed register: take
a Digital I/O block with an ID from 1 to 31, registered with a callback, whose
register image has its 4 digital bytes and 8 analog outputs. The 3-byte frame
fsbus_snd writes for an analog-output code 80 + j (j < 8) or an output-byte code
120 + j (j < 4) with a signed 8-bit value runs the decoder and the callback
once, on the third byte, and stores the value (as a byte) in analog output j,
or digital byte j; the 2-byte frame for an output-bit code 88 + n (n < 32) with
value 0 or 1 runs them once, on the second byte, and sets bit n % 8 of digital
byte n / 8 to the value. Every other analog output, digital byte and bit, and
every other block, is left as it was. -/
theorem dio_output_frames (st : FsbusState) (i cid : Nat)
    (hwf : st.next_handle ≤ st.blocks.length) (hcid1 : 1 ≤ cid) (hcid2 : cid ≤ 31)
    (hblk : fs_get_blk st cid = some i)
    (htype : (st.blocks.getD i default).fs_ctrl_type = FS_CTRL_DIO)
    (hcb : (st.blocks.getD i default).fs_callback ≠ 0)
    (hshape : (dio_of st i).fs_dout.length = 4 ∧ (dio_of st i).fs_aout.length = 8 ∧
      ∀ x ∈ (dio_of st i).fs_dout, x < 256) :
    (∀ (j : Nat) (v : Int), j < 8 → -128 ≤ v → v ≤ 127 →
      (dio_of (fsbus_rcv_bytes (fsbus_snd cid (80 + j) v 3) st).1 i).fs_aout.getD j 0 =
        (v % 256).toNat ∧
      (∀ k, k ≠ j →
        (dio_of (fsbus_rcv_bytes (fsbus_snd cid (80 + j) v 3) st).1 i).fs_aout.getD k 0 =
          (dio_of st i).fs_aout.getD k 0) ∧
      (dio_of (fsbus_rcv_bytes (fsbus_snd cid (80 + j) v 3) st).1 i).fs_dout =
        (dio_of st i).fs_dout ∧
      (fsbus_rcv_bytes (fsbus_snd cid (80 + j) v 3) st).2 =
        [[], [], [(i, RcvEvent.decode),
          (i, RcvEvent.callback (st.blocks.getD i default).fs_callback)]] ∧
      (∀ k, k ≠ i →
        (fsbus_rcv_bytes (fsbus_snd cid (80 + j) v 3) st).1.blocks.getD k default =
          st.blocks.getD k default)) ∧
    (∀ (j : Nat) (v : Int), j < 4 → -128 ≤ v → v ≤ 127 →
      (dio_of (fsbus_rcv_bytes (fsbus_snd cid (120 + j) v 3) st).1 i).fs_dout.getD j 0 =
        (v % 256).toNat ∧
      (∀ k, k ≠ j →
        (dio_of (fsbus_rcv_bytes (fsbus_snd cid (120 + j) v 3) st).1 i).fs_dout.getD k 0 =
          (dio_of st i).fs_dout.getD k 0) ∧
      (dio_of (fsbus_rcv_bytes (fsbus_snd cid (120 + j) v 3) st).1 i).fs_aout =
        (dio_of st i).fs_aout ∧
      (fsbus_rcv_bytes (fsbus_snd cid (120 + j) v 3) st).2 =
        [[], [], [(i, RcvEvent.decode),
          (i, RcvEvent.callback (st.blocks.getD i default).fs_callback)]] ∧
      (∀ k, k ≠ i →
        (fsbus_rcv_bytes (fsbus_snd cid (120 + j) v 3) st).1.blocks.getD k default =
          st.blocks.getD k default)) ∧
    (∀ (n : Nat) (v : Int), n < 32 → v = 0 ∨ v = 1 →
      ((dio_of (fsbus_rcv_bytes (fsbus_snd cid (88 + n) v 2) st).1 i).fs_dout.getD (n / 8)
          0).testBit (n % 8) = decide (v = 1) ∧
      (∀ b, b ≠ n % 8 →
        ((dio_of (fsbus_rcv_bytes (fsbus_snd cid (88 + n) v 2) st).1 i).fs_dout.getD (n / 8)
          0).testBit b = ((dio_of st i).fs_dout.getD (n / 8) 0).testBit b) ∧
      (∀ k, k ≠ n / 8 →
        (dio_of (fsbus_rcv_bytes (fsbus_snd cid (88 + n) v 2) st).1 i).fs_dout.getD k 0 =
          (dio_of st i).fs_dout.getD k 0) ∧
      (dio_of (fsbus_rcv_bytes (fsbus_snd cid (88 + n) v 2) st).1 i).fs_aout =
        (dio_of st i).fs_aout ∧
      (fsbus_rcv_bytes (fsbus_snd cid (88 + n) v 2) st).2 =
        [[], [(i, RcvEvent.decode),
          (i, RcvEvent.callback (st.blocks.getD i default).fs_callback)]] ∧
      (∀ k, k ≠ i →
        (fsbus_rcv_bytes (fsbus_snd cid (88 + n) v 2) st).1.blocks.getD k default =
          st.blocks.getD k default)) := by
  obtain ⟨hd4, ha8, hmem⟩ := hshape
  have hbyte : ∀ k, (dio_of st i).fs_dout.getD k 0 < 256 := by
    intro k
    by_cases hk : k < (dio_of st i).fs_dout.length
    · rw [List.getD_eq_getElem _ _ hk]
      exact hmem _ (List.getElem_mem _)
    · rw [List.getD_eq_default _ _ (by omega)]
      decide
  have hcall : fs_callback_call (st.blocks.getD i default) =
      [RcvEvent.callback (st.blocks.getD i default).fs_callback] := by
    unfold fs_callback_call
    rw [if_pos hcb]
  have hb0 : ∀ v : Int, (0x80 ||| (cid <<< 2) ||| 0 ||| (v % 2).toNat) % 256 < 256 ∧
      ((0x80 ||| (cid <<< 2) ||| 0 ||| (v % 2).toNat) % 256) &&& 0x80 ≠ 0 ∧
      ((0x80 ||| (cid <<< 2) ||| 0 ||| (v % 2).toNat) % 256) &&& 0x01 = (v % 2).toNat := by
    intro v
    obtain ⟨k1, _, _, k4, k5⟩ :=
      snd_byte0_bits cid (by omega) 0 (by omega) (v % 2).toNat (by omega)
    exact ⟨k5, k1, by rw [k4, Nat.zero_or]⟩
  have hjoin : ∀ v : Int, -128 ≤ v → v ≤ 127 →
      (((0x80 ||| (cid <<< 2) ||| 0 ||| (v % 2).toNat) % 256 &&& 0x01) |||
        ((((v / 2) % 128).toNat &&& 0x7F) <<< 1)) % 256 = (v % 256).toNat := by
    intro v hv1 hv2
    rw [(hb0 v).2.2, value_join _ (by omega) _ (by omega)]
    omega
  refine ⟨?_, ?_, ?_⟩
  · intro j v hj hv1 hv2
    obtain ⟨a1, a2, a3⟩ := fsbus_snd_to_dio st i cid (80 + j) v 3 hwf hcid1 hcid2 hblk htype
      (by omega) (Or.inr rfl)
    have hf := fs_rcv_dio_frame_long_full (st.blocks.getD i default) _ (80 + j)
      ((v / 2) % 128).toNat (hb0 v).1 (hb0 v).2.1 (by omega) (Or.inl (by omega))
    rw [← (fsbus_snd_bytes cid (80 + j) v (by omega)).2, hjoin v hv1 hv2,
      fsbus_dio_decode_regs_aout j _ _ hj] at hf
    have hdio : dio_of (fsbus_rcv_bytes (fsbus_snd cid (80 + j) v 3) st).1 i =
        { dio_of st i with fs_aout := (dio_of st i).fs_aout.set j (v % 256).toNat } := by
      unfold dio_of
      rw [a1, hf.1]
    rw [hdio, a2, hf.2, hcall]
    refine ⟨getD_set_self _ _ _ _ (by rw [ha8]; exact hj),
      fun k hk => getD_set_other _ _ _ _ _ (Ne.symm hk), rfl, rfl, a3⟩
  · intro j v hj hv1 hv2
    obtain ⟨a1, a2, a3⟩ := fsbus_snd_to_dio st i cid (120 + j) v 3 hwf hcid1 hcid2 hblk htype
      (by omega) (Or.inr rfl)
    have hf := fs_rcv_dio_frame_long_full (st.blocks.getD i default) _ (120 + j)
      ((v / 2) % 128).toNat (hb0 v).1 (hb0 v).2.1 (by omega) (Or.inr (by omega))
    rw [← (fsbus_snd_bytes cid (120 + j) v (by omega)).2, hjoin v hv1 hv2,
      fsbus_dio_decode_regs_outbyte j _ _ hj] at hf
    have hdio : dio_of (fsbus_rcv_bytes (fsbus_snd cid (120 + j) v 3) st).1 i =
        { dio_of st i with fs_dout := (dio_of st i).fs_dout.set j (v % 256).toNat } := by
      unfold dio_of
      rw [a1, hf.1]
    rw [hdio, a2, hf.2, hcall]
    refine ⟨getD_set_self _ _ _ _ (by rw [hd4]; exact hj),
      fun k hk => getD_set_other _ _ _ _ _ (Ne.symm hk), rfl, rfl, a3⟩
  · intro n v hn hv
    obtain ⟨a1, a2, a3⟩ := fsbus_snd_to_dio st i cid (88 + n) v 2 hwf hcid1 hcid2 hblk htype
      (by omega) (Or.inl rfl)
    have hf := fs_rcv_dio_frame_short_full (st.blocks.getD i default) _ (88 + n)
      (hb0 v).1 (hb0 v).2.1 (by omega) (by omega)
    rw [← (fsbus_snd_bytes cid (88 + n) v (by omega)).1, (hb0 v).2.2,
      fsbus_dio_decode_regs_outbit n _ _ hn] at hf
    have hdio : dio_of (fsbus_rcv_bytes (fsbus_snd cid (88 + n) v 2) st).1 i =
        { dio_of st i with
          fs_dout := (dio_of st i).fs_dout.set (n / 8)
            (dio_outbit ((dio_of st i).fs_dout.getD (n / 8) 0) (v % 2).toNat (n % 8)) } := by
      unfold dio_of
      rw [a1, hf.1]
    rw [hdio, a2, hf.2, hcall]
    have hn8 : n / 8 < (dio_of st i).fs_dout.length := by rw [hd4]; omega
    have hself : ((dio_of st i).fs_dout.set (n / 8)
        (dio_outbit ((dio_of st i).fs_dout.getD (n / 8) 0) (v % 2).toNat (n % 8))).getD (n / 8) 0 =
        dio_outbit ((dio_of st i).fs_dout.getD (n / 8) 0) (v % 2).toNat (n % 8) :=
      getD_set_self _ _ _ _ hn8
    refine ⟨?_, ?_, fun k hk => getD_set_other _ _ _ _ _ (Ne.symm hk), rfl, rfl, a3⟩
    · show (((dio_of st i).fs_dout.set (n / 8) _).getD (n / 8) 0).testBit (n % 8) = _
      rw [hself]
      unfold dio_outbit
      rcases hv with rfl | rfl
      · rw [if_pos (by decide)]
        rw [(outbit_clear _ _ (hbyte _) (Nat.mod_lt _ (by decide))).1]
        decide
      · rw [if_neg (by decide)]
        rw [(outbit_set _ _ (hbyte _) (Nat.mod_lt _ (by decide))).1]
        decide
    · intro b hb
      show (((dio_of st i).fs_dout.set (n / 8) _).getD (n / 8) 0).testBit b = _
      rw [hself]
      unfold dio_outbit
      rcases hv with rfl | rfl
      · rw [if_pos (by decide)]
        exact (outbit_clear _ _ (hbyte _) (Nat.mod_lt _ (by decide))).2 b hb
      · rw [if_neg (by decide)]
        exact (outbit_set _ _ (hbyte _) (Nat.mod_lt _ (by decide))).2 b hb

/-- C33, at a concrete input: the Digital I/O controller of the panel (ID 14,
block 5, callback 6) is sent the value -3 for analog output 2 and the value 1
for output bit 9. -/
theorem dio_output_frames_witness :
    (dio_of (fsbus_rcv_bytes (fsbus_snd 14 (80 + 2) (-3) 3) kapBus).1 5).fs_aout.getD 2 0 = 253 ∧
    (fsbus_rcv_bytes (fsbus_snd 14 (80 + 2) (-3) 3) kapBus).2 =
      [[], [], [(5, RcvEvent.decode), (5, RcvEvent.callback 6)]] ∧
    ((dio_of (fsbus_rcv_bytes (fsbus_snd 14 (88 + 9) 1 2) kapBus).1 5).fs_dout.getD (9 / 8)
      0).testBit (9 % 8) = true :=
  ⟨((dio_output_frames kapBus 5 14 (by decide) (by decide) (by decide) (by decide) (by decide)
      (by decide) (by decide)).1 2 (-3) (by decide) (by decide) (by decide)).1,
    ((dio_output_frames kapBus 5 14 (by decide) (by decide) (by decide) (by decide) (by decide)
      (by decide) (by decide)).1 2 (-3) (by decide) (by decide) (by decide)).2.2.2.1,
    ((dio_output_frames kapBus 5 14 (by decide) (by decide) (by decide) (by decide) (by decide)
      (by decide) (by decide)).2.2 9 1 (by decide) (Or.inr rfl)).1⟩

/-! ## Codec: command assembly and the receive cursor -/

/-- The Digital I/O receive routine on the second byte of a frame: the command
code is the low seven bits of the byte OR-ed onto what the start byte left. -/
theorem fs_rcv_dio_second_code (c : Nat) (b : fsbus_block_t) (hc : c < 128)
    (hlen : b.fs_rcv_len = 1) :
    (fs_rcv_dio c b).1.fs_rcmd = b.fs_rcmd ||| (c &&& 0x7F) := by
  obtain ⟨h1, _⟩ := low_byte_bits c hc
  have hd := fun x => (fsbus_dio_decode_frame x).1
  unfold fs_rcv_dio fs_rcv_complete
  split_ifs
  all_goals simp [fs_rcv_dio_command, fs_rcv_store, fs_rcv_dio_begin, hlen, h1, hd]

/-- C32. Digital I/O command assembly: the start byte never contributes to the
command code. fs_rcv_dio stores `(c & FS_DF_B1_CMD_MASK) << 7`, which is 0 or
256, in the 8-bit `fs_rcmd`, so after any start byte the code is 0 and after
the second byte it is the low seven bits of that byte, whatever bit 1 of the
start byte was. Evaluated on the panel's Digital I/O controller (ID 14, block
5) with digital byte 0 set to 5: the 2-byte frame BA 00, whose start byte has
the command-high bit set, leaves the code 0, not 128; the decoder and the
callback do not run and the outputs are not zeroed. -/
theorem dio_command_high_bit_lost :
    (∀ (b : fsbus_block_t) (c0 c1 : Nat),
      (fs_rcv_dio (128 + c0 % 128) b).1.fs_rcmd = 0 ∧
      (rcv_bytes fs_rcv_dio [128 + c0 % 128, c1 % 128] b).1.fs_rcmd = c1 % 128 ∧
      (rcv_bytes fs_rcv_dio [128 + c0 % 128, c1 % 128] b).1.fs_rcmd < 128) ∧
    (0xBA &&& FS_DF_START ≠ 0 ∧ (0xBA &&& FS_DF_CID_MASK) >>> 2 = 14 ∧
      0xBA &&& FS_DF_B1_CMD_MASK ≠ 0) ∧
    (dio_of (fsbus_rcv_bytes (fsbus_snd 14 120 5 3) kapBus).1 5).fs_dout = [5, 0, 0, 0] ∧
    ((fsbus_rcv_bytes [0xBA, 0x00] (fsbus_rcv_bytes (fsbus_snd 14 120 5 3) kapBus).1).1.blocks.getD
      5 default).fs_rcmd = 0 ∧
    (fsbus_rcv_bytes [0xBA, 0x00] (fsbus_rcv_bytes (fsbus_snd 14 120 5 3) kapBus).1).2 =
      [[], []] ∧
    (dio_of (fsbus_rcv_bytes [0xBA, 0x00] (fsbus_rcv_bytes (fsbus_snd 14 120 5 3) kapBus).1).1
      5).fs_dout = [5, 0, 0, 0] := by
  refine ⟨?_, by decide, by decide, by decide, by decide, by decide⟩
  intro b c0 c1
  have hs : (128 + c0 % 128) &&& 0x80 ≠ 0 := by
    have : ∀ x < 128, (128 + x) &&& 0x80 ≠ 0 := by decide
    exact this _ (Nat.mod_lt _ (by decide))
  obtain ⟨_, a2, a3, _, _⟩ := fs_rcv_dio_on_start (128 + c0 % 128) b (by omega) hs
  have h2 := fs_rcv_dio_second_code (c1 % 128) (fs_rcv_dio (128 + c0 % 128) b).1
    (Nat.mod_lt _ (by decide)) a2
  rw [a3, Nat.zero_or, (low_byte_bits _ (Nat.mod_lt _ (by decide))).2] at h2
  have h3 : (rcv_bytes fs_rcv_dio [128 + c0 % 128, c1 % 128] b).1.fs_rcmd = c1 % 128 := by
    simp only [rcv_bytes]
    exact h2
  exact ⟨a3, h3, by rw [h3]; exact Nat.mod_lt _ (by decide)⟩

/-- C36. Receive cursor: neither receive routine bounds the cursor. A byte
without the start bit is stored at the cursor as it stands and the cursor is
incremented, whatever its value. Evaluated on the panel's blocks: after the
start byte B8 (Digital I/O controller 14, block 5) and five bytes 00 the cursor
is 6, so the sixth 00 is stored at index 6 of the 6-byte buffer; the same holds
for the display block 0 after the start byte A8 (controller 10) and five bytes
00. -/
theorem receive_cursor_overruns :
    (∀ (c : Nat) (blk : fsbus_block_t),
      fs_rcv_dio_store_index (c % 128) blk = blk.fs_rcv_len ∧
      (fs_rcv_dio (c % 128) blk).1.fs_rcv_len = (blk.fs_rcv_len + 1) % 256 ∧
      fs_rcv_display_store_index (c % 128) blk = blk.fs_rcv_len ∧
      (fs_rcv_display (c % 128) blk).1.fs_rcv_len = (blk.fs_rcv_len + 1) % 256) ∧
    (((fsbus_rcv_bytes [0xB8, 0, 0, 0, 0, 0] kapBus).1.blocks.getD 5 default).fs_ctrl_type =
        FS_CTRL_DIO ∧
      ((fsbus_rcv_bytes [0xB8, 0, 0, 0, 0, 0] kapBus).1.blocks.getD 5 default).fs_rcv_buf.length =
        FS_RCV_BUF_LEN ∧
      fs_rcv_dio_store_index 0
        ((fsbus_rcv_bytes [0xB8, 0, 0, 0, 0, 0] kapBus).1.blocks.getD 5 default) = 6 ∧
      ((fsbus_rcv_bytes [0xB8, 0, 0, 0, 0, 0, 0] kapBus).1.blocks.getD 5 default).fs_rcv_len = 7) ∧
    (((fsbus_rcv_bytes [0xA8, 0, 0, 0, 0, 0] kapBus).1.blocks.getD 0 default).fs_ctrl_type =
        FS_CTRL_DISPLAY ∧
      ((fsbus_rcv_bytes [0xA8, 0, 0, 0, 0, 0] kapBus).1.blocks.getD 0 default).fs_rcv_buf.length =
        FS_RCV_BUF_LEN ∧
      fs_rcv_display_store_index 0
        ((fsbus_rcv_bytes [0xA8, 0, 0, 0, 0, 0] kapBus).1.blocks.getD 0 default) = 6 ∧
      ((fsbus_rcv_bytes [0xA8, 0, 0, 0, 0, 0, 0] kapBus).1.blocks.getD 0 default).fs_rcv_len = 7) := by
  refine ⟨?_, by decide, by decide⟩
  intro c blk
  obtain ⟨h1, _⟩ := low_byte_bits (c % 128) (Nat.mod_lt _ (by decide))
  have hd := fun x => (fsbus_dio_decode_frame x).2.2.2.1
  refine ⟨?_, ?_, ?_, ?_⟩
  · simp [fs_rcv_dio_store_index, fs_rcv_dio_begin, h1]
  · unfold fs_rcv_dio fs_rcv_complete
    split_ifs
    all_goals simp [fs_rcv_dio_command, fs_rcv_store, fs_rcv_dio_begin, h1, hd]
    all_goals split_ifs <;> rfl
  · simp [fs_rcv_display_store_index, fs_rcv_display_begin, h1]
  · have hk : ∀ x : fsbus_block_t, (fsbus_display_decode x).fs_rcv_len = x.fs_rcv_len :=
      fun _ => rfl
    have hc : ∀ x : fsbus_block_t,
        (fs_rcv_complete fsbus_display_decode (c % 128) x).1.fs_rcv_len = x.fs_rcv_len := by
      intro x
      unfold fs_rcv_complete
      split_ifs <;> rfl
    have hm : ∀ x : fsbus_block_t,
        (fs_rcv_display_command (c % 128) x).fs_rcv_len = x.fs_rcv_len := by
      intro x
      unfold fs_rcv_display_command
      split_ifs <;> rfl
    have he : ∀ r : fsbus_block_t × List RcvEvent,
        (fs_rcv_display_end (c % 128) r).1.fs_rcv_len = r.1.fs_rcv_len := by
      intro r
      unfold fs_rcv_display_end
      split_ifs <;> rfl
    unfold fs_rcv_display
    rw [he, hc, hm]
    simp [fs_rcv_store, fs_rcv_display_begin, h1]

/-! ## Mode engine: the host switching the master off -/

/-- The routine kap_ap_disable on the engine variables: the master is disabled,
the button mirror zeroed and the blink handle zero. -/
theorem kap_ap_disable_ext (s : Kap) :
    (kap_ap_disable s).ext =
      { s.ext with ap_mode := AP_DISABLED, fsx_buttons := 0, kap_ap_blink_cancel := 0 } := by
  unfold kap_ap_disable
  dsimp only
  rw [onExt_ext, kap_cancel_if_ext]
  by_cases h : s.ext.kap_ap_blink_cancel ≠ 0
  · rw [if_pos h]
    have h2 : (event_cancel s s.ext.kap_ap_blink_cancel).2 = 0 := by
      unfold event_cancel
      rw [if_pos h]
    rw [h2]
  · rw [if_neg h]
    have h0 : s.ext.kap_ap_blink_cancel = 0 := by omega
    cases hk : s.ext
    rw [hk] at h0
    simp only at h0
    subst h0
    rfl

/-- The routine kap_ap_disable on the timer table: only the slot the blink
handle names can change. -/
theorem kap_ap_disable_slot (s : Kap) (j : Nat) (hj : s.ext.kap_ap_blink_cancel ≠ j + 1) :
    slotAt (kap_ap_disable s) j = slotAt s j ∧ (kap_ap_disable s).tick = s.tick := by
  unfold kap_ap_disable
  dsimp only
  rw [slotAt_onExt]
  unfold kap_cancel_if
  by_cases h : s.ext.kap_ap_blink_cancel ≠ 0
  · rw [if_pos h]
    unfold kap_cancel event_cancel
    dsimp only
    rw [if_pos h]
    refine ⟨?_, rfl⟩
    exact slotAt_set_other _ _ _ _ (by omega)
  · rw [if_neg h]
    exact ⟨rfl, rfl⟩

/-- The same after the codec state has been replaced by `b`. -/
theorem kap_ap_disable_slot_bus (s : Kap) (b : FsbusState) (j : Nat)
    (hj : s.ext.kap_ap_blink_cancel ≠ j + 1) :
    slotAt (kap_ap_disable (onExt (fun k => { k with bus := b }) s)) j = slotAt s j ∧
    (kap_ap_disable (onExt (fun k => { k with bus := b }) s)).tick = s.tick := by
  have h := kap_ap_disable_slot (onExt (fun k => { k with bus := b }) s) j hj
  exact ⟨h.1.trans (slotAt_onExt _ s j), h.2⟩

/-- A byte that completes a frame on the Digital I/O block of the engine: the
engine runs kap_rcv_dio on the new register image. -/
theorem kap_rcv_dio_frame (s : Kap) (c : Nat)
    (hframe : (fsbus_rcv c s.ext.bus).2 =
      [(kap_dio_blk, RcvEvent.decode), (kap_dio_blk, RcvEvent.callback fn_kap_rcv_dio)]) :
    kap_rcv c s = kap_rcv_dio (onExt (fun k => { k with bus := (fsbus_rcv c s.ext.bus).1 }) s) := by
  unfold kap_rcv
  dsimp only
  rw [hframe]
  rfl

/-- C37. Host-driven master off: when a byte completes a frame on the Digital
I/O block of the engine (the codec runs the decoder and then the callback
kap_rcv_dio), and bit 0 of digital output byte 0 of the register image is then
clear, the engine sets the master mode to disabled, which has the transition
and changed flags clear, zeroes the button mirror and the blink handle, and
leaves every other engine variable, among them the roll, pitch and arm modes
and the handles of their timers, as it was; in the timer table only the slot
the blink handle named can change, so no other timer is cancelled. When that
bit is set, nothing but the codec state changes. -/
theorem host_master_off (s : Kap) (c : Nat)
    (hframe : (fsbus_rcv c s.ext.bus).2 =
      [(kap_dio_blk, RcvEvent.decode), (kap_dio_blk, RcvEvent.callback fn_kap_rcv_dio)]) :
    ((((fsbus_rcv c s.ext.bus).1.blocks.getD kap_dio_blk default).fs_dio.fs_dout.getD 0 0)
        &&& FSX_AP = 0 →
      (kap_rcv c s).ext =
        { s.ext with bus := (fsbus_rcv c s.ext.bus).1, ap_mode := AP_DISABLED, fsx_buttons := 0,
                     kap_ap_blink_cancel := 0 } ∧
      AP_DISABLED &&& (AP_TRANSITION ||| AP_CHANGED) = 0 ∧
      (∀ j, s.ext.kap_ap_blink_cancel ≠ j + 1 → slotAt (kap_rcv c s) j = slotAt s j) ∧
      (kap_rcv c s).tick = s.tick) ∧
    ((((fsbus_rcv c s.ext.bus).1.blocks.getD kap_dio_blk default).fs_dio.fs_dout.getD 0 0)
        &&& FSX_AP ≠ 0 →
      kap_rcv c s = onExt (fun k => { k with bus := (fsbus_rcv c s.ext.bus).1 }) s) := by
  rw [kap_rcv_dio_frame s c hframe]
  constructor
  · intro h
    have hd : kap_rcv_dio (onExt (fun k => { k with bus := (fsbus_rcv c s.ext.bus).1 }) s) =
        kap_ap_disable (onExt (fun k => { k with bus := (fsbus_rcv c s.ext.bus).1 }) s) := by
      unfold kap_rcv_dio
      exact if_pos h
    rw [hd]
    refine ⟨?_, by decide, ?_, ?_⟩
    · rw [kap_ap_disable_ext]
      rfl
    · intro j hj
      exact (kap_ap_disable_slot_bus s _ j hj).1
    · exact (kap_ap_disable_slot_bus s _ s.ext.kap_ap_blink_cancel (by omega)).2
  · intro h
    unfold kap_rcv_dio
    exact if_neg h

/-- C37, at concrete inputs: with the AP enabled and the NAV arm pending, the
host completes a frame that sets analog output 0; the register image still has
digital byte 0 at zero, so the master is disabled and the mirror zeroed, while
the arm mode and the commit timer in slot 4 stay. A frame that sets digital
byte 0 to 1 changes nothing but the codec state. -/
theorem host_master_off_witness :
    (kap_run kapStart hostAnalogRun).ext.ap_mode = AP_ENABLED ∧
    (kap_rcv 2 (kap_run kapStart hostAnalogRun)).ext.ap_mode = AP_DISABLED ∧
    (kap_rcv 2 (kap_run kapStart hostAnalogRun)).ext.fsx_buttons = 0 ∧
    (kap_rcv 2 (kap_run kapStart hostAnalogRun)).ext.roll_arm_mode = RM_NAV ∧
    slotAt (kap_rcv 2 (kap_run kapStart hostAnalogRun)) 4 = ⟨57, 50, 1, fn_kap_roll_arm_commit⟩ ∧
    kap_rcv 0 (kap_run kapStart hostMasterRun) =
      onExt (fun k => { k with bus := (fsbus_rcv 0 (kap_run kapStart hostMasterRun).ext.bus).1 })
        (kap_run kapStart hostMasterRun) := by
  have h := host_master_off (kap_run kapStart hostAnalogRun) 2
    (by set_option maxRecDepth 1000000 in decide)
  have h1 := h.1 (by set_option maxRecDepth 1000000 in decide)
  have g := host_master_off (kap_run kapStart hostMasterRun) 0
    (by set_option maxRecDepth 1000000 in decide)
  refine ⟨by set_option maxRecDepth 1000000 in decide, ?_, ?_, ?_, ?_,
    g.2 (by set_option maxRecDepth 1000000 in decide)⟩
  · exact congrArg KapState.ap_mode h1.1
  · exact congrArg KapState.fsx_buttons h1.1
  · exact (congrArg KapState.roll_arm_mode h1.1).trans
      (by set_option maxRecDepth 1000000 in decide)
  · exact (h1.2.2.1 4 (by set_option maxRecDepth 1000000 in decide)).trans
      (by set_option maxRecDepth 1000000 in decide)

/-! ## Mode engine: the handles passed to event_reset -/

/-- C35. Reset reached with a zero handle: event_reset writes the slot with
index (h + 255) mod 256 of the table, whatever the handle h is. In barometer
display the encoder statement resets the handle kap_baro_cancel, which is set
only by the display pass: from program start, with the AP enabled, pressing
BARO and turning the encoder before the next poll leads to a poll whose only
call of event_reset passes the handle 0, with no kap_end_baro timer in the
table. The same happens with kap_vs_cancel when, after the vertical speed has
reverted to the altitude, the up and down buttons are pressed before one poll.
The handle 0 names the index 255, outside the table of EVENT_MAX slots. -/
theorem reset_called_with_zero_handle :
    (∀ (s : Kap) (h : Nat), (event_reset s h).event_list =
      s.event_list.set (event_reset_index h)
        ⟨(s.tick + (slotAt s (event_reset_index h)).e_period) % 65536,
          (slotAt s (event_reset_index h)).e_period,
          (slotAt s (event_reset_index h)).e_occurrences,
          (slotAt s (event_reset_index h)).e_func⟩) ∧
    KapReachable (kap_run kapStart baroTurnRun) ∧
    (kap_run kapStart baroTurnRun).ext.kap_baro_cancel = 0 ∧
    ¬ timerPending fn_kap_end_baro (kap_run kapStart baroTurnRun) ∧
    kap_tick_resets (kap_run kapStart baroTurnRun) = [0] ∧
    KapReachable (kap_run kapStart upDownRun) ∧
    (kap_run kapStart upDownRun).ext.kap_vs_cancel = 0 ∧
    ¬ timerPending fn_kap_vs_end (kap_run kapStart upDownRun) ∧
    kap_tick_resets (kap_run kapStart upDownRun) = [0] ∧
    event_reset_index 0 = 255 ∧ ¬ event_reset_index 0 < EVENT_MAX := by
  refine ⟨fun _ _ => rfl, ⟨_, rfl⟩, ?_, ?_, ?_, ⟨_, rfl⟩, ?_, ?_, ?_, by decide, by decide⟩
  · set_option maxRecDepth 1000000 in decide
  · set_option maxRecDepth 1000000 in decide
  · set_option maxRecDepth 1000000 in decide
  · set_option maxRecDepth 1000000 in decide
  · set_option maxRecDepth 1000000 in decide
  · set_option maxRecDepth 1000000 in decide

/-! ## Mode engine: the commit arithmetic as coded -/

/-- The two counts add up to `d` truncated toward zero to a multiple of 100,
and have the sign of `d` or are zero. -/
theorem alt_split_trunc (d : Int) :
    500 * cdiv d 500 + 100 * cdiv (cmod d 500) 100 = cdiv d 100 * 100 ∧
    (0 ≤ d → 0 ≤ cdiv d 500 ∧ 0 ≤ cdiv (cmod d 500) 100) ∧
    (d ≤ 0 → cdiv d 500 ≤ 0 ∧ cdiv (cmod d 500) 100 ≤ 0) ∧
    (cdiv d 100 * 100 = d ↔ d % 100 = 0) := by
  unfold cmod cdiv
  refine ⟨?_, ?_, ?_, ?_⟩
  · split_ifs <;> omega
  · intro h; split_ifs <;> omega
  · intro h; split_ifs <;> omega
  · split_ifs <;> omega

/-- C38. Commit arithmetic as coded: on the clearing edge, with
delta = alt_disp - alt_rcv and |delta| < 64000, the counts
fast = delta / 500 and slow = (delta % 500) / 100 (C division) fit a signed
byte, have the sign of delta or are zero, and 500 * fast + 100 * slow is delta
truncated toward zero to a multiple of 100, which is delta exactly when delta
is a multiple of 100. kap_display_pitch_arm sends one command for each count
that is not zero, the slow one first, and nothing else. -/
theorem commit_arithmetic (k : KapState) (hk : k.pitch_arm_mode = PM_CLR ||| PM_CHANGED)
    (hr : -64000 < k.alt_disp - k.alt_rcv ∧ k.alt_disp - k.alt_rcv < 64000) :
    (-128 ≤ cdiv (k.alt_disp - k.alt_rcv) ALT_INCR_FAST ∧
      cdiv (k.alt_disp - k.alt_rcv) ALT_INCR_FAST ≤ 127) ∧
    (-128 ≤ cdiv (cmod (k.alt_disp - k.alt_rcv) ALT_INCR_FAST) ALT_INCR_SLOW ∧
      cdiv (cmod (k.alt_disp - k.alt_rcv) ALT_INCR_FAST) ALT_INCR_SLOW ≤ 127) ∧
    (0 ≤ k.alt_disp - k.alt_rcv →
      0 ≤ cdiv (k.alt_disp - k.alt_rcv) ALT_INCR_FAST ∧
      0 ≤ cdiv (cmod (k.alt_disp - k.alt_rcv) ALT_INCR_FAST) ALT_INCR_SLOW) ∧
    (k.alt_disp - k.alt_rcv ≤ 0 →
      cdiv (k.alt_disp - k.alt_rcv) ALT_INCR_FAST ≤ 0 ∧
      cdiv (cmod (k.alt_disp - k.alt_rcv) ALT_INCR_FAST) ALT_INCR_SLOW ≤ 0) ∧
    500 * cdiv (k.alt_disp - k.alt_rcv) ALT_INCR_FAST +
        100 * cdiv (cmod (k.alt_disp - k.alt_rcv) ALT_INCR_FAST) ALT_INCR_SLOW =
      cdiv (k.alt_disp - k.alt_rcv) 100 * 100 ∧
    (500 * cdiv (k.alt_disp - k.alt_rcv) ALT_INCR_FAST +
        100 * cdiv (cmod (k.alt_disp - k.alt_rcv) ALT_INCR_FAST) ALT_INCR_SLOW =
      k.alt_disp - k.alt_rcv ↔ (k.alt_disp - k.alt_rcv) % 100 = 0) ∧
    (kap_display_pitch_arm k).sent =
      k.sent ++
        (if cdiv (cmod (k.alt_disp - k.alt_rcv) ALT_INCR_FAST) ALT_INCR_SLOW ≠ 0 then
          [⟨KAP_DIO_CID, DIO_SW_ALT_ENC_20,
            cdiv (cmod (k.alt_disp - k.alt_rcv) ALT_INCR_FAST) ALT_INCR_SLOW, 3⟩]
        else []) ++
        (if cdiv (k.alt_disp - k.alt_rcv) ALT_INCR_FAST ≠ 0 then
          [⟨KAP_DIO_CID, DIO_SW_ALT_ENC_500, cdiv (k.alt_disp - k.alt_rcv) ALT_INCR_FAST, 3⟩]
        else []) := by
  have hw : wrap32 (k.alt_disp - k.alt_rcv) = k.alt_disp - k.alt_rcv :=
    wrap32_id _ (by omega)
  obtain ⟨hf, hs⟩ := alt_split_bounds _ hr
  obtain ⟨t1, t2, t3, t4⟩ := alt_split_trunc (k.alt_disp - k.alt_rcv)
  simp only [ALT_INCR_FAST, ALT_INCR_SLOW]
  refine ⟨⟨hf.1, by omega⟩, ⟨hs.1, by omega⟩, t2, t3, t1, by rw [t1]; exact t4, ?_⟩
  rw [kap_display_pitch_arm_edge k hk, kap_alt_commit_sent]
  dsimp only
  rw [hw, wrap8_id _ hf, wrap8_id _ hs]

/-- C38, at a concrete input: target 5000 with reported 4230 gives delta 770,
one fast step and two slow steps, 700 in all. -/
theorem commit_arithmetic_witness :
    500 * cdiv (5000 - 4230) ALT_INCR_FAST +
        100 * cdiv (cmod (5000 - 4230) ALT_INCR_FAST) ALT_INCR_SLOW = 700 ∧
    (kap_display_pitch_arm
        { kapStart.ext with pitch_arm_mode := PM_CLR ||| PM_CHANGED, alt_disp := 5000,
                            alt_rcv := 4230 }).sent =
      [⟨KAP_DIO_CID, DIO_SW_ALT_ENC_20, 2, 3⟩, ⟨KAP_DIO_CID, DIO_SW_ALT_ENC_500, 1, 3⟩] :=
  ⟨((commit_arithmetic
      { kapStart.ext with pitch_arm_mode := PM_CLR ||| PM_CHANGED, alt_disp := 5000,
                          alt_rcv := 4230 } (by decide) (by decide)).2.2.2.2.1).trans (by decide),
    ((commit_arithmetic
      { kapStart.ext with pitch_arm_mode := PM_CLR ||| PM_CHANGED, alt_disp := 5000,
                          alt_rcv := 4230 } (by decide) (by decide)).2.2.2.2.2.2).trans (by decide)⟩

/-! ## Mode engine: parsing what displ_val wrote -/

theorem my_atol_loop_digit (x : Nat) (hx : x < 10) (cs : List Nat) (r : Int) (m : Bool) :
    my_atol_loop ((48 + x) :: cs) r m = my_atol_loop cs (wrap32 (wrap32 (r * 10) + x)) m := by
  have h0 : ¬ (48 + x = 0) := by omega
  have h1 : 48 ≤ 48 + x ∧ 48 + x ≤ 57 := by omega
  rw [my_atol_loop, if_neg h0, if_pos h1]
  congr 3
  push_cast
  omega

theorem my_atol_loop_space (cs : List Nat) (r : Int) (m : Bool) :
    my_atol_loop (32 :: cs) r m = my_atol_loop cs r m := by
  rw [my_atol_loop]
  simp

theorem my_atol_loop_comma (cs : List Nat) (r : Int) (m : Bool) :
    my_atol_loop (44 :: cs) r m = my_atol_loop cs r m := by
  rw [my_atol_loop]
  simp

theorem my_atol_loop_minus (cs : List Nat) (r : Int) (m : Bool) :
    my_atol_loop (45 :: cs) r m = my_atol_loop cs r true := by
  rw [my_atol_loop]
  simp

theorem my_atol_loop_end (cs : List Nat) (r : Int) (m : Bool) :
    my_atol_loop (0 :: cs) r m = (r, m) := by
  rw [my_atol_loop]
  simp

theorem my_atol_loop_digit_small (x : Nat) (hx : x < 10) (cs : List Nat) (r : Int) (m : Bool)
    (hr : 0 ≤ r ∧ r ≤ 99999) :
    my_atol_loop ((48 + x) :: cs) r m = my_atol_loop cs (r * 10 + x) m := by
  rw [my_atol_loop_digit x hx, wrap32_id (r * 10) (by omega), wrap32_id (r * 10 + x) (by omega)]

theorem my_atol_loop_one (x0 : Nat) (h0 : x0 < 10) (m : Bool) :
    my_atol_loop [48 + x0, 0] 0 m = ((x0 : Int), m) := by
  rw [my_atol_loop_digit_small x0 h0 _ _ _ (by omega), my_atol_loop_end]
  congr 1
  omega

theorem my_atol_loop_two (x1 x0 : Nat) (h1 : x1 < 10) (h0 : x0 < 10) (m : Bool) :
    my_atol_loop [48 + x1, 48 + x0, 0] 0 m = ((x1 : Int) * 10 + x0, m) := by
  rw [my_atol_loop_digit_small x1 h1 _ _ _ (by omega),
    my_atol_loop_digit_small x0 h0 _ _ _ (by omega), my_atol_loop_end]
  congr 1
  omega

theorem my_atol_loop_three (x2 x1 x0 : Nat) (h2 : x2 < 10) (h1 : x1 < 10) (h0 : x0 < 10)
    (m : Bool) :
    my_atol_loop [48 + x2, 48 + x1, 48 + x0, 0] 0 m
      = (((x2 : Int) * 10 + x1) * 10 + x0, m) := by
  rw [my_atol_loop_digit_small x2 h2 _ _ _ (by omega),
    my_atol_loop_digit_small x1 h1 _ _ _ (by omega),
    my_atol_loop_digit_small x0 h0 _ _ _ (by omega), my_atol_loop_end]
  congr 1
  omega

theorem my_atol_loop_four (x3 x2 x1 x0 : Nat) (h3 : x3 < 10) (h2 : x2 < 10) (h1 : x1 < 10)
    (h0 : x0 < 10) (m : Bool) :
    my_atol_loop [48 + x3, 44, 48 + x2, 48 + x1, 48 + x0, 0] 0 m
      = ((((x3 : Int) * 10 + x2) * 10 + x1) * 10 + x0, m) := by
  rw [my_atol_loop_digit_small x3 h3 _ _ _ (by omega), my_atol_loop_comma,
    my_atol_loop_digit_small x2 h2 _ _ _ (by omega),
    my_atol_loop_digit_small x1 h1 _ _ _ (by omega),
    my_atol_loop_digit_small x0 h0 _ _ _ (by omega), my_atol_loop_end]
  congr 1
  omega

theorem my_atol_loop_five (x4 x3 x2 x1 x0 : Nat) (h4 : x4 < 10) (h3 : x3 < 10) (h2 : x2 < 10)
    (h1 : x1 < 10) (h0 : x0 < 10) (m : Bool) :
    my_atol_loop [48 + x4, 48 + x3, 44, 48 + x2, 48 + x1, 48 + x0, 0] 0 m
      = (((((x4 : Int) * 10 + x3) * 10 + x2) * 10 + x1) * 10 + x0, m) := by
  rw [my_atol_loop_digit_small x4 h4 _ _ _ (by omega),
    my_atol_loop_digit_small x3 h3 _ _ _ (by omega), my_atol_loop_comma,
    my_atol_loop_digit_small x2 h2 _ _ _ (by omega),
    my_atol_loop_digit_small x1 h1 _ _ _ (by omega),
    my_atol_loop_digit_small x0 h0 _ _ _ (by omega), my_atol_loop_end]
  congr 1
  omega

/-- The parser my_atol reads back the value from the specified format. -/
theorem my_atol_displ_val_spec (v : Int) (hv : -9999 ≤ v ∧ v ≤ 99999) :
    my_atol (displ_val_spec v) = v := by
  have d0 := Nat.mod_lt v.natAbs (show 0 < 10 by decide)
  have d1 := Nat.mod_lt (v.natAbs / 10) (show 0 < 10 by decide)
  have d2 := Nat.mod_lt (v.natAbs / 100) (show 0 < 10 by decide)
  have d3 := Nat.mod_lt (v.natAbs / 1000) (show 0 < 10 by decide)
  have d4 := Nat.mod_lt (v.natAbs / 10000) (show 0 < 10 by decide)
  have e0 : v.natAbs / 10 ^ 0 % 10 = v.natAbs % 10 := by simp
  have e1 : v.natAbs / 10 ^ 1 % 10 = v.natAbs / 10 % 10 := by simp
  have e2 : v.natAbs / 10 ^ 2 % 10 = v.natAbs / 100 % 10 := by norm_num
  have e3 : v.natAbs / 10 ^ 3 % 10 = v.natAbs / 1000 % 10 := by norm_num
  have e4 : v.natAbs / 10 ^ 4 % 10 = v.natAbs / 10000 % 10 := by norm_num
  unfold my_atol displ_val_spec
  dsimp only
  rw [e0, e1, e2, e3, e4]
  clear e0 e1 e2 e3 e4
  have hn1 : 0 ≤ v → (v.natAbs : Int) = v := by omega
  have hn2 : v < 0 → (v.natAbs : Int) = -v := by omega
  have hn3 : v.natAbs ≤ 99999 := by omega
  have hn4 : v < 0 → v.natAbs ≤ 9999 := by omega
  generalize v.natAbs = n at *
  generalize hx0 : n % 10 = x0 at *
  generalize hx1 : n / 10 % 10 = x1 at *
  generalize hx2 : n / 100 % 10 = x2 at *
  generalize hx3 : n / 1000 % 10 = x3 at *
  generalize hx4 : n / 10000 % 10 = x4 at *
  by_cases hneg : v < 0
  · have hm := hn2 hneg
    have hb := hn4 hneg
    simp only [if_pos hneg]
    by_cases c1 : n < 10
    · have hd : (x0 : Int) = n := by omega
      simp only [if_pos c1, List.length_cons, List.length_nil, List.cons_append,
        List.nil_append, Nat.reduceAdd, Nat.reduceSub, List.replicate_succ, List.replicate_zero,
        my_atol_loop_space, my_atol_loop_minus, my_atol_loop_one x0 d0, if_true]
      rw [hd, hm, wrap32_id _ (by omega)]
      omega
    · by_cases c2 : n < 100
      · have hd : (x1 : Int) * 10 + x0 = n := by omega
        simp only [if_neg c1, if_pos c2, List.length_cons, List.length_nil, List.cons_append,
          List.nil_append, Nat.reduceAdd, Nat.reduceSub, List.replicate_succ,
          List.replicate_zero, my_atol_loop_space, my_atol_loop_minus,
          my_atol_loop_two x1 x0 d1 d0, if_true]
        rw [hd, hm, wrap32_id _ (by omega)]
        omega
      · by_cases c3 : n < 1000
        · have hd : ((x2 : Int) * 10 + x1) * 10 + x0 = n := by omega
          simp only [if_neg c1, if_neg c2, if_pos c3, List.length_cons, List.length_nil,
            List.cons_append, List.nil_append, Nat.reduceAdd, Nat.reduceSub,
            List.replicate_succ, List.replicate_zero, my_atol_loop_space, my_atol_loop_minus,
            my_atol_loop_three x2 x1 x0 d2 d1 d0, if_true]
          rw [hd, hm, wrap32_id _ (by omega)]
          omega
        · have c4 : n < 10000 := by omega
          have hd : (((x3 : Int) * 10 + x2) * 10 + x1) * 10 + x0 = n := by omega
          simp only [if_neg c1, if_neg c2, if_neg c3, if_pos c4, List.length_cons,
            List.length_nil, List.cons_append, List.nil_append, Nat.reduceAdd, Nat.reduceSub,
            List.replicate_zero, my_atol_loop_minus,
            my_atol_loop_four x3 x2 x1 x0 d3 d2 d1 d0, if_true]
          rw [hd, hm, wrap32_id _ (by omega)]
          omega
  · have hm := hn1 (by omega)
    simp only [if_neg hneg]
    by_cases c1 : n < 10
    · have hd : (x0 : Int) = n := by omega
      simp only [if_pos c1, List.length_cons, List.length_nil, List.cons_append,
        List.nil_append, Nat.reduceAdd, Nat.reduceSub, List.replicate_succ, List.replicate_zero,
        my_atol_loop_space, my_atol_loop_one x0 d0, Bool.false_eq_true, if_false]
      rw [hd, hm]
    · by_cases c2 : n < 100
      · have hd : (x1 : Int) * 10 + x0 = n := by omega
        simp only [if_neg c1, if_pos c2, List.length_cons, List.length_nil, List.cons_append,
          List.nil_append, Nat.reduceAdd, Nat.reduceSub, List.replicate_succ,
          List.replicate_zero, my_atol_loop_space,
          my_atol_loop_two x1 x0 d1 d0, Bool.false_eq_true, if_false]
        rw [hd, hm]
      · by_cases c3 : n < 1000
        · have hd : ((x2 : Int) * 10 + x1) * 10 + x0 = n := by omega
          simp only [if_neg c1, if_neg c2, if_pos c3, List.length_cons, List.length_nil,
            List.cons_append, List.nil_append, Nat.reduceAdd, Nat.reduceSub,
            List.replicate_succ, List.replicate_zero, my_atol_loop_space,
            my_atol_loop_three x2 x1 x0 d2 d1 d0, Bool.false_eq_true, if_false]
          rw [hd, hm]
        · by_cases c4 : n < 10000
          · have hd : (((x3 : Int) * 10 + x2) * 10 + x1) * 10 + x0 = n := by omega
            simp only [if_neg c1, if_neg c2, if_neg c3, if_pos c4, List.length_cons,
              List.length_nil, List.cons_append, List.nil_append, Nat.reduceAdd, Nat.reduceSub,
              List.replicate_succ, List.replicate_zero, my_atol_loop_space,
              my_atol_loop_four x3 x2 x1 x0 d3 d2 d1 d0, Bool.false_eq_true, if_false]
            rw [hd, hm]
          · have hd : ((((x4 : Int) * 10 + x3) * 10 + x2) * 10 + x1) * 10 + x0 = n := by omega
            simp only [if_neg c1, if_neg c2, if_neg c3, if_neg c4, List.length_cons,
              List.length_nil, List.cons_append, List.nil_append, Nat.reduceAdd, Nat.reduceSub,
              List.replicate_zero,
              my_atol_loop_five x4 x3 x2 x1 x0 d4 d3 d2 d1 d0, Bool.false_eq_true, if_false]
            rw [hd, hm]

/-- The stores of the do-while loop of displ_val run downwards from the index
it is entered with, without a gap, and stop at index 0 at the latest. -/
theorem displ_val_loop_stores_desc :
    ∀ (fuel : Nat) (v : Int) (i : Nat), i ≤ 5 → i < fuel →
      ∃ l i', displ_val_loop_stores fuel v (i : Int) = some (l, ((i' : Nat) : Int) - 1) ∧
        i' ≤ i ∧ l ++ displ_val_pad_stores i' = displ_val_pad_stores (i + 1) := by
  intro fuel
  induction fuel with
  | zero => intro v i _ h; omega
  | succ fuel ih =>
    intro v i hi hf
    rw [displ_val_loop_stores]
    by_cases h2 : i = 2
    · subst h2
      have e2 : ((2 : Nat) : Int) = 2 := rfl
      simp only [e2, if_true]
      by_cases hc : cdiv v 10 ≠ 0 ∧ (2 : Int) - 1 - 1 ≥ 0
      · rw [if_pos hc]
        obtain ⟨l, i', e, h1, h3⟩ := ih (cdiv v 10) 0 (by omega) (by omega)
        have e0 : (2 : Int) - 1 - 1 = ((0 : Nat) : Int) := rfl
        rw [e0, e]
        refine ⟨[2] ++ (2 - 1) :: l, i', rfl, by omega, ?_⟩
        have : l ++ displ_val_pad_stores i' = [0] := h3
        simp only [List.cons_append, List.nil_append, this]
        rfl
      · rw [if_neg hc]
        exact ⟨[2] ++ [2 - 1], 1, rfl, by omega, rfl⟩
    · have hne : ¬ ((i : Int) = 2) := by omega
      simp only [if_neg hne]
      by_cases hc : cdiv v 10 ≠ 0 ∧ (i : Int) - 1 ≥ 0
      · rw [if_pos hc]
        have hi1 : 1 ≤ i := by omega
        obtain ⟨l, i', e, h1, h3⟩ := ih (cdiv v 10) (i - 1) (by omega) (by omega)
        have e0 : (i : Int) - 1 = ((i - 1 : Nat) : Int) := by omega
        rw [e0, e]
        refine ⟨[] ++ (i : Int) :: l, i', rfl, by omega, ?_⟩
        have e1 : i - 1 + 1 = i := by omega
        rw [e1] at h3
        simp only [List.nil_append, List.cons_append, h3]
        rfl
      · rw [if_neg hc]
        refine ⟨[] ++ [(i : Int)], i, rfl, le_refl _, rfl⟩

/-- The function displ_val stores at the indices 6, 5, .., 0 of the buffer, once
each, for every value. -/
theorem displ_val_stores_all (v : Int) :
    displ_val_stores v = some [6, 5, 4, 3, 2, 1, 0] := by
  obtain ⟨l, i', e, h1, h3⟩ := displ_val_loop_stores_desc BUF_LEN
    (if decide (v < 0) = true then wrap32 (v * -1) else v) 5 (le_refl _) (by decide)
  have e5 : ((BUF_LEN : Int) - 2) = ((5 : Nat) : Int) := by decide
  unfold displ_val_stores
  simp only [e5, e]
  have hpad : displ_val_pad_stores (5 + 1) = [5, 4, 3, 2, 1, 0] := rfl
  rw [hpad] at h3
  have e6 : (BUF_LEN : Int) - 1 = 6 := by decide
  rw [e6]
  by_cases hm : decide (v < 0) = true ∧ ((i' : Nat) : Int) - 1 ≥ 0
  · simp only [if_pos hm]
    have hi : 1 ≤ i' := by omega
    have e1 : (((i' : Nat) : Int) - 1 - 1 + 1).toNat = i' - 1 := by omega
    have e2 : ((i' : Nat) : Int) - 1 = ((i' - 1 : Nat) : Int) := by omega
    rw [e1, e2]
    have hp : [((i' - 1 : Nat) : Int)] ++ displ_val_pad_stores (i' - 1) = displ_val_pad_stores i' := by
      obtain ⟨k, rfl⟩ : ∃ k, i' = k + 1 := ⟨i' - 1, by omega⟩
      rfl
    simp only [List.cons_append, List.append_assoc, hp, h3]
  · simp only [if_neg hm]
    have e1 : (((i' : Nat) : Int) - 1 + 1).toNat = i' := by omega
    rw [e1]
    simp only [List.append_nil, List.cons_append, h3]

/-- C39. Format/parse round trip: for every value from -9999 to 99999 and
every buffer of BUF_LEN bytes, displ_val returns, the buffer it leaves does not
depend on what the buffer held before, and my_atol applied to it returns the
value. The stores of displ_val go to the indices 6, 5, .., 0 of the buffer, once
each: all six character positions and the terminator are written and nothing
outside the 7 bytes. -/
theorem format_parse_round_trip (buf : List Nat) (v : Int) (hlen : buf.length = BUF_LEN)
    (hv : -9999 ≤ v ∧ v ≤ 99999) :
    displ_val buf v = some (displ_val_spec v) ∧
    my_atol (displ_val_spec v) = v ∧
    (displ_val_spec v).length = BUF_LEN ∧
    displ_val_stores v = some [6, 5, 4, 3, 2, 1, 0] := by
  refine ⟨?_, my_atol_displ_val_spec v hv, (displ_val_spec_marks v hv).1, displ_val_stores_all v⟩
  by_cases h0 : 0 ≤ v
  · obtain ⟨n, rfl⟩ := Int.eq_ofNat_of_zero_le h0
    exact displ_val_of_nonneg buf n hlen (by omega)
  · obtain ⟨n, hn⟩ := Int.eq_ofNat_of_zero_le (show 0 ≤ -v by omega)
    have hvn : v = -(n : Int) := by omega
    rw [hvn]
    exact displ_val_of_neg buf n hlen (by omega) (by omega)

/-- C39, at concrete inputs: -1234 is written as "-1,234" over a buffer of
other content and read back as -1234; 99999 is read back as 99999. -/
theorem format_parse_round_trip_witness :
    displ_val [1, 2, 3, 4, 5, 6, 7] (-1234) = some (cstr "-1,234") ∧
    my_atol (cstr "-1,234") = -1234 ∧
    my_atol (displ_val_spec 99999) = 99999 :=
  ⟨(format_parse_round_trip [1, 2, 3, 4, 5, 6, 7] (-1234) (by decide) (by decide)).1.trans
      (by decide),
    by decide,
    (format_parse_round_trip [1, 2, 3, 4, 5, 6, 7] 99999 (by decide) (by decide)).2.1⟩

end KAP140
